import Mathlib

/-!
VIB34D geometric tilt system: reactive 4D visualisation state engine.

A shallow embedding of `scripts/vib34d-geometric-tilt-system.js`.

Modelling conventions.

* JavaScript numbers are modelled by an ordered field `α` with a floor function
  (`ℚ` for evaluation, `ℝ` for the statements that involve `Math.exp`, `Math.sin`
  and `Math.cos`): arithmetic is exact.  `NaN` and the infinities are outside the
  model, so `x || 0` on a number is `x` itself and `typeof x === 'number'` is
  presence.  Where exact arithmetic and the binary64 arithmetic of the engine give
  different answers (`vib34dRotate4DVector`, `updateState`), a second definition
  with the suffix `Double` is the same code with every operation rounded by
  `roundDouble`.
* The functions of the JavaScript `Math` object that have no field-level
  definition are the fields of `JSMath`; `IsRealMath` pins them to the real
  functions.
* An optional property of an options object is an `Option`; `undefined`
  is `none`.
* Objects are values: the methods of a class take the instance and return the
  new instance (state passing).
* The tables of the file are object literals: `table[key]` finds the own
  properties and the properties inherited from `Object.prototype` (`objectGet`).
  The state of an instance holds numbers, so the instance of a family named like
  an inherited property, whose base values are `undefined`, is outside the model
  (`basePresetOf`).
-/

namespace VIB34D

/-! ## JavaScript numerics -/

/-- Functions of the JavaScript `Math` object used by the tilt system. -/
structure JSMath (α : Type) where
  exp : α → α
  sin : α → α
  cos : α → α
  hypot : α → α → α
  atan2 : α → α → α
  pow : α → α → α
  pi : α

/-- The `Math` functions are the real ones (`atan2` and `pow` are left free: no
statement below depends on their values). -/
def IsRealMath (M : JSMath ℝ) : Prop :=
  M.exp = Real.exp ∧ M.sin = Real.sin ∧ M.cos = Real.cos ∧ M.pi = Real.pi ∧
    ∀ a b, M.hypot a b = Real.sqrt (a ^ 2 + b ^ 2)

/-- Assemble a `Math` object from the elementary functions; `Math.hypot(a, b)` is
`sqrt(a*a + b*b)`. -/
def mkMath {α : Type} [Add α] [Mul α] (exp sin cos sqrt : α → α) (atan2 pow : α → α → α)
    (pi : α) : JSMath α :=
  ⟨exp, sin, cos, fun a b => sqrt (a * a + b * b), atan2, pow, pi⟩

section Numerics

variable {α : Type} [LinearOrderedField α] [FloorRing α]

/-- Truncation toward zero, the integer quotient of the `%` operator. -/
def jsTrunc (q : α) : ℤ :=
  if 0 ≤ q then ⌊q⌋ else ⌈q⌉

/-- The `%` operator on numbers: the remainder has the sign of the dividend. -/
def jsMod (a b : α) : α :=
  a - b * (jsTrunc (a / b) : α)

/-- `vib34dClamp(value, min, max)` on a number. -/
def vib34dClamp (value lo hi : α) : α :=
  max lo (min hi value)

end Numerics

/-! ## Property access on object literals -/

/-- The property names that every object literal inherits from `Object.prototype`, each
with the `length` of the inherited value: the arity of the function, and `none` for
`__proto__`, whose value is the prototype object itself (it has no `length`).  Every
inherited value is truthy and has none of the properties that the tables of this file
give to their entries. -/
def OBJECT_PROTOTYPE : List (String × Option Nat) :=
  [ ("constructor", some 1), ("hasOwnProperty", some 1), ("isPrototypeOf", some 1),
    ("propertyIsEnumerable", some 1), ("toLocaleString", some 0), ("toString", some 0),
    ("valueOf", some 0), ("__defineGetter__", some 2), ("__defineSetter__", some 2),
    ("__lookupGetter__", some 1), ("__lookupSetter__", some 1), ("__proto__", none) ]

/-- The value of `object[key]` for an object literal: an own property, a property
inherited from `Object.prototype` (with its `length`), or `undefined`. -/
inductive Property (β : Type) where
  | own (value : β)
  | inherited (length : Option Nat)
  | absent
deriving DecidableEq, Repr

/-- The expression `object[key]` for the object literal with the own properties
`entries`. -/
def objectGet {β : Type} (entries : List (String × β)) (key : String) : Property β :=
  match entries.lookup key with
  | some value => .own value
  | none =>
    match OBJECT_PROTOTYPE.lookup key with
    | some length => .inherited length
    | none => .absent

/-- The test `object[key] !== undefined` (for the tables of this file also the truthiness
of `object[key]`: their own values are objects, arrays, non-empty strings or indices that
are compared with `undefined`). -/
def hasProperty {β : Type} (entries : List (String × β)) (key : String) : Bool :=
  match objectGet entries key with
  | .absent => false
  | _ => true

/-! ## RotationMath -/

/-- A 4D vector `{x, y, z, w}`; also the working array `[x, y, z, w]`. -/
structure Vec4 (α : Type) where
  x : α
  y : α
  z : α
  w : α
deriving DecidableEq, Repr

/-- The six plane angles of a 4D rotation. -/
structure Rotation4D (α : Type) where
  rot4dXW : α
  rot4dYW : α
  rot4dZW : α
  rot4dXY : α
  rot4dXZ : α
  rot4dYZ : α
deriving DecidableEq, Repr

/-- The bundle returned by `vib34dComputePortalProjection`. -/
structure PortalProjection (α : Type) where
  value : α
  depth : α
  shear : α
  pulse : α
  torsion : α
  angle : α
  radius : α
deriving DecidableEq, Repr

/-- The normalized tilt triple. -/
structure Normalized (α : Type) where
  alpha : α
  beta : α
  gamma : α
deriving DecidableEq, Repr

section RotationMath

variable {α : Type} [LinearOrderedField α]

/-- Read `result[i]`. -/
def Vec4.get (v : Vec4 α) : Fin 4 → α
  | 0 => v.x
  | 1 => v.y
  | 2 => v.z
  | 3 => v.w

/-- Write `result[i] = a`. -/
def Vec4.set (v : Vec4 α) (i : Fin 4) (a : α) : Vec4 α :=
  match i with
  | 0 => { v with x := a }
  | 1 => { v with y := a }
  | 2 => { v with z := a }
  | 3 => { v with w := a }

/-- The closure `applyPlaneRotation(indexA, indexB, key)` of `vib34dRotate4DVector`;
`planeAngle` is `rotation[key] || 0`.  Numbers are the elements of an ordered field and the
operations are exact; `applyPlaneRotationDouble` is the same code with every operation
rounded to binary64. -/
def applyPlaneRotation (M : JSMath α) (result : Vec4 α) (indexA indexB : Fin 4)
    (planeAngle : α) : Vec4 α :=
  let angleScale := M.pi * 0.5
  let angle := planeAngle * angleScale
  if angle = 0 then result
  else
    let cos := M.cos angle
    let sin := M.sin angle
    let a := result.get indexA
    let b := result.get indexB
    (result.set indexA (a * cos - b * sin)).set indexB (a * sin + b * cos)

/-- `vib34dRotate4DVector(vector, rotation)` in exact arithmetic;
`vib34dRotate4DVectorDouble` is the same code in binary64 arithmetic. -/
def vib34dRotate4DVector (M : JSMath α) (vector : Vec4 α) (rotation : Rotation4D α) :
    Vec4 α :=
  let result : Vec4 α := ⟨vector.x, vector.y, vector.z, vector.w⟩
  let result := applyPlaneRotation M result 0 1 rotation.rot4dXY
  let result := applyPlaneRotation M result 0 2 rotation.rot4dXZ
  let result := applyPlaneRotation M result 1 2 rotation.rot4dYZ
  let result := applyPlaneRotation M result 0 3 rotation.rot4dXW
  let result := applyPlaneRotation M result 1 3 rotation.rot4dYW
  let result := applyPlaneRotation M result 2 3 rotation.rot4dZW
  ⟨result.x, result.y, result.z, result.w⟩

/-- `vib34dComputePortalProjection(normalized, rotation4D, intensity)`. -/
def vib34dComputePortalProjection (M : JSMath α) (normalized : Normalized α)
    (rotation4D : Rotation4D α) (intensity : α) : PortalProjection α :=
  let forward := vib34dClamp normalized.beta (-1.4) 1.4
  let lateral := vib34dClamp normalized.gamma (-1.4) 1.4
  let swirl := vib34dClamp normalized.alpha (-1.4) 1.4
  let radius := min 1.6 (M.hypot forward lateral)
  let baseVector : Vec4 α :=
    { x := forward * 0.9
      y := lateral * 0.9
      z := M.sin (swirl * M.pi * 0.5) * (0.7 + radius * 0.4)
      w := (intensity * 0.9) + radius * 0.45 + M.cos (swirl * M.pi * 0.5) * 0.35 }
  let rotated := vib34dRotate4DVector M baseVector rotation4D
  let xySpiral :=
    M.sin ((rotation4D.rot4dXY + rotation4D.rot4dXZ) * M.pi * 0.5 + swirl * 0.8)
  let yzSpiral :=
    M.sin ((rotation4D.rot4dYZ - rotation4D.rot4dXY) * M.pi * 0.5 + forward * 0.6)
  let value :=
    M.sin (rotated.w * 1.15 + swirl * M.pi * 0.5 + xySpiral * 0.35) * (0.8 + radius * 0.45)
  let depth :=
    M.sin (rotated.z * 1.05 + forward * 0.65 + yzSpiral * 0.28) * (0.75 + radius * 0.5)
  let shear := M.sin ((rotated.x - rotated.y) * 0.9 + xySpiral * 0.4) * (0.55 + radius * 0.45)
  let torsion :=
    M.sin ((rotated.x + rotated.y) * 0.6 + rotation4D.rot4dXZ * M.pi * 0.5)
      * (0.45 + radius * 0.35)
  let pulse := max (radius * 0.6) (|rotated.w| * 0.55) + |swirl| * 0.35 + |torsion| * 0.4
  { value := value, depth := depth, shear := shear, pulse := pulse, torsion := torsion,
    angle := M.atan2 rotated.y rotated.x, radius := radius }

/-- One plane rotation as the specification words it:
`(a, b) ↦ (a cos θ − b sin θ, a sin θ + b cos θ)` with `θ = angle * (π / 2)`,
acting on the coordinates `indexA`, `indexB`. -/
def specPlaneRotation (M : JSMath α) (indexA indexB : Fin 4) (planeAngle : α)
    (v : Vec4 α) : Vec4 α :=
  let th := planeAngle * (M.pi / 2)
  (v.set indexA (v.get indexA * M.cos th - v.get indexB * M.sin th)).set indexB
    (v.get indexA * M.sin th + v.get indexB * M.cos th)

/-- The specification's `rotate4D`: the six plane rotations composed in the order
`XY, XZ, YZ, XW, YW, ZW`. -/
def specRotate4D (M : JSMath α) (v : Vec4 α) (r : Rotation4D α) : Vec4 α :=
  specPlaneRotation M 2 3 r.rot4dZW
    (specPlaneRotation M 1 3 r.rot4dYW
      (specPlaneRotation M 0 3 r.rot4dXW
        (specPlaneRotation M 1 2 r.rot4dYZ
          (specPlaneRotation M 0 2 r.rot4dXZ
            (specPlaneRotation M 0 1 r.rot4dXY v)))))

end RotationMath

/-! ## PresetBlueprintLibrary -/

/-- The `direct` map of a catalog preset. -/
structure PresetDirect (α : Type) where
  speed : Option α := none
  glitch : Option α := none
  density : Option α := none
  moire : Option α := none
  energy : Option α := none
  hueShift : Option α := none
  accentHueShift : Option α := none
  wDepth : Option α := none
  wPulse : Option α := none
  wPulseBoost : Option α := none
  geometryVariant : Option String := none
deriving DecidableEq, Repr

/-- The `accent` map of a catalog preset. -/
structure PresetAccent (α : Type) where
  hueShift : Option α := none
  moire : Option α := none
  density : Option α := none
deriving DecidableEq, Repr

/-- An entry of `VIB34D_REACTIVE_PRESETS`. -/
structure Preset (α : Type) where
  intensityScale : Option α := none
  densityBias : Option α := none
  hueSpin : Option α := none
  duration : Option α := none
  geometryAdvance : Option α := none
  partnerInvert : Bool := false
  direct : Option (PresetDirect α) := none
  accent : Option (PresetAccent α) := none
deriving DecidableEq, Repr

/-- The `direct` map of a sampled blueprint. -/
structure BlueprintDirect (α : Type) where
  speed : α
  glitch : α
  density : α
  moire : α
  energy : α
  hueShift : Option α
  accentHueShift : Option α
  wDepth : Option α
  wPulse : Option α
  geometryVariant : Option String
deriving DecidableEq, Repr

/-- The blueprint returned by `VIB34DReactivePresetLibrary.sample`. -/
structure Blueprint (α : Type) where
  intensityScale : α
  densityBias : Option α
  hueSpin : Option α
  geometryAdvance : Option α
  duration : Option α
  direct : BlueprintDirect α
  accent : Option (PresetAccent α)
deriving DecidableEq, Repr

/-- The context object of `resolvePreset`, `provide` and `sample`. -/
structure PresetContext (α : Type) where
  preset : Option String := none
  stage : Option String := none
  channel : Option String := none
  intensity : Option α := none
  polarity : Option α := none
deriving DecidableEq, Repr

/-- An instance of `VIB34DReactivePresetLibrary`: the catalog and the two stage maps
(objects with string keys, as association lists). -/
structure VIB34DReactivePresetLibrary (α : Type) where
  presets : List (String × Preset α)
  stageMap : List (String × String)
  partnerStageMap : List (String × String)
deriving DecidableEq, Repr

section Presets

variable {α : Type} [LinearOrderedField α]

/-- The catalog `VIB34D_REACTIVE_PRESETS`. -/
def VIB34D_REACTIVE_PRESETS (α : Type) [LinearOrderedField α] : List (String × Preset α) :=
  [ ("approach-primary",
      { intensityScale := some 1.18, densityBias := some (-0.18), hueSpin := some 0.12,
        duration := some 1100,
        direct := some
          { speed := some 0.32, glitch := some 0.28, density := some (-0.24),
            moire := some 0.22, energy := some 0.3, hueShift := some 8,
            accentHueShift := some (-6), wDepth := some 0.1, wPulse := some 0.45 },
        accent := some { hueShift := some 6, moire := some (-0.14), density := some 0.18 } }),
    ("focus-primary",
      { intensityScale := some 1.34, densityBias := some (-0.22), hueSpin := some 0.18,
        duration := some 1340, geometryAdvance := some 1,
        direct := some
          { speed := some 0.46, glitch := some 0.4, density := some (-0.32),
            moire := some 0.28, energy := some 0.38, hueShift := some 14,
            accentHueShift := some (-10), wDepth := some 0.16, wPulse := some 0.72,
            geometryVariant := some "wave" },
        accent := some { hueShift := some 10, moire := some (-0.18), density := some 0.22 } }),
    ("exit-primary",
      { intensityScale := some 0.92, densityBias := some (-0.1), hueSpin := some (-0.06),
        duration := some 940,
        direct := some
          { speed := some 0.2, glitch := some 0.18, density := some (-0.14),
            moire := some 0.16, energy := some 0.22, hueShift := some 4,
            accentHueShift := some (-3), wDepth := some 0.06, wPulse := some 0.38 } }),
    ("release-primary",
      { intensityScale := some 1.42, densityBias := some (-0.24), hueSpin := some 0.22,
        duration := some 1520, geometryAdvance := some 1,
        direct := some
          { speed := some 0.52, glitch := some 0.48, density := some (-0.36),
            moire := some 0.34, energy := some 0.42, hueShift := some 18,
            accentHueShift := some (-14), wDepth := some 0.22, wPulse := some 0.9,
            geometryVariant := some "crystal" },
        accent := some { hueShift := some 14, moire := some (-0.22), density := some 0.28 } }),
    ("inherit-primary",
      { intensityScale := some 1.12, densityBias := some (-0.16), hueSpin := some 0.14,
        duration := some 1320,
        direct := some
          { speed := some 0.34, glitch := some 0.3, density := some (-0.22),
            moire := some 0.24, energy := some 0.3, hueShift := some 10,
            accentHueShift := some (-8), wDepth := some 0.12, wPulse := some 0.62 },
        accent := some { hueShift := some 8, moire := some (-0.16), density := some 0.2 } }),
    ("inheritance-primary",
      { intensityScale := some 1.34, densityBias := some (-0.32), hueSpin := some 0.32,
        geometryAdvance := some 1, duration := some 1520,
        direct := some
          { speed := some 0.48, glitch := some 0.46, density := some (-0.34),
            moire := some 0.38, energy := some 0.44, hueShift := some 16,
            accentHueShift := some (-14), wDepth := some 0.18, wPulse := some 0.86,
            geometryVariant := some "fractal" },
        accent := some { hueShift := some 14, moire := some (-0.22), density := some 0.24 } }),
    ("inheritance-echo",
      { intensityScale := some 1.08, densityBias := some 0.26, hueSpin := some (-0.3),
        duration := some 1260, partnerInvert := true,
        direct := some
          { speed := some 0.28, glitch := some 0.24, density := some 0.24,
            moire := some (-0.24), energy := some 0.26, hueShift := some (-12),
            accentHueShift := some 12, wDepth := some 0.12, wPulse := some 0.44,
            geometryVariant := some "ribbon" },
        accent := some { hueShift := some (-10), moire := some 0.16, density := some (-0.22) } }),
    ("partner-inverse",
      { intensityScale := some 0.82, densityBias := some 0.12, hueSpin := some (-0.1),
        duration := some 980, partnerInvert := true,
        direct := some
          { speed := some 0.22, glitch := some 0.18, density := some 0.18,
            moire := some (-0.16), energy := some 0.2, hueShift := some (-6),
            accentHueShift := some 6, wDepth := some 0.08, wPulse := some 0.34 },
        accent := some { hueShift := some (-6), moire := some 0.12, density := some (-0.16) } }),
    ("idle-breath",
      { intensityScale := some 0.96, densityBias := some (-0.08), hueSpin := some 0.1,
        duration := some 960,
        direct := some
          { speed := some 0.18, glitch := some 0.16, density := some (-0.12),
            moire := some 0.14, energy := some 0.2, hueShift := some 6,
            accentHueShift := some (-4), wDepth := some 0.06, wPulse := some 0.36 },
        accent := some { hueShift := some 6, moire := some (-0.1), density := some 0.16 } }) ]

/-- The constructor of `VIB34DReactivePresetLibrary`. -/
def VIB34DReactivePresetLibrary.new (presets : List (String × Preset α)) :
    VIB34DReactivePresetLibrary α :=
  { presets := presets
    stageMap :=
      [ ("approach", "approach-primary"), ("focus", "focus-primary"),
        ("exit", "exit-primary"), ("inherit", "inherit-primary"),
        ("release", "release-primary"), ("idle", "idle-breath") ]
    partnerStageMap :=
      [ ("approach", "partner-inverse"), ("focus", "partner-inverse"),
        ("exit", "partner-inverse"), ("inherit", "partner-inverse"),
        ("release", "partner-inverse"), ("idle", "partner-inverse"),
        ("fragment", "partner-inverse"), ("default", "partner-inverse") ] }

/-- A string operand of `&&` or `||`: `undefined` and the empty string are falsy. -/
def truthyString (s : Option String) : Option String :=
  s.filter (fun t => t ≠ "")

/-- `VIB34DReactivePresetLibrary.resolvePreset(context)`; `null` is `none`.  The three
tables are object literals, so `this.presets[x]` is truthy for a catalog key and for a
name inherited from `Object.prototype`; a stage that is an inherited name maps to a
function (or to the prototype object), which is truthy and is no property name of the
catalog. -/
def VIB34DReactivePresetLibrary.resolvePreset (lib : VIB34DReactivePresetLibrary α)
    (context : PresetContext α) : Option String :=
  let presetName := context.preset
  match (truthyString presetName).filter (fun k => hasProperty lib.presets k) with
  | some name => some name
  | none =>
    let channel := (truthyString context.channel).getD "primary"
    let stage := (truthyString context.stage).getD ""
    if channel = "partner" then
      match objectGet lib.partnerStageMap stage with
      | .inherited _ => none
      | .own value =>
        let mapped :=
          (truthyString (some value)).orElse (fun _ => lib.partnerStageMap.lookup "default")
        (truthyString mapped).filter (fun k => hasProperty lib.presets k)
      | .absent =>
        (truthyString (lib.partnerStageMap.lookup "default")).filter
          (fun k => hasProperty lib.presets k)
    else
      let mapped : Option String :=
        match objectGet lib.stageMap stage with
        | .own value => some value
        | _ => none
      match (truthyString mapped).filter (fun k => hasProperty lib.presets k) with
      | some m => some m
      | none =>
        if stage ≠ "" ∧ hasProperty lib.presets stage then some stage else none

/-- The value of `this.presets[name]` as `sample` reads it: the catalog entry for a key of
the catalog, an object without any of the preset fields (`{}`) for a name inherited from
`Object.prototype`, and `undefined` (`none`) otherwise. -/
def VIB34DReactivePresetLibrary.presetProperty (lib : VIB34DReactivePresetLibrary α)
    (name : String) : Option (Preset α) :=
  match objectGet lib.presets name with
  | .own preset => some preset
  | .inherited _ => some {}
  | .absent => none

/-- `VIB34DReactivePresetLibrary.sample(name, context)`.  The method reads the catalog
entry, copies its `direct` and `accent` maps, and writes only to the blueprint it has
built; the library instance after the call is returned next to the blueprint. -/
def VIB34DReactivePresetLibrary.sample (lib : VIB34DReactivePresetLibrary α)
    (name : String) (context : PresetContext α) :
    Option (Blueprint α) × VIB34DReactivePresetLibrary α :=
  match lib.presetProperty name with
  | none => (none, lib)
  | some preset =>
    let intensity : α := context.intensity.getD 0.45
    let polarity : α :=
      match context.polarity with
      | some p => if p ≥ 0 then 1 else -1
      | none => -1
    let directBase : PresetDirect α := preset.direct.getD {}
    let accentBase : Option (PresetAccent α) := preset.accent
    let scale : Option α → α := fun value =>
      match value with
      | some v => v * intensity
      | none => 0
    let direct : BlueprintDirect α :=
      { speed := scale directBase.speed
        glitch := scale directBase.glitch
        density := scale directBase.density
        moire := scale directBase.moire
        energy := scale directBase.energy
        hueShift := directBase.hueShift.map (fun _ => scale directBase.hueShift * polarity)
        accentHueShift :=
          directBase.accentHueShift.map (fun _ => scale directBase.accentHueShift * -polarity)
        wDepth := directBase.wDepth.map (fun _ => scale directBase.wDepth)
        wPulse := directBase.wPulse.map (fun wPulse =>
          let boost :=
            match directBase.wPulseBoost with
            | some b => b * intensity
            | none => 0
          wPulse + boost)
        geometryVariant := directBase.geometryVariant }
    let accent : Option (PresetAccent α) :=
      match accentBase with
      | none => none
      | some ab =>
        let accent : PresetAccent α :=
          { hueShift := ab.hueShift.map (fun _ => scale ab.hueShift * polarity)
            moire := ab.moire.map (fun _ => scale ab.moire)
            density := ab.density.map (fun _ => scale ab.density) }
        if accent.hueShift.isNone ∧ accent.moire.isNone ∧ accent.density.isNone then none
        else some accent
    let blueprint : Blueprint α :=
      { intensityScale := preset.intensityScale.getD 1
        densityBias := preset.densityBias.map (fun b => b * polarity)
        hueSpin := preset.hueSpin.map (fun h => h * polarity)
        geometryAdvance := preset.geometryAdvance
        duration := preset.duration
        direct := direct
        accent := accent }
    let blueprint : Blueprint α :=
      if preset.partnerInvert ∧ context.channel = some "partner" then
        { blueprint with
          direct :=
            { blueprint.direct with
              speed := blueprint.direct.speed * -0.6
              density := blueprint.direct.density * -1
              moire := blueprint.direct.moire * -0.8
              hueShift := blueprint.direct.hueShift.map (fun h => h * -1)
              accentHueShift := blueprint.direct.accentHueShift.map (fun h => h * -1) }
          densityBias := blueprint.densityBias.map (fun b => b * -1)
          hueSpin := blueprint.hueSpin.map (fun h => h * -1) }
      else blueprint
    (some blueprint, lib)

/-- `VIB34DReactivePresetLibrary.provide(context)`. -/
def VIB34DReactivePresetLibrary.provide (lib : VIB34DReactivePresetLibrary α)
    (context : PresetContext α) : Option (Blueprint α) :=
  match lib.resolvePreset context with
  | none => none
  | some key => (lib.sample key context).1

end Presets

/-! ## RenderStateModel and VisualizerInstance -/

/-- The parameter vector of `this.state` and `this.targetState`. -/
structure RenderState (α : Type) where
  speed : α
  glitch : α
  density : α
  moire : α
  hue : α
  accentHue : α
  energy : α
  geometryVariant : Option String
  wDepth : α
  wShear : α
  wPulse : α
deriving DecidableEq, Repr

/-- The impulse envelope `this.interaction`. -/
structure Interaction (α : Type) where
  active : Bool
  start : α
  duration : α
  peak : α
  magnitude : α
deriving DecidableEq, Repr

/-- The family preset returned by `getSystemPreset`. -/
structure SystemPreset (α : Type) where
  baseHue : α
  accentHue : α
  baseSpeed : α
  baseGlitch : α
  baseDensity : α
  baseMoire : α
  geometryCycle : List String
deriving DecidableEq, Repr

/-- The projection stored in `this.portalProjection`; `torsion` and `envelope` are
absent on some of the objects stored there. -/
structure StoredProjection (α : Type) where
  value : α
  depth : α
  shear : α
  pulse : α
  torsion : Option α
  angle : α
  radius : α
  envelope : Option α
deriving DecidableEq, Repr

/-- An instance of `VIB34DTiltVisualizer`.  The rendering cores are external: of
`this.core` and `this.accentCore` the instance keeps whether the accent core accepts
`updateParameters` (`hasAccentCore`); the parameter pushes to the cores and the
write-only record `lastFlourish` are not part of the model. -/
structure VIB34DTiltVisualizer (α : Type) where
  systemType : String
  presets : SystemPreset α
  reactivityLibrary : Option (VIB34DReactivePresetLibrary α)
  hasAccentCore : Bool
  rotation4D : Rotation4D α
  state : RenderState α
  targetState : RenderState α
  variantIndex : Nat
  activeState : String
  hasBeenFocused : Bool
  interaction : Interaction α
  audioEnergy : α
  audioPeak : α
  portalProjection : StoredProjection α
  lastUpdate : α
  flourishIndex : Nat
deriving DecidableEq, Repr

/-- The table `VIB34D_GEOMETRY_INDEX`. -/
def VIB34D_GEOMETRY_INDEX : List (String × Nat) :=
  [ ("hypercube", 0), ("tetrahedron", 1), ("sphere", 2), ("torus", 3), ("klein", 4),
    ("fractal", 5), ("wave", 6), ("crystal", 7), ("ribbon", 8), ("shell", 9),
    ("lattice", 10) ]

section Visualizer

variable {α : Type} [LinearOrderedField α] [FloorRing α]

/-- `this.clamp(value, min, max)`. -/
def clamp (value lo hi : α) : α :=
  max lo (min hi value)

/-- `this.normalizeHue(value)`: `((value % 360) + 360) % 360`. -/
def normalizeHue (value : α) : α :=
  jsMod (jsMod value 360 + 360) 360

/-- The expression `x || d` for a number `x`: `0` is falsy. -/
def numOr (x d : α) : α :=
  if x = 0 then d else x

/-- A number operand of `if (x)`, `x && …`: `undefined` and `0` are falsy. -/
def truthyNum (x : Option α) : Option α :=
  x.filter (fun v => v ≠ 0)

/-- The table `presets` of `getSystemPreset`. -/
def SYSTEM_PRESETS (α : Type) [LinearOrderedField α] : List (String × SystemPreset α) :=
  [ ("quantum",
      { baseHue := 278, accentHue := 208, baseSpeed := 1.12, baseGlitch := 0.35,
        baseDensity := 0.95, baseMoire := 0.42,
        geometryCycle := ["hypercube", "wave", "crystal", "lattice"] }),
    ("holographic",
      { baseHue := 330, accentHue := 182, baseSpeed := 1.28, baseGlitch := 0.42,
        baseDensity := 0.85, baseMoire := 0.52,
        geometryCycle := ["torus", "klein", "ribbon", "shell"] }),
    ("faceted",
      { baseHue := 202, accentHue := 150, baseSpeed := 0.98, baseGlitch := 0.3,
        baseDensity := 1.05, baseMoire := 0.34,
        geometryCycle := ["crystal", "tetrahedron", "lattice"] }) ]

/-- The expression `presets[systemType] || presets.quantum` of `getSystemPreset`, as
far as it is a preset: the entry of the family, the quantum entry for a name that is no
property of the table, and `none` for a name inherited from `Object.prototype`, where the
expression is a function (or the prototype object) that has none of the preset fields. -/
def basePresetOf (systemType : String) : Option (SystemPreset α) :=
  match objectGet (SYSTEM_PRESETS α) systemType with
  | .own preset => some preset
  | .inherited _ => none
  | .absent => (SYSTEM_PRESETS α).lookup "quantum"

/-- `VIB34DTiltVisualizer.getSystemPreset(systemType)` for a family name on which
`basePresetOf` is defined.  For a name inherited from `Object.prototype` the code returns
`{ ...basePreset, geometryCycle: ['hypercube'] }` with every base value `undefined`; the
states of this model hold numbers, so they have no such instance, and the definition gives
the quantum preset there: statements about the instances of a family ask for
`basePresetOf` to be defined on the family name. -/
def getSystemPreset (systemType : String) : SystemPreset α :=
  let quantum : SystemPreset α :=
    { baseHue := 278, accentHue := 208, baseSpeed := 1.12, baseGlitch := 0.35,
      baseDensity := 0.95, baseMoire := 0.42,
      geometryCycle := ["hypercube", "wave", "crystal", "lattice"] }
  let basePreset : SystemPreset α := (basePresetOf systemType).getD quantum
  let cycle := basePreset.geometryCycle.filter
    (fun name => hasProperty VIB34D_GEOMETRY_INDEX name)
  { basePreset with geometryCycle := if cycle.length ≠ 0 then cycle else ["hypercube"] }

/-- `VIB34DTiltVisualizer.ensureGeometryVariant(variant)`: the test
`VIB34D_GEOMETRY_INDEX[variant] !== undefined` on the object literal accepts the names of
the table and the names inherited from `Object.prototype`. -/
def VIB34DTiltVisualizer.ensureGeometryVariant (self : VIB34DTiltVisualizer α)
    (variant : Option String) : String :=
  match (truthyString variant).filter
      (fun v => hasProperty VIB34D_GEOMETRY_INDEX v) with
  | some v => v
  | none => (truthyString self.presets.geometryCycle[0]?).getD "hypercube"

/-- The constructor of `VIB34DTiltVisualizer`: `systemType` is the constructor argument,
`hasAccentCore` tells whether `options.accentCanvas` produced an accent core, `now` is the
reading of `performance.now()`. -/
def VIB34DTiltVisualizer.new (systemType : Option String) (hasAccentCore : Bool)
    (now : α) : VIB34DTiltVisualizer α :=
  let systemType := (truthyString systemType).getD "quantum"
  let presets : SystemPreset α := getSystemPreset systemType
  let initialGeometry := (truthyString presets.geometryCycle[0]?).getD "hypercube"
  let state : RenderState α :=
    { speed := presets.baseSpeed
      glitch := presets.baseGlitch
      density := presets.baseDensity
      moire := presets.baseMoire
      hue := presets.baseHue
      accentHue := presets.accentHue
      energy := 0.4
      geometryVariant := some initialGeometry
      wDepth := 0.4
      wShear := 0
      wPulse := 0.2 }
  { systemType := systemType
    presets := presets
    reactivityLibrary := some (VIB34DReactivePresetLibrary.new (VIB34D_REACTIVE_PRESETS α))
    hasAccentCore := hasAccentCore
    rotation4D :=
      { rot4dXW := 0, rot4dYW := 0, rot4dZW := 0, rot4dXY := 0, rot4dXZ := 0, rot4dYZ := 0 }
    state := state
    targetState := state
    variantIndex := 0
    activeState := "far-depth"
    hasBeenFocused := false
    interaction := { active := false, start := 0, duration := 0, peak := 0, magnitude := 0 }
    audioEnergy := 0
    audioPeak := 0
    portalProjection :=
      { value := 0, depth := 0.35, shear := 0, pulse := 0, torsion := none, angle := 0,
        radius := 0, envelope := none }
    lastUpdate := now
    flourishIndex := 0 }

/-- `VIB34DTiltVisualizer.updateState(now)`: one relaxation step, in exact arithmetic;
`updateStateDouble` is the same code in binary64 arithmetic. -/
def VIB34DTiltVisualizer.updateState (M : JSMath α) (self : VIB34DTiltVisualizer α)
    (now : α) : VIB34DTiltVisualizer α :=
  let delta := max 0.00016 ((now - self.lastUpdate) / 1000)
  let factor := 1 - M.exp (-delta * 4.2)
  let target := self.targetState
  let state : RenderState α :=
    { self.state with
      speed := self.state.speed + (target.speed - self.state.speed) * factor
      glitch := self.state.glitch + (target.glitch - self.state.glitch) * factor
      density := self.state.density + (target.density - self.state.density) * factor
      moire := self.state.moire + (target.moire - self.state.moire) * factor
      hue := self.state.hue + (target.hue - self.state.hue) * factor
      accentHue := self.state.accentHue + (target.accentHue - self.state.accentHue) * factor
      energy := self.state.energy + (target.energy - self.state.energy) * factor
      wDepth := self.state.wDepth + (target.wDepth - self.state.wDepth) * factor
      wShear := self.state.wShear + (target.wShear - self.state.wShear) * factor
      wPulse := self.state.wPulse + (target.wPulse - self.state.wPulse) * factor }
  let state : RenderState α :=
    { state with
      hue := normalizeHue state.hue
      accentHue := normalizeHue state.accentHue
      geometryVariant := some (self.ensureGeometryVariant self.targetState.geometryVariant) }
  let interaction : Interaction α :=
    if self.interaction.active then
      let progress := (now - self.interaction.start) / self.interaction.duration
      if progress ≥ 1 then
        { self.interaction with active := false, magnitude := 0 }
      else
        { self.interaction with magnitude := M.sin (progress * M.pi) * self.interaction.peak }
    else
      { self.interaction with
        magnitude := self.interaction.magnitude * max 0 (1 - delta * 2.6) }
  { self with
    lastUpdate := now
    state := state
    interaction := interaction
    audioEnergy := max 0 (self.audioEnergy - delta * 0.9)
    audioPeak := max 0 (self.audioPeak - delta * 1.8) }

end Visualizer

/-- The options object of `applyInteractionResponse`. -/
structure InteractionOptions (α : Type) where
  preset : Option String := none
  stage : Option String := none
  channel : Option String := none
  intensity : Option α := none
  polarity : Option α := none
  duration : Option α := none
  densityBias : Option α := none
  hueSpin : Option α := none
  geometryAdvance : Option α := none
  speedBoost : Option α := none
  glitchBoost : Option α := none
  moireBoost : Option α := none
  energyBoost : Option α := none
  densityTarget : Option α := none
  densityFloor : Option α := none
  densityCeiling : Option α := none
  speedFloor : Option α := none
  speedCeiling : Option α := none
  geometryVariant : Option String := none
deriving DecidableEq, Repr

section Interaction

variable {α : Type} [LinearOrderedField α] [FloorRing α]

/-- The position of `variant` in the geometry cycle, as `indexOf` followed by the test
`index >= 0`: `none` is `-1`. -/
def cycleIndexOf (cycle : List String) (variant : String) : Option Nat :=
  if cycle.indexOf variant < cycle.length then some (cycle.indexOf variant) else none

/-- The part of `decorateInteractionOptions` that applies `blueprint.direct` and
`blueprint.accent` to `this.targetState` (source lines 2427 to 2473).  Each field of the
target state is followed through the assignments that write it, in source order. -/
def VIB34DTiltVisualizer.applyBlueprintDeltas (self : VIB34DTiltVisualizer α)
    (blueprint : Blueprint α) : VIB34DTiltVisualizer α :=
  let direct : BlueprintDirect α := blueprint.direct
  let accent : PresetAccent α := blueprint.accent.getD {}
  let t : RenderState α := self.targetState
  let p : SystemPreset α := self.presets
  let speed : α := t.speed + direct.speed
  let glitch : α := t.glitch + direct.glitch
  let density : α := t.density + direct.density
  let moire : α := t.moire + direct.moire
  let energy : α := t.energy + direct.energy
  let hue : α := direct.hueShift.elim t.hue
    (fun hueShift => normalizeHue (numOr t.hue p.baseHue + hueShift))
  let accentHue : α := direct.accentHueShift.elim t.accentHue
    (fun accentHueShift => normalizeHue (numOr t.accentHue p.accentHue + accentHueShift))
  let wDepth : α := direct.wDepth.elim t.wDepth
    (fun wDepth => min 1.7 (numOr t.wDepth 0.4 + wDepth))
  let wPulse : α := direct.wPulse.elim t.wPulse (fun wPulse => max (numOr t.wPulse 0.2) wPulse)
  let ensured : Option String :=
    (truthyString direct.geometryVariant).map
      (fun variant => self.ensureGeometryVariant (some variant))
  let geometryVariant : Option String := ensured.elim t.geometryVariant (fun v => some v)
  let variantIndex : Nat := ensured.elim self.variantIndex
    (fun v => (cycleIndexOf p.geometryCycle v).getD self.variantIndex)
  let accentHue : α := accent.hueShift.elim accentHue
    (fun hueShift => normalizeHue (numOr accentHue p.accentHue + hueShift))
  let moire : α := accent.moire.elim moire (fun m => moire + m)
  let density : α := accent.density.elim density (fun d => density + d)
  { self with
    variantIndex := variantIndex
    targetState :=
      { speed := speed, glitch := glitch, density := density, moire := moire, hue := hue,
        accentHue := accentHue, energy := energy, geometryVariant := geometryVariant,
        wDepth := wDepth, wShear := t.wShear, wPulse := wPulse } }

/-- `VIB34DTiltVisualizer.decorateInteractionOptions(options)`: the instance after the
call and the returned clone of the options. -/
def VIB34DTiltVisualizer.decorateInteractionOptions (self : VIB34DTiltVisualizer α)
    (options : InteractionOptions α) : VIB34DTiltVisualizer α × InteractionOptions α :=
  let clone := options
  match self.reactivityLibrary with
  | none => (self, { clone with stage := none, channel := none, preset := none })
  | some library =>
    let baseIntensity : α := clone.intensity.getD 0.45
    let context : PresetContext α :=
      { preset := clone.preset
        stage := clone.stage
        channel := clone.channel
        intensity := some baseIntensity
        polarity :=
          some (match clone.polarity with
            | some p => if p ≥ 0 then 1 else -1
            | none => -1) }
    match library.provide context with
    | some blueprint =>
      let intensityScale := blueprint.intensityScale
      let scaledIntensity := baseIntensity * intensityScale
      let clone :=
        match clone.intensity with
        | some i => { clone with intensity := some (i * intensityScale) }
        | none => { clone with intensity := some scaledIntensity }
      let clone :=
        match blueprint.densityBias with
        | some b => { clone with densityBias := some (clone.densityBias.getD 0 + b) }
        | none => clone
      let clone :=
        match blueprint.hueSpin with
        | some h => { clone with hueSpin := some (clone.hueSpin.getD 0 + h) }
        | none => clone
      let clone :=
        match truthyNum blueprint.geometryAdvance with
        | some advanceValue =>
          let currentAdvance := clone.geometryAdvance.getD 0
          { clone with geometryAdvance := some (currentAdvance + advanceValue) }
        | none => clone
      let clone :=
        match truthyNum blueprint.duration with
        | some d => { clone with duration := some (max (clone.duration.getD 0) d) }
        | none => clone
      let self := self.applyBlueprintDeltas blueprint
      (self, { clone with stage := none, channel := none, preset := none })
    | none => (self, { clone with stage := none, channel := none, preset := none })

/-- `VIB34DTiltVisualizer.applyInteractionResponseInternal(options)`; `now` is the reading
of `performance.now()`.  Each field of the target state is followed through the
assignments that write it, in source order. -/
def VIB34DTiltVisualizer.applyInteractionResponseInternal (self : VIB34DTiltVisualizer α)
    (options : InteractionOptions α) (now : α) : VIB34DTiltVisualizer α :=
  let intensity : α := clamp (options.intensity.getD 0.45) 0 2.4
  let polarity : α := (options.polarity.map (fun p => if p ≥ 0 then 1 else -1)).getD (-1)
  let t : RenderState α := self.targetState
  let cycle : List String := self.presets.geometryCycle
  let speed : α := t.speed + intensity * 0.35
  let glitch : α := t.glitch + intensity * 0.4
  let energy : α := t.energy + intensity * 0.5
  let moire : α := t.moire + intensity * 0.28 * polarity
  let density : α := (truthyNum options.densityBias).elim t.density
    (fun densityBias => t.density + intensity * densityBias * 0.22)
  let speed : α := options.speedBoost.elim speed (fun b => speed + b * intensity)
  let glitch : α := options.glitchBoost.elim glitch (fun b => glitch + b * intensity)
  let moire : α := options.moireBoost.elim moire (fun b => moire + b * intensity)
  let energy : α := options.energyBoost.elim energy (fun b => energy + b * intensity)
  let density : α := options.densityTarget.elim density
    (fun densityTarget =>
      let baseDensity := density
      let targetDensity := max 0.05 densityTarget
      baseDensity + (targetDensity - baseDensity) * 0.45)
  let density : α := options.densityFloor.elim density
    (fun densityFloor => min density densityFloor)
  let density : α := options.densityCeiling.elim density
    (fun densityCeiling => max density densityCeiling)
  let speed : α := options.speedFloor.elim speed (fun speedFloor => max speed speedFloor)
  let speed : α := options.speedCeiling.elim speed (fun speedCeiling => min speed speedCeiling)
  let hue : α := (truthyNum options.hueSpin).elim t.hue
    (fun hueSpin => normalizeHue (self.state.hue + hueSpin * 16))
  let accentHue : α := (truthyNum options.hueSpin).elim t.accentHue
    (fun hueSpin => normalizeHue (self.state.accentHue + hueSpin * 12))
  let advance : Option α :=
    (truthyNum options.geometryAdvance).filter (fun _ => cycle.length > 1)
  let variantIndex : Nat := advance.elim self.variantIndex
    (fun geometryAdvance =>
      if geometryAdvance > 0 then (self.variantIndex + 1 + cycle.length) % cycle.length
      else (self.variantIndex + cycle.length - 1) % cycle.length)
  let geometryVariant : Option String := advance.elim t.geometryVariant
    (fun _ => cycle[variantIndex]?)
  let variant : Option String :=
    truthyString ((truthyString options.geometryVariant).map
      (fun gv => self.ensureGeometryVariant (some gv)))
  let geometryVariant : Option String := variant.elim geometryVariant (fun v => some v)
  let variantIndex : Nat := variant.elim variantIndex
    (fun v => (cycleIndexOf cycle v).getD variantIndex)
  { self with
    variantIndex := variantIndex
    targetState :=
      { speed := speed, glitch := glitch, density := density, moire := moire, hue := hue,
        accentHue := accentHue, energy := energy, geometryVariant := geometryVariant,
        wDepth := t.wDepth, wShear := t.wShear, wPulse := t.wPulse }
    interaction :=
      { active := true
        start := now
        duration := numOr (options.duration.getD 0) 720
        peak := min 1.8 (intensity * 0.9 + |polarity| * 0.3)
        magnitude := self.interaction.magnitude } }

/-- `VIB34DTiltVisualizer.applyInteractionResponse(options)`. -/
def VIB34DTiltVisualizer.applyInteractionResponse (self : VIB34DTiltVisualizer α)
    (options : InteractionOptions α) (now : α) : VIB34DTiltVisualizer α :=
  let decorated := self.decorateInteractionOptions options
  decorated.1.applyInteractionResponseInternal decorated.2 now

end Interaction

/-! ## FlourishLibrary and inherited traits -/

/-- The `inherit` map of a flourish. -/
structure FlourishInherit (α : Type) where
  hueShift : Option α := none
  accentShift : Option α := none
  moireBoost : Option α := none
  glitchBoost : Option α := none
  energyBoost : Option α := none
  geometryVariant : Option String := none
  portalPulse : Option α := none
deriving DecidableEq, Repr

/-- The `core` map of a flourish. -/
structure FlourishCore (α : Type) where
  speed : Option α := none
  glitch : Option α := none
  moire : Option α := none
  density : Option α := none
  geometryVariant : Option String := none
deriving DecidableEq, Repr

/-- The `accent` map of a flourish. -/
structure FlourishAccent (α : Type) where
  hueShift : Option α := none
  glitch : Option α := none
  moire : Option α := none
deriving DecidableEq, Repr

/-- The `partner` hints of a flourish. -/
structure FlourishPartner (α : Type) where
  intensity : Option α := none
  densityBias : Option α := none
  hueSpin : Option α := none
  duration : Option α := none
deriving DecidableEq, Repr

/-- The `portal` hints of a flourish. -/
structure FlourishPortal (α : Type) where
  depthDelta : Option α := none
  rotationDelta : Option α := none
  pulse : Option α := none
  duration : Option α := none
deriving DecidableEq, Repr

/-- The `background` hints of a flourish. -/
structure FlourishBackground (α : Type) where
  energy : Option α := none
  twist : Option α := none
  offsetX : Option α := none
  offsetY : Option α := none
deriving DecidableEq, Repr

/-- The `fragment` hints of a flourish (`type` is written `kind`). -/
structure FlourishFragment where
  kind : Option String := none
  segments : Option (List String) := none
deriving DecidableEq, Repr

/-- An entry of `VIB34D_DESTRUCTION_FLOURISHES`. -/
structure Flourish (α : Type) where
  id : String
  label : String
  inherit : Option (FlourishInherit α) := none
  core : Option (FlourishCore α) := none
  accent : Option (FlourishAccent α) := none
  partner : Option (FlourishPartner α) := none
  portal : Option (FlourishPortal α) := none
  background : Option (FlourishBackground α) := none
  fragment : Option FlourishFragment := none
deriving DecidableEq, Repr

/-- The record `merged.flourish` carried by a trait. -/
structure TraitFlourish (α : Type) where
  core : Option (FlourishCore α) := none
  partner : Option (FlourishPartner α) := none
  portal : Option (FlourishPortal α) := none
  background : Option (FlourishBackground α) := none
  fragment : Option FlourishFragment := none
deriving DecidableEq, Repr

/-- An inherited trait. -/
structure Trait (α : Type) where
  hueShift : Option α := none
  accentShift : Option α := none
  moireBoost : Option α := none
  glitchBoost : Option α := none
  energyBoost : Option α := none
  geometryVariant : Option String := none
  portalPulse : Option α := none
  cascadeDepth : Option α := none
  flourish : Option (TraitFlourish α) := none
  fragmentCue : Option String := none
  fragmentSegments : Option (List String) := none
  flourishSignature : Option String := none
  flourishLabel : Option String := none
deriving DecidableEq, Repr

section Flourish

variable {α : Type} [LinearOrderedField α] [FloorRing α]

/-- `VIB34DTiltVisualizer.applyDestructionFlourish(flourish, trait)`: the instance after
the call and the returned trait.  Each field of the target state and of the merged trait
is followed through the assignments that write it, in source order. -/
def VIB34DTiltVisualizer.applyDestructionFlourish (self : VIB34DTiltVisualizer α)
    (flourish : Option (Flourish α)) (trait : Trait α) : VIB34DTiltVisualizer α × Trait α :=
  match flourish with
  | none => (self, trait)
  | some flourish =>
    let inherit : FlourishInherit α := flourish.inherit.getD {}
    let core : FlourishCore α := flourish.core.getD {}
    let accent : FlourishAccent α := flourish.accent.getD {}
    let t : RenderState α := self.targetState
    let cycle : List String := self.presets.geometryCycle
    let mergedHueShift : Option α := inherit.hueShift.elim trait.hueShift
      (fun hueShift => some (trait.hueShift.getD 0 + hueShift))
    let mergedAccentShift : Option α := inherit.accentShift.elim trait.accentShift
      (fun accentShift => some (trait.accentShift.getD 0 + accentShift))
    let mergedMoireBoost : Option α := inherit.moireBoost.elim trait.moireBoost
      (fun moireBoost => some (trait.moireBoost.getD 0 + moireBoost))
    let moire : α := inherit.moireBoost.elim t.moire (fun moireBoost => t.moire + moireBoost)
    let mergedGlitchBoost : Option α := inherit.glitchBoost.elim trait.glitchBoost
      (fun glitchBoost => some (trait.glitchBoost.getD 0 + glitchBoost))
    let glitch : α := inherit.glitchBoost.elim t.glitch
      (fun glitchBoost => t.glitch + glitchBoost)
    let mergedEnergyBoost : Option α := inherit.energyBoost.elim trait.energyBoost
      (fun energyBoost => some (trait.energyBoost.getD 0 + energyBoost))
    let energy : α := inherit.energyBoost.elim t.energy
      (fun energyBoost => t.energy + energyBoost)
    let inheritVariant : Option String :=
      (truthyString inherit.geometryVariant).map
        (fun variant => self.ensureGeometryVariant (some variant))
    let mergedGeometryVariant : Option String :=
      inheritVariant.elim trait.geometryVariant (fun v => some v)
    let geometryVariant : Option String := inheritVariant.elim t.geometryVariant (fun v => some v)
    let variantIndex : Nat := inheritVariant.elim self.variantIndex
      (fun v => (cycleIndexOf cycle v).getD self.variantIndex)
    let mergedPortalPulse : Option α := inherit.portalPulse.elim trait.portalPulse
      (fun portalPulse => some (max (trait.portalPulse.getD 0) portalPulse))
    let wPulse : α := inherit.portalPulse.elim t.wPulse (fun portalPulse => max t.wPulse portalPulse)
    let speed : α := core.speed.elim t.speed (fun speed => t.speed + speed)
    let glitch : α := core.glitch.elim glitch (fun g => glitch + g)
    let moire : α := core.moire.elim moire (fun m => moire + m)
    let density : α := core.density.elim t.density (fun density => max 0.05 (t.density + density))
    let coreVariant : Option String :=
      if (truthyString inherit.geometryVariant).isNone then
        truthyString ((truthyString core.geometryVariant).map
          (fun variant => self.ensureGeometryVariant (some variant)))
      else none
    let geometryVariant : Option String := coreVariant.elim geometryVariant (fun v => some v)
    let variantIndex : Nat := coreVariant.elim variantIndex
      (fun v => (cycleIndexOf cycle v).getD variantIndex)
    let mergedGeometryVariant : Option String :=
      coreVariant.elim mergedGeometryVariant (fun v => some v)
    let accentHue : α :=
      if self.hasAccentCore then
        accent.hueShift.elim t.accentHue
          (fun hueShift => normalizeHue (numOr t.accentHue self.presets.accentHue + hueShift))
      else t.accentHue
    let fragmentCue : Option String :=
      (truthyString (flourish.fragment.bind (fun f => f.kind))).elim trait.fragmentCue
        (fun cue => some cue)
    let fragmentSegments : Option (List String) :=
      (flourish.fragment.bind (fun f => f.segments)).elim trait.fragmentSegments
        (fun segments => some segments)
    let merged : Trait α :=
      { hueShift := mergedHueShift
        accentShift := mergedAccentShift
        moireBoost := mergedMoireBoost
        glitchBoost := mergedGlitchBoost
        energyBoost := mergedEnergyBoost
        geometryVariant := mergedGeometryVariant
        portalPulse := mergedPortalPulse
        cascadeDepth := trait.cascadeDepth
        flourish := some
          { core := some core
            partner := flourish.partner
            portal := flourish.portal
            background := flourish.background
            fragment := flourish.fragment }
        fragmentCue := fragmentCue
        fragmentSegments := fragmentSegments
        flourishSignature := some flourish.id
        flourishLabel := some flourish.label }
    ({ self with
        variantIndex := variantIndex
        targetState :=
          { speed := speed, glitch := glitch, density := density, moire := moire, hue := t.hue,
            accentHue := accentHue, energy := energy, geometryVariant := geometryVariant,
            wDepth := t.wDepth, wShear := t.wShear, wPulse := wPulse } },
      merged)

/-- `VIB34DTiltVisualizer.applyInheritedTrait(trait, options)`; `immediate` is
`options.immediate || false`, a `null` trait is `none`.  Each field of the target state is
followed through the assignments that write it, in source order. -/
def VIB34DTiltVisualizer.applyInheritedTrait (self : VIB34DTiltVisualizer α)
    (trait : Option (Trait α)) (immediate : Bool) : VIB34DTiltVisualizer α :=
  match trait with
  | none => self
  | some trait =>
    let t : RenderState α := self.targetState
    let cycle : List String := self.presets.geometryCycle
    let hue : α := trait.hueShift.elim t.hue
      (fun hueShift => normalizeHue (self.presets.baseHue + hueShift))
    let accentHue : α := trait.accentShift.elim t.accentHue
      (fun accentShift => normalizeHue (self.presets.accentHue + accentShift))
    let moire : α := trait.moireBoost.elim t.moire (fun moireBoost => t.moire + moireBoost)
    let glitch : α := trait.glitchBoost.elim t.glitch (fun glitchBoost => t.glitch + glitchBoost)
    let energy : α := trait.energyBoost.elim t.energy (fun energyBoost => t.energy + energyBoost)
    let ensured : Option String :=
      (truthyString trait.geometryVariant).map
        (fun variant => self.ensureGeometryVariant (some variant))
    let geometryVariant : Option String := ensured.elim t.geometryVariant (fun v => some v)
    let variantIndex : Nat := ensured.elim self.variantIndex
      (fun v => (cycleIndexOf cycle v).getD self.variantIndex)
    let wPulse : α := (truthyNum trait.portalPulse).elim t.wPulse
      (fun portalPulse => max t.wPulse portalPulse)
    let flourishCore : FlourishCore α := (trait.flourish.bind (fun f => f.core)).getD {}
    let speed : α := flourishCore.speed.elim t.speed (fun speed => t.speed + speed * 0.25)
    let glitch : α := flourishCore.glitch.elim glitch (fun g => glitch + g * 0.25)
    let moire : α := flourishCore.moire.elim moire (fun m => moire + m * 0.25)
    let coreVariant : Option String :=
      if (truthyString trait.geometryVariant).isNone then
        truthyString ((truthyString flourishCore.geometryVariant).map
          (fun variant => self.ensureGeometryVariant (some variant)))
      else none
    let geometryVariant : Option String := coreVariant.elim geometryVariant (fun v => some v)
    let depth : Option α := trait.cascadeDepth.map (fun cascadeDepth => max 1 cascadeDepth)
    let depthBoost : Option α := depth.map (fun depth => min 1.6 (depth * 0.12))
    let speed : α := depthBoost.elim speed (fun depthBoost => speed + depthBoost * 0.5)
    let glitch : α := depthBoost.elim glitch (fun depthBoost => glitch + depthBoost * 0.4)
    let moire : α := depthBoost.elim moire (fun depthBoost => moire + depthBoost * 0.25)
    let energy : α := depthBoost.elim energy (fun depthBoost => energy + depthBoost * 0.3)
    let wDepth : α := depth.elim t.wDepth (fun depth => min 1.4 (t.wDepth + depth * 0.05))
    let wPulse : α := depth.elim wPulse (fun depth => max wPulse (0.55 + depth * 0.08))
    let target : RenderState α :=
      { speed := speed, glitch := glitch, density := t.density, moire := moire, hue := hue,
        accentHue := accentHue, energy := energy, geometryVariant := geometryVariant,
        wDepth := wDepth, wShear := t.wShear, wPulse := wPulse }
    let state : RenderState α :=
      if immediate then { target with geometryVariant := self.state.geometryVariant }
      else self.state
    { self with variantIndex := variantIndex, targetState := target, state := state }

end Flourish

/-! ## Discrete event API: card states, audio and tilt -/

/-- The `meta` object of `applyAudioEnergy`. -/
structure AudioMeta (α : Type) where
  peak : Bool := false
  swing : Option α := none
  texture : Option α := none
  brightness : Option α := none
  momentum : Option α := none
deriving DecidableEq, Repr

/-- The `velocity` object of a tilt sample; an absent component is `0`. -/
structure TiltVelocity (α : Type) where
  beta : α
  gamma : α
deriving DecidableEq, Repr

/-- The argument of `applyTiltVector`; an absent component of `normalized`, `velocity`
or `portalProjection` is `0`. -/
structure TiltInput (α : Type) where
  normalized : Normalized α
  rotation4D : Option (Rotation4D α)
  velocity : TiltVelocity α
  intensity : Option α
  portalProjection : Option (PortalProjection α)
deriving DecidableEq, Repr

/-- The `context` object of `updateRotation4D`. -/
structure RotationContext (α : Type) where
  portalProjection : Option (PortalProjection α) := none
  normalized : Option (Normalized α) := none
  intensity : Option α := none
deriving DecidableEq, Repr

section Events

variable {α : Type} [LinearOrderedField α] [FloorRing α]

/-- `VIB34DTiltVisualizer.setCardState(state, options)`; `inheritedTrait` is
`options.inheritedTrait`. -/
def VIB34DTiltVisualizer.setCardState (self : VIB34DTiltVisualizer α) (state : String)
    (inheritedTrait : Option (Trait α)) : VIB34DTiltVisualizer α :=
  let p : SystemPreset α := self.presets
  let t : RenderState α :=
    { self.targetState with
      hue := normalizeHue p.baseHue
      accentHue := normalizeHue p.accentHue
      geometryVariant := some (self.ensureGeometryVariant self.targetState.geometryVariant) }
  let self : VIB34DTiltVisualizer α := { self with activeState := state, targetState := t }
  let self : VIB34DTiltVisualizer α :=
    if state = "far-depth" then
      { self with
        targetState :=
          { t with
            speed := p.baseSpeed * 0.6
            glitch := p.baseGlitch * 0.45
            density := p.baseDensity * 1.15
            moire := p.baseMoire * 0.4
            energy := 0.2
            wPulse := 0.15 } }
    else if state = "approaching" then
      { self with
        targetState :=
          { t with
            speed := p.baseSpeed * 1.05
            glitch := p.baseGlitch * 0.85
            density := p.baseDensity * 0.85
            moire := p.baseMoire * 0.75
            energy := 0.65
            wPulse := 0.35 } }
    else if state = "focused" then
      let self : VIB34DTiltVisualizer α :=
        match truthyString (inheritedTrait.bind (fun tr => tr.geometryVariant)) with
        | some variant =>
          { self with
            targetState :=
              { t with geometryVariant := some (self.ensureGeometryVariant (some variant)) } }
        | none =>
          if p.geometryCycle.length > 1 then
            if ¬ self.hasBeenFocused then
              { self with
                hasBeenFocused := true
                targetState := { t with geometryVariant := p.geometryCycle[self.variantIndex]? } }
            else
              let variantIndex := (self.variantIndex + 1) % p.geometryCycle.length
              { self with
                variantIndex := variantIndex
                targetState := { t with geometryVariant := p.geometryCycle[variantIndex]? } }
          else self
      { self with
        targetState :=
          { self.targetState with
            speed := p.baseSpeed * 1.6
            glitch := p.baseGlitch * 1.35 + 0.15
            density := p.baseDensity * 0.6
            moire := p.baseMoire * 1.35 + 0.1
            energy := 1.1
            wPulse := max self.targetState.wPulse 0.6 } }
    else if state = "exiting" then
      { self with
        targetState :=
          { t with
            speed := p.baseSpeed * 1.2
            glitch := p.baseGlitch * 1.05
            density := p.baseDensity * 0.75
            moire := p.baseMoire * 0.85
            energy := 0.5
            wPulse := 0.3 } }
    else if state = "destroyed" then
      { self with
        targetState :=
          { t with
            speed := p.baseSpeed * 2.0
            glitch := p.baseGlitch * 1.85 + 0.4
            density := p.baseDensity * 0.4
            moire := p.baseMoire * 1.55 + 0.2
            energy := 1.25
            wPulse := max t.wPulse 1.1 } }
    else self
  match inheritedTrait with
  | some trait => self.applyInheritedTrait (some trait) true
  | none => self

/-- `VIB34DTiltVisualizer.applyAudioEnergy(level, meta)`; a `level` that is not a number
is `none`, `now` is the reading of `performance.now()`. -/
def VIB34DTiltVisualizer.applyAudioEnergy (M : JSMath α) (self : VIB34DTiltVisualizer α)
    (level : Option α) (audioMeta : AudioMeta α) (now : α) : VIB34DTiltVisualizer α :=
  match level with
  | none => self
  | some level =>
    let normalized := clamp level 0 1
    let eased := M.pow normalized 1.2
    let audioEnergy := max self.audioEnergy eased
    let audioPeak := if audioMeta.peak then max self.audioPeak 0.85 else self.audioPeak
    let swing : α := audioMeta.swing.getD 0
    let texture : α := (audioMeta.texture.map (fun x => clamp x (-1) 1)).getD 0
    let brightness : α := (audioMeta.brightness.map (fun x => clamp x (-1) 1)).getD 0
    let momentum : α := (audioMeta.momentum.map (fun x => clamp x (-1) 1)).getD 0
    let t : RenderState α := self.targetState
    let t : RenderState α :=
      { t with
        speed := t.speed + eased * (0.45 + max 0 momentum * 0.35)
        glitch := t.glitch + eased * (0.55 + max 0 (-texture) * 0.4)
        energy := t.energy + eased * (0.75 + |momentum| * 0.4)
        moire := t.moire + eased * (0.25 + max 0 texture * 0.35)
        density := t.density - eased * (0.28 + brightness * 0.12 - texture * 0.08)
        hue := normalizeHue (t.hue + swing * 10 + brightness * 14)
        accentHue := normalizeHue (t.accentHue + swing * 6 + texture * 10)
        wPulse := max t.wPulse (0.25 + eased * 0.45 + max 0 momentum * 0.5) }
    let interaction : Interaction α :=
      if audioMeta.peak then
        { active := true
          start := now
          duration := 920 + eased * 520 + |momentum| * 320
          peak := max self.interaction.peak (0.6 + eased * 0.7 + |momentum| * 0.3)
          magnitude := self.interaction.magnitude }
      else self.interaction
    { self with
      audioEnergy := audioEnergy
      audioPeak := audioPeak
      targetState := t
      interaction := interaction }

/-- `VIB34DTiltVisualizer.updateRotation4D(rotation, context)`. -/
def VIB34DTiltVisualizer.updateRotation4D (self : VIB34DTiltVisualizer α)
    (rotation : Rotation4D α) (context : RotationContext α) : VIB34DTiltVisualizer α :=
  let self : VIB34DTiltVisualizer α :=
    { self with
      rotation4D :=
        { rot4dXW := rotation.rot4dXW, rot4dYW := rotation.rot4dYW,
          rot4dZW := rotation.rot4dZW, rot4dXY := rotation.rot4dXY,
          rot4dXZ := rotation.rot4dXZ, rot4dYZ := rotation.rot4dYZ } }
  let intensity : Option α := context.intensity.map (fun i => clamp i 0 1.4)
  match context.portalProjection with
  | none => self
  | some portalContext =>
    let forward : α := (context.normalized.map (fun n => clamp n.beta (-1.2) 1.2)).getD 0
    let lateral : α := (context.normalized.map (fun n => clamp n.gamma (-1.2) 1.2)).getD 0
    let swirl : α := (context.normalized.map (fun n => clamp n.alpha (-1.2) 1.2)).getD 0
    let diagonal := (forward * forward) - (lateral * lateral)
    let cross := forward * lateral
    let envelope := portalContext.depth * 0.6 + cross * 0.5 + swirl * 0.3
    let t : RenderState α := self.targetState
    let targetDepth := 0.45 + |portalContext.depth| * 1.05 + |diagonal| * 0.35
    let blendedDepth := t.wDepth + (targetDepth - t.wDepth) * 0.4
    let t : RenderState α := { t with wDepth := clamp blendedDepth 0.2 2.0 }
    let shearTarget := portalContext.shear + diagonal * 0.4
    let t : RenderState α := { t with wShear := shearTarget }
    let pulseBase := max portalContext.pulse 0
    let intensityBoost : α := (intensity.map (fun i => i * 0.3)).getD 0
    let pulseTarget := pulseBase + |envelope| * 0.55 + intensityBoost
    let t : RenderState α := { t with wPulse := max t.wPulse pulseTarget }
    let stored : StoredProjection α :=
      { value := portalContext.value
        depth := portalContext.depth
        shear := t.wShear
        pulse := t.wPulse
        torsion := some portalContext.torsion
        angle := portalContext.angle
        radius := portalContext.radius
        envelope := some envelope }
    let t : RenderState α := intensity.elim t
      (fun i =>
        { t with
          energy := max t.energy (0.45 + i * 0.4)
          speed := self.presets.baseSpeed + i * 0.35
          moire := self.presets.baseMoire + |envelope| * 0.4 })
    { self with targetState := t, portalProjection := stored }

/-- `VIB34DTiltVisualizer.resolvePortalProjection(tilt)`. -/
def VIB34DTiltVisualizer.resolvePortalProjection (M : JSMath α)
    (self : VIB34DTiltVisualizer α) (tilt : TiltInput α) : StoredProjection α :=
  match tilt.portalProjection with
  | some pp =>
    { value := pp.value, depth := pp.depth, shear := pp.shear, pulse := max 0 pp.pulse,
      torsion := none, angle := pp.angle, radius := pp.radius, envelope := none }
  | none =>
    let normalized := tilt.normalized
    let rotation4D := tilt.rotation4D.getD self.rotation4D
    let intensity : α := tilt.intensity.getD 0
    let pp := vib34dComputePortalProjection M normalized rotation4D intensity
    { value := pp.value, depth := pp.depth, shear := pp.shear, pulse := pp.pulse,
      torsion := some pp.torsion, angle := pp.angle, radius := pp.radius, envelope := none }

/-- `VIB34DTiltVisualizer.applyTiltVector(tilt)`; `now` is the reading of
`performance.now()`. -/
def VIB34DTiltVisualizer.applyTiltVector (M : JSMath α) (self : VIB34DTiltVisualizer α)
    (tilt : TiltInput α) (now : α) : VIB34DTiltVisualizer α :=
  let normalized := tilt.normalized
  let rotation4D : Rotation4D α := tilt.rotation4D.getD self.rotation4D
  let velocity := tilt.velocity
  let forward := clamp normalized.beta (-1.2) 1.2
  let lateral := clamp normalized.gamma (-1.2) 1.2
  let swirl := clamp normalized.alpha (-1.2) 1.2
  let intensity : α :=
    match tilt.intensity with
    | some i => clamp i 0 1.4
    | none => min 1.4 (M.hypot forward lateral)
  let self : VIB34DTiltVisualizer α := self.updateRotation4D rotation4D {}
  let portalProjection := self.resolvePortalProjection M tilt
  let self : VIB34DTiltVisualizer α := { self with portalProjection := portalProjection }
  let p : SystemPreset α := self.presets
  let t : RenderState α := self.targetState
  let len : Nat := p.geometryCycle.length
  let variantIndex : Nat :=
    if |swirl| > 0.65 ∧ len > 1 then
      if swirl > 0 then (self.variantIndex + 1 + len) % len
      else (self.variantIndex + len - 1) % len
    else self.variantIndex
  let geometryVariant : Option String :=
    if |swirl| > 0.65 ∧ len > 1 then p.geometryCycle[variantIndex]? else t.geometryVariant
  let velocityMagnitude := min 1.2 (M.hypot (velocity.beta / 140) (velocity.gamma / 140))
  { self with
    variantIndex := variantIndex
    targetState :=
      { speed := p.baseSpeed + |lateral| * 0.45 + intensity * 0.6
        glitch := p.baseGlitch + |velocity.beta| * 0.015 + |rotation4D.rot4dZW| * 0.4
          + intensity * 0.25
        moire := p.baseMoire + |forward| * 0.42 + |swirl| * 0.22
        density := p.baseDensity - lateral * 0.28 - forward * 0.3
        energy := max t.energy (0.45 + intensity * 0.65)
        hue := normalizeHue (p.baseHue + swirl * 70 + portalProjection.value * 18)
        accentHue := normalizeHue (p.accentHue + swirl * 48)
        wDepth := 0.45 + |portalProjection.depth| * 1.1
        wShear := portalProjection.shear
        wPulse := max t.wPulse (portalProjection.pulse + intensity * 0.4)
        geometryVariant := geometryVariant }
    interaction :=
      { active := true
        start := now
        duration := 720 + intensity * 360
        peak := min 1.8 (intensity * 0.9 + velocityMagnitude * 0.8)
        magnitude := self.interaction.magnitude } }

end Events

/-! ## Sequences of calls on an instance -/

/-- One call of the update loop or of the discrete event API on an instance. -/
inductive VisualizerCall (α : Type) where
  | updateState (now : α)
  | setCardState (state : String) (inheritedTrait : Option (Trait α))
  | applyInteractionResponse (options : InteractionOptions α) (now : α)
  | applyInheritedTrait (trait : Option (Trait α)) (immediate : Bool)
  | applyTiltVector (tilt : TiltInput α) (now : α)
  | applyAudioEnergy (level : Option α) (audioMeta : AudioMeta α) (now : α)
  | applyDestructionFlourish (flourish : Option (Flourish α)) (trait : Trait α)

section Calls

variable {α : Type} [LinearOrderedField α] [FloorRing α]

/-- Perform one call on the instance. -/
def VIB34DTiltVisualizer.call (M : JSMath α) (self : VIB34DTiltVisualizer α) :
    VisualizerCall α → VIB34DTiltVisualizer α
  | .updateState now => self.updateState M now
  | .setCardState state inheritedTrait => self.setCardState state inheritedTrait
  | .applyInteractionResponse options now => self.applyInteractionResponse options now
  | .applyInheritedTrait trait immediate => self.applyInheritedTrait trait immediate
  | .applyTiltVector tilt now => self.applyTiltVector M tilt now
  | .applyAudioEnergy level audioMeta now => self.applyAudioEnergy M level audioMeta now
  | .applyDestructionFlourish flourish trait => (self.applyDestructionFlourish flourish trait).1

/-- Perform a finite sequence of calls, first call first. -/
def VIB34DTiltVisualizer.run (M : JSMath α) (self : VIB34DTiltVisualizer α)
    (calls : List (VisualizerCall α)) : VIB34DTiltVisualizer α :=
  calls.foldl (fun v c => v.call M c) self

/-- Relaxation with a fixed step: `n` calls of `updateState`, the `k`-th at time
`lastUpdate + k * stepMs`. -/
def VIB34DTiltVisualizer.relax (M : JSMath α) (stepMs : α) :
    Nat → VIB34DTiltVisualizer α → VIB34DTiltVisualizer α
  | 0, self => self
  | n + 1, self => relax M stepMs n (self.updateState M (self.lastUpdate + stepMs))

end Calls

/-! ## Predicates of the stated invariants -/

section Invariants

variable {α : Type} [LinearOrderedField α] [FloorRing α]

/-- A hue lies in `[0, 360)`. -/
def HueInRange (h : α) : Prop :=
  0 ≤ h ∧ h < 360

/-- The four hues of an instance lie in `[0, 360)`. -/
def VIB34DTiltVisualizer.HuesNormalized (v : VIB34DTiltVisualizer α) : Prop :=
  HueInRange v.state.hue ∧ HueInRange v.state.accentHue ∧
    HueInRange v.targetState.hue ∧ HueInRange v.targetState.accentHue

end Invariants

section RelaxationPredicates

variable {α : Type} [LinearOrderedField α]

/-- The eight interpolated numeric fields of a render state other than the hues, in the
order `speed, glitch, density, moire, energy, wDepth, wShear, wPulse`. -/
def RenderState.interp (s : RenderState α) : Fin 8 → α
  | 0 => s.speed
  | 1 => s.glitch
  | 2 => s.density
  | 3 => s.moire
  | 4 => s.energy
  | 5 => s.wDepth
  | 6 => s.wShear
  | 7 => s.wPulse

/-- Every interpolated numeric field of `s` is within `ε` of the same field of `t`. -/
def RenderState.Within (ε : α) (s t : RenderState α) : Prop :=
  ∀ i : Fin 8, |s.interp i - t.interp i| ≤ ε

end RelaxationPredicates

section PresetResolutionSpec

variable {α : Type} [LinearOrderedField α]

/-- The keys of the catalog `VIB34D_REACTIVE_PRESETS`. -/
def presetKeys : List String :=
  [ "approach-primary", "focus-primary", "exit-primary", "release-primary", "inherit-primary",
    "inheritance-primary", "inheritance-echo", "partner-inverse", "idle-breath" ]

/-- The stage map as the specification words it: the primary preset of the stages
`approach, focus, exit, inherit, release, idle`. -/
def specStagePreset (stage : String) : Option String :=
  if stage = "approach" then some "approach-primary"
  else if stage = "focus" then some "focus-primary"
  else if stage = "exit" then some "exit-primary"
  else if stage = "inherit" then some "inherit-primary"
  else if stage = "release" then some "release-primary"
  else if stage = "idle" then some "idle-breath"
  else none

/-- The resolution order as the specification words it: the preset name when it is a key
of the catalog; otherwise `partner-inverse` when the channel is `partner`; otherwise the
stage map's preset; otherwise the stage itself when it is a key of the catalog; otherwise
`null`. -/
def specResolvePreset (context : PresetContext α) : Option String :=
  let stage := context.stage.getD ""
  match context.preset.filter (fun p => p ∈ presetKeys) with
  | some p => some p
  | none =>
    if context.channel = some "partner" then some "partner-inverse"
    else
      match specStagePreset stage with
      | some mapped => some mapped
      | none => if stage ∈ presetKeys then some stage else none

end PresetResolutionSpec

/-! ## The flourish catalog and round-robin selection -/

section FlourishCatalog

variable {α : Type} [LinearOrderedField α] [FloorRing α]

/-- The list `VIB34D_DESTRUCTION_FLOURISHES.quantum`. -/
def quantumFlourishes (α : Type) [LinearOrderedField α] : List (Flourish α) :=
  [ { id := "rift-bloom", label := "Rift Bloom Transfer",
      inherit := some
        { hueShift := some 22, accentShift := some (-14), moireBoost := some 0.26,
          glitchBoost := some 0.34, energyBoost := some 0.38, geometryVariant := some "wave",
          portalPulse := some 1.22 },
      core := some
        { speed := some 0.9, glitch := some 0.6, moire := some 0.4, density := some (-0.35),
          geometryVariant := some "wave" },
      accent := some { hueShift := some (-24), glitch := some 0.3, moire := some (-0.18) },
      partner := some
        { intensity := some 0.56, densityBias := some (-0.44), hueSpin := some 0.32,
          duration := some 1400 },
      portal := some
        { depthDelta := some 0.72, rotationDelta := some 0.48, pulse := some 1.05,
          duration := some 1500 },
      background := some
        { energy := some 0.9, twist := some 0.5, offsetX := some 0.22, offsetY := some 0.16 },
      fragment := some
        { kind := some "merge",
          segments := some
            [ "Rift Bloom Transfer", "Quantum Residual \x7btrait\x7d",
              "Hypercascade \x7bsignature\x7d" ] } },
    { id := "axis-shatter", label := "Axis Shatter Relay",
      inherit := some
        { hueShift := some (-18), accentShift := some 16, moireBoost := some 0.32,
          glitchBoost := some 0.42, energyBoost := some 0.45, geometryVariant := some "crystal",
          portalPulse := some 1.28 },
      core := some
        { speed := some 1.1, glitch := some 0.7, moire := some 0.28, density := some (-0.4),
          geometryVariant := some "crystal" },
      accent := some { hueShift := some 18, glitch := some 0.34, moire := some 0.2 },
      partner := some
        { intensity := some 0.62, densityBias := some (-0.38), hueSpin := some (-0.28),
          duration := some 1480 },
      portal := some
        { depthDelta := some 0.78, rotationDelta := some (-0.52), pulse := some 1.12,
          duration := some 1580 },
      background := some
        { energy := some 0.94, twist := some (-0.48), offsetX := some (-0.2),
          offsetY := some 0.18 },
      fragment := some
        { kind := some "fracture",
          segments := some
            [ "Axis Break Relay", "Shard Echo \x7btrait\x7d",
              "Cascade Inversion \x7bsignature\x7d" ] } } ]

/-- The list `VIB34D_DESTRUCTION_FLOURISHES.holographic`. -/
def holographicFlourishes (α : Type) [LinearOrderedField α] : List (Flourish α) :=
  [ { id := "veil-spiral", label := "Veil Spiral Bloom",
      inherit := some
        { hueShift := some 28, accentShift := some (-20), moireBoost := some 0.24,
          glitchBoost := some 0.3, energyBoost := some 0.36, geometryVariant := some "ribbon",
          portalPulse := some 1.18 },
      core := some
        { speed := some 0.84, glitch := some 0.52, moire := some 0.38, density := some (-0.32),
          geometryVariant := some "ribbon" },
      accent := some { hueShift := some (-18), glitch := some 0.28, moire := some (-0.16) },
      partner := some
        { intensity := some 0.54, densityBias := some (-0.36), hueSpin := some 0.42,
          duration := some 1380 },
      portal := some
        { depthDelta := some 0.68, rotationDelta := some 0.52, pulse := some 1.02,
          duration := some 1460 },
      background := some
        { energy := some 0.88, twist := some 0.62, offsetX := some 0.18, offsetY := some 0.2 },
      fragment := some
        { kind := some "merge",
          segments := some
            [ "Veil Spiral Bloom", "Prismatic Echo \x7btrait\x7d",
              "Halo Memory \x7bsignature\x7d" ] } },
    { id := "halo-collapse", label := "Halo Collapse Transfer",
      inherit := some
        { hueShift := some (-24), accentShift := some 18, moireBoost := some 0.28,
          glitchBoost := some 0.4, energyBoost := some 0.48, geometryVariant := some "klein",
          portalPulse := some 1.26 },
      core := some
        { speed := some 1.08, glitch := some 0.74, moire := some 0.32, density := some (-0.42),
          geometryVariant := some "klein" },
      accent := some { hueShift := some 16, glitch := some 0.36, moire := some 0.24 },
      partner := some
        { intensity := some 0.6, densityBias := some (-0.34), hueSpin := some (-0.36),
          duration := some 1520 },
      portal := some
        { depthDelta := some 0.82, rotationDelta := some (-0.46), pulse := some 1.14,
          duration := some 1620 },
      background := some
        { energy := some 0.96, twist := some (-0.52), offsetX := some (-0.18),
          offsetY := some 0.22 },
      fragment := some
        { kind := some "fracture",
          segments := some
            [ "Halo Collapse Transfer", "Lightwell Fragment \x7btrait\x7d",
              "Ribbon Afterglow \x7bsignature\x7d" ] } } ]

/-- The list `VIB34D_DESTRUCTION_FLOURISHES.faceted`. -/
def facetedFlourishes (α : Type) [LinearOrderedField α] : List (Flourish α) :=
  [ { id := "shard-bloom", label := "Shard Bloom Exchange",
      inherit := some
        { hueShift := some 18, accentShift := some (-12), moireBoost := some 0.22,
          glitchBoost := some 0.28, energyBoost := some 0.34,
          geometryVariant := some "tetrahedron", portalPulse := some 1.16 },
      core := some
        { speed := some 0.88, glitch := some 0.58, moire := some 0.36, density := some (-0.3),
          geometryVariant := some "tetrahedron" },
      accent := some { hueShift := some (-16), glitch := some 0.26, moire := some (-0.14) },
      partner := some
        { intensity := some 0.5, densityBias := some (-0.32), hueSpin := some 0.28,
          duration := some 1340 },
      portal := some
        { depthDelta := some 0.66, rotationDelta := some 0.42, pulse := some 0.98,
          duration := some 1420 },
      background := some
        { energy := some 0.84, twist := some 0.46, offsetX := some 0.16, offsetY := some 0.14 },
      fragment := some
        { kind := some "triad",
          segments := some
            [ "Shard Bloom Exchange", "Facet Relay \x7btrait\x7d",
              "Carrier Memory \x7bsignature\x7d" ] } },
    { id := "lattice-rupture", label := "Lattice Rupture Relay",
      inherit := some
        { hueShift := some (-16), accentShift := some 14, moireBoost := some 0.3,
          glitchBoost := some 0.38, energyBoost := some 0.44, geometryVariant := some "lattice",
          portalPulse := some 1.24 },
      core := some
        { speed := some 1.04, glitch := some 0.68, moire := some 0.3, density := some (-0.38),
          geometryVariant := some "lattice" },
      accent := some { hueShift := some 14, glitch := some 0.32, moire := some 0.18 },
      partner := some
        { intensity := some 0.58, densityBias := some (-0.36), hueSpin := some (-0.24),
          duration := some 1500 },
      portal := some
        { depthDelta := some 0.76, rotationDelta := some (-0.48), pulse := some 1.08,
          duration := some 1560 },
      background := some
        { energy := some 0.9, twist := some (-0.44), offsetX := some (-0.14),
          offsetY := some 0.2 },
      fragment := some
        { kind := some "fracture",
          segments := some
            [ "Lattice Rupture Relay", "Counter Shard \x7btrait\x7d",
              "Depth Transfer \x7bsignature\x7d" ] } } ]

/-- The object `VIB34D_DESTRUCTION_FLOURISHES`, with its key `default` set to the
`quantum` list. -/
def VIB34D_DESTRUCTION_FLOURISHES (α : Type) [LinearOrderedField α] :
    List (String × List (Flourish α)) :=
  [ ("quantum", quantumFlourishes α), ("holographic", holographicFlourishes α),
    ("faceted", facetedFlourishes α), ("default", quantumFlourishes α) ]

/-- The value chosen at the head of `getDestructionFlourish`:
`VIB34D_DESTRUCTION_FLOURISHES[this.systemType] || VIB34D_DESTRUCTION_FLOURISHES.default || []`,
as the array-like object that the method indexes: the list of the family (an array, even
an empty one, is truthy), the default list for a name that is no property of the table,
and for a name inherited from `Object.prototype` the inherited function, whose `length` is
its arity and whose elements are all `undefined` (`none`); the prototype object behind
`__proto__` has no `length`, which the method treats like an empty list. -/
def VIB34DTiltVisualizer.flourishLibrary (self : VIB34DTiltVisualizer α) :
    List (Option (Flourish α)) :=
  match objectGet (VIB34D_DESTRUCTION_FLOURISHES α) self.systemType with
  | .own library => library.map some
  | .inherited (some arity) => List.replicate arity none
  | .inherited none => []
  | .absent => (((VIB34D_DESTRUCTION_FLOURISHES α).lookup "default").getD []).map some

/-- `VIB34DTiltVisualizer.getDestructionFlourish()`: the instance after the call and the
returned flourish (`null` is `none`). -/
def VIB34DTiltVisualizer.getDestructionFlourish (self : VIB34DTiltVisualizer α) :
    VIB34DTiltVisualizer α × Option (Flourish α) :=
  let library : List (Option (Flourish α)) := self.flourishLibrary
  if library.length = 0 then (self, none)
  else
    let flourish : Option (Flourish α) :=
      (library[self.flourishIndex % library.length]?).join
    ({ self with flourishIndex := (self.flourishIndex + 1) % library.length }, flourish)

/-- The flourishes returned by `k` consecutive calls of `getDestructionFlourish`, first
call first, and the instance after them. -/
def VIB34DTiltVisualizer.drawFlourishes (self : VIB34DTiltVisualizer α) :
    Nat → List (Option (Flourish α)) × VIB34DTiltVisualizer α
  | 0 => ([], self)
  | k + 1 =>
    let first := self.getDestructionFlourish
    let rest := drawFlourishes first.1 k
    (first.2 :: rest.1, rest.2)

/-- `VIB34DTiltVisualizer.triggerDestructionSequence()`: the instance after the call and
the returned trait; `now` is the reading of `performance.now()`. -/
def VIB34DTiltVisualizer.triggerDestructionSequence (self : VIB34DTiltVisualizer α)
    (now : α) : VIB34DTiltVisualizer α × Trait α :=
  let self : VIB34DTiltVisualizer α := self.setCardState "destroyed" none
  let self : VIB34DTiltVisualizer α :=
    { self with
      interaction :=
        { active := true, start := now, duration := 1600, peak := 1.4,
          magnitude := self.interaction.magnitude }
      targetState := { self.targetState with wPulse := max self.targetState.wPulse 1.4 } }
  let hueDiff : α := jsMod (self.state.hue - self.presets.baseHue + 540) 360 - 180
  let accentDiff : α := jsMod (self.state.accentHue - self.presets.accentHue + 540) 360 - 180
  let baseTrait : Trait α :=
    { hueShift := some hueDiff
      accentShift := some accentDiff
      moireBoost := some (self.state.moire - self.presets.baseMoire)
      glitchBoost := some (self.state.glitch - self.presets.baseGlitch)
      energyBoost := some (self.state.energy - 0.6)
      geometryVariant := self.state.geometryVariant
      portalPulse := some self.state.wPulse }
  let drawn := self.getDestructionFlourish
  drawn.1.applyDestructionFlourish drawn.2 baseTrait

end FlourishCatalog

/-! ## HypercubeCore: state, uniform bindings and dirty tracking -/

/-- A primitive JavaScript value held by a property of the core state or passed as a
parameter. -/
inductive JSValue (α : Type) where
  | undefined
  | null
  | bool (b : Bool)
  | num (x : α)
  | str (s : String)
deriving DecidableEq, Repr

/-- The value of a property of a parameters object: a primitive, a `colorScheme` object
(an absent colour array is `none`) or an `audioLevels` object (an absent level is
`undefined`). -/
inductive ParameterValue (α : Type) where
  | value (v : JSValue α)
  | colorScheme (primary secondary background : Option (List α))
  | audioLevels (bass mid high : JSValue α)
deriving DecidableEq, Repr

/-- The object `state.audioLevels`. -/
structure AudioLevels (α : Type) where
  bass : JSValue α
  mid : JSValue α
  high : JSValue α
deriving DecidableEq, Repr

/-- The object `state.colorScheme`: three colour arrays. -/
structure ColorScheme (α : Type) where
  primary : List α
  secondary : List α
  background : List α
deriving DecidableEq, Repr

/-- The state object of a core. The clock fields, `resolution`, `audioLevels`,
`colorScheme` and `_dirtyUniforms` (a `Set`, kept in insertion order) are fields; every
other property (`isRendering`, `animationFrameId`, `geometryType`, `projectionMethod`, the
scalar parameters, `needsShaderUpdate` and whatever key `updateParameters` adds) is an entry
of `values`. -/
structure CoreState (α : Type) where
  startTime : α
  lastUpdateTime : α
  deltaTime : α
  time : α
  resolution : List α
  values : List (String × JSValue α)
  audioLevels : AudioLevels α
  colorScheme : ColorScheme α
  dirtyUniforms : List String
deriving DecidableEq, Repr

/-- A call of the rendering context that sets a uniform. -/
inductive GLCall (α : Type) where
  | uniform1f (location : Nat) (value : JSValue α)
  | uniform2f (location : Nat) (x y : α)
  | uniform3f (location : Nat) (x y z : α)
  | uniform1i (location : Nat) (value : Nat)
deriving DecidableEq, Repr

/-- An entry of `createUniformBindings()`: `call` is `apply(gl, location, value)` at
`value = getter ? getter(state) : state[key]`. -/
structure UniformBinding (α : Type) where
  uniform : String
  dynamic : Bool := false
  call : CoreState α → Nat → GLCall α

/-- A WebGL rendering context as far as the core reads it: `shaderError` is the message of
the error thrown by `compileShader` or `linkProgram` (`none` when both succeed),
`uniformLocation` lists the uniform names for which `getUniformLocation` returns a location
(it returns `null` for the others). -/
structure RenderingContext where
  shaderError : Option String := none
  uniformLocation : List (String × Nat)
deriving DecidableEq, Repr

/-- A canvas element: `visualizerId` is `canvas.dataset.visualizerId`, `id` is `canvas.id`
(the empty string when not set), `context` is what `getContext('webgl')` or
`getContext('experimental-webgl')` returns, `rectWidth` and `rectHeight` are the size
reported by `getBoundingClientRect()`. -/
structure Canvas (α : Type) where
  visualizerId : Option String := none
  id : String := ""
  context : Option RenderingContext := none
  rectWidth : α
  rectHeight : α
deriving DecidableEq, Repr

/-- An instance of `VIB34DHypercubeCore`; `program` tells whether `this.program` is set. -/
structure VIB34DHypercubeCore (α : Type) where
  canvas : Canvas α
  gl : Option RenderingContext
  state : CoreState α
  uniformLocations : Option (List (String × Option Nat))
  program : Bool
deriving DecidableEq, Repr

/-- An instance of `VIB34DVisualizerPool`: the `Map` of instances in insertion order. -/
structure VIB34DVisualizerPool (α : Type) where
  instances : List (String × VIB34DHypercubeCore α)
deriving DecidableEq, Repr

section Core

variable {α : Type} [LinearOrderedField α] [FloorRing α]

/-- Truthiness of a primitive. -/
def JSValue.truthy : JSValue α → Bool
  | .undefined => false
  | .null => false
  | .bool b => b
  | .num x => decide (x ≠ 0)
  | .str s => decide (s ≠ "")

/-- `value ?? fallback`. -/
def JSValue.nullish (value fallback : JSValue α) : JSValue α :=
  match value with
  | .undefined => fallback
  | .null => fallback
  | v => v

/-- `state[key]`; a missing property is `undefined`. -/
def CoreState.get (state : CoreState α) (key : String) : JSValue α :=
  (state.values.lookup key).getD .undefined

/-- `object[key] = value` on a list of properties: an existing property keeps its place. -/
def setValue (values : List (String × JSValue α)) (key : String) (value : JSValue α) :
    List (String × JSValue α) :=
  if (values.lookup key).isSome then
    values.map (fun entry => if entry.1 = key then (key, value) else entry)
  else values ++ [(key, value)]

/-- `state[key] = value`. -/
def CoreState.set (state : CoreState α) (key : String) (value : JSValue α) : CoreState α :=
  { state with values := setValue state.values key value }

/-- `VIB34D_DEFAULT_STATE`. -/
def VIB34D_DEFAULT_STATE (α : Type) [LinearOrderedField α] : CoreState α :=
  { startTime := 0
    lastUpdateTime := 0
    deltaTime := 0
    time := 0
    resolution := [0, 0]
    values :=
      [ ("isRendering", .bool false), ("animationFrameId", .null),
        ("geometryType", .str "hypercube"), ("projectionMethod", .str "perspective"),
        ("dimensions", .num 4.0), ("morphFactor", .num 0.65), ("rotationSpeed", .num 0.35),
        ("universeModifier", .num 1.0), ("patternIntensity", .num 1.0),
        ("gridDensity", .num 6.0), ("lineThickness", .num 0.03), ("shellWidth", .num 0.025),
        ("tetraThickness", .num 0.035), ("glitchIntensity", .num 0.0),
        ("colorShift", .num 0.0), ("interactionIntensity", .num 0.0),
        ("portalPulse", .num 0.0), ("rot4dXW", .num 0.0), ("rot4dYW", .num 0.0),
        ("rot4dZW", .num 0.0), ("rot4dXY", .num 0.0), ("rot4dXZ", .num 0.0),
        ("rot4dYZ", .num 0.0), ("needsShaderUpdate", .bool false) ]
    audioLevels := { bass := .num 0, mid := .num 0, high := .num 0 }
    colorScheme :=
      { primary := [0.7, 0.1, 0.9], secondary := [0.1, 0.9, 0.9],
        background := [0.03, 0.0, 0.1] }
    dirtyUniforms := [] }

/-- The property `audioLevels` of a parameters object read as `audio.bass`, `audio.mid`,
`audio.high`: a primitive or an object of another shape has none of them. -/
def audioArgument (parameters : List (String × ParameterValue α)) : AudioLevels α :=
  match parameters.lookup "audioLevels" with
  | some (.audioLevels bass mid high) => { bass := bass, mid := mid, high := high }
  | _ => { bass := .undefined, mid := .undefined, high := .undefined }

/-- The property `colorScheme` of a parameters object read as `scheme.primary`,
`scheme.secondary`, `scheme.background`. -/
def schemeArgument (parameters : List (String × ParameterValue α)) :
    Option (List α) × Option (List α) × Option (List α) :=
  match parameters.lookup "colorScheme" with
  | some (.colorScheme primary secondary background) => (primary, secondary, background)
  | _ => (none, none, none)

/-- `createVIB34DState(overrides)`: the primitive properties of `overrides` are spread over
the defaults, the audio levels and the colour scheme are rebuilt, the dirty set is new. -/
def createVIB34DState (overrides : List (String × ParameterValue α)) : CoreState α :=
  let defaults : CoreState α := VIB34D_DEFAULT_STATE α
  let values : List (String × JSValue α) :=
    overrides.foldl
      (fun merged entry =>
        match entry.2 with
        | .value v =>
          if entry.1 = "colorScheme" ∨ entry.1 = "audioLevels" then merged
          else setValue merged entry.1 v
        | _ => merged)
      defaults.values
  let overrideAudio : AudioLevels α := audioArgument overrides
  let overrideScheme := schemeArgument overrides
  { defaults with
    values := values
    audioLevels :=
      { bass := overrideAudio.bass.nullish defaults.audioLevels.bass
        mid := overrideAudio.mid.nullish defaults.audioLevels.mid
        high := overrideAudio.high.nullish defaults.audioLevels.high }
    colorScheme :=
      { primary := overrideScheme.1.getD defaults.colorScheme.primary
        secondary := overrideScheme.2.1.getD defaults.colorScheme.secondary
        background := overrideScheme.2.2.getD defaults.colorScheme.background }
    dirtyUniforms := [] }

/-- A binding without getter whose `apply` is `gl.uniform1f(location, value ?? fallback)`. -/
def scalarBinding (key uniform : String) (fallback : α) : String × UniformBinding α :=
  (key,
    { uniform := uniform
      call := fun state location =>
        .uniform1f location ((state.get key).nullish (.num fallback)) })

/-- A binding of one audio level: the getter is `state.audioLevels?.level ?? 0`. -/
def audioBinding (key uniform : String) (level : AudioLevels α → JSValue α) :
    String × UniformBinding α :=
  (key,
    { uniform := uniform
      call := fun state location =>
        .uniform1f location (((level state.audioLevels).nullish (.num 0)).nullish (.num 0)) })

/-- A binding of one colour: `gl.uniform3f(location, value[0] ?? 0, value[1] ?? 0,
value[2] ?? 0)`. -/
def colorBinding (key uniform : String) (color : ColorScheme α → List α) :
    String × UniformBinding α :=
  (key,
    { uniform := uniform
      call := fun state location =>
        let value : List α := color state.colorScheme
        .uniform3f location (value[0]?.getD 0) (value[1]?.getD 0) (value[2]?.getD 0) })

/-- `VIB34DHypercubeCore.prototype.createUniformBindings()`, in the order of
`Object.entries`. -/
def createUniformBindings (α : Type) [LinearOrderedField α] :
    List (String × UniformBinding α) :=
  [ ("resolution",
      { uniform := "u_resolution"
        dynamic := true
        call := fun state location =>
          .uniform2f location (state.resolution[0]?.getD 0) (state.resolution[1]?.getD 0) }),
    ("time",
      { uniform := "u_time"
        dynamic := true
        call := fun state location => .uniform1f location (.num (numOr state.time 0)) }),
    scalarBinding "dimensions" "u_dimension" 4.0,
    scalarBinding "morphFactor" "u_morphFactor" 0,
    scalarBinding "rotationSpeed" "u_rotationSpeed" 0,
    scalarBinding "universeModifier" "u_universeModifier" 1,
    scalarBinding "patternIntensity" "u_patternIntensity" 1,
    scalarBinding "gridDensity" "u_gridDensity" 0,
    scalarBinding "lineThickness" "u_lineThickness" 0,
    scalarBinding "shellWidth" "u_shellWidth" 0,
    scalarBinding "tetraThickness" "u_tetraThickness" 0,
    scalarBinding "glitchIntensity" "u_glitchIntensity" 0,
    scalarBinding "colorShift" "u_colorShift" 0,
    scalarBinding "interactionIntensity" "u_interactionIntensity" 0,
    scalarBinding "portalPulse" "u_portalPulse" 0,
    scalarBinding "rot4dXY" "u_rot4dXY" 0,
    scalarBinding "rot4dXZ" "u_rot4dXZ" 0,
    scalarBinding "rot4dYZ" "u_rot4dYZ" 0,
    scalarBinding "rot4dXW" "u_rot4dXW" 0,
    scalarBinding "rot4dYW" "u_rot4dYW" 0,
    scalarBinding "rot4dZW" "u_rot4dZW" 0,
    audioBinding "audioBass" "u_audioBass" (fun audio => audio.bass),
    audioBinding "audioMid" "u_audioMid" (fun audio => audio.mid),
    audioBinding "audioHigh" "u_audioHigh" (fun audio => audio.high),
    colorBinding "colorPrimary" "u_primaryColor" (fun scheme => scheme.primary),
    colorBinding "colorSecondary" "u_secondaryColor" (fun scheme => scheme.secondary),
    colorBinding "colorBackground" "u_backgroundColor" (fun scheme => scheme.background),
    ("geometryType",
      { uniform := "u_geometry"
        call := fun state location =>
          .uniform1i location
            (match state.get "geometryType" with
              | .str name => (VIB34D_GEOMETRY_INDEX.lookup name).getD 0
              | _ => 0) }) ]

/-- The uniform names whose locations `createProgram` looks up, in source order. -/
def programUniforms : List String :=
  [ "u_resolution", "u_time", "u_dimension", "u_morphFactor", "u_rotationSpeed",
    "u_universeModifier", "u_patternIntensity", "u_gridDensity", "u_lineThickness",
    "u_shellWidth", "u_tetraThickness", "u_glitchIntensity", "u_colorShift",
    "u_interactionIntensity", "u_portalPulse", "u_rot4dXY", "u_rot4dXZ", "u_rot4dYZ",
    "u_rot4dXW", "u_rot4dYW", "u_rot4dZW", "u_audioBass", "u_audioMid", "u_audioHigh",
    "u_primaryColor", "u_secondaryColor", "u_backgroundColor", "u_geometry" ]

/-- `Set.prototype.add`. -/
def setAdd (names : List String) (name : String) : List String :=
  if name ∈ names then names else names ++ [name]

/-- `VIB34DHypercubeCore.prototype.markUniformDirty(name)`. -/
def VIB34DHypercubeCore.markUniformDirty (self : VIB34DHypercubeCore α) (name : String) :
    VIB34DHypercubeCore α :=
  if ((createUniformBindings α).lookup name).isSome then
    { self with state := { self.state with dirtyUniforms := setAdd self.state.dirtyUniforms name } }
  else self

/-- `VIB34DHypercubeCore.prototype.resetUniformCache()`. -/
def VIB34DHypercubeCore.resetUniformCache (self : VIB34DHypercubeCore α) :
    VIB34DHypercubeCore α :=
  let names : List String := (createUniformBindings α).map Prod.fst
  { self with state := { self.state with dirtyUniforms := names.foldl setAdd [] } }

/-- `VIB34DHypercubeCore.handleResize()`; the canvas size and the viewport are not part of
the model. -/
def VIB34DHypercubeCore.handleResize (self : VIB34DHypercubeCore α) : VIB34DHypercubeCore α :=
  match self.gl with
  | none => self
  | some _ =>
    let resized : VIB34DHypercubeCore α :=
      { self with
        state := { self.state with resolution := [self.canvas.rectWidth, self.canvas.rectHeight] } }
    resized.markUniformDirty "resolution"

/-- `VIB34DHypercubeCore.buildProgram()`: `createProgram` throws when a shader does not
compile or the program does not link. -/
def VIB34DHypercubeCore.buildProgram (self : VIB34DHypercubeCore α) :
    Except String (VIB34DHypercubeCore α) :=
  match self.gl with
  | none => .ok self
  | some gl =>
    match gl.shaderError with
    | some message => .error message
    | none =>
      let uniformLocations : List (String × Option Nat) :=
        programUniforms.map (fun name => (name, gl.uniformLocation.lookup name))
      let built : VIB34DHypercubeCore α :=
        { self with
          program := true
          uniformLocations := some uniformLocations
          state := self.state.set "needsShaderUpdate" (.bool false) }
      .ok built.resetUniformCache

/-- One turn of the loop of `updateUniforms` for the entry `[key, binding]`: the state (of
which only the dirty set changes) and the calls issued so far. -/
def updateUniformsStep (loc : List (String × Option Nat))
    (acc : CoreState α × List (String × GLCall α)) (entry : String × UniformBinding α) :
    CoreState α × List (String × GLCall α) :=
  let key : String := entry.1
  let binding : UniformBinding α := entry.2
  if !binding.dynamic && !(acc.1.dirtyUniforms.contains key) then acc
  else
    match (loc.lookup binding.uniform).join with
    | none => acc
    | some location =>
      let issued : GLCall α := binding.call acc.1 location
      let state : CoreState α :=
        if !binding.dynamic then
          { acc.1 with dirtyUniforms := acc.1.dirtyUniforms.erase key }
        else acc.1
      (state, acc.2 ++ [(key, issued)])

/-- `VIB34DHypercubeCore.updateUniforms()`: the instance after the push and the uniform
calls issued, each with the key of its binding, in order. -/
def VIB34DHypercubeCore.updateUniforms (self : VIB34DHypercubeCore α) :
    VIB34DHypercubeCore α × List (String × GLCall α) :=
  match self.gl, self.uniformLocations with
  | some _, some loc =>
    let pushed := (createUniformBindings α).foldl (updateUniformsStep loc) (self.state, [])
    ({ self with state := pushed.1 }, pushed.2)
  | _, _ => (self, [])

/-- `VIB34DHypercubeCore.drawFrame()`; the buffer and draw calls are not part of the
model. -/
def VIB34DHypercubeCore.drawFrame (self : VIB34DHypercubeCore α) :
    VIB34DHypercubeCore α × List (String × GLCall α) :=
  if self.gl.isNone || !self.program then (self, [])
  else self.updateUniforms

/-- `VIB34DHypercubeCore.renderLoop()`: `now` is the reading of `performance.now()`,
`frameId` the handle returned by `requestAnimationFrame`. -/
def VIB34DHypercubeCore.renderLoop (self : VIB34DHypercubeCore α) (now frameId : α) :
    Except String (VIB34DHypercubeCore α × List (String × GLCall α)) :=
  if !(self.state.get "isRendering").truthy || self.gl.isNone then .ok (self, [])
  else
    let deltaTime : α := now - self.state.lastUpdateTime
    let ticked : VIB34DHypercubeCore α :=
      { self with
        state :=
          { self.state with
            deltaTime := deltaTime
            lastUpdateTime := now
            time := self.state.time + deltaTime / 1000 } }
    let rebuilt : Except String (VIB34DHypercubeCore α) :=
      if (ticked.state.get "needsShaderUpdate").truthy then ticked.buildProgram
      else .ok ticked
    match rebuilt with
    | .error message => .error message
    | .ok ready =>
      let drawn := ready.drawFrame
      .ok ({ drawn.1 with state := drawn.1.state.set "animationFrameId" (.num frameId) },
        drawn.2)

/-- `VIB34DHypercubeCore.start()`: `now` and `frameNow` are the readings of
`performance.now()` in `start` and in `renderLoop`. -/
def VIB34DHypercubeCore.start (self : VIB34DHypercubeCore α) (now frameNow frameId : α) :
    Except String (VIB34DHypercubeCore α × List (String × GLCall α)) :=
  if self.gl.isNone || (self.state.get "isRendering").truthy then .ok (self, [])
  else
    let started : VIB34DHypercubeCore α :=
      { self with
        state :=
          { self.state.set "isRendering" (.bool true) with
            startTime := now
            lastUpdateTime := now } }
    started.renderLoop frameNow frameId

/-- The constructor of `VIB34DHypercubeCore` with `initialize()`: the new instance and the
uniform calls issued by the first frame, or the error thrown by `createProgram`.
`initialState` is `options.initialState || {}`. -/
def VIB34DHypercubeCore.new (canvas : Canvas α)
    (initialState : List (String × ParameterValue α)) (now frameNow frameId : α) :
    Except String (VIB34DHypercubeCore α × List (String × GLCall α)) :=
  let created : VIB34DHypercubeCore α :=
    { canvas := canvas
      gl := canvas.context
      state := createVIB34DState initialState
      uniformLocations := none
      program := false }
  match created.gl with
  | none => .ok (created, [])
  | some _ =>
    match created.handleResize.buildProgram with
    | .error message => .error message
    | .ok built => built.start now frameNow frameId

/-- One turn of `keys.forEach` in `updateParameters`, for the property `key` of
`parameters` with the value `value`. An object under a key other than `colorScheme` and
`audioLevels` is not part of the model and is skipped. -/
def VIB34DHypercubeCore.updateParameter (self : VIB34DHypercubeCore α)
    (entry : String × ParameterValue α) : VIB34DHypercubeCore α :=
  let key : String := entry.1
  if key = "colorScheme" then
    let truthy : Bool :=
      match entry.2 with
      | .value v => v.truthy
      | _ => true
    if truthy then
      let scheme := schemeArgument [entry]
      let current : ColorScheme α := self.state.colorScheme
      let rebuilt : VIB34DHypercubeCore α :=
        { self with
          state :=
            { self.state with
              colorScheme :=
                { primary := scheme.1.getD current.primary
                  secondary := scheme.2.1.getD current.secondary
                  background := scheme.2.2.getD current.background } } }
      ((rebuilt.markUniformDirty "colorPrimary").markUniformDirty
        "colorSecondary").markUniformDirty "colorBackground"
    else self
  else if key = "audioLevels" then
    let audio : AudioLevels α := audioArgument [entry]
    let rebuilt : VIB34DHypercubeCore α :=
      { self with
        state :=
          { self.state with
            audioLevels :=
              { bass := audio.bass.nullish self.state.audioLevels.bass
                mid := audio.mid.nullish self.state.audioLevels.mid
                high := audio.high.nullish self.state.audioLevels.high } } }
    ((rebuilt.markUniformDirty "audioBass").markUniformDirty "audioMid").markUniformDirty
      "audioHigh"
  else
    match entry.2 with
    | .value v =>
      if self.state.get key ≠ v then
        ({ self with state := self.state.set key v } : VIB34DHypercubeCore α).markUniformDirty
          key
      else self
    | _ => self

/-- `VIB34DHypercubeCore.updateParameters(parameters)`: `parameters` lists the own
properties of the object in the order of `Object.keys`, each key once. The keys of the
clock fields, of `resolution` and of `_dirtyUniforms` are not passed as parameters. -/
def VIB34DHypercubeCore.updateParameters (self : VIB34DHypercubeCore α)
    (parameters : List (String × ParameterValue α)) : VIB34DHypercubeCore α :=
  let updated : VIB34DHypercubeCore α :=
    parameters.foldl VIB34DHypercubeCore.updateParameter self
  match parameters.lookup "projectionMethod" with
  | some (.value method) =>
    if method.truthy && decide (method ≠ updated.state.get "projectionMethod") then
      { updated with
        state :=
          (updated.state.set "projectionMethod" method).set "needsShaderUpdate" (.bool true) }
    else updated
  | _ => updated

/-- `VIB34DVisualizerPool.createInstance(canvas, config)`: the pool after the call and the
returned instance, or the error thrown by the constructor of the core. `initialState` is
`config.initialState || {}`; `now`, `frameNow` and `frameId` are read by the constructor. -/
def VIB34DVisualizerPool.createInstance (self : VIB34DVisualizerPool α) (canvas : Canvas α)
    (initialState : List (String × ParameterValue α)) (now frameNow frameId : α) :
    Except String (VIB34DVisualizerPool α × VIB34DHypercubeCore α) :=
  let key : String :=
    ((truthyString canvas.visualizerId).orElse (fun _ => truthyString (some canvas.id))).getD
      ("viz-" ++ toString self.instances.length)
  match self.instances.lookup key with
  | some existing => .ok (self, existing)
  | none =>
    match VIB34DHypercubeCore.new canvas initialState now frameNow frameId with
    | .error message => .error message
    | .ok created =>
      .ok ({ self with instances := self.instances ++ [(key, created.1)] }, created.1)

end Core

/-! ## GeometricTiltSystem: tilt smoothing and the rotation mapping -/

/-- The tilt sample `this.tiltData`, in degrees. -/
structure TiltData (α : Type) where
  alpha : α
  beta : α
  gamma : α
deriving DecidableEq, Repr

/-- A `deviceorientation` event: an angle that the device does not report is `null`. -/
structure OrientationEvent (α : Type) where
  alpha : Option α
  beta : Option α
  gamma : Option α
deriving DecidableEq, Repr

/-- A `mousemove` event, with `window.innerWidth` and `window.innerHeight` as read by the
handler (both positive). -/
structure PointerMove (α : Type) where
  clientX : α
  clientY : α
  innerWidth : α
  innerHeight : α
deriving DecidableEq, Repr

/-- An instance of `VIB34DGeometricTiltSystem`: the tilt sample, the rotation mapped from
it, the six sensitivities (an object with the keys of the rotation) and the smoothing
factor. The registered visualizers, the tilt indicator and the emitted metrics are not
part of the model. -/
structure VIB34DGeometricTiltSystem (α : Type) where
  tiltData : TiltData α
  rotation4D : Rotation4D α
  sensitivity : Rotation4D α
  smoothing : α
deriving DecidableEq, Repr

/-- An update of the tilt sample: the `deviceorientation` listener (`updateTiltData`, then
`processTiltUpdate`) or the `mousemove` listener of the fallback
(`simulateTiltFromMouse`). -/
inductive TiltUpdate (α : Type) where
  | deviceorientation (event : OrientationEvent α)
  | mousemove (event : PointerMove α)
deriving DecidableEq, Repr

section TiltSystem

variable {α : Type} [LinearOrderedField α]

/-- The constructor of `VIB34DGeometricTiltSystem`. -/
def VIB34DGeometricTiltSystem.new : VIB34DGeometricTiltSystem α :=
  { tiltData := { alpha := 0, beta := 0, gamma := 0 }
    rotation4D :=
      { rot4dXW := 0.0, rot4dYW := 0.0, rot4dZW := 0.0, rot4dXY := 0.0, rot4dXZ := 0.0,
        rot4dYZ := 0.0 }
    sensitivity :=
      { rot4dXW := 0.02, rot4dYW := 0.02, rot4dZW := 0.01, rot4dXY := 0.015,
        rot4dXZ := 0.018, rot4dYZ := 0.018 }
    smoothing := 0.15 }

/-- `VIB34DGeometricTiltSystem.clampAngle(angle, min, max)` on a number. -/
def clampAngle (angle lo hi : α) : α :=
  max lo (min hi angle)

/-- `VIB34DGeometricTiltSystem.updateTiltData(event)`; a `null` angle of the event counts
as `0` in the subtraction. -/
def VIB34DGeometricTiltSystem.updateTiltData (self : VIB34DGeometricTiltSystem α)
    (event : OrientationEvent α) : VIB34DGeometricTiltSystem α :=
  let t : TiltData α := self.tiltData
  let alpha : α := t.alpha + (event.alpha.getD 0 - t.alpha) * self.smoothing
  let beta : α := t.beta + (event.beta.getD 0 - t.beta) * self.smoothing
  let gamma : α := t.gamma + (event.gamma.getD 0 - t.gamma) * self.smoothing
  { self with
    tiltData :=
      { alpha := clampAngle alpha (-180) 180
        beta := clampAngle beta (-90) 90
        gamma := clampAngle gamma (-90) 90 } }

/-- `VIB34DGeometricTiltSystem.calculateVIB34DRotation()`. -/
def VIB34DGeometricTiltSystem.calculateVIB34DRotation (self : VIB34DGeometricTiltSystem α) :
    VIB34DGeometricTiltSystem α :=
  let t : TiltData α := self.tiltData
  let s : Rotation4D α := self.sensitivity
  let rot4dXW : α := (t.beta / 90) * 2.0 * s.rot4dXW
  let rot4dYW : α := (t.gamma / 90) * 2.0 * s.rot4dYW
  let rot4dZW : α := (t.alpha / 180) * 2.0 * s.rot4dZW
  let normAlpha : α := t.alpha / 180
  let normBeta : α := t.beta / 90
  let normGamma : α := t.gamma / 90
  let diagonal : α := (normGamma - normBeta) * 0.85
  let swirl : α := normAlpha * 0.75
  let rot4dXY : α := (diagonal + swirl * 0.35) * 2.0 * s.rot4dXY
  let rot4dXZ : α := ((normBeta * 0.9) + swirl * 0.45) * 2.0 * s.rot4dXZ
  let rot4dYZ : α := ((normGamma * 0.9) - swirl * 0.45) * 2.0 * s.rot4dYZ
  { self with
    rotation4D :=
      { rot4dXW := max (-2.0) (min 2.0 rot4dXW)
        rot4dYW := max (-2.0) (min 2.0 rot4dYW)
        rot4dZW := max (-2.0) (min 2.0 rot4dZW)
        rot4dXY := max (-2.0) (min 2.0 rot4dXY)
        rot4dXZ := max (-2.0) (min 2.0 rot4dXZ)
        rot4dYZ := max (-2.0) (min 2.0 rot4dYZ) } }

/-- `VIB34DGeometricTiltSystem.processTiltUpdate()` as far as the system itself is
concerned: the rotation is recomputed from the tilt sample. -/
def VIB34DGeometricTiltSystem.processTiltUpdate (self : VIB34DGeometricTiltSystem α) :
    VIB34DGeometricTiltSystem α :=
  self.calculateVIB34DRotation

/-- `VIB34DGeometricTiltSystem.simulateTiltFromMouse(event)`. -/
def VIB34DGeometricTiltSystem.simulateTiltFromMouse (self : VIB34DGeometricTiltSystem α)
    (event : PointerMove α) : VIB34DGeometricTiltSystem α :=
  let centerX : α := event.innerWidth / 2
  let centerY : α := event.innerHeight / 2
  let deltaX : α := (event.clientX - centerX) / centerX
  let deltaY : α := (event.clientY - centerY) / centerY
  let moved : VIB34DGeometricTiltSystem α :=
    { self with
      tiltData :=
        { gamma := deltaX * 45
          beta := deltaY * 45
          alpha := self.tiltData.alpha + 0.5 } }
  moved.processTiltUpdate

/-- One update of the tilt sample by a listener. -/
def VIB34DGeometricTiltSystem.update (self : VIB34DGeometricTiltSystem α) :
    TiltUpdate α → VIB34DGeometricTiltSystem α
  | .deviceorientation event => (self.updateTiltData event).processTiltUpdate
  | .mousemove event => self.simulateTiltFromMouse event

/-- A finite sequence of updates of the tilt sample, first update first. -/
def VIB34DGeometricTiltSystem.run (self : VIB34DGeometricTiltSystem α)
    (updates : List (TiltUpdate α)) : VIB34DGeometricTiltSystem α :=
  updates.foldl (fun system u => system.update u) self

/-- The ranges of the tilt sample: `alpha` in `[-180, 180]`, `beta` and `gamma` in
`[-90, 90]`. -/
def TiltData.InRange (t : TiltData α) : Prop :=
  (-180 ≤ t.alpha ∧ t.alpha ≤ 180) ∧ (-90 ≤ t.beta ∧ t.beta ≤ 90) ∧
    (-90 ≤ t.gamma ∧ t.gamma ≤ 90)

/-- The six plane angles lie in `[-2, 2]`. -/
def Rotation4D.InRange (r : Rotation4D α) : Prop :=
  (-2 ≤ r.rot4dXW ∧ r.rot4dXW ≤ 2) ∧ (-2 ≤ r.rot4dYW ∧ r.rot4dYW ≤ 2) ∧
    (-2 ≤ r.rot4dZW ∧ r.rot4dZW ≤ 2) ∧ (-2 ≤ r.rot4dXY ∧ r.rot4dXY ≤ 2) ∧
    (-2 ≤ r.rot4dXZ ∧ r.rot4dXZ ≤ 2) ∧ (-2 ≤ r.rot4dYZ ∧ r.rot4dYZ ≤ 2)

end TiltSystem

/-! ## Predicates of the geometry invariant -/

/-- The value is a string that passes the test `VIB34D_GEOMETRY_INDEX[value] !== undefined`:
a geometry name of the table or a property name inherited from `Object.prototype`. -/
def knownGeometry (variant : Option String) : Bool :=
  match variant with
  | some name => hasProperty VIB34D_GEOMETRY_INDEX name
  | none => false

/-- The value is a member of the geometry cycle. -/
def inGeometryCycle (cycle : List String) (variant : Option String) : Bool :=
  match variant with
  | some name => cycle.contains name
  | none => false

section GeometryInvariant

variable {α : Type} [LinearOrderedField α] [FloorRing α]

/-- The geometry invariant that the calls of an instance keep: both geometry variants
pass the test `VIB34D_GEOMETRY_INDEX[value] !== undefined`, the cycle holds such strings
only, and `variantIndex` is a position of the cycle. -/
def VIB34DTiltVisualizer.GeometryKnown (v : VIB34DTiltVisualizer α) : Prop :=
  knownGeometry v.state.geometryVariant = true ∧
    knownGeometry v.targetState.geometryVariant = true ∧
    v.variantIndex < v.presets.geometryCycle.length ∧
    ∀ name ∈ v.presets.geometryCycle, knownGeometry (some name) = true

end GeometryInvariant

section CycleInvariant

variable {α : Type} [LinearOrderedField α] [FloorRing α]

/-- Both geometry variants are members of the geometry cycle of the instance, the cycle
holds strings that pass the test `VIB34D_GEOMETRY_INDEX[value] !== undefined` only, and
`variantIndex` is a position of the cycle. -/
def VIB34DTiltVisualizer.GeometryInCycle (v : VIB34DTiltVisualizer α) : Prop :=
  inGeometryCycle v.presets.geometryCycle v.state.geometryVariant = true ∧
    inGeometryCycle v.presets.geometryCycle v.targetState.geometryVariant = true ∧
    v.variantIndex < v.presets.geometryCycle.length ∧
    ∀ name ∈ v.presets.geometryCycle, knownGeometry (some name) = true

end CycleInvariant

section Binary64

/-- The binary64 number nearest to the rational `q` (round to nearest, ties to even), the
rounding that every `+`, `-`, `*`, `/` and every decimal literal of the source goes
through: `|q|` is divided by the unit in the last place of its binade,
`2 ^ (⌊log₂ |q|⌋ - 52)` (`2 ^ -1074` in the subnormal range), and rounded to an integer
mantissa.  Overflow to `Infinity` is not modelled: the numbers rounded in the statements
about this model are far inside the finite range. -/
def roundDouble (q : ℚ) : ℚ :=
  if q = 0 then 0
  else
    let ulp : ℚ := 2 ^ max (Int.log 2 |q| - 52) (-1074)
    let scaled : ℚ := |q| / ulp
    let lower : ℤ := ⌊scaled⌋
    let rest : ℚ := scaled - lower
    let mantissa : ℤ :=
      if rest < 1 / 2 then lower
      else if 1 / 2 < rest then lower + 1
      else if lower % 2 = 0 then lower
      else lower + 1
    (if q < 0 then -1 else 1) * (mantissa * ulp)

/-- The members of `Math` read by `vib34dRotate4DVector` and `updateState`, as functions
from binary64 numbers to binary64 numbers. -/
structure DoubleMath where
  exp : ℚ → ℚ
  sin : ℚ → ℚ
  cos : ℚ → ℚ
  pi : ℚ

/-- The Taylor polynomial of degree 29 of the exponential function. -/
def expPolynomial (x : ℚ) : ℚ :=
  Finset.sum (Finset.range 30) (fun k => x ^ k / (k.factorial : ℚ))

/-- The Taylor polynomial of degree 49 of the sine. -/
def sinPolynomial (x : ℚ) : ℚ :=
  Finset.sum (Finset.range 25)
    (fun k => (-1) ^ k * x ^ (2 * k + 1) / ((2 * k + 1).factorial : ℚ))

/-- The Taylor polynomial of degree 48 of the cosine. -/
def cosPolynomial (x : ℚ) : ℚ :=
  Finset.sum (Finset.range 25) (fun k => (-1) ^ k * x ^ (2 * k) / ((2 * k).factorial : ℚ))

/-- The `Math` object of the binary64 model.  `Math.PI` is the binary64 number nearest to
π.  The language leaves the last bit of `Math.exp`, `Math.sin` and `Math.cos` to the
engine; here each returns the binary64 rounding of its Taylor polynomial.  The polynomial
of the exponential lies within `2 ^ -100` of the real function for `|x| ≤ 1`, those of the
sine and the cosine within `2 ^ -160` for `|x| ≤ 2`, so on these ranges the value is the
binary64 number nearest to the real value unless the real value is that close to the
midpoint of two binary64 numbers (at `x = Math.PI * 0.5`:
`Math.cos(x) = 6.123233995736766e-17` and `Math.sin(x) = 1`, as engines return). -/
def binary64Math : DoubleMath :=
  { exp := fun x => roundDouble (expPolynomial x)
    sin := fun x => roundDouble (sinPolynomial x)
    cos := fun x => roundDouble (cosPolynomial x)
    pi := 884279719003555 / 2 ^ 48 }

/-- The closure `applyPlaneRotation(indexA, indexB, key)` of `vib34dRotate4DVector` in
binary64 arithmetic: every product, sum and difference is rounded; `planeAngle` is
`rotation[key] || 0`. -/
def applyPlaneRotationDouble (M : DoubleMath) (result : Vec4 ℚ) (indexA indexB : Fin 4)
    (planeAngle : ℚ) : Vec4 ℚ :=
  let angleScale := roundDouble (M.pi * 0.5)
  let angle := roundDouble (planeAngle * angleScale)
  if angle = 0 then result
  else
    let cos := M.cos angle
    let sin := M.sin angle
    let a := result.get indexA
    let b := result.get indexB
    (result.set indexA (roundDouble (roundDouble (a * cos) - roundDouble (b * sin)))).set
      indexB (roundDouble (roundDouble (a * sin) + roundDouble (b * cos)))

/-- `vib34dRotate4DVector(vector, rotation)` in binary64 arithmetic. -/
def vib34dRotate4DVectorDouble (M : DoubleMath) (vector : Vec4 ℚ)
    (rotation : Rotation4D ℚ) : Vec4 ℚ :=
  let result : Vec4 ℚ := ⟨vector.x, vector.y, vector.z, vector.w⟩
  let result := applyPlaneRotationDouble M result 0 1 rotation.rot4dXY
  let result := applyPlaneRotationDouble M result 0 2 rotation.rot4dXZ
  let result := applyPlaneRotationDouble M result 1 2 rotation.rot4dYZ
  let result := applyPlaneRotationDouble M result 0 3 rotation.rot4dXW
  let result := applyPlaneRotationDouble M result 1 3 rotation.rot4dYW
  let result := applyPlaneRotationDouble M result 2 3 rotation.rot4dZW
  ⟨result.x, result.y, result.z, result.w⟩

/-- The squared norm `x*x + y*y + z*z + w*w` evaluated in binary64 arithmetic, left to
right. -/
def squaredNormDouble (v : Vec4 ℚ) : ℚ :=
  roundDouble (roundDouble (roundDouble (roundDouble (v.x * v.x) + roundDouble (v.y * v.y)) +
    roundDouble (v.z * v.z)) + roundDouble (v.w * v.w))

/-- `this.normalizeHue(value)` in binary64 arithmetic; `%` is exact on binary64 numbers. -/
def normalizeHueDouble (value : ℚ) : ℚ :=
  jsMod (roundDouble (jsMod value 360 + 360)) 360

/-- `VIB34DTiltVisualizer.updateState(now)` in binary64 arithmetic: the relaxation step
with every product, quotient, sum and difference rounded, and the literals `0.00016`,
`4.2`, `2.6`, `0.9`, `1.8` read as binary64 numbers. -/
def VIB34DTiltVisualizer.updateStateDouble (M : DoubleMath) (self : VIB34DTiltVisualizer ℚ)
    (now : ℚ) : VIB34DTiltVisualizer ℚ :=
  let delta := max (roundDouble 0.00016) (roundDouble (roundDouble (now - self.lastUpdate) / 1000))
  let factor := roundDouble (1 - M.exp (roundDouble (-delta * roundDouble 4.2)))
  let target := self.targetState
  let step : ℚ → ℚ → ℚ := fun current goal =>
    roundDouble (current + roundDouble (roundDouble (goal - current) * factor))
  let state : RenderState ℚ :=
    { self.state with
      speed := step self.state.speed target.speed
      glitch := step self.state.glitch target.glitch
      density := step self.state.density target.density
      moire := step self.state.moire target.moire
      hue := step self.state.hue target.hue
      accentHue := step self.state.accentHue target.accentHue
      energy := step self.state.energy target.energy
      wDepth := step self.state.wDepth target.wDepth
      wShear := step self.state.wShear target.wShear
      wPulse := step self.state.wPulse target.wPulse }
  let state : RenderState ℚ :=
    { state with
      hue := normalizeHueDouble state.hue
      accentHue := normalizeHueDouble state.accentHue
      geometryVariant := some (self.ensureGeometryVariant self.targetState.geometryVariant) }
  let interaction : Interaction ℚ :=
    if self.interaction.active then
      let progress := roundDouble (roundDouble (now - self.interaction.start) /
        self.interaction.duration)
      if progress ≥ 1 then
        { self.interaction with active := false, magnitude := 0 }
      else
        { self.interaction with
          magnitude :=
            roundDouble (M.sin (roundDouble (progress * M.pi)) * self.interaction.peak) }
    else
      { self.interaction with
        magnitude :=
          roundDouble (self.interaction.magnitude *
            max 0 (roundDouble (1 - roundDouble (delta * roundDouble 2.6)))) }
  { self with
    lastUpdate := now
    state := state
    interaction := interaction
    audioEnergy := max 0 (roundDouble (self.audioEnergy - roundDouble (delta * roundDouble 0.9)))
    audioPeak := max 0 (roundDouble (self.audioPeak - roundDouble (delta * roundDouble 1.8))) }

end Binary64

/-! ## Theorems -/

set_option linter.unusedSectionVars false

section RotationTheorems

variable {α : Type} [LinearOrderedField α]

theorem isRealMath_mkMath (atan2 pow : ℝ → ℝ → ℝ) :
    IsRealMath (mkMath Real.exp Real.sin Real.cos Real.sqrt atan2 pow Real.pi) := by
  refine ⟨rfl, rfl, rfl, rfl, ?_⟩
  intro a b
  simp [mkMath, sq]

theorem applyPlaneRotation_zero (M : JSMath α) (v : Vec4 α) (i j : Fin 4) :
    applyPlaneRotation M v i j 0 = v := by
  simp [applyPlaneRotation]

theorem applyPlaneRotation_eq_spec (M : JSMath ℝ) (hM : IsRealMath M) (v : Vec4 ℝ)
    (i j : Fin 4) (hij : i ≠ j) (t : ℝ) :
    applyPlaneRotation M v i j t = specPlaneRotation M i j t v := by
  obtain ⟨-, hsin, hcos, -, -⟩ := hM
  have hth : t * (M.pi * 0.5) = t * (M.pi / 2) := by ring
  unfold applyPlaneRotation specPlaneRotation
  simp only [hth]
  by_cases h0 : t * (M.pi / 2) = 0
  · simp only [h0, if_true, hsin, hcos, Real.sin_zero, Real.cos_zero]
    cases v
    fin_cases i <;> fin_cases j <;> simp_all [Vec4.get, Vec4.set]
  · simp only [h0, if_false]

/-- C6: with all six plane angles equal to 0, `vib34dRotate4DVector` returns the
input vector in all four components, whatever the `Math` functions are. -/
theorem vib34dRotate4DVector_zero (M : JSMath α) (v : Vec4 α) :
    vib34dRotate4DVector M v
      { rot4dXY := 0, rot4dXZ := 0, rot4dYZ := 0, rot4dXW := 0, rot4dYW := 0, rot4dZW := 0 }
      = v := by
  simp [vib34dRotate4DVector, applyPlaneRotation_zero]

/-- In exact real arithmetic, when only `rot4dXY` may be non-zero,
`vib34dRotate4DVector` preserves `x² + y²` and leaves `z` and `w` unchanged. -/
theorem xy_only_exact (M : JSMath ℝ) (hM : IsRealMath M) (v : Vec4 ℝ)
    (r : Rotation4D ℝ) (hXZ : r.rot4dXZ = 0) (hYZ : r.rot4dYZ = 0) (hXW : r.rot4dXW = 0)
    (hYW : r.rot4dYW = 0) (hZW : r.rot4dZW = 0) :
    (vib34dRotate4DVector M v r).x ^ 2 + (vib34dRotate4DVector M v r).y ^ 2
        = v.x ^ 2 + v.y ^ 2 ∧
      (vib34dRotate4DVector M v r).z = v.z ∧ (vib34dRotate4DVector M v r).w = v.w := by
  obtain ⟨-, hsin, hcos, -, -⟩ := hM
  simp only [vib34dRotate4DVector, hXZ, hYZ, hXW, hYW, hZW, applyPlaneRotation_zero]
  unfold applyPlaneRotation
  by_cases h0 : r.rot4dXY * (M.pi * 0.5) = 0
  · simp [h0]
  · simp only [h0, if_false, Vec4.get, Vec4.set, hsin, hcos]
    refine ⟨?_, trivial, trivial⟩
    have h := Real.sin_sq_add_cos_sq (r.rot4dXY * (M.pi * 0.5))
    nlinarith [h]

/-- C8: `vib34dRotate4DVector` is the composition of the six plane rotations
`(a, b) ↦ (a cos θ − b sin θ, a sin θ + b cos θ)`, `θ = angle · π/2`, applied in the
order `XY, XZ, YZ, XW, YW, ZW`, each acting on the output of the earlier ones. -/
theorem vib34dRotate4DVector_eq_specRotate4D (M : JSMath ℝ) (hM : IsRealMath M)
    (v : Vec4 ℝ) (r : Rotation4D ℝ) :
    vib34dRotate4DVector M v r = specRotate4D M v r := by
  simp only [vib34dRotate4DVector, specRotate4D]
  rw [applyPlaneRotation_eq_spec M hM _ 0 1 (by decide),
    applyPlaneRotation_eq_spec M hM _ 0 2 (by decide),
    applyPlaneRotation_eq_spec M hM _ 1 2 (by decide),
    applyPlaneRotation_eq_spec M hM _ 0 3 (by decide),
    applyPlaneRotation_eq_spec M hM _ 1 3 (by decide),
    applyPlaneRotation_eq_spec M hM _ 2 3 (by decide)]

/-- Witness of C8: the vector `(1, 2, 3, 4)` under six different plane angles. -/
theorem vib34dRotate4DVector_eq_specRotate4D_witness :
    vib34dRotate4DVector
        (mkMath Real.exp Real.sin Real.cos Real.sqrt (fun y x => Complex.arg ⟨x, y⟩)
          Real.rpow Real.pi)
        ⟨1, 2, 3, 4⟩ ⟨1, 2, -1, 1 / 2, 0, 3⟩ =
      specRotate4D
        (mkMath Real.exp Real.sin Real.cos Real.sqrt (fun y x => Complex.arg ⟨x, y⟩)
          Real.rpow Real.pi)
        ⟨1, 2, 3, 4⟩ ⟨1, 2, -1, 1 / 2, 0, 3⟩ :=
  vib34dRotate4DVector_eq_specRotate4D _ (isRealMath_mkMath _ _) _ _

/-- C9: `vib34dComputePortalProjection` is a function of its three arguments only,
its `radius` is `min(1.6, hypot(forward, lateral))` and its `pulse` is
`max(radius*0.6, |rotated.w|*0.55) + |swirl|*0.35 + |torsion|*0.4`, where `forward`,
`lateral`, `swirl` are `beta`, `gamma`, `alpha` clamped to `[-1.4, 1.4]`, `rotated` is
the rotated base vector and `torsion` is the returned torsion. -/
theorem vib34dComputePortalProjection_radius_pulse (M : JSMath α) (n : Normalized α)
    (r : Rotation4D α) (intensity : α) :
    let forward := max (-1.4) (min 1.4 n.beta)
    let lateral := max (-1.4) (min 1.4 n.gamma)
    let swirl := max (-1.4) (min 1.4 n.alpha)
    let p := vib34dComputePortalProjection M n r intensity
    let rotated := vib34dRotate4DVector M
      { x := forward * 0.9
        y := lateral * 0.9
        z := M.sin (swirl * M.pi * 0.5) * (0.7 + p.radius * 0.4)
        w := intensity * 0.9 + p.radius * 0.45 + M.cos (swirl * M.pi * 0.5) * 0.35 } r
    (∀ n2 r2 i2, n2 = n ∧ r2 = r ∧ i2 = intensity →
        vib34dComputePortalProjection M n2 r2 i2 = p) ∧
      p.radius = min 1.6 (M.hypot forward lateral) ∧
      p.pulse = max (p.radius * 0.6) (|rotated.w| * 0.55) + |swirl| * 0.35
        + |p.torsion| * 0.4 := by
  refine ⟨?_, rfl, rfl⟩
  rintro n2 r2 i2 ⟨rfl, rfl, rfl⟩
  rfl

end RotationTheorems

section PresetTheorems

variable {α : Type} [LinearOrderedField α]

theorem truthyString_of_ne (s : String) (h : s ≠ "") : truthyString (some s) = some s := by
  simp [truthyString, Option.filter, h]

theorem presetProperty_of_lookup (lib : VIB34DReactivePresetLibrary α) (name : String)
    (preset : Preset α) (h : lib.presets.lookup name = some preset) :
    lib.presetProperty name = some preset := by
  unfold VIB34DReactivePresetLibrary.presetProperty objectGet
  rw [h]

theorem sample_snd (lib : VIB34DReactivePresetLibrary α) (name : String)
    (context : PresetContext α) : (lib.sample name context).2 = lib := by
  unfold VIB34DReactivePresetLibrary.sample
  cases lib.presetProperty name <;> rfl

theorem sample_isSome (lib : VIB34DReactivePresetLibrary α) (name : String)
    (context : PresetContext α) (h : (lib.presets.lookup name).isSome) :
    (lib.sample name context).1.isSome := by
  obtain ⟨p, hp⟩ := Option.isSome_iff_exists.mp h
  unfold VIB34DReactivePresetLibrary.sample
  rw [presetProperty_of_lookup lib name p hp]
  rfl

/-- C10: for every key of the catalog and every context (intensity, polarity, channel),
`sample` returns a blueprint, a second call with the same arguments on the library as the
first call left it returns the same blueprint, and both calls leave the library (its
catalog and stage maps) unchanged. -/
theorem sample_deterministic (lib : VIB34DReactivePresetLibrary α) (name : String)
    (context : PresetContext α) (hkey : (lib.presets.lookup name).isSome) :
    (∃ blueprint, (lib.sample name context).1 = some blueprint ∧
        ((lib.sample name context).2.sample name context).1 = some blueprint) ∧
      (lib.sample name context).2 = lib ∧
      ((lib.sample name context).2.sample name context).2 = lib := by
  have h2 := sample_snd lib name context
  refine ⟨?_, h2, by rw [h2, h2]⟩
  obtain ⟨b, hb⟩ := Option.isSome_iff_exists.mp (sample_isSome lib name context hkey)
  exact ⟨b, hb, by rw [h2, hb]⟩

/-- Witness of C10: `sample('focus-primary', {intensity: 1, polarity: 1})` called twice on
the library built from `VIB34D_REACTIVE_PRESETS`. -/
theorem sample_deterministic_witness :
    ((VIB34DReactivePresetLibrary.new (VIB34D_REACTIVE_PRESETS ℚ)).presets.lookup
        "focus-primary").isSome ∧
      ((∃ blueprint,
          ((VIB34DReactivePresetLibrary.new (VIB34D_REACTIVE_PRESETS ℚ)).sample
            "focus-primary" { intensity := some 1, polarity := some 1 }).1 = some blueprint ∧
          (((VIB34DReactivePresetLibrary.new (VIB34D_REACTIVE_PRESETS ℚ)).sample
            "focus-primary" { intensity := some 1, polarity := some 1 }).2.sample
            "focus-primary" { intensity := some 1, polarity := some 1 }).1 = some blueprint) ∧
        ((VIB34DReactivePresetLibrary.new (VIB34D_REACTIVE_PRESETS ℚ)).sample
            "focus-primary" { intensity := some 1, polarity := some 1 }).2
          = VIB34DReactivePresetLibrary.new (VIB34D_REACTIVE_PRESETS ℚ) ∧
        (((VIB34DReactivePresetLibrary.new (VIB34D_REACTIVE_PRESETS ℚ)).sample
            "focus-primary" { intensity := some 1, polarity := some 1 }).2.sample
            "focus-primary" { intensity := some 1, polarity := some 1 }).2
          = VIB34DReactivePresetLibrary.new (VIB34D_REACTIVE_PRESETS ℚ)) :=
  ⟨by decide,
    sample_deterministic (VIB34DReactivePresetLibrary.new (VIB34D_REACTIVE_PRESETS ℚ))
      "focus-primary" { intensity := some 1, polarity := some 1 } (by decide)⟩

end PresetTheorems

section NumericLemmas

variable {α : Type} [LinearOrderedField α] [FloorRing α]

theorem jsMod_eq_mul (a b : α) (hb : 0 < b) :
    jsMod a b = b * (a / b - (jsTrunc (a / b) : α)) := by
  unfold jsMod
  field_simp

theorem jsMod_abs_lt (a b : α) (hb : 0 < b) : -b < jsMod a b ∧ jsMod a b < b := by
  rw [jsMod_eq_mul a b hb]
  unfold jsTrunc
  split_ifs with h
  · have h1 := Int.floor_le (a / b)
    have h2 := Int.lt_floor_add_one (a / b)
    constructor <;> nlinarith
  · have h1 := Int.le_ceil (a / b)
    have h2 := Int.ceil_lt_add_one (a / b)
    constructor <;> nlinarith

theorem jsMod_of_nonneg (a b : α) (hb : 0 < b) (ha : 0 ≤ a) :
    0 ≤ jsMod a b ∧ jsMod a b < b := by
  rw [jsMod_eq_mul a b hb]
  unfold jsTrunc
  have hq : 0 ≤ a / b := div_nonneg ha hb.le
  rw [if_pos hq]
  have h1 := Int.floor_le (a / b)
  have h2 := Int.lt_floor_add_one (a / b)
  constructor <;> nlinarith

theorem normalizeHue_inRange (value : α) : HueInRange (normalizeHue value) := by
  unfold normalizeHue HueInRange
  have h := jsMod_abs_lt value 360 (by norm_num)
  exact jsMod_of_nonneg _ 360 (by norm_num) (by linarith [h.1])

theorem hueInRange_elim {β : Type} (o : Option β) (x : α) (f : β → α) (hx : HueInRange x)
    (hf : ∀ b, HueInRange (f b)) : HueInRange (o.elim x f) := by
  cases o
  · exact hx
  · exact hf _

end NumericLemmas

section HueTheorems

variable {α : Type} [LinearOrderedField α] [FloorRing α]

theorem updateState_hues (M : JSMath α) (v : VIB34DTiltVisualizer α) (now : α)
    (h : v.HuesNormalized) : (v.updateState M now).HuesNormalized := by
  obtain ⟨-, -, h3, h4⟩ := h
  exact ⟨normalizeHue_inRange _, normalizeHue_inRange _, h3, h4⟩

theorem applyInheritedTrait_hues (v : VIB34DTiltVisualizer α) (trait : Option (Trait α))
    (immediate : Bool) (h : v.HuesNormalized) :
    (v.applyInheritedTrait trait immediate).HuesNormalized := by
  obtain ⟨h1, h2, h3, h4⟩ := h
  cases trait with
  | none => exact ⟨h1, h2, h3, h4⟩
  | some trait =>
    have ht : HueInRange (v.applyInheritedTrait (some trait) immediate).targetState.hue :=
      hueInRange_elim _ _ _ h3 (fun _ => normalizeHue_inRange _)
    have ha : HueInRange (v.applyInheritedTrait (some trait) immediate).targetState.accentHue :=
      hueInRange_elim _ _ _ h4 (fun _ => normalizeHue_inRange _)
    refine ⟨?_, ?_, ht, ha⟩
    · cases immediate
      · exact h1
      · exact ht
    · cases immediate
      · exact h2
      · exact ha

theorem applyBlueprintDeltas_hues (v : VIB34DTiltVisualizer α) (b : Blueprint α)
    (h : v.HuesNormalized) : (v.applyBlueprintDeltas b).HuesNormalized := by
  obtain ⟨h1, h2, h3, h4⟩ := h
  refine ⟨h1, h2, ?_, ?_⟩
  · exact hueInRange_elim _ _ _ h3 (fun _ => normalizeHue_inRange _)
  · exact hueInRange_elim _ _ _ (hueInRange_elim _ _ _ h4 (fun _ => normalizeHue_inRange _))
      (fun _ => normalizeHue_inRange _)

theorem decorateInteractionOptions_fst (v : VIB34DTiltVisualizer α) (o : InteractionOptions α) :
    (v.decorateInteractionOptions o).1 = v ∨
      ∃ b, (v.decorateInteractionOptions o).1 = v.applyBlueprintDeltas b := by
  unfold VIB34DTiltVisualizer.decorateInteractionOptions
  cases v.reactivityLibrary with
  | none => exact Or.inl rfl
  | some lib =>
    simp only []
    split
    · exact Or.inr ⟨_, rfl⟩
    · exact Or.inl rfl

theorem applyInteractionResponseInternal_hues (v : VIB34DTiltVisualizer α)
    (o : InteractionOptions α) (now : α) (h : v.HuesNormalized) :
    (v.applyInteractionResponseInternal o now).HuesNormalized := by
  obtain ⟨h1, h2, h3, h4⟩ := h
  exact ⟨h1, h2, hueInRange_elim _ _ _ h3 (fun _ => normalizeHue_inRange _),
    hueInRange_elim _ _ _ h4 (fun _ => normalizeHue_inRange _)⟩

theorem applyInteractionResponse_hues (v : VIB34DTiltVisualizer α)
    (o : InteractionOptions α) (now : α) (h : v.HuesNormalized) :
    (v.applyInteractionResponse o now).HuesNormalized := by
  unfold VIB34DTiltVisualizer.applyInteractionResponse
  apply applyInteractionResponseInternal_hues
  rcases decorateInteractionOptions_fst v o with h' | ⟨b, h'⟩
  · rw [h']; exact h
  · rw [h']; exact applyBlueprintDeltas_hues v b h

theorem applyTiltVector_hues (M : JSMath α) (v : VIB34DTiltVisualizer α) (tilt : TiltInput α)
    (now : α) (h : v.HuesNormalized) : (v.applyTiltVector M tilt now).HuesNormalized := by
  obtain ⟨h1, h2, -, -⟩ := h
  exact ⟨h1, h2, normalizeHue_inRange _, normalizeHue_inRange _⟩

theorem applyAudioEnergy_hues (M : JSMath α) (v : VIB34DTiltVisualizer α) (level : Option α)
    (audioMeta : AudioMeta α) (now : α) (h : v.HuesNormalized) :
    (v.applyAudioEnergy M level audioMeta now).HuesNormalized := by
  cases level with
  | none => exact h
  | some level =>
    obtain ⟨h1, h2, -, -⟩ := h
    exact ⟨h1, h2, normalizeHue_inRange _, normalizeHue_inRange _⟩

theorem applyDestructionFlourish_hues (v : VIB34DTiltVisualizer α)
    (flourish : Option (Flourish α)) (trait : Trait α) (h : v.HuesNormalized) :
    (v.applyDestructionFlourish flourish trait).1.HuesNormalized := by
  cases flourish with
  | none => exact h
  | some flourish =>
    obtain ⟨h1, h2, h3, h4⟩ := h
    refine ⟨h1, h2, h3, ?_⟩
    show HueInRange (if v.hasAccentCore = true then _ else _)
    split_ifs
    · exact hueInRange_elim _ _ _ h4 (fun _ => normalizeHue_inRange _)
    · exact h4

theorem setCardState_hues (v : VIB34DTiltVisualizer α) (state : String)
    (inheritedTrait : Option (Trait α)) (h : v.HuesNormalized) :
    (v.setCardState state inheritedTrait).HuesNormalized := by
  obtain ⟨h1, h2, -, -⟩ := h
  unfold VIB34DTiltVisualizer.setCardState
  have key : ∀ w : VIB34DTiltVisualizer α, w.HuesNormalized →
      (match inheritedTrait with
        | some trait => w.applyInheritedTrait (some trait) true
        | none => w).HuesNormalized := by
    intro w hw
    cases inheritedTrait with
    | none => exact hw
    | some trait => exact applyInheritedTrait_hues w _ _ hw
  apply key
  simp only []
  split_ifs <;> (try split) <;>
    exact ⟨h1, h2, normalizeHue_inRange _, normalizeHue_inRange _⟩

theorem basePresetOf_cases (systemType : String) :
    (basePresetOf systemType : Option (SystemPreset α)) = none ∨
      basePresetOf systemType = (SYSTEM_PRESETS α).lookup "quantum" ∨
      basePresetOf systemType = (SYSTEM_PRESETS α).lookup "holographic" ∨
      basePresetOf systemType = (SYSTEM_PRESETS α).lookup "faceted" := by
  by_cases h1 : systemType = "quantum"
  · subst h1; right; left; rfl
  by_cases h2 : systemType = "holographic"
  · subst h2; right; right; left; rfl
  by_cases h3 : systemType = "faceted"
  · subst h3; right; right; right; rfl
  have hl : (SYSTEM_PRESETS α).lookup systemType = none := by
    have e1 : (systemType == "quantum") = false := beq_eq_false_iff_ne.mpr h1
    have e2 : (systemType == "holographic") = false := beq_eq_false_iff_ne.mpr h2
    have e3 : (systemType == "faceted") = false := beq_eq_false_iff_ne.mpr h3
    simp only [SYSTEM_PRESETS, List.lookup, e1, e2, e3]
  unfold basePresetOf objectGet
  rw [hl]
  cases OBJECT_PROTOTYPE.lookup systemType with
  | some len => left; rfl
  | none => right; left; rfl

theorem getSystemPreset_cases (systemType : String) :
    (getSystemPreset systemType : SystemPreset α) = getSystemPreset "quantum" ∨
      (getSystemPreset systemType : SystemPreset α) = getSystemPreset "holographic" ∨
      (getSystemPreset systemType : SystemPreset α) = getSystemPreset "faceted" := by
  rcases @basePresetOf_cases α _ _ systemType with h | h | h | h
  · left; unfold getSystemPreset; rw [h]; rfl
  · left; unfold getSystemPreset; rw [h]; rfl
  · right; left; unfold getSystemPreset; rw [h]; rfl
  · right; right; unfold getSystemPreset; rw [h]; rfl

theorem new_hues (systemType : Option String) (hasAccentCore : Bool) (now : α) :
    (VIB34DTiltVisualizer.new systemType hasAccentCore now).HuesNormalized := by
  have h : ∀ s : String, HueInRange (getSystemPreset s : SystemPreset α).baseHue ∧
      HueInRange (getSystemPreset s : SystemPreset α).accentHue := by
    intro s
    rcases @getSystemPreset_cases α _ _ s with h | h | h <;> rw [h] <;>
      constructor <;> unfold HueInRange
    · show (0:α) ≤ 278 ∧ (278:α) < 360
      norm_num
    · show (0:α) ≤ 208 ∧ (208:α) < 360
      norm_num
    · show (0:α) ≤ 330 ∧ (330:α) < 360
      norm_num
    · show (0:α) ≤ 182 ∧ (182:α) < 360
      norm_num
    · show (0:α) ≤ 202 ∧ (202:α) < 360
      norm_num
    · show (0:α) ≤ 150 ∧ (150:α) < 360
      norm_num
  exact ⟨(h _).1, (h _).2, (h _).1, (h _).2⟩

theorem call_hues (M : JSMath α) (v : VIB34DTiltVisualizer α) (c : VisualizerCall α)
    (h : v.HuesNormalized) : (v.call M c).HuesNormalized := by
  cases c with
  | updateState now => exact updateState_hues M v now h
  | setCardState state inheritedTrait => exact setCardState_hues v state inheritedTrait h
  | applyInteractionResponse options now => exact applyInteractionResponse_hues v options now h
  | applyInheritedTrait trait immediate => exact applyInheritedTrait_hues v trait immediate h
  | applyTiltVector tilt now => exact applyTiltVector_hues M v tilt now h
  | applyAudioEnergy level audioMeta now => exact applyAudioEnergy_hues M v level audioMeta now h
  | applyDestructionFlourish flourish trait => exact applyDestructionFlourish_hues v flourish trait h

theorem run_hues (M : JSMath α) (calls : List (VisualizerCall α)) :
    ∀ v : VIB34DTiltVisualizer α, v.HuesNormalized → (v.run M calls).HuesNormalized := by
  induction calls with
  | nil => intro v h; exact h
  | cons c cs ih => intro v h; exact ih _ (call_hues M v c h)

theorem new_presets_of_base (systemType : Option String) (hasAccentCore : Bool) (now : α)
    (hfam : (basePresetOf ((truthyString systemType).getD "quantum") :
      Option (SystemPreset α)).isSome = true) :
    ∃ basePreset : SystemPreset α,
      basePresetOf ((truthyString systemType).getD "quantum") = some basePreset ∧
      (VIB34DTiltVisualizer.new systemType hasAccentCore now).presets =
        { basePreset with
          geometryCycle :=
            if (basePreset.geometryCycle.filter
                (fun name => hasProperty VIB34D_GEOMETRY_INDEX name)).length ≠ 0
              then basePreset.geometryCycle.filter
                (fun name => hasProperty VIB34D_GEOMETRY_INDEX name)
              else ["hypercube"] } := by
  obtain ⟨basePreset, hb⟩ := Option.isSome_iff_exists.mp hfam
  refine ⟨basePreset, hb, ?_⟩
  show getSystemPreset ((truthyString systemType).getD "quantum") = _
  unfold getSystemPreset
  rw [hb]
  rfl

/-- C2: for every instance built by the constructor for a family on which
`presets[systemType] || presets.quantum` is a preset (`hfam`: every family name that is
not inherited from `Object.prototype`; with or without accent core) and every finite
sequence of relaxation steps and target assignments (`setCardState`,
`applyInteractionResponse`, `applyInheritedTrait`, `applyTiltVector`, `applyAudioEnergy`,
also `applyDestructionFlourish`) with arbitrary arguments, hence arbitrarily large hue
shifts, `state.hue`, `state.accentHue`, `targetState.hue` and `targetState.accentHue` lie
in `[0, 360)` after the sequence, hence after every call of it (numbers are exact: no
rounding and no overflow).  For the family `constructor` that expression is the inherited
function `Object`, which is no preset: `baseHue` and `accentHue` are `undefined` and the
four hues of the instance are no numbers of `[0, 360)`. -/
theorem hues_normalized_after_calls (M : JSMath α) (systemType : Option String)
    (hasAccentCore : Bool) (now : α) (calls : List (VisualizerCall α))
    (hfam : (basePresetOf ((truthyString systemType).getD "quantum") :
      Option (SystemPreset α)).isSome = true) :
    (VIB34DTiltVisualizer.new systemType hasAccentCore now).systemType =
        (truthyString systemType).getD "quantum" ∧
      (∃ basePreset : SystemPreset α,
        basePresetOf ((truthyString systemType).getD "quantum") = some basePreset ∧
        (VIB34DTiltVisualizer.new systemType hasAccentCore now).state.hue =
          basePreset.baseHue ∧
        (VIB34DTiltVisualizer.new systemType hasAccentCore now).state.accentHue =
          basePreset.accentHue) ∧
      ((VIB34DTiltVisualizer.new systemType hasAccentCore now).run M calls).HuesNormalized ∧
      (VIB34DTiltVisualizer.new (some "constructor") hasAccentCore now).systemType =
        "constructor" ∧
      (basePresetOf "constructor" : Option (SystemPreset α)) = none := by
  obtain ⟨basePreset, hb, hp⟩ := new_presets_of_base systemType hasAccentCore now hfam
  refine ⟨rfl, ⟨basePreset, hb, ?_, ?_⟩,
    run_hues M calls _ (new_hues systemType hasAccentCore now), rfl, rfl⟩
  · show (VIB34DTiltVisualizer.new systemType hasAccentCore now).presets.baseHue = _
    rw [hp]
  · show (VIB34DTiltVisualizer.new systemType hasAccentCore now).presets.accentHue = _
    rw [hp]

/-- Witness of C2: a `holographic` instance with accent core after `setCardState` and one
relaxation step. -/
theorem hues_normalized_after_calls_witness :
    (basePresetOf ((truthyString (some "holographic")).getD "quantum") :
        Option (SystemPreset ℝ)).isSome = true ∧
      (VIB34DTiltVisualizer.new (some "holographic") true (0 : ℝ)).systemType =
        (truthyString (some "holographic")).getD "quantum" ∧
      (∃ basePreset : SystemPreset ℝ,
        basePresetOf ((truthyString (some "holographic")).getD "quantum") = some basePreset ∧
        (VIB34DTiltVisualizer.new (some "holographic") true (0 : ℝ)).state.hue =
          basePreset.baseHue ∧
        (VIB34DTiltVisualizer.new (some "holographic") true (0 : ℝ)).state.accentHue =
          basePreset.accentHue) ∧
      ((VIB34DTiltVisualizer.new (some "holographic") true (0 : ℝ)).run
        (mkMath Real.exp Real.sin Real.cos Real.sqrt (fun y x => Complex.arg ⟨x, y⟩)
          Real.rpow Real.pi)
        [VisualizerCall.setCardState "focused" none,
          VisualizerCall.updateState 16]).HuesNormalized ∧
      (VIB34DTiltVisualizer.new (some "constructor") true (0 : ℝ)).systemType =
        "constructor" ∧
      (basePresetOf "constructor" : Option (SystemPreset ℝ)) = none :=
  ⟨rfl, hues_normalized_after_calls _ (some "holographic") true 0 _ rfl⟩

end HueTheorems

section DensityTheorems

variable {α : Type} [LinearOrderedField α] [FloorRing α]

theorem lookup_focus_primary :
    (VIB34D_REACTIVE_PRESETS α).lookup "focus-primary" = some
      { intensityScale := some 1.34, densityBias := some (-0.22), hueSpin := some 0.18,
        duration := some 1340, geometryAdvance := some 1,
        direct := some
          { speed := some 0.46, glitch := some 0.4, density := some (-0.32),
            moire := some 0.28, energy := some 0.38, hueShift := some 14,
            accentHueShift := some (-10), wDepth := some 0.16, wPulse := some 0.72,
            geometryVariant := some "wave" },
        accent := some { hueShift := some 10, moire := some (-0.18), density := some 0.22 } } := by
  rfl

theorem provide_focus_primary (i : α) :
    ∃ bp : Blueprint α,
      (VIB34DReactivePresetLibrary.new (VIB34D_REACTIVE_PRESETS α)).provide
        { preset := some "focus-primary", stage := none, channel := none,
          intensity := some i, polarity := some 1 } = some bp ∧
      bp.intensityScale = 1.34 ∧ bp.densityBias = some (-0.22) ∧
      bp.direct.density = -0.32 * i ∧ (bp.accent.getD {}).density = some (0.22 * i) := by
  have hr : (VIB34DReactivePresetLibrary.new (VIB34D_REACTIVE_PRESETS α)).resolvePreset
      { preset := some "focus-primary", stage := none, channel := none,
        intensity := some i, polarity := some 1 } = some "focus-primary" := by
    unfold VIB34DReactivePresetLibrary.resolvePreset
    simp [truthyString, Option.filter, VIB34DReactivePresetLibrary.new, hasProperty, objectGet,
      lookup_focus_primary]
  unfold VIB34DReactivePresetLibrary.provide
  rw [hr]
  simp only []
  unfold VIB34DReactivePresetLibrary.sample
  rw [presetProperty_of_lookup _ _ _ lookup_focus_primary]
  simp only []
  refine ⟨_, rfl, ?_, ?_, ?_, ?_⟩ <;> simp

theorem focus_call_density (v : VIB34DTiltVisualizer α)
    (hlib : v.reactivityLibrary = some (VIB34DReactivePresetLibrary.new (VIB34D_REACTIVE_PRESETS α)))
    (i now : α) :
    (v.applyInteractionResponse
        { preset := some "focus-primary", intensity := some i, polarity := some 1 }
        now).targetState.density =
      v.targetState.density + -0.32 * i + 0.22 * i + clamp (i * 1.34) 0 2.4 * (0 + -0.22) * 0.22 ∧
    (v.applyInteractionResponse
        { preset := some "focus-primary", intensity := some i, polarity := some 1 }
        now).reactivityLibrary = v.reactivityLibrary := by
  obtain ⟨bp, hbp, h1, h2, h3, h4⟩ := provide_focus_primary i
  have hd : v.decorateInteractionOptions
      { preset := some "focus-primary", intensity := some i, polarity := some 1 } =
      (v.applyBlueprintDeltas bp,
        { intensity := some (i * 1.34), polarity := some 1,
          densityBias := some (0 + -0.22),
          hueSpin := bp.hueSpin.elim none (fun h => some (0 + h)),
          geometryAdvance := (truthyNum bp.geometryAdvance).elim none (fun a => some (0 + a)),
          duration := (truthyNum bp.duration).elim none (fun d => some (max 0 d)) }) := by
    unfold VIB34DTiltVisualizer.decorateInteractionOptions
    simp only [hlib, Option.getD_some, zero_le_one, ge_iff_le, if_true, hbp, h1, h2, Option.getD_none]
    cases bp.hueSpin <;> cases truthyNum bp.geometryAdvance <;> cases truthyNum bp.duration <;> rfl
  unfold VIB34DTiltVisualizer.applyInteractionResponse
  rw [hd]
  refine ⟨?_, rfl⟩
  have hb : truthyNum (some (0 + -0.22 : α)) = some (0 + -0.22) := by
    norm_num [truthyNum, Option.filter]
  have hint : ∀ (w : VIB34DTiltVisualizer α) (o : InteractionOptions α),
      o.densityTarget = none → o.densityFloor = none → o.densityCeiling = none →
      (w.applyInteractionResponseInternal o now).targetState.density =
        (truthyNum o.densityBias).elim w.targetState.density
          (fun b => w.targetState.density + clamp (o.intensity.getD 0.45) 0 2.4 * b * 0.22) := by
    intro w o e1 e2 e3
    show Option.elim o.densityCeiling (Option.elim o.densityFloor (Option.elim o.densityTarget _ _) _) _ = _
    rw [e1, e2, e3]
    rfl
  have hbd : (v.applyBlueprintDeltas bp).targetState.density =
      (bp.accent.getD {}).density.elim (v.targetState.density + bp.direct.density)
        (fun d => v.targetState.density + bp.direct.density + d) := rfl
  simp only []
  rw [hint _ _ rfl rfl rfl, hb, hbd, h3, h4]
  rfl

theorem focus_call_density_one (v : VIB34DTiltVisualizer α)
    (hlib : v.reactivityLibrary =
      some (VIB34DReactivePresetLibrary.new (VIB34D_REACTIVE_PRESETS α)))
    (now : α) :
    (v.applyInteractionResponse
        { preset := some "focus-primary", intensity := some 1, polarity := some 1 }
        now).targetState.density = v.targetState.density - 0.164856 ∧
    (v.applyInteractionResponse
        { preset := some "focus-primary", intensity := some 1, polarity := some 1 }
        now).reactivityLibrary =
      some (VIB34DReactivePresetLibrary.new (VIB34D_REACTIVE_PRESETS α)) := by
  obtain ⟨h1, h2⟩ := focus_call_density v hlib 1 now
  refine ⟨?_, h2.trans hlib⟩
  rw [h1]
  have hc : clamp (1 * 1.34 : α) 0 2.4 = 1.34 := by
    unfold clamp
    rw [min_eq_right (by norm_num), max_eq_right (by norm_num)]
    norm_num
  rw [hc]
  norm_num
  ring

/-- C1, the code at the failing input: on a fresh `quantum` instance (density and target
density `0.95`), six calls `applyInteractionResponse({preset: 'focus-primary',
intensity: 1, polarity: 1})` leave `targetState.density` at `-0.039136`, below the floor
`0.05`: the preset path adds its density deltas without the floor that
`applyDestructionFlourish` applies. -/
theorem density_below_floor_after_presets (M : JSMath α) :
    ((VIB34DTiltVisualizer.new (some "quantum") false 0).run M
        (List.replicate 6
          (VisualizerCall.applyInteractionResponse
            { preset := some "focus-primary", intensity := some 1, polarity := some 1 }
            0))).targetState.density = -0.039136 ∧
      (-0.039136 : α) < 0.05 := by
  refine ⟨?_, by norm_num⟩
  have h0 : (VIB34DTiltVisualizer.new (some "quantum") false (0 : α)).targetState.density
      = 0.95 := rfl
  simp only [List.replicate, VIB34DTiltVisualizer.run, List.foldl, VIB34DTiltVisualizer.call]
  obtain ⟨d1, l1⟩ := focus_call_density_one
    (VIB34DTiltVisualizer.new (some "quantum") false (0 : α)) rfl 0
  obtain ⟨d2, l2⟩ := focus_call_density_one _ l1 0
  obtain ⟨d3, l3⟩ := focus_call_density_one _ l2 0
  obtain ⟨d4, l4⟩ := focus_call_density_one _ l3 0
  obtain ⟨d5, l5⟩ := focus_call_density_one _ l4 0
  obtain ⟨d6, -⟩ := focus_call_density_one _ l5 0
  rw [d6, d5, d4, d3, d2, d1, h0]
  norm_num

end DensityTheorems

section RelaxationTheorems

variable {α : Type} [LinearOrderedField α] [FloorRing α]

theorem updateState_interp (M : JSMath α) (v : VIB34DTiltVisualizer α) (now : α) (i : Fin 8) :
    (v.updateState M now).state.interp i =
      v.state.interp i + (v.targetState.interp i - v.state.interp i)
        * (1 - M.exp (-(max 0.00016 ((now - v.lastUpdate) / 1000)) * 4.2)) := by
  fin_cases i <;> rfl

theorem updateState_targetState (M : JSMath α) (v : VIB34DTiltVisualizer α) (now : α) :
    (v.updateState M now).targetState = v.targetState :=
  rfl

theorem updateState_lastUpdate (M : JSMath α) (v : VIB34DTiltVisualizer α) (now : α) :
    (v.updateState M now).lastUpdate = now :=
  rfl

theorem geometryIndex_ne_empty (g : String) (h : (VIB34D_GEOMETRY_INDEX.lookup g).isSome) :
    g ≠ "" := by
  rintro rfl
  revert h
  decide

theorem hasProperty_of_lookup {β : Type} (entries : List (String × β)) (key : String)
    (h : (entries.lookup key).isSome) : hasProperty entries key = true := by
  obtain ⟨value, hv⟩ := Option.isSome_iff_exists.mp h
  unfold hasProperty objectGet
  rw [hv]

theorem geometryProperty_ne_empty (g : String)
    (h : hasProperty VIB34D_GEOMETRY_INDEX g = true) : g ≠ "" := by
  rintro rfl
  revert h
  decide

theorem ensureGeometryVariant_hasProperty (v : VIB34DTiltVisualizer α) (g : String)
    (h : hasProperty VIB34D_GEOMETRY_INDEX g = true) :
    v.ensureGeometryVariant (some g) = g := by
  have hne := geometryProperty_ne_empty g h
  simp [VIB34DTiltVisualizer.ensureGeometryVariant, truthyString, Option.filter, hne, h]

theorem ensureGeometryVariant_known (v : VIB34DTiltVisualizer α) (g : String)
    (h : (VIB34D_GEOMETRY_INDEX.lookup g).isSome) :
    v.ensureGeometryVariant (some g) = g :=
  ensureGeometryVariant_hasProperty v g (hasProperty_of_lookup _ _ h)

theorem relax_residual (M : JSMath α) (stepMs : α) (hstep : 0.00016 ≤ stepMs / 1000) (n : Nat) :
    ∀ (v : VIB34DTiltVisualizer α) (i : Fin 8),
      (VIB34DTiltVisualizer.relax M stepMs n v).targetState = v.targetState ∧
      (VIB34DTiltVisualizer.relax M stepMs n v).state.interp i - v.targetState.interp i =
        (v.state.interp i - v.targetState.interp i) * M.exp (-(stepMs / 1000) * 4.2) ^ n := by
  induction n with
  | zero => intro v i; simp [VIB34DTiltVisualizer.relax]
  | succ n ih =>
    intro v i
    obtain ⟨h1, h2⟩ := ih (v.updateState M (v.lastUpdate + stepMs)) i
    have hd : max 0.00016 ((v.lastUpdate + stepMs - v.lastUpdate) / 1000) = stepMs / 1000 := by
      rw [add_sub_cancel_left]
      exact max_eq_right hstep
    rw [updateState_targetState, updateState_interp, hd] at h2
    rw [updateState_targetState] at h1
    refine ⟨h1, ?_⟩
    show (VIB34DTiltVisualizer.relax M stepMs n (v.updateState M (v.lastUpdate + stepMs))).state.interp
      i - v.targetState.interp i = _
    rw [h2, pow_succ]
    ring

/-- C4: one relaxation step `updateState` whose elapsed time
`deltaSeconds = (now - lastUpdate) / 1000` is at least the floor `0.00016` sets each of
`speed, glitch, density, moire, energy, wDepth, wShear, wPulse` to
`current + (target - current) * (1 - exp(-4.2 * deltaSeconds))`, and sets
`state.geometryVariant` to the target's variant when that is a known geometry name. -/
theorem updateState_relaxation_step (M : JSMath α) (v : VIB34DTiltVisualizer α) (now : α)
    (g : String) (hd : 0.00016 ≤ (now - v.lastUpdate) / 1000)
    (hg : v.targetState.geometryVariant = some g)
    (hk : (VIB34D_GEOMETRY_INDEX.lookup g).isSome) :
    (∀ i : Fin 8, (v.updateState M now).state.interp i =
        v.state.interp i + (v.targetState.interp i - v.state.interp i)
          * (1 - M.exp (-4.2 * ((now - v.lastUpdate) / 1000)))) ∧
      (v.updateState M now).state.geometryVariant = some g := by
  constructor
  · intro i
    rw [updateState_interp, max_eq_right hd, neg_mul, mul_comm _ (4.2 : α), neg_mul]
  · show some (v.ensureGeometryVariant v.targetState.geometryVariant) = some g
    rw [hg, ensureGeometryVariant_known v g hk]

/-- C5 (amended): in exact real arithmetic (the real exponential, no rounding), for a
fixed target and step lengths `d1, d2 ≥ 0.00016` seconds, `updateState` after `d1` and then
after `d2` leaves each of `speed, glitch, density, moire, energy, wDepth, wShear, wPulse`
at the value a single `updateState` after `d1 + d2` gives. -/
theorem updateState_frame_rate_independent (M : JSMath ℝ) (hM : IsRealMath M)
    (v : VIB34DTiltVisualizer ℝ) (d1 d2 : ℝ) (h1 : 0.00016 ≤ d1) (h2 : 0.00016 ≤ d2)
    (i : Fin 8) :
    ((v.updateState M (v.lastUpdate + 1000 * d1)).updateState M
        (v.lastUpdate + 1000 * d1 + 1000 * d2)).state.interp i =
      (v.updateState M (v.lastUpdate + 1000 * (d1 + d2))).state.interp i := by
  have e1 : (v.lastUpdate + 1000 * d1 - v.lastUpdate) / 1000 = d1 := by ring
  have e2 : (v.lastUpdate + 1000 * d1 + 1000 * d2 - (v.lastUpdate + 1000 * d1)) / 1000 = d2 := by
    ring
  have e3 : (v.lastUpdate + 1000 * (d1 + d2) - v.lastUpdate) / 1000 = d1 + d2 := by ring
  have h3 : (0.00016 : ℝ) ≤ d1 + d2 := by linarith [h1, h2, (by norm_num : (0 : ℝ) ≤ 0.00016)]
  rw [updateState_interp, updateState_interp, updateState_interp, updateState_targetState,
    updateState_lastUpdate, e1, e2, e3, max_eq_right h1, max_eq_right h2, max_eq_right h3,
    hM.1]
  have hexp : Real.exp (-(d1 + d2) * 4.2) = Real.exp (-d1 * 4.2) * Real.exp (-d2 * 4.2) := by
    rw [← Real.exp_add]
    congr 1
    ring
  rw [hexp]
  ring

end RelaxationTheorems

section DensityFloorLemmas

variable {α : Type} [LinearOrderedField α] [FloorRing α]

theorem applyDestructionFlourish_density_floor (v : VIB34DTiltVisualizer α)
    (flourish : Option (Flourish α)) (trait : Trait α) (ht : 0.05 ≤ v.targetState.density) :
    0.05 ≤ (v.applyDestructionFlourish flourish trait).1.targetState.density ∧
      (v.applyDestructionFlourish flourish trait).1.state = v.state := by
  cases flourish with
  | none => exact ⟨ht, rfl⟩
  | some flourish =>
    refine ⟨?_, rfl⟩
    show 0.05 ≤ Option.elim (FlourishCore.density (flourish.core.getD {})) _ _
    cases (flourish.core.getD {}).density with
    | none => exact ht
    | some d => exact le_max_left _ _

theorem updateState_density_floor (M : JSMath ℝ) (hM : IsRealMath M)
    (v : VIB34DTiltVisualizer ℝ) (now : ℝ) (hs : 0.05 ≤ v.state.density)
    (ht : 0.05 ≤ v.targetState.density) :
    0.05 ≤ (v.updateState M now).state.density ∧
      (v.updateState M now).targetState.density = v.targetState.density := by
  refine ⟨?_, rfl⟩
  have h := updateState_interp M v now 2
  have hE : (v.updateState M now).state.density =
      v.state.density + (v.targetState.density - v.state.density)
        * (1 - Real.exp (-(max 0.00016 ((now - v.lastUpdate) / 1000)) * 4.2)) := by
    rw [← hM.1]
    exact h
  rw [hE]
  have hpos := Real.exp_pos (-(max 0.00016 ((now - v.lastUpdate) / 1000)) * 4.2)
  have hle : Real.exp (-(max 0.00016 ((now - v.lastUpdate) / 1000)) * 4.2) ≤ 1 := by
    apply Real.exp_le_one_iff.mpr
    have : (0 : ℝ) ≤ max 0.00016 ((now - v.lastUpdate) / 1000) :=
      le_trans (by norm_num) (le_max_left _ _)
    nlinarith
  nlinarith

end DensityFloorLemmas

section ConvergenceTheorems

theorem real_exp_neg_4_2_le : Real.exp (-4.2) ≤ 1 / 60 := by
  have h1 : (2.7182818283 : ℝ) < Real.exp 1 := Real.exp_one_gt_d9
  have h2 : (0.2 : ℝ) + 1 ≤ Real.exp 0.2 := Real.add_one_le_exp _
  have h3 : Real.exp 4.2 = Real.exp 1 ^ 4 * Real.exp 0.2 := by
    rw [← Real.exp_nat_mul, ← Real.exp_add]
    congr 1
    norm_num
  have h4 : (60 : ℝ) ≤ Real.exp 4.2 := by
    rw [h3]
    have h5 : (2.7182818283 : ℝ) ^ 4 ≤ Real.exp 1 ^ 4 := by gcongr
    have h6 : (0 : ℝ) ≤ Real.exp 1 ^ 4 := by positivity
    nlinarith
  rw [Real.exp_neg, inv_eq_one_div]
  exact one_div_le_one_div_of_le (by norm_num) h4

theorem real_exp_neg_4_2_gt : 1 / 243 < Real.exp (-4.2) := by
  have h1 : Real.exp 1 < 3 := lt_trans Real.exp_one_lt_d9 (by norm_num)
  have h3 : Real.exp 4.2 < 243 := by
    calc Real.exp 4.2 ≤ Real.exp 5 := Real.exp_le_exp.mpr (by norm_num)
      _ = Real.exp 1 ^ 5 := by rw [← Real.exp_nat_mul]; norm_num
      _ < 3 ^ 5 := by gcongr
      _ = 243 := by norm_num
  rw [Real.exp_neg, inv_eq_one_div]
  exact one_div_lt_one_div_of_lt (Real.exp_pos _) h3

theorem real_step_pow_60 : Real.exp (-(1000 / 60 / 1000) * 4.2) ^ 60 = Real.exp (-4.2) := by
  rw [← Real.exp_nat_mul]
  congr 1
  norm_num

theorem relax_real_60 (M : JSMath ℝ) (hM : IsRealMath M) (v : VIB34DTiltVisualizer ℝ)
    (i : Fin 8) :
    (VIB34DTiltVisualizer.relax M (1000 / 60) 60 v).state.interp i - v.targetState.interp i =
      (v.state.interp i - v.targetState.interp i) * Real.exp (-4.2) := by
  have h := (relax_residual M (1000 / 60) (by norm_num) 60 v i).2
  rw [hM.1, real_step_pow_60] at h
  exact h

/-- C3, counterexample: a fresh `quantum` instance after `setCardState('focused')` has
`state.speed = 1.12` and `targetState.speed = 1.792`; with the target fixed, after `n`
relaxation steps of `1/60` s the speed is still more than `1e-3` away from its target for
every `n ≤ 60`. -/
theorem relax_60_steps_counterexample :
    ¬ ∃ n, n ≤ 60 ∧
      RenderState.Within 0.001
        (VIB34DTiltVisualizer.relax
          (mkMath Real.exp Real.sin Real.cos Real.sqrt (fun y x => Complex.arg ⟨x, y⟩)
            Real.rpow Real.pi)
          (1000 / 60) n
          ((VIB34DTiltVisualizer.new (some "quantum") false 0).setCardState "focused"
            none)).state
        ((VIB34DTiltVisualizer.new (some "quantum") false (0 : ℝ)).setCardState "focused"
          none).targetState := by
  rintro ⟨n, hn, hw⟩
  have h := (relax_residual
    (mkMath Real.exp Real.sin Real.cos Real.sqrt (fun y x => Complex.arg ⟨x, y⟩)
      Real.rpow Real.pi)
    (1000 / 60) (by norm_num) n
    ((VIB34DTiltVisualizer.new (some "quantum") false 0).setCardState "focused" none) 0).2
  have hw0 := hw 0
  rw [h] at hw0
  have hs : ((VIB34DTiltVisualizer.new (some "quantum") false (0 : ℝ)).setCardState "focused"
      none).state.interp 0 = 1.12 := rfl
  have ht : ((VIB34DTiltVisualizer.new (some "quantum") false (0 : ℝ)).setCardState "focused"
      none).targetState.interp 0 = 1.12 * 1.6 := rfl
  rw [hs, ht] at hw0
  have hE : (mkMath Real.exp Real.sin Real.cos Real.sqrt (fun y x => Complex.arg ⟨x, y⟩)
      Real.rpow Real.pi).exp = Real.exp := rfl
  rw [hE] at hw0
  have hpos : 0 < Real.exp (-(1000 / 60 / 1000) * 4.2) := Real.exp_pos _
  have hle : Real.exp (-(1000 / 60 / 1000) * 4.2) ≤ 1 :=
    Real.exp_le_one_iff.mpr (by norm_num)
  have hmono : Real.exp (-(1000 / 60 / 1000) * 4.2) ^ 60 ≤
      Real.exp (-(1000 / 60 / 1000) * 4.2) ^ n :=
    pow_le_pow_of_le_one hpos.le hle hn
  rw [real_step_pow_60] at hmono
  have hgt := real_exp_neg_4_2_gt
  have habs := neg_le_of_abs_le hw0
  nlinarith

/-- C3, amended: for every instance whose eight interpolated fields each start within
`0.06` of their (fixed) target, after 60 relaxation steps of `1/60` s every one of them is
within `1e-3` of its target; in general the distance after 60 steps is `exp(-4.2)` times
the initial distance. -/
theorem relax_60_steps_within (M : JSMath ℝ) (hM : IsRealMath M)
    (v : VIB34DTiltVisualizer ℝ) (hclose : RenderState.Within 0.06 v.state v.targetState) :
    RenderState.Within 0.001 (VIB34DTiltVisualizer.relax M (1000 / 60) 60 v).state
      v.targetState := by
  intro i
  rw [relax_real_60 M hM v i, abs_mul, abs_of_pos (Real.exp_pos _)]
  have h1 := hclose i
  have h2 := real_exp_neg_4_2_le
  have h3 := abs_nonneg (v.state.interp i - v.targetState.interp i)
  have h4 := Real.exp_pos (-4.2)
  calc |v.state.interp i - v.targetState.interp i| * Real.exp (-4.2)
      ≤ 0.06 * (1 / 60) := mul_le_mul h1 h2 h4.le (by norm_num)
    _ = 0.001 := by norm_num

/-- Witness of C3 (amended): a fresh `quantum` instance whose target glitch was raised by
`0.05` through an inherited trait. -/
theorem relax_60_steps_within_witness :
    RenderState.Within 0.06
        ((VIB34DTiltVisualizer.new (some "quantum") false (0 : ℝ)).applyInheritedTrait
          (some { glitchBoost := some 0.05 }) false).state
        ((VIB34DTiltVisualizer.new (some "quantum") false (0 : ℝ)).applyInheritedTrait
          (some { glitchBoost := some 0.05 }) false).targetState ∧
      RenderState.Within 0.001
        (VIB34DTiltVisualizer.relax
          (mkMath Real.exp Real.sin Real.cos Real.sqrt (fun y x => Complex.arg ⟨x, y⟩)
            Real.rpow Real.pi)
          (1000 / 60) 60
          ((VIB34DTiltVisualizer.new (some "quantum") false (0 : ℝ)).applyInheritedTrait
            (some { glitchBoost := some 0.05 }) false)).state
        ((VIB34DTiltVisualizer.new (some "quantum") false (0 : ℝ)).applyInheritedTrait
          (some { glitchBoost := some 0.05 }) false).targetState :=
  have hclose : RenderState.Within 0.06
      ((VIB34DTiltVisualizer.new (some "quantum") false (0 : ℝ)).applyInheritedTrait
        (some { glitchBoost := some 0.05 }) false).state
      ((VIB34DTiltVisualizer.new (some "quantum") false (0 : ℝ)).applyInheritedTrait
        (some { glitchBoost := some 0.05 }) false).targetState := by
    intro i
    fin_cases i
    · show |(1.12 : ℝ) - 1.12| ≤ 0.06
      norm_num
    · show |(0.35 : ℝ) - (0.35 + 0.05)| ≤ 0.06
      norm_num [abs_le]
    · show |(0.95 : ℝ) - 0.95| ≤ 0.06
      norm_num
    · show |(0.42 : ℝ) - 0.42| ≤ 0.06
      norm_num
    · show |(0.4 : ℝ) - 0.4| ≤ 0.06
      norm_num
    · show |(0.4 : ℝ) - 0.4| ≤ 0.06
      norm_num
    · show |(0 : ℝ) - 0| ≤ 0.06
      norm_num
    · show |(0.2 : ℝ) - 0.2| ≤ 0.06
      norm_num
  ⟨hclose, relax_60_steps_within _ (isRealMath_mkMath _ _) _ hclose⟩

/-- Witness of C4: a `quantum` instance created at time `0` and focused twice (the target
is `speed = 1.12 * 1.6` against the current `1.12`, and the target geometry is `wave`
against the current `hypercube`), updated at `now = 16` ms. -/
theorem updateState_relaxation_step_witness :
    (0.00016 : ℝ) ≤ (16 - (((VIB34DTiltVisualizer.new (some "quantum") false (0 : ℝ)).setCardState "focused"
          none).setCardState "focused" none).lastUpdate) / 1000 ∧
      (((VIB34DTiltVisualizer.new (some "quantum") false (0 : ℝ)).setCardState "focused"
          none).setCardState "focused" none).targetState.geometryVariant = some "wave" ∧
      (VIB34D_GEOMETRY_INDEX.lookup "wave").isSome ∧
      (((VIB34DTiltVisualizer.new (some "quantum") false (0 : ℝ)).setCardState "focused"
          none).setCardState "focused" none).state.geometryVariant = some "hypercube" ∧
      (((VIB34DTiltVisualizer.new (some "quantum") false (0 : ℝ)).setCardState "focused"
          none).setCardState "focused" none).state.speed = 1.12 ∧
      (((VIB34DTiltVisualizer.new (some "quantum") false (0 : ℝ)).setCardState "focused"
          none).setCardState "focused" none).targetState.speed = 1.12 * 1.6 ∧
      (∀ i : Fin 8,
        ((((VIB34DTiltVisualizer.new (some "quantum") false (0 : ℝ)).setCardState "focused"
          none).setCardState "focused" none).updateState
          (mkMath Real.exp Real.sin Real.cos Real.sqrt (fun y x => Complex.arg ⟨x, y⟩)
            Real.rpow Real.pi) 16).state.interp i =
        (((VIB34DTiltVisualizer.new (some "quantum") false (0 : ℝ)).setCardState "focused"
          none).setCardState "focused" none).state.interp i +
          ((((VIB34DTiltVisualizer.new (some "quantum") false (0 : ℝ)).setCardState "focused"
          none).setCardState "focused" none).targetState.interp i -
            (((VIB34DTiltVisualizer.new (some "quantum") false (0 : ℝ)).setCardState "focused"
          none).setCardState "focused" none).state.interp i) *
          (1 - Real.exp (-4.2 * ((16 -
            (((VIB34DTiltVisualizer.new (some "quantum") false (0 : ℝ)).setCardState "focused"
          none).setCardState "focused" none).lastUpdate) / 1000)))) ∧
      ((((VIB34DTiltVisualizer.new (some "quantum") false (0 : ℝ)).setCardState "focused"
          none).setCardState "focused" none).updateState
          (mkMath Real.exp Real.sin Real.cos Real.sqrt (fun y x => Complex.arg ⟨x, y⟩)
            Real.rpow Real.pi) 16).state.geometryVariant = some "wave" :=
  have hd : (0.00016 : ℝ) ≤ (16 - (((VIB34DTiltVisualizer.new (some "quantum") false (0 : ℝ)).setCardState "focused"
          none).setCardState "focused" none).lastUpdate) / 1000 := by
    show (0.00016 : ℝ) ≤ (16 - 0) / 1000
    norm_num
  have hg : (((VIB34DTiltVisualizer.new (some "quantum") false (0 : ℝ)).setCardState "focused"
          none).setCardState "focused" none).targetState.geometryVariant = some "wave" := rfl
  ⟨hd, hg, by decide, rfl, rfl, rfl,
    updateState_relaxation_step
      (mkMath Real.exp Real.sin Real.cos Real.sqrt (fun y x => Complex.arg ⟨x, y⟩)
            Real.rpow Real.pi)
      (((VIB34DTiltVisualizer.new (some "quantum") false (0 : ℝ)).setCardState "focused"
          none).setCardState "focused" none) 16 "wave" hd hg
      (by decide)⟩

/-- Witness of C5: a fresh `quantum` instance put in state `focused`, relaxed by a step
of `1/60` s followed by a step of `1/30` s. -/
theorem updateState_frame_rate_independent_witness :
    (0.00016 : ℝ) ≤ 1 / 60 ∧ (0.00016 : ℝ) ≤ 1 / 30 ∧
      ((((VIB34DTiltVisualizer.new (some "quantum") false (0 : ℝ)).setCardState "focused"
            none).updateState
          (mkMath Real.exp Real.sin Real.cos Real.sqrt (fun y x => Complex.arg ⟨x, y⟩)
            Real.rpow Real.pi)
          (((VIB34DTiltVisualizer.new (some "quantum") false (0 : ℝ)).setCardState "focused"
            none).lastUpdate + 1000 * (1 / 60))).updateState
          (mkMath Real.exp Real.sin Real.cos Real.sqrt (fun y x => Complex.arg ⟨x, y⟩)
            Real.rpow Real.pi)
          (((VIB34DTiltVisualizer.new (some "quantum") false (0 : ℝ)).setCardState "focused"
            none).lastUpdate + 1000 * (1 / 60) + 1000 * (1 / 30))).state.interp 0 =
        (((VIB34DTiltVisualizer.new (some "quantum") false (0 : ℝ)).setCardState "focused"
            none).updateState
          (mkMath Real.exp Real.sin Real.cos Real.sqrt (fun y x => Complex.arg ⟨x, y⟩)
            Real.rpow Real.pi)
          (((VIB34DTiltVisualizer.new (some "quantum") false (0 : ℝ)).setCardState "focused"
            none).lastUpdate + 1000 * (1 / 60 + 1 / 30))).state.interp 0 :=
  ⟨by norm_num, by norm_num,
    updateState_frame_rate_independent _ (isRealMath_mkMath _ _)
      ((VIB34DTiltVisualizer.new (some "quantum") false (0 : ℝ)).setCardState "focused" none)
      (1 / 60) (1 / 30) (by norm_num) (by norm_num) 0⟩

end ConvergenceTheorems

section PresetSamplingTheorems

variable {α : Type} [LinearOrderedField α]

theorem lookup_partner_inverse :
    (VIB34D_REACTIVE_PRESETS α).lookup "partner-inverse" = some
      { intensityScale := some 0.82, densityBias := some 0.12, hueSpin := some (-0.1),
        duration := some 980, partnerInvert := true,
        direct := some
          { speed := some 0.22, glitch := some 0.18, density := some 0.18,
            moire := some (-0.16), energy := some 0.2, hueShift := some (-6),
            accentHueShift := some 6, wDepth := some 0.08, wPulse := some 0.34 },
        accent := some { hueShift := some (-6), moire := some 0.12, density := some (-0.16) } } := by
  rfl

theorem sample_partner_primary (lib : VIB34DReactivePresetLibrary α) (name : String)
    (preset : Preset α) (context : PresetContext α)
    (hlook : lib.presets.lookup name = some preset) (hinv : preset.partnerInvert = true) :
    ∃ bp bq : Blueprint α,
      (lib.sample name { context with channel := some "partner" }).1 = some bp ∧
      (lib.sample name { context with channel := some "primary" }).1 = some bq ∧
      bp.direct.speed = bq.direct.speed * -0.6 ∧
      bp.direct.glitch = bq.direct.glitch ∧
      bp.direct.density = bq.direct.density * -1 ∧
      bp.direct.moire = bq.direct.moire * -0.8 ∧
      bp.direct.energy = bq.direct.energy ∧
      bp.direct.hueShift = bq.direct.hueShift.map (fun h => h * -1) ∧
      bp.direct.accentHueShift = bq.direct.accentHueShift.map (fun h => h * -1) ∧
      bp.direct.wDepth = bq.direct.wDepth ∧
      bp.direct.wPulse = bq.direct.wPulse ∧
      bp.densityBias = bq.densityBias.map (fun b => b * -1) ∧
      bp.hueSpin = bq.hueSpin.map (fun h => h * -1) ∧
      bp.accent = bq.accent := by
  unfold VIB34DReactivePresetLibrary.sample
  rw [presetProperty_of_lookup lib name preset hlook]
  simp only [hinv]
  refine ⟨_, _, rfl, rfl, ?_⟩
  simp

/-- C11: for every preset marked `partnerInvert` and every intensity and polarity, the
blueprint sampled with channel `partner` has `direct.density` equal to the negation of
`direct.density` of the same preset sampled with channel `primary` (equal magnitude,
opposite sign). -/
theorem partner_density_negated (lib : VIB34DReactivePresetLibrary α) (name : String)
    (preset : Preset α) (context : PresetContext α)
    (hlook : lib.presets.lookup name = some preset) (hinv : preset.partnerInvert = true) :
    ∃ bp bq : Blueprint α,
      (lib.sample name { context with channel := some "partner" }).1 = some bp ∧
      (lib.sample name { context with channel := some "primary" }).1 = some bq ∧
      bp.direct.density = -bq.direct.density ∧
      |bp.direct.density| = |bq.direct.density| := by
  obtain ⟨bp, bq, h1, h2, -, -, hd, -⟩ := sample_partner_primary lib name preset context hlook hinv
  refine ⟨bp, bq, h1, h2, ?_, ?_⟩
  · rw [hd, mul_neg_one]
  · rw [hd, mul_neg_one, abs_neg]

/-- Witness of C11: the catalog preset `partner-inverse` at intensity 1, polarity 1. -/
theorem partner_density_negated_witness :
    ∃ preset : Preset ℚ,
      (VIB34DReactivePresetLibrary.new (VIB34D_REACTIVE_PRESETS ℚ)).presets.lookup "partner-inverse" = some preset ∧
      preset.partnerInvert = true ∧
      ∃ bp bq : Blueprint ℚ,
        ((VIB34DReactivePresetLibrary.new (VIB34D_REACTIVE_PRESETS ℚ)).sample "partner-inverse"
          { ({ intensity := some 1, polarity := some 1 } : PresetContext ℚ) with channel := some "partner" }).1 = some bp ∧
        ((VIB34DReactivePresetLibrary.new (VIB34D_REACTIVE_PRESETS ℚ)).sample "partner-inverse"
          { ({ intensity := some 1, polarity := some 1 } : PresetContext ℚ) with channel := some "primary" }).1 = some bq ∧
        bp.direct.density = -bq.direct.density ∧
        |bp.direct.density| = |bq.direct.density| :=
  ⟨_, lookup_partner_inverse, rfl,
    partner_density_negated (VIB34DReactivePresetLibrary.new (VIB34D_REACTIVE_PRESETS ℚ)) "partner-inverse" _ ({ intensity := some 1, polarity := some 1 } : PresetContext ℚ) lookup_partner_inverse rfl⟩

/-- C12, counterexample: the catalog preset `partner-inverse` sampled at intensity 1,
polarity 1 has `direct.glitch = 0.18` on the channel `partner` and on the channel
`primary` alike: the glitch delta is not sign-inverted. -/
theorem partner_glitch_counterexample :
    ∃ bp bq : Blueprint ℚ,
      ((VIB34DReactivePresetLibrary.new (VIB34D_REACTIVE_PRESETS ℚ)).sample "partner-inverse"
        { intensity := some 1, polarity := some 1, channel := some "partner" }).1 = some bp ∧
      ((VIB34DReactivePresetLibrary.new (VIB34D_REACTIVE_PRESETS ℚ)).sample "partner-inverse"
        { intensity := some 1, polarity := some 1, channel := some "primary" }).1 = some bq ∧
      bp.direct.glitch = 0.18 ∧ bq.direct.glitch = 0.18 ∧
      ¬ (bp.direct.glitch * bq.direct.glitch < 0) := by
  unfold VIB34DReactivePresetLibrary.sample
  simp only [VIB34DReactivePresetLibrary.new, lookup_partner_inverse]
  refine ⟨_, _, rfl, rfl, ?_⟩
  norm_num [show ¬ ("primary" = "partner") by decide]

/-- C12, amended: for every preset marked `partnerInvert`, sampling with channel `partner`
gives `direct.speed` equal to `-0.6` times, `direct.density` to `-1` times and
`direct.moire` to `-0.8` times the value sampled with channel `primary`, negates
`direct.hueShift`, `direct.accentHueShift`, `densityBias` and `hueSpin`, and leaves
`direct.glitch`, `direct.energy`, `direct.wDepth`, `direct.wPulse` and the accent map as
sampled with channel `primary`. -/
theorem partner_sampling_inverts (lib : VIB34DReactivePresetLibrary α) (name : String)
    (preset : Preset α) (context : PresetContext α)
    (hlook : lib.presets.lookup name = some preset) (hinv : preset.partnerInvert = true) :
    ∃ bp bq : Blueprint α,
      (lib.sample name { context with channel := some "partner" }).1 = some bp ∧
      (lib.sample name { context with channel := some "primary" }).1 = some bq ∧
      bp.direct.speed = -0.6 * bq.direct.speed ∧
      bp.direct.density = -bq.direct.density ∧
      bp.direct.moire = -0.8 * bq.direct.moire ∧
      bp.direct.hueShift = bq.direct.hueShift.map (fun h => -h) ∧
      bp.direct.accentHueShift = bq.direct.accentHueShift.map (fun h => -h) ∧
      bp.densityBias = bq.densityBias.map (fun b => -b) ∧
      bp.hueSpin = bq.hueSpin.map (fun h => -h) ∧
      bp.direct.glitch = bq.direct.glitch ∧
      bp.direct.energy = bq.direct.energy ∧
      bp.direct.wDepth = bq.direct.wDepth ∧
      bp.direct.wPulse = bq.direct.wPulse ∧
      bp.accent = bq.accent := by
  obtain ⟨bp, bq, h1, h2, hs, hg, hd, hm, he, hh, ha, hw, hp, hb, hsp, hacc⟩ :=
    sample_partner_primary lib name preset context hlook hinv
  have hneg : (fun h : α => h * -1) = (fun h => -h) := by
    funext h
    rw [mul_neg_one]
  rw [hneg] at hh ha hb hsp
  exact ⟨bp, bq, h1, h2, by rw [hs]; ring, by rw [hd, mul_neg_one], by rw [hm]; ring, hh, ha,
    hb, hsp, hg, he, hw, hp, hacc⟩

/-- Witness of C12 (amended): the catalog preset `partner-inverse` at intensity 1,
polarity 1. -/
theorem partner_sampling_inverts_witness :
    ∃ preset : Preset ℚ,
      (VIB34DReactivePresetLibrary.new (VIB34D_REACTIVE_PRESETS ℚ)).presets.lookup "partner-inverse" = some preset ∧
      preset.partnerInvert = true ∧
      ∃ bp bq : Blueprint ℚ,
        ((VIB34DReactivePresetLibrary.new (VIB34D_REACTIVE_PRESETS ℚ)).sample "partner-inverse"
          { ({ intensity := some 1, polarity := some 1 } : PresetContext ℚ) with channel := some "partner" }).1 = some bp ∧
        ((VIB34DReactivePresetLibrary.new (VIB34D_REACTIVE_PRESETS ℚ)).sample "partner-inverse"
          { ({ intensity := some 1, polarity := some 1 } : PresetContext ℚ) with channel := some "primary" }).1 = some bq ∧
        bp.direct.speed = -0.6 * bq.direct.speed ∧
        bp.direct.density = -bq.direct.density ∧
        bp.direct.moire = -0.8 * bq.direct.moire ∧
        bp.direct.hueShift = bq.direct.hueShift.map (fun h => -h) ∧
        bp.direct.accentHueShift = bq.direct.accentHueShift.map (fun h => -h) ∧
        bp.densityBias = bq.densityBias.map (fun b => -b) ∧
        bp.hueSpin = bq.hueSpin.map (fun h => -h) ∧
        bp.direct.glitch = bq.direct.glitch ∧
        bp.direct.energy = bq.direct.energy ∧
        bp.direct.wDepth = bq.direct.wDepth ∧
        bp.direct.wPulse = bq.direct.wPulse ∧
        bp.accent = bq.accent :=
  ⟨_, lookup_partner_inverse, rfl,
    partner_sampling_inverts (VIB34DReactivePresetLibrary.new (VIB34D_REACTIVE_PRESETS ℚ)) "partner-inverse" _ ({ intensity := some 1, polarity := some 1 } : PresetContext ℚ) lookup_partner_inverse rfl⟩

/-- C13, counterexample: the catalog preset `focus-primary` sampled at intensity 0
(polarity `+1`, channel `primary`) has `direct.wPulse = 0.72`, the catalog value, not 0. -/
theorem sample_wPulse_counterexample :
    ∃ bp : Blueprint ℚ,
      ((VIB34DReactivePresetLibrary.new (VIB34D_REACTIVE_PRESETS ℚ)).sample "focus-primary"
        { intensity := some 0, polarity := some 1, channel := some "primary" }).1 = some bp ∧
      bp.direct.wPulse = some 0.72 ∧ bp.direct.wPulse ≠ some 0 := by
  unfold VIB34DReactivePresetLibrary.sample
  simp only [VIB34DReactivePresetLibrary.new, lookup_focus_primary]
  refine ⟨_, rfl, ?_⟩
  norm_num

/-- C13, amended: for every preset of the catalog and every intensity `i` (polarity `+1`,
channel `primary`), `direct.speed, glitch, density, moire, energy, hueShift, wDepth` and
`accent.hueShift, moire, density` are the catalog value times `i`, `direct.accentHueShift`
is minus the catalog value times `i`, and `direct.wPulse` is the catalog `wPulse` plus
`wPulseBoost * i`: it is not scaled by the intensity. -/
theorem sample_scales_by_intensity (lib : VIB34DReactivePresetLibrary α) (name : String)
    (preset : Preset α) (context : PresetContext α) (i : α)
    (hlook : lib.presets.lookup name = some preset) :
    ∃ bp : Blueprint α,
      (lib.sample name
        { context with intensity := some i, polarity := some 1, channel := some "primary" }).1
        = some bp ∧
      bp.direct.speed = (preset.direct.getD {}).speed.elim 0 (fun v => v * i) ∧
      bp.direct.glitch = (preset.direct.getD {}).glitch.elim 0 (fun v => v * i) ∧
      bp.direct.density = (preset.direct.getD {}).density.elim 0 (fun v => v * i) ∧
      bp.direct.moire = (preset.direct.getD {}).moire.elim 0 (fun v => v * i) ∧
      bp.direct.energy = (preset.direct.getD {}).energy.elim 0 (fun v => v * i) ∧
      bp.direct.hueShift = (preset.direct.getD {}).hueShift.map (fun v => v * i) ∧
      bp.direct.accentHueShift = (preset.direct.getD {}).accentHueShift.map (fun v => -(v * i)) ∧
      bp.direct.wDepth = (preset.direct.getD {}).wDepth.map (fun v => v * i) ∧
      bp.direct.wPulse = (preset.direct.getD {}).wPulse.map
        (fun w => w + (preset.direct.getD {}).wPulseBoost.elim 0 (fun b => b * i)) ∧
      (bp.accent.getD {}).hueShift = (preset.accent.getD {}).hueShift.map (fun v => v * i) ∧
      (bp.accent.getD {}).moire = (preset.accent.getD {}).moire.map (fun v => v * i) ∧
      (bp.accent.getD {}).density = (preset.accent.getD {}).density.map (fun v => v * i) := by
  unfold VIB34DReactivePresetLibrary.sample
  rw [presetProperty_of_lookup lib name preset hlook]
  simp only []
  refine ⟨_, rfl, ?_⟩
  refine ⟨?_, ?_, ?_, ?_, ?_, ?_, ?_, ?_, ?_, ?_, ?_, ?_⟩
  · cases (preset.direct.getD {}).speed <;> simp
  · cases (preset.direct.getD {}).glitch <;> simp
  · cases (preset.direct.getD {}).density <;> simp
  · cases (preset.direct.getD {}).moire <;> simp
  · cases (preset.direct.getD {}).energy <;> simp
  · cases (preset.direct.getD {}).hueShift <;> simp
  · cases (preset.direct.getD {}).accentHueShift <;> simp
  · cases (preset.direct.getD {}).wDepth <;> simp
  · cases (preset.direct.getD {}).wPulse <;> cases (preset.direct.getD {}).wPulseBoost <;> simp
  all_goals
    cases preset.accent with
    | none => simp
    | some ab =>
      cases h1 : ab.hueShift <;> cases h2 : ab.moire <;> cases h3 : ab.density <;>
        simp [h1, h2, h3]

/-- Witness of C13 (amended): the catalog preset `focus-primary` at intensity 2. -/
theorem sample_scales_by_intensity_witness :
    ∃ preset : Preset ℚ,
      (VIB34DReactivePresetLibrary.new (VIB34D_REACTIVE_PRESETS ℚ)).presets.lookup "focus-primary" = some preset ∧
      ∃ bp : Blueprint ℚ,
        ((VIB34DReactivePresetLibrary.new (VIB34D_REACTIVE_PRESETS ℚ)).sample "focus-primary"
          { ({ } : PresetContext ℚ) with intensity := some 2, polarity := some 1, channel := some "primary" }).1
          = some bp ∧
        bp.direct.speed = (preset.direct.getD {}).speed.elim 0 (fun v => v * 2) ∧
        bp.direct.glitch = (preset.direct.getD {}).glitch.elim 0 (fun v => v * 2) ∧
        bp.direct.density = (preset.direct.getD {}).density.elim 0 (fun v => v * 2) ∧
        bp.direct.moire = (preset.direct.getD {}).moire.elim 0 (fun v => v * 2) ∧
        bp.direct.energy = (preset.direct.getD {}).energy.elim 0 (fun v => v * 2) ∧
        bp.direct.hueShift = (preset.direct.getD {}).hueShift.map (fun v => v * 2) ∧
        bp.direct.accentHueShift =
          (preset.direct.getD {}).accentHueShift.map (fun v => -(v * 2)) ∧
        bp.direct.wDepth = (preset.direct.getD {}).wDepth.map (fun v => v * 2) ∧
        bp.direct.wPulse = (preset.direct.getD {}).wPulse.map
          (fun w => w + (preset.direct.getD {}).wPulseBoost.elim 0 (fun b => b * 2)) ∧
        (bp.accent.getD {}).hueShift = (preset.accent.getD {}).hueShift.map (fun v => v * 2) ∧
        (bp.accent.getD {}).moire = (preset.accent.getD {}).moire.map (fun v => v * 2) ∧
        (bp.accent.getD {}).density = (preset.accent.getD {}).density.map (fun v => v * 2) :=
  ⟨_, lookup_focus_primary,
    sample_scales_by_intensity (VIB34DReactivePresetLibrary.new (VIB34D_REACTIVE_PRESETS ℚ)) "focus-primary" _ ({ } : PresetContext ℚ) 2 lookup_focus_primary⟩

/-- C14: for every preset of the catalog, every intensity and every channel, the
blueprint sampled with polarity `-1` has `direct.hueShift`, `direct.accentHueShift` and
`accent.hueShift` equal to the negations of those of the blueprint sampled with polarity
`+1`, while `direct.speed, glitch, density, moire, energy` and `wDepth` are the same in
both. -/
theorem sample_polarity_flips_hue (lib : VIB34DReactivePresetLibrary α) (name : String)
    (preset : Preset α) (context : PresetContext α)
    (hlook : lib.presets.lookup name = some preset) :
    ∃ b1 b2 : Blueprint α,
      (lib.sample name { context with polarity := some 1 }).1 = some b1 ∧
      (lib.sample name { context with polarity := some (-1) }).1 = some b2 ∧
      b2.direct.hueShift = b1.direct.hueShift.map (fun h => -h) ∧
      b2.direct.accentHueShift = b1.direct.accentHueShift.map (fun h => -h) ∧
      (b2.accent.getD {}).hueShift = (b1.accent.getD {}).hueShift.map (fun h => -h) ∧
      b2.direct.speed = b1.direct.speed ∧
      b2.direct.glitch = b1.direct.glitch ∧
      b2.direct.density = b1.direct.density ∧
      b2.direct.moire = b1.direct.moire ∧
      b2.direct.energy = b1.direct.energy ∧
      b2.direct.wDepth = b1.direct.wDepth := by
  unfold VIB34DReactivePresetLibrary.sample
  rw [presetProperty_of_lookup lib name preset hlook]
  simp only []
  refine ⟨_, _, rfl, rfl, ?_⟩
  have h2 : ¬ ((0 : α) ≤ -1) := by norm_num
  generalize preset.direct.getD {} = d
  by_cases hc : preset.partnerInvert = true ∧ context.channel = some "partner" <;>
    cases d.hueShift <;> cases d.accentHueShift <;> cases preset.accent <;>
    simp [hc, h2]
  all_goals
    rename_i ab
    cases h1 : ab.hueShift <;> cases h2 : ab.moire <;> cases h3 : ab.density <;> simp [h1, h2, h3]

/-- Witness of C14: the catalog preset `focus-primary` at intensity 1 on the channel
`primary`. -/
theorem sample_polarity_flips_hue_witness :
    ∃ preset : Preset ℚ,
      (VIB34DReactivePresetLibrary.new (VIB34D_REACTIVE_PRESETS ℚ)).presets.lookup "focus-primary" = some preset ∧
      ∃ b1 b2 : Blueprint ℚ,
        ((VIB34DReactivePresetLibrary.new (VIB34D_REACTIVE_PRESETS ℚ)).sample "focus-primary"
          { ({ intensity := some 1, channel := some "primary" } : PresetContext ℚ) with polarity := some 1 }).1 = some b1 ∧
        ((VIB34DReactivePresetLibrary.new (VIB34D_REACTIVE_PRESETS ℚ)).sample "focus-primary"
          { ({ intensity := some 1, channel := some "primary" } : PresetContext ℚ) with polarity := some (-1) }).1 = some b2 ∧
        b2.direct.hueShift = b1.direct.hueShift.map (fun h => -h) ∧
        b2.direct.accentHueShift = b1.direct.accentHueShift.map (fun h => -h) ∧
        (b2.accent.getD {}).hueShift = (b1.accent.getD {}).hueShift.map (fun h => -h) ∧
        b2.direct.speed = b1.direct.speed ∧
        b2.direct.glitch = b1.direct.glitch ∧
        b2.direct.density = b1.direct.density ∧
        b2.direct.moire = b1.direct.moire ∧
        b2.direct.energy = b1.direct.energy ∧
        b2.direct.wDepth = b1.direct.wDepth :=
  ⟨_, lookup_focus_primary,
    sample_polarity_flips_hue (VIB34DReactivePresetLibrary.new (VIB34D_REACTIVE_PRESETS ℚ)) "focus-primary" _ ({ intensity := some 1, channel := some "primary" } : PresetContext ℚ) lookup_focus_primary⟩

end PresetSamplingTheorems

section PresetResolutionTheorems

variable {α : Type} [LinearOrderedField α]

theorem lookup_isSome_iff {β : Type} (l : List (String × β)) (k : String) :
    (l.lookup k).isSome = decide (k ∈ l.map Prod.fst) := by
  induction l with
  | nil => simp
  | cons x xs ih =>
    obtain ⟨a, b⟩ := x
    simp only [List.lookup, List.map_cons, List.mem_cons]
    by_cases h : k = a
    · subst h; simp
    · have : (k == a) = false := by simpa using h
      simp [this, ih, h]

theorem catalog_keys : (VIB34D_REACTIVE_PRESETS α).map Prod.fst = presetKeys := rfl

theorem catalog_lookup_isSome (k : String) :
    ((VIB34D_REACTIVE_PRESETS α).lookup k).isSome = decide (k ∈ presetKeys) := by
  rw [lookup_isSome_iff, catalog_keys]

theorem truthyString_filter_keys (s : Option String) :
    (truthyString s).filter (fun k => ((VIB34D_REACTIVE_PRESETS α).lookup k).isSome) =
      s.filter (fun p => p ∈ presetKeys) := by
  cases s with
  | none => rfl
  | some k =>
    simp only [truthyString, catalog_lookup_isSome]
    by_cases hk : k ∈ presetKeys
    · have hne : k ≠ "" := by rintro rfl; revert hk; decide
      simp [Option.filter, hk, hne]
    · by_cases hne : k = ""
      · subst hne
        simp [Option.filter, presetKeys]
      · simp [Option.filter, hk, hne]

theorem stageMap_lookup (stage : String) :
    (VIB34DReactivePresetLibrary.new (VIB34D_REACTIVE_PRESETS α)).stageMap.lookup stage
      = specStagePreset stage := by
  simp only [VIB34DReactivePresetLibrary.new, List.lookup, specStagePreset]
  by_cases h1 : stage = "approach"
  · subst h1; rfl
  by_cases h2 : stage = "focus"
  · subst h2; rfl
  by_cases h3 : stage = "exit"
  · subst h3; rfl
  by_cases h4 : stage = "inherit"
  · subst h4; rfl
  by_cases h5 : stage = "release"
  · subst h5; rfl
  by_cases h6 : stage = "idle"
  · subst h6; rfl
  have e1 : (stage == "approach") = false := by simpa using h1
  have e2 : (stage == "focus") = false := by simpa using h2
  have e3 : (stage == "exit") = false := by simpa using h3
  have e4 : (stage == "inherit") = false := by simpa using h4
  have e5 : (stage == "release") = false := by simpa using h5
  have e6 : (stage == "idle") = false := by simpa using h6
  simp [e1, e2, e3, e4, e5, e6, h1, h2, h3, h4, h5, h6]

theorem partnerStage_resolves (stage : String) :
    (truthyString
        ((truthyString
            ((VIB34DReactivePresetLibrary.new (VIB34D_REACTIVE_PRESETS α)).partnerStageMap.lookup
              stage)).orElse
          (fun _ =>
            (VIB34DReactivePresetLibrary.new (VIB34D_REACTIVE_PRESETS α)).partnerStageMap.lookup
              "default"))).filter
        (fun k => ((VIB34D_REACTIVE_PRESETS α).lookup k).isSome) = some "partner-inverse" := by
  have hval : ∀ v, (VIB34DReactivePresetLibrary.new (VIB34D_REACTIVE_PRESETS α)).partnerStageMap.lookup
      stage = some v → v = "partner-inverse" := by
    intro v
    simp only [VIB34DReactivePresetLibrary.new, List.lookup]
    repeat' split
    all_goals simp
    all_goals (intro h; exact h.symm)
  have hdef : (VIB34DReactivePresetLibrary.new (VIB34D_REACTIVE_PRESETS α)).partnerStageMap.lookup
      "default" = some "partner-inverse" := rfl
  have hfin : (truthyString (some "partner-inverse")).filter
      (fun k => ((VIB34D_REACTIVE_PRESETS α).lookup k).isSome) = some "partner-inverse" := rfl
  rw [hdef]
  cases h : (VIB34DReactivePresetLibrary.new (VIB34D_REACTIVE_PRESETS α)).partnerStageMap.lookup
      stage with
  | none => exact hfin
  | some v =>
    rw [hval v h]
    exact hfin

theorem truthyString_getD_empty (s : Option String) :
    (truthyString s).getD "" = s.getD "" := by
  cases s with
  | none => rfl
  | some k => by_cases hk : k = "" <;> simp [truthyString, Option.filter, hk]

theorem channel_is_partner (c : Option String) :
    ((truthyString c).getD "primary" = "partner") ↔ c = some "partner" := by
  cases c with
  | none => simp [truthyString]
  | some k =>
    by_cases hk : k = ""
    · subst hk
      simp [truthyString, Option.filter]
    · simp [truthyString, Option.filter, hk]

theorem stagePreset_filter (stage : String) :
    (truthyString (specStagePreset stage)).filter
        (fun k => ((VIB34D_REACTIVE_PRESETS α).lookup k).isSome) = specStagePreset stage := by
  unfold specStagePreset
  split_ifs <;> rfl

theorem specStagePreset_mem (stage m : String) (h : specStagePreset stage = some m) :
    m ∈ presetKeys := by
  unfold specStagePreset at h
  split_ifs at h
  all_goals
    simp only [Option.some.injEq] at h
    subst h
    decide

theorem hasProperty_eq_lookup {β : Type} (entries : List (String × β)) (key : String)
    (hp : OBJECT_PROTOTYPE.lookup key = none) :
    hasProperty entries key = (entries.lookup key).isSome := by
  unfold hasProperty objectGet
  rw [hp]
  cases entries.lookup key <;> rfl

theorem objectGet_eq_lookup {β : Type} (entries : List (String × β)) (key : String)
    (hp : OBJECT_PROTOTYPE.lookup key = none) :
    objectGet entries key = (entries.lookup key).elim Property.absent Property.own := by
  unfold objectGet
  rw [hp]
  cases entries.lookup key <;> rfl

theorem presetKeys_not_inherited (k : String) (hk : k ∈ presetKeys) :
    OBJECT_PROTOTYPE.lookup k = none := by
  simp only [presetKeys, List.mem_cons, List.mem_singleton, List.not_mem_nil, or_false] at hk
  rcases hk with h | h | h | h | h | h | h | h | h <;> subst h <;> rfl

theorem preset_filter_keys (s : Option String)
    (hs : ∀ p, s = some p → OBJECT_PROTOTYPE.lookup p = none) :
    (truthyString s).filter (fun k => hasProperty (VIB34D_REACTIVE_PRESETS α) k) =
      s.filter (fun p => p ∈ presetKeys) := by
  rw [← @truthyString_filter_keys α _]
  cases s with
  | none => rfl
  | some k =>
    by_cases hk : k = ""
    · subst hk; rfl
    · rw [truthyString_of_ne k hk]
      simp only [Option.filter, hasProperty_eq_lookup _ _ (hs k rfl)]

theorem stagePreset_hasProperty (stage : String) :
    (truthyString (specStagePreset stage)).filter
        (fun k => hasProperty (VIB34D_REACTIVE_PRESETS α) k) = specStagePreset stage := by
  unfold specStagePreset
  split_ifs <;> rfl

theorem partnerStage_value (stage v : String)
    (h : (VIB34DReactivePresetLibrary.new (VIB34D_REACTIVE_PRESETS α)).partnerStageMap.lookup
      stage = some v) : v = "partner-inverse" := by
  revert h
  simp only [VIB34DReactivePresetLibrary.new, List.lookup]
  repeat' split
  all_goals simp
  all_goals (intro h; exact h.symm)

theorem resolvePreset_not_inherited (context : PresetContext α)
    (hpreset : ∀ p, context.preset = some p → OBJECT_PROTOTYPE.lookup p = none)
    (hstage : ∀ s, context.stage = some s → OBJECT_PROTOTYPE.lookup s = none) :
    (VIB34DReactivePresetLibrary.new (VIB34D_REACTIVE_PRESETS α)).resolvePreset context =
      specResolvePreset context := by
  have hst : OBJECT_PROTOTYPE.lookup (context.stage.getD "") = none := by
    cases h : context.stage with
    | none => rfl
    | some s => exact hstage s h
  have hp : (VIB34DReactivePresetLibrary.new (VIB34D_REACTIVE_PRESETS α)).presets =
      VIB34D_REACTIVE_PRESETS α := rfl
  have hlast : ∀ stage : String,
      (if stage ≠ "" ∧ decide (stage ∈ presetKeys) = true then some stage else none) =
        (if stage ∈ presetKeys then some stage else none) := by
    intro stage
    by_cases hk : stage ∈ presetKeys
    · have hne : stage ≠ "" := by
        rintro rfl
        revert hk
        decide
      simp [hk, hne]
    · simp [hk]
  unfold VIB34DReactivePresetLibrary.resolvePreset specResolvePreset
  simp only [hp, truthyString_getD_empty, channel_is_partner]
  rw [preset_filter_keys context.preset hpreset]
  simp only [objectGet_eq_lookup _ _ hst, hasProperty_eq_lookup _ _ hst, stageMap_lookup]
  cases hf : Option.filter (fun p => decide (p ∈ presetKeys)) context.preset with
  | some p => rfl
  | none =>
    simp only []
    by_cases hc : context.channel = some "partner"
    · rw [if_pos hc, if_pos hc]
      cases hl : (VIB34DReactivePresetLibrary.new
          (VIB34D_REACTIVE_PRESETS α)).partnerStageMap.lookup (context.stage.getD "") with
      | none => rfl
      | some v =>
        have hv := @partnerStage_value α _ _ v hl
        subst hv
        rfl
    · rw [if_neg hc, if_neg hc]
      cases hS : specStagePreset (context.stage.getD "") with
      | some m =>
        have hm := @stagePreset_hasProperty α _ (context.stage.getD "")
        rw [hS] at hm
        simp only [Option.elim]
        rw [hm]
      | none =>
        simp only [Option.elim]
        have h0 : (truthyString (none : Option String)).filter
            (fun k => hasProperty (VIB34D_REACTIVE_PRESETS α) k) = none := rfl
        rw [h0]
        simp only [catalog_lookup_isSome, hlast]

theorem specResolvePreset_mem (context : PresetContext α) (k : String)
    (hk : specResolvePreset context = some k) : k ∈ presetKeys := by
  unfold specResolvePreset at hk
  cases hf : context.preset.filter (fun p => p ∈ presetKeys) with
  | some p =>
    rw [hf] at hk
    simp only [Option.some.injEq] at hk
    subst hk
    cases hp : context.preset with
    | none => simp [hp] at hf
    | some q =>
      rw [hp] at hf
      simp only [Option.filter] at hf
      split_ifs at hf with hq
      simp only [Option.some.injEq] at hf
      subst hf
      simpa using hq
  | none =>
    rw [hf] at hk
    simp only [] at hk
    by_cases hc : context.channel = some "partner"
    · rw [if_pos hc] at hk
      simp only [Option.some.injEq] at hk
      subst hk
      decide
    · rw [if_neg hc] at hk
      cases hS : specStagePreset (context.stage.getD "") with
      | some m =>
        rw [hS] at hk
        simp only [Option.some.injEq] at hk
        subst hk
        exact specStagePreset_mem _ _ hS
      | none =>
        rw [hS] at hk
        simp only [] at hk
        split_ifs at hk with hm
        simp only [Option.some.injEq] at hk
        subst hk
        exact hm

/-- C15: on the library built from `VIB34D_REACTIVE_PRESETS`, for every context whose
`preset` and `stage` are not names inherited from `Object.prototype` (`hpreset`, `hstage`),
`resolvePreset` returns the preset name when it is a key of the catalog; otherwise
`partner-inverse` when the channel is `partner`, whatever the stage; otherwise the stage
map's preset for the stages `approach, focus, exit, inherit, release, idle`; otherwise the
stage itself when it is a key of the catalog; otherwise `null`; and the result is `null` or
a key of the catalog.  For inherited names the tests `this.presets[x]` and
`this.partnerStageMap[stage]` see the inherited property:
`resolvePreset({ preset: 'constructor' })` returns `constructor` and
`resolvePreset({ stage: 'toString' })` returns `toString`, neither of them a key of the
catalog, and `resolvePreset({ channel: 'partner', stage: 'constructor' })` returns `null`
where the resolution order gives `partner-inverse`. -/
theorem resolvePreset_eq_spec (context : PresetContext α)
    (hpreset : ∀ p, context.preset = some p → OBJECT_PROTOTYPE.lookup p = none)
    (hstage : ∀ s, context.stage = some s → OBJECT_PROTOTYPE.lookup s = none) :
    ((VIB34DReactivePresetLibrary.new (VIB34D_REACTIVE_PRESETS α)).resolvePreset context =
        specResolvePreset context ∧
      ∀ k, (VIB34DReactivePresetLibrary.new (VIB34D_REACTIVE_PRESETS α)).resolvePreset context
        = some k → k ∈ presetKeys) ∧
    ((VIB34DReactivePresetLibrary.new (VIB34D_REACTIVE_PRESETS α)).resolvePreset
        { preset := some "constructor" } = some "constructor" ∧
      specResolvePreset ({ preset := some "constructor" } : PresetContext α) = none ∧
      "constructor" ∉ presetKeys) ∧
    ((VIB34DReactivePresetLibrary.new (VIB34D_REACTIVE_PRESETS α)).resolvePreset
        { stage := some "toString" } = some "toString" ∧
      specResolvePreset ({ stage := some "toString" } : PresetContext α) = none ∧
      "toString" ∉ presetKeys) ∧
    ((VIB34DReactivePresetLibrary.new (VIB34D_REACTIVE_PRESETS α)).resolvePreset
        { channel := some "partner", stage := some "constructor" } = none ∧
      specResolvePreset
        ({ channel := some "partner", stage := some "constructor" } : PresetContext α) =
        some "partner-inverse") := by
  have hspec := resolvePreset_not_inherited context hpreset hstage
  refine ⟨⟨hspec, ?_⟩, ⟨rfl, rfl, by decide⟩, ⟨rfl, rfl, by decide⟩, rfl, rfl⟩
  intro k hk
  rw [hspec] at hk
  exact specResolvePreset_mem context k hk

/-- Witness of C15: the context `{ preset: 'aurora', stage: 'focus' }`, whose preset is
no key of the catalog, resolves through the stage map. -/
theorem resolvePreset_eq_spec_witness :
    (∀ p, ({ preset := some "aurora", stage := some "focus" } : PresetContext ℚ).preset =
        some p → OBJECT_PROTOTYPE.lookup p = none) ∧
    (∀ s, ({ preset := some "aurora", stage := some "focus" } : PresetContext ℚ).stage =
        some s → OBJECT_PROTOTYPE.lookup s = none) ∧
    (VIB34DReactivePresetLibrary.new (VIB34D_REACTIVE_PRESETS ℚ)).resolvePreset
        { preset := some "aurora", stage := some "focus" } = some "focus-primary" ∧
    (((VIB34DReactivePresetLibrary.new (VIB34D_REACTIVE_PRESETS ℚ)).resolvePreset
          { preset := some "aurora", stage := some "focus" } =
        specResolvePreset ({ preset := some "aurora", stage := some "focus" } : PresetContext ℚ) ∧
      ∀ k, (VIB34DReactivePresetLibrary.new (VIB34D_REACTIVE_PRESETS ℚ)).resolvePreset
          { preset := some "aurora", stage := some "focus" } = some k → k ∈ presetKeys) ∧
    ((VIB34DReactivePresetLibrary.new (VIB34D_REACTIVE_PRESETS ℚ)).resolvePreset
        { preset := some "constructor" } = some "constructor" ∧
      specResolvePreset ({ preset := some "constructor" } : PresetContext ℚ) = none ∧
      "constructor" ∉ presetKeys) ∧
    ((VIB34DReactivePresetLibrary.new (VIB34D_REACTIVE_PRESETS ℚ)).resolvePreset
        { stage := some "toString" } = some "toString" ∧
      specResolvePreset ({ stage := some "toString" } : PresetContext ℚ) = none ∧
      "toString" ∉ presetKeys) ∧
    ((VIB34DReactivePresetLibrary.new (VIB34D_REACTIVE_PRESETS ℚ)).resolvePreset
        { channel := some "partner", stage := some "constructor" } = none ∧
      specResolvePreset
        ({ channel := some "partner", stage := some "constructor" } : PresetContext ℚ) =
        some "partner-inverse")) :=
  ⟨fun p h => by cases h; rfl, fun s h => by cases h; rfl, rfl,
    resolvePreset_eq_spec { preset := some "aurora", stage := some "focus" }
      (fun p h => by cases h; rfl) (fun s h => by cases h; rfl)⟩

end PresetResolutionTheorems

section FlourishSelectionTheorems

variable {α : Type} [LinearOrderedField α] [FloorRing α]

theorem quantumFlourishes_nodup : (quantumFlourishes α).Nodup := by
  simp [quantumFlourishes]

theorem holographicFlourishes_nodup : (holographicFlourishes α).Nodup := by
  simp [holographicFlourishes]

theorem facetedFlourishes_nodup : (facetedFlourishes α).Nodup := by
  simp [facetedFlourishes]

theorem objectGet_of_lookup {β : Type} (entries : List (String × β)) (key : String) (value : β)
    (h : entries.lookup key = some value) : objectGet entries key = .own value := by
  unfold objectGet
  rw [h]

theorem objectGet_absent {β : Type} (entries : List (String × β)) (key : String)
    (h : entries.lookup key = none) (hp : OBJECT_PROTOTYPE.lookup key = none) :
    objectGet entries key = .absent := by
  unfold objectGet
  rw [h, hp]

theorem flourishLibrary_cases (v : VIB34DTiltVisualizer α)
    (hfam : OBJECT_PROTOTYPE.lookup v.systemType = none) :
    (v.systemType = "holographic" ∧
        v.flourishLibrary = (holographicFlourishes α).map some) ∨
    (v.systemType = "faceted" ∧ v.flourishLibrary = (facetedFlourishes α).map some) ∨
    (v.systemType ≠ "holographic" ∧ v.systemType ≠ "faceted" ∧
      v.flourishLibrary = (quantumFlourishes α).map some) := by
  unfold VIB34DTiltVisualizer.flourishLibrary
  by_cases h1 : v.systemType = "quantum"
  · rw [h1]
    exact Or.inr (Or.inr ⟨by decide, by decide, rfl⟩)
  by_cases h2 : v.systemType = "holographic"
  · rw [h2]
    exact Or.inl ⟨rfl, rfl⟩
  by_cases h3 : v.systemType = "faceted"
  · rw [h3]
    exact Or.inr (Or.inl ⟨rfl, rfl⟩)
  by_cases h4 : v.systemType = "default"
  · rw [h4]
    exact Or.inr (Or.inr ⟨by decide, by decide, rfl⟩)
  refine Or.inr (Or.inr ⟨h2, h3, ?_⟩)
  have e1 : (v.systemType == "quantum") = false := by simpa using h1
  have e2 : (v.systemType == "holographic") = false := by simpa using h2
  have e3 : (v.systemType == "faceted") = false := by simpa using h3
  have e4 : (v.systemType == "default") = false := by simpa using h4
  have hl : (VIB34D_DESTRUCTION_FLOURISHES α).lookup v.systemType = none := by
    simp [VIB34D_DESTRUCTION_FLOURISHES, List.lookup, e1, e2, e3, e4]
  rw [objectGet_absent _ _ hl hfam]
  rfl

theorem flourishLibrary_length (v : VIB34DTiltVisualizer α)
    (hfam : OBJECT_PROTOTYPE.lookup v.systemType = none) :
    v.flourishLibrary.length = 2 ∧ v.flourishLibrary.Nodup := by
  have hinj : Function.Injective (some : Flourish α → Option (Flourish α)) :=
    fun _ _ h => Option.some.inj h
  rcases flourishLibrary_cases v hfam with ⟨-, h⟩ | ⟨-, h⟩ | ⟨-, -, h⟩ <;> rw [h]
  · exact ⟨rfl, holographicFlourishes_nodup.map hinj⟩
  · exact ⟨rfl, facetedFlourishes_nodup.map hinj⟩
  · exact ⟨rfl, quantumFlourishes_nodup.map hinj⟩

theorem getDestructionFlourish_spec (v : VIB34DTiltVisualizer α)
    (hfam : OBJECT_PROTOTYPE.lookup v.systemType = none) :
    v.getDestructionFlourish.2 = (v.flourishLibrary[v.flourishIndex % 2]?).join ∧
      v.getDestructionFlourish.1.flourishIndex = (v.flourishIndex + 1) % 2 ∧
      v.getDestructionFlourish.1.flourishLibrary = v.flourishLibrary ∧
      v.getDestructionFlourish.1.systemType = v.systemType := by
  have hl := (flourishLibrary_length v hfam).1
  unfold VIB34DTiltVisualizer.getDestructionFlourish
  simp only [hl]
  exact ⟨rfl, rfl, rfl, rfl⟩

theorem drawFlourishes_spec (k : Nat) :
    ∀ v : VIB34DTiltVisualizer α, OBJECT_PROTOTYPE.lookup v.systemType = none →
      (v.drawFlourishes k).1 =
        (List.range k).map
          (fun j => (v.flourishLibrary[(v.flourishIndex + j) % 2]?).join) := by
  induction k with
  | zero => intro v _; rfl
  | succ k ih =>
    intro v hfam
    obtain ⟨h1, h2, h3, h4⟩ := getDestructionFlourish_spec v hfam
    show v.getDestructionFlourish.2 :: (v.getDestructionFlourish.1.drawFlourishes k).1 = _
    rw [ih _ (h4 ▸ hfam), h1, h2, h3, List.range_succ_eq_map, List.map_cons, List.map_map]
    congr 1
    apply List.map_congr_left
    intro j _
    simp only [Function.comp]
    have e : ((v.flourishIndex + 1) % 2 + j) % 2 = (v.flourishIndex + j.succ) % 2 := by omega
    rw [e]

theorem call_flourishIndex (M : JSMath α) (v : VIB34DTiltVisualizer α) (c : VisualizerCall α) :
    (v.call M c).flourishIndex = v.flourishIndex ∧ (v.call M c).systemType = v.systemType := by
  cases c with
  | updateState now => exact ⟨rfl, rfl⟩
  | setCardState state inheritedTrait =>
    unfold VIB34DTiltVisualizer.call VIB34DTiltVisualizer.setCardState
    cases inheritedTrait with
    | none => simp only []; split_ifs <;> (try split) <;> exact ⟨rfl, rfl⟩
    | some tr => simp only []; split_ifs <;> (try split) <;> exact ⟨rfl, rfl⟩
  | applyInteractionResponse options now =>
    show (v.applyInteractionResponse options now).flourishIndex = _ ∧ _
    unfold VIB34DTiltVisualizer.applyInteractionResponse
    rcases decorateInteractionOptions_fst v options with h | ⟨b, h⟩
    · exact ⟨by show (v.decorateInteractionOptions options).1.flourishIndex = _; rw [h],
        by show (v.decorateInteractionOptions options).1.systemType = _; rw [h]⟩
    · exact ⟨by show (v.decorateInteractionOptions options).1.flourishIndex = _; rw [h]; rfl,
        by show (v.decorateInteractionOptions options).1.systemType = _; rw [h]; rfl⟩
  | applyInheritedTrait trait immediate =>
    cases trait with
    | none => exact ⟨rfl, rfl⟩
    | some tr => exact ⟨rfl, rfl⟩
  | applyTiltVector tilt now => exact ⟨rfl, rfl⟩
  | applyAudioEnergy level audioMeta now =>
    cases level with
    | none => exact ⟨rfl, rfl⟩
    | some l => exact ⟨rfl, rfl⟩
  | applyDestructionFlourish flourish trait =>
    cases flourish with
    | none => exact ⟨rfl, rfl⟩
    | some f => exact ⟨rfl, rfl⟩

theorem run_flourishIndex (M : JSMath α) (calls : List (VisualizerCall α)) :
    ∀ v : VIB34DTiltVisualizer α,
      (v.run M calls).flourishIndex = v.flourishIndex ∧
        (v.run M calls).systemType = v.systemType := by
  induction calls with
  | nil => intro v; exact ⟨rfl, rfl⟩
  | cons c cs ih =>
    intro v
    obtain ⟨h1, h2⟩ := ih (v.call M c)
    obtain ⟨h3, h4⟩ := call_flourishIndex M v c
    exact ⟨h1.trans h3, h2.trans h4⟩

theorem new_systemType_cases (systemType : Option String) (hasAccentCore : Bool) (now : α) :
    (VIB34DTiltVisualizer.new systemType hasAccentCore now).flourishIndex = 0 ∧
      ((systemType = some "holographic" ∧
          (VIB34DTiltVisualizer.new systemType hasAccentCore now).systemType = "holographic") ∨
        (systemType = some "faceted" ∧
          (VIB34DTiltVisualizer.new systemType hasAccentCore now).systemType = "faceted") ∨
        (systemType ≠ some "holographic" ∧ systemType ≠ some "faceted" ∧
          (VIB34DTiltVisualizer.new systemType hasAccentCore now).systemType ≠ "holographic" ∧
          (VIB34DTiltVisualizer.new systemType hasAccentCore now).systemType ≠ "faceted")) := by
  refine ⟨rfl, ?_⟩
  show (_ ∧ (truthyString systemType).getD "quantum" = _) ∨
    (_ ∧ (truthyString systemType).getD "quantum" = _) ∨
    (_ ∧ _ ∧ (truthyString systemType).getD "quantum" ≠ _ ∧
      (truthyString systemType).getD "quantum" ≠ _)
  cases systemType with
  | none => exact Or.inr (Or.inr ⟨by simp, by simp, by decide, by decide⟩)
  | some s =>
    by_cases h1 : s = "holographic"
    · subst h1; exact Or.inl ⟨rfl, rfl⟩
    by_cases h2 : s = "faceted"
    · subst h2; exact Or.inr (Or.inl ⟨rfl, rfl⟩)
    refine Or.inr (Or.inr ⟨by simpa using h1, by simpa using h2, ?_, ?_⟩)
    · by_cases h0 : s = ""
      · subst h0; decide
      · simpa [truthyString, Option.filter, h0] using h1
    · by_cases h0 : s = ""
      · subst h0; decide
      · simpa [truthyString, Option.filter, h0] using h2

/-- Flourish selection is a deterministic round-robin for every family name that is not
inherited from `Object.prototype`. On an instance built by the constructor for family
`systemType` and brought to any state by a finite sequence of calls of the update loop and
event API, the flourish list of the family is the catalog list of `holographic` or
`faceted`, and the `quantum` list for every other (also unknown or absent) family; it has
`n = 2 ≥ 1` entries without repetition; `k` consecutive calls of `getDestructionFlourish`
return the entries number `0 mod n, 1 mod n, …, (k - 1) mod n`, each of them an entry (never
`null`), so `n` consecutive calls return every entry exactly once, and two consecutive
calls never return the same entry. -/
theorem round_robin_of_family (M : JSMath α) (systemType : Option String)
    (hasAccentCore : Bool) (now : α) (calls : List (VisualizerCall α)) (k : Nat)
    (hfam : OBJECT_PROTOTYPE.lookup ((truthyString systemType).getD "quantum") = none) :
    let v := (VIB34DTiltVisualizer.new systemType hasAccentCore now).run M calls
    let library := v.flourishLibrary
    let n := library.length
    library =
        (if systemType = some "holographic" then holographicFlourishes α
          else if systemType = some "faceted" then facetedFlourishes α
          else quantumFlourishes α).map some ∧
      1 ≤ n ∧ 1 < n ∧ library.Nodup ∧
      (v.drawFlourishes k).1 = (List.range k).map (fun j => (library[j % n]?).join) ∧
      (∀ j : Nat, ∃ flourish, library[j % n]? = some (some flourish)) ∧
      (v.drawFlourishes n).1 = library ∧
      (∀ j : Nat, library[j % n]? ≠ library[(j + 1) % n]?) := by
  intro v library n
  obtain ⟨hidx, hsys⟩ := run_flourishIndex M calls
    (VIB34DTiltVisualizer.new systemType hasAccentCore now)
  obtain ⟨h0, hnew⟩ := new_systemType_cases systemType hasAccentCore now
  have hi : v.flourishIndex = 0 := hidx.trans h0
  have hvs : v.systemType =
      (VIB34DTiltVisualizer.new systemType hasAccentCore now).systemType := hsys
  have hfv : OBJECT_PROTOTYPE.lookup v.systemType = none := by
    rw [hvs]
    exact hfam
  obtain ⟨hlen, hnd⟩ := flourishLibrary_length v hfv
  have hn : n = 2 := hlen
  have hdraw : ∀ m : Nat,
      (v.drawFlourishes m).1 = (List.range m).map (fun j => (library[j % n]?).join) := by
    intro m
    rw [drawFlourishes_spec m v hfv, hi, hn]
    simp only [Nat.zero_add]
  have hlib : library =
      (if systemType = some "holographic" then holographicFlourishes α
        else if systemType = some "faceted" then facetedFlourishes α
        else quantumFlourishes α).map some := by
    have hne : ¬ ("holographic" = "faceted") := by decide
    rcases hnew with ⟨a, b⟩ | ⟨a, b⟩ | ⟨a1, a2, b1, b2⟩
    · rcases flourishLibrary_cases v hfv with ⟨-, h⟩ | ⟨e, -⟩ | ⟨e1, -, -⟩
      · rw [if_pos a]; exact h
      · exact absurd (b.symm.trans (hvs.symm.trans e)) hne
      · exact absurd (hvs.trans b) e1
    · have a0 : systemType ≠ some "holographic" := by rw [a]; decide
      rcases flourishLibrary_cases v hfv with ⟨e, -⟩ | ⟨-, h⟩ | ⟨-, e2, -⟩
      · exact absurd (e.symm.trans (hvs.trans b)) hne
      · rw [if_neg a0, if_pos a]; exact h
      · exact absurd (hvs.trans b) e2
    · rcases flourishLibrary_cases v hfv with ⟨e, -⟩ | ⟨e, -⟩ | ⟨-, -, h⟩
      · exact absurd (hvs.symm.trans e) b1
      · exact absurd (hvs.symm.trans e) b2
      · rw [if_neg a1, if_neg a2]; exact h
  have hsome : ∀ j : Nat, ∃ flourish, library[j % n]? = some (some flourish) := by
    intro j
    have hj : j % n < library.length := Nat.mod_lt j (by rw [hn]; decide)
    have hmem0 : library[j % n] ∈ library := List.getElem_mem hj
    have hmem : library[j % n] ∈
        (if systemType = some "holographic" then holographicFlourishes α
          else if systemType = some "faceted" then facetedFlourishes α
          else quantumFlourishes α).map some := by
      rw [← hlib]
      exact hmem0
    rw [List.mem_map] at hmem
    obtain ⟨f, -, hf⟩ := hmem
    exact ⟨f, by rw [List.getElem?_eq_getElem hj, ← hf]⟩
  refine ⟨hlib, by rw [hn]; decide, by rw [hn]; decide, hnd, hdraw k, hsome, ?_, ?_⟩
  · rw [hdraw n]
    obtain ⟨a, b, hab⟩ := List.length_eq_two.mp hlen
    obtain ⟨fa, hfa⟩ := hsome 0
    obtain ⟨fb, hfb⟩ := hsome 1
    show (List.range v.flourishLibrary.length).map
      (fun j => (v.flourishLibrary[j % v.flourishLibrary.length]?).join) = v.flourishLibrary
    have hfa2 : v.flourishLibrary[0 % v.flourishLibrary.length]? = some (some fa) := hfa
    have hfb2 : v.flourishLibrary[1 % v.flourishLibrary.length]? = some (some fb) := hfb
    rw [hab] at hfa2 hfb2 ⊢
    simp only [List.length_cons, List.length_nil] at hfa2 hfb2 ⊢
    have ea : a = some fa := by simpa using hfa2
    have eb : b = some fb := by simpa using hfb2
    subst ea eb
    rfl
  · intro j heq
    have hj : j % n < library.length := Nat.mod_lt j (by rw [hn]; decide)
    have hj1 : (j + 1) % n < library.length := Nat.mod_lt (j + 1) (by rw [hn]; decide)
    rw [List.getElem?_eq_getElem hj, List.getElem?_eq_getElem hj1] at heq
    have := (List.Nodup.getElem_inj_iff hnd).mp (Option.some.inj heq)
    rw [hn] at this
    omega

theorem flourishLibrary_constructor (v : VIB34DTiltVisualizer α)
    (hsys : v.systemType = "constructor") : v.flourishLibrary = [none] := by
  unfold VIB34DTiltVisualizer.flourishLibrary
  rw [hsys]
  rfl

theorem getDestructionFlourish_constructor (v : VIB34DTiltVisualizer α)
    (hsys : v.systemType = "constructor") :
    v.getDestructionFlourish.2 = none ∧
      v.getDestructionFlourish.1.systemType = "constructor" := by
  unfold VIB34DTiltVisualizer.getDestructionFlourish
  simp only [flourishLibrary_constructor v hsys]
  have hl : ¬ (([none] : List (Option (Flourish α))).length = 0) := Nat.succ_ne_zero 0
  rw [if_neg hl]
  have hm : v.flourishIndex % ([none] : List (Option (Flourish α))).length = 0 := Nat.mod_one _
  rw [hm]
  exact ⟨rfl, hsys⟩

theorem drawFlourishes_constructor (k : Nat) :
    ∀ v : VIB34DTiltVisualizer α, v.systemType = "constructor" →
      (v.drawFlourishes k).1 = List.replicate k none := by
  induction k with
  | zero => intro v _; rfl
  | succ k ih =>
    intro v hsys
    obtain ⟨h1, h2⟩ := getDestructionFlourish_constructor v hsys
    show v.getDestructionFlourish.2 :: (v.getDestructionFlourish.1.drawFlourishes k).1 = _
    rw [ih _ h2, h1]
    rfl

/-- C16: flourish selection is a deterministic round-robin for every family whose name is
not a name inherited from `Object.prototype`, and returns `null` on every call for the
family `constructor`.  On an instance built by the constructor for family `systemType`
(`hfam`: the name is not inherited) and brought to any state by a finite sequence of calls
of the update loop and event API, the flourish list is the catalog list of `holographic`
or `faceted`, and the `quantum` list for every other (also unknown or absent) family; it
has `n = 2 ≥ 1` entries without repetition; `k` consecutive calls of
`getDestructionFlourish` return the entries number `0 mod n, 1 mod n, …, (k - 1) mod n`,
each of them an entry (never `null`), so `n` consecutive calls return every entry exactly
once, and two consecutive calls never return the same entry.  For the unknown family
`constructor` the expression `VIB34D_DESTRUCTION_FLOURISHES[this.systemType]` is the
inherited function `Object`, of length 1 with no element: the list read by the method is
`[undefined]`, not the quantum list, and `k` consecutive calls return `null` `k` times. -/
theorem getDestructionFlourish_round_robin (M : JSMath α) (systemType : Option String)
    (hasAccentCore : Bool) (now : α) (calls : List (VisualizerCall α)) (k : Nat)
    (hfam : OBJECT_PROTOTYPE.lookup ((truthyString systemType).getD "quantum") = none) :
    (let v := (VIB34DTiltVisualizer.new systemType hasAccentCore now).run M calls
     let library := v.flourishLibrary
     let n := library.length
     library =
        (if systemType = some "holographic" then holographicFlourishes α
          else if systemType = some "faceted" then facetedFlourishes α
          else quantumFlourishes α).map some ∧
      1 ≤ n ∧ 1 < n ∧ library.Nodup ∧
      (v.drawFlourishes k).1 = (List.range k).map (fun j => (library[j % n]?).join) ∧
      (∀ j : Nat, ∃ flourish, library[j % n]? = some (some flourish)) ∧
      (v.drawFlourishes n).1 = library ∧
      (∀ j : Nat, library[j % n]? ≠ library[(j + 1) % n]?)) ∧
    (VIB34DTiltVisualizer.new (some "constructor") hasAccentCore now).systemType =
      "constructor" ∧
    (VIB34DTiltVisualizer.new (some "constructor") hasAccentCore now).flourishLibrary =
      [none] ∧
    (VIB34DTiltVisualizer.new (some "constructor") hasAccentCore now).flourishLibrary ≠
      (quantumFlourishes α).map some ∧
    ((VIB34DTiltVisualizer.new (some "constructor") hasAccentCore now).drawFlourishes k).1 =
      List.replicate k none :=
  ⟨round_robin_of_family M systemType hasAccentCore now calls k hfam, rfl,
    flourishLibrary_constructor _ rfl,
    by
      rw [flourishLibrary_constructor _ rfl]
      intro h
      have hlen := congrArg List.length h
      simp [quantumFlourishes] at hlen,
    drawFlourishes_constructor k _ rfl⟩

/-- Witness of C16: three draws on a fresh `holographic` instance. -/
theorem getDestructionFlourish_round_robin_witness :
    OBJECT_PROTOTYPE.lookup ((truthyString (some "holographic")).getD "quantum") = none ∧
    ((let v := (VIB34DTiltVisualizer.new (some "holographic") false (0 : ℝ)).run
        (mkMath Real.exp Real.sin Real.cos Real.sqrt (fun y x => Complex.arg ⟨x, y⟩)
          Real.rpow Real.pi) []
      let library := v.flourishLibrary
      let n := library.length
      library =
        (if (some "holographic" : Option String) = some "holographic"
          then holographicFlourishes ℝ
          else if (some "holographic" : Option String) = some "faceted"
            then facetedFlourishes ℝ
          else quantumFlourishes ℝ).map some ∧
      1 ≤ n ∧ 1 < n ∧ library.Nodup ∧
      (v.drawFlourishes 3).1 = (List.range 3).map (fun j => (library[j % n]?).join) ∧
      (∀ j : Nat, ∃ flourish, library[j % n]? = some (some flourish)) ∧
      (v.drawFlourishes n).1 = library ∧
      (∀ j : Nat, library[j % n]? ≠ library[(j + 1) % n]?)) ∧
    (VIB34DTiltVisualizer.new (some "constructor") false (0 : ℝ)).systemType =
      "constructor" ∧
    (VIB34DTiltVisualizer.new (some "constructor") false (0 : ℝ)).flourishLibrary =
      [none] ∧
    (VIB34DTiltVisualizer.new (some "constructor") false (0 : ℝ)).flourishLibrary ≠
      (quantumFlourishes ℝ).map some ∧
    ((VIB34DTiltVisualizer.new (some "constructor") false (0 : ℝ)).drawFlourishes 3).1 =
      List.replicate 3 none) :=
  ⟨by decide, getDestructionFlourish_round_robin _ (some "holographic") false 0 [] 3
    (by decide)⟩

end FlourishSelectionTheorems

section FlourishMergeTheorems

variable {α : Type} [LinearOrderedField α] [FloorRing α]

/-- C17 (counterexample): on a fresh quantum instance the catalog flourish `rift-bloom`
(`inherit.portalPulse = 1.22`, `inherit.hueShift = 22`) applied to the base trait
`{ portalPulse: 0.2 }` returns `portalPulse = 1.22`, the larger of the two and not their sum
`1.42`, raises the target `wPulse` to `1.22` instead of adding to it, and leaves the target
hue at the base hue `278` instead of adding the hue shift. -/
theorem applyDestructionFlourish_sum_counterexample :
    ∃ flourish : Flourish ℚ, (quantumFlourishes ℚ)[0]? = some flourish ∧
      (flourish.inherit.bind (fun i => i.portalPulse)) = some 1.22 ∧
      (flourish.inherit.bind (fun i => i.hueShift)) = some 22 ∧
      ((VIB34DTiltVisualizer.new (some "quantum") false (0 : ℚ)).applyDestructionFlourish
          (some flourish) { portalPulse := some 0.2 }).2.portalPulse = some 1.22 ∧
      ((VIB34DTiltVisualizer.new (some "quantum") false (0 : ℚ)).applyDestructionFlourish
          (some flourish) { portalPulse := some 0.2 }).2.portalPulse ≠ some (0.2 + 1.22) ∧
      (VIB34DTiltVisualizer.new (some "quantum") false (0 : ℚ)).targetState.wPulse = 0.2 ∧
      ((VIB34DTiltVisualizer.new (some "quantum") false (0 : ℚ)).applyDestructionFlourish
          (some flourish) { portalPulse := some 0.2 }).1.targetState.wPulse = 1.22 ∧
      (VIB34DTiltVisualizer.new (some "quantum") false (0 : ℚ)).targetState.hue = 278 ∧
      ((VIB34DTiltVisualizer.new (some "quantum") false (0 : ℚ)).applyDestructionFlourish
          (some flourish) { portalPulse := some 0.2 }).1.targetState.hue = 278 := by
  refine ⟨_, rfl, rfl, rfl, ?_, ?_, rfl, ?_, rfl, rfl⟩
  · show some (max ((0.2 : ℚ)) 1.22) = some 1.22
    norm_num
  · show some (max ((0.2 : ℚ)) 1.22) ≠ some (0.2 + 1.22)
    norm_num
  · show max ((0.2 : ℚ)) 1.22 = 1.22
    norm_num

theorem elim_add_getD (o : Option α) (x : α) :
    o.elim x (fun d => x + d) = x + o.getD 0 := by
  cases o with
  | none => exact (add_zero x).symm
  | some d => rfl

/-- C17 (amended): for every flourish and every base trait, in the trait returned by
`applyDestructionFlourish` each of `hueShift`, `accentShift`, `moireBoost`, `glitchBoost`,
`energyBoost` present in `flourish.inherit` equals the base trait's value (`0` when absent)
plus the inherit value, and is the base trait's field when the inherit field is absent;
`portalPulse` is the larger of the base value (`0` when absent) and the inherit value, not
their sum. In the target state only `moireBoost`, `glitchBoost` and `energyBoost` are added
(to `moire`, `glitch`, `energy`, next to the `core` deltas of `moire` and `glitch`), `wPulse`
is raised to at least `inherit.portalPulse`, the target hue is unchanged and the target
accent hue does not depend on `inherit`. The returned trait carries
`flourishSignature = flourish.id` and `flourishLabel = flourish.label`; a `null` flourish
returns the base trait and leaves the instance unchanged. -/
theorem applyDestructionFlourish_merges_inherit (self : VIB34DTiltVisualizer α)
    (flourish : Flourish α) (trait : Trait α) :
    let inherit : FlourishInherit α := flourish.inherit.getD {}
    let core : FlourishCore α := flourish.core.getD {}
    let result := self.applyDestructionFlourish (some flourish) trait
    result.2.hueShift =
        inherit.hueShift.elim trait.hueShift (fun d => some (trait.hueShift.getD 0 + d)) ∧
      result.2.accentShift =
        inherit.accentShift.elim trait.accentShift
          (fun d => some (trait.accentShift.getD 0 + d)) ∧
      result.2.moireBoost =
        inherit.moireBoost.elim trait.moireBoost
          (fun d => some (trait.moireBoost.getD 0 + d)) ∧
      result.2.glitchBoost =
        inherit.glitchBoost.elim trait.glitchBoost
          (fun d => some (trait.glitchBoost.getD 0 + d)) ∧
      result.2.energyBoost =
        inherit.energyBoost.elim trait.energyBoost
          (fun d => some (trait.energyBoost.getD 0 + d)) ∧
      result.2.portalPulse =
        inherit.portalPulse.elim trait.portalPulse
          (fun p => some (max (trait.portalPulse.getD 0) p)) ∧
      result.1.targetState.moire =
        self.targetState.moire + inherit.moireBoost.getD 0 + core.moire.getD 0 ∧
      result.1.targetState.glitch =
        self.targetState.glitch + inherit.glitchBoost.getD 0 + core.glitch.getD 0 ∧
      result.1.targetState.energy = self.targetState.energy + inherit.energyBoost.getD 0 ∧
      result.1.targetState.wPulse =
        max self.targetState.wPulse (inherit.portalPulse.getD self.targetState.wPulse) ∧
      result.1.targetState.hue = self.targetState.hue ∧
      result.1.targetState.accentHue =
        (self.applyDestructionFlourish (some { flourish with inherit := none })
          trait).1.targetState.accentHue ∧
      result.2.flourishSignature = some flourish.id ∧
      result.2.flourishLabel = some flourish.label ∧
      self.applyDestructionFlourish none trait = (self, trait) := by
  intro inherit core result
  refine ⟨rfl, rfl, rfl, rfl, rfl, rfl, ?_, ?_, ?_, ?_, rfl, rfl, rfl, rfl, rfl⟩
  · show core.moire.elim
        (inherit.moireBoost.elim self.targetState.moire (fun d => self.targetState.moire + d))
        (fun m => inherit.moireBoost.elim self.targetState.moire
          (fun d => self.targetState.moire + d) + m) = _
    rw [elim_add_getD, elim_add_getD]
  · show core.glitch.elim
        (inherit.glitchBoost.elim self.targetState.glitch (fun d => self.targetState.glitch + d))
        (fun m => inherit.glitchBoost.elim self.targetState.glitch
          (fun d => self.targetState.glitch + d) + m) = _
    rw [elim_add_getD, elim_add_getD]
  · show inherit.energyBoost.elim self.targetState.energy
        (fun d => self.targetState.energy + d) = _
    rw [elim_add_getD]
  · show inherit.portalPulse.elim self.targetState.wPulse
        (fun p => max self.targetState.wPulse p) = _
    cases inherit.portalPulse with
    | none => exact (max_self _).symm
    | some p => rfl

end FlourishMergeTheorems

section CoreTheorems

variable {α : Type} [LinearOrderedField α] [FloorRing α]

theorem lookup_cons_eq {β : Type} (k a : String) (b : β) (t : List (String × β)) :
    List.lookup k ((a, b) :: t) = if k = a then some b else List.lookup k t := by
  by_cases h : k = a
  · subst h; simp [List.lookup]
  · have e : (k == a) = false := by simpa using h
    simp [List.lookup, e, h]

theorem lookup_append_single {β : Type} (k a : String) (b : β) (t : List (String × β)) :
    List.lookup k (t ++ [(a, b)]) =
      (List.lookup k t).orElse (fun _ => if k = a then some b else none) := by
  induction t with
  | nil => rw [List.nil_append, lookup_cons_eq]; rfl
  | cons hd tl ih =>
    obtain ⟨a1, b1⟩ := hd
    rw [List.cons_append, lookup_cons_eq, lookup_cons_eq, ih]
    by_cases h : k = a1
    · rw [if_pos h, if_pos h]; rfl
    · rw [if_neg h, if_neg h]

theorem lookup_map_replace {β : Type} (values : List (String × β)) (key k : String)
    (value : β) :
    List.lookup k (values.map (fun entry => if entry.1 = key then (key, value) else entry)) =
      if k = key then (List.lookup key values).map (fun _ => value)
      else List.lookup k values := by
  induction values with
  | nil => by_cases hk : k = key <;> simp [List.lookup, hk]
  | cons hd tl ih =>
    obtain ⟨a, b⟩ := hd
    rw [List.map_cons, lookup_cons_eq, lookup_cons_eq]
    by_cases ha : a = key
    · subst ha
      by_cases hk : k = a
      · subst hk; simp [lookup_cons_eq]
      · simp [lookup_cons_eq, hk, ih]
    · have hkey : ¬ key = a := fun h => ha h.symm
      by_cases hk : k = key
      · subst hk
        simp [lookup_cons_eq, ha, hkey, ih]
      · simp [lookup_cons_eq, ha, hk, ih]

theorem lookup_setValue (values : List (String × JSValue α)) (key k : String)
    (value : JSValue α) :
    (setValue values key value).lookup k =
      if k = key then some value else values.lookup k := by
  unfold setValue
  by_cases hs : (values.lookup key).isSome
  · rw [if_pos hs, lookup_map_replace]
    by_cases hk : k = key
    · rw [if_pos hk, if_pos hk]
      obtain ⟨x, hx⟩ := Option.isSome_iff_exists.mp hs
      rw [hx]; rfl
    · rw [if_neg hk, if_neg hk]
  · rw [if_neg hs, lookup_append_single]
    by_cases hk : k = key
    · subst hk
      have hn : List.lookup k values = none := by
        cases h : List.lookup k values with
        | none => rfl
        | some x => rw [h] at hs; exact absurd rfl hs
      rw [hn, if_pos rfl]; rfl
    · rw [if_neg hk, if_neg hk]
      cases List.lookup k values <;> rfl

theorem get_set (state : CoreState α) (key k : String) (value : JSValue α) :
    (state.set key value).get k = if k = key then value else state.get k := by
  unfold CoreState.get CoreState.set
  show (List.lookup k (setValue state.values key value)).getD _ = _
  rw [lookup_setValue]
  by_cases hk : k = key
  · rw [if_pos hk, if_pos hk]; rfl
  · rw [if_neg hk, if_neg hk]

theorem bindingKeys :
    (createUniformBindings α).map Prod.fst =
      [ "resolution", "time", "dimensions", "morphFactor", "rotationSpeed",
        "universeModifier", "patternIntensity", "gridDensity", "lineThickness", "shellWidth",
        "tetraThickness", "glitchIntensity", "colorShift", "interactionIntensity",
        "portalPulse", "rot4dXY", "rot4dXZ", "rot4dYZ", "rot4dXW", "rot4dYW", "rot4dZW",
        "audioBass", "audioMid", "audioHigh", "colorPrimary", "colorSecondary",
        "colorBackground", "geometryType" ] := rfl

theorem bindingUniforms :
    (createUniformBindings α).map (fun entry => entry.2.uniform) = programUniforms := rfl

theorem lookup_map_self {β : Type} (f : String → β) (name : String) :
    ∀ names : List String, name ∈ names →
      (names.map (fun n => (n, f n))).lookup name = some (f name) := by
  intro names
  induction names with
  | nil => intro h; exact absurd h (List.not_mem_nil _)
  | cons hd tl ih =>
    intro h
    rw [List.map_cons, lookup_cons_eq]
    by_cases e : name = hd
    · rw [if_pos e, e]
    · rw [if_neg e]
      exact ih ((List.mem_cons.mp h).resolve_left e)

theorem updateUniformsStep_eq (loc : List (String × Option Nat))
    (acc : CoreState α × List (String × GLCall α)) (entry : String × UniformBinding α)
    (location : Nat) (h : (loc.lookup entry.2.uniform).join = some location) :
    updateUniformsStep loc acc entry =
      if entry.2.dynamic then (acc.1, acc.2 ++ [(entry.1, entry.2.call acc.1 location)])
      else if acc.1.dirtyUniforms.contains entry.1 then
        ({ acc.1 with dirtyUniforms := acc.1.dirtyUniforms.erase entry.1 },
          acc.2 ++ [(entry.1, entry.2.call acc.1 location)])
      else acc := by
  unfold updateUniformsStep
  simp only [h]
  cases hd : entry.2.dynamic <;> cases hc : acc.1.dirtyUniforms.contains entry.1 <;> simp

theorem foldl_updateUniformsStep (loc : List (String × Option Nat)) :
    ∀ bs : List (String × UniformBinding α), (bs.map Prod.fst).Nodup →
      (∀ entry ∈ bs, ((loc.lookup entry.2.uniform).join).isSome) →
      ∀ acc : CoreState α × List (String × GLCall α), acc.1.dirtyUniforms.Nodup →
        (bs.foldl (updateUniformsStep loc) acc).2.map Prod.fst =
            acc.2.map Prod.fst ++
              (bs.filter
                (fun entry => entry.2.dynamic || acc.1.dirtyUniforms.contains entry.1)).map
                Prod.fst ∧
          (bs.foldl (updateUniformsStep loc) acc).1.dirtyUniforms =
            acc.1.dirtyUniforms.filter
              (fun key =>
                !((bs.filter (fun entry => !entry.2.dynamic)).map Prod.fst).contains key) ∧
          ∃ dirty, (bs.foldl (updateUniformsStep loc) acc).1 =
            { acc.1 with dirtyUniforms := dirty } := by
  intro bs
  induction bs with
  | nil =>
    intro _ _ acc _
    refine ⟨by simp, by simp, ⟨acc.1.dirtyUniforms, rfl⟩⟩
  | cons e t ih =>
    intro hnd hres acc hacc
    have hnd2 : e.1 ∉ t.map Prod.fst ∧ (t.map Prod.fst).Nodup := List.nodup_cons.mp hnd
    have hres2 : ∀ entry ∈ t, ((loc.lookup entry.2.uniform).join).isSome :=
      fun entry he => hres entry (List.mem_cons_of_mem _ he)
    obtain ⟨location, hl⟩ := Option.isSome_iff_exists.mp (hres e (List.mem_cons_self _ _))
    rw [List.foldl_cons, updateUniformsStep_eq loc acc e location hl]
    by_cases hd : e.2.dynamic = true
    · rw [if_pos hd]
      obtain ⟨h1, h2, d, h3⟩ := ih hnd2.2 hres2
        (acc.1, acc.2 ++ [(e.1, e.2.call acc.1 location)]) hacc
      refine ⟨?_, ?_, ⟨d, h3⟩⟩
      · rw [h1]
        simp [List.filter_cons, hd]
      · rw [h2]
        simp [List.filter_cons, hd]
    · have hd2 : e.2.dynamic = false := by simpa using hd
      rw [if_neg hd]
      by_cases hc : acc.1.dirtyUniforms.contains e.1 = true
      · rw [if_pos hc]
        obtain ⟨h1, h2, d, h3⟩ := ih hnd2.2 hres2
          ({ acc.1 with dirtyUniforms := acc.1.dirtyUniforms.erase e.1 },
            acc.2 ++ [(e.1, e.2.call acc.1 location)]) (hacc.erase _)
        refine ⟨?_, ?_, ⟨d, h3⟩⟩
        · rw [h1]
          have hf : t.filter (fun entry => entry.2.dynamic ||
                (acc.1.dirtyUniforms.erase e.1).contains entry.1) =
              t.filter (fun entry => entry.2.dynamic ||
                acc.1.dirtyUniforms.contains entry.1) := by
            apply List.filter_congr
            intro x hx
            have hne : x.1 ≠ e.1 := fun h =>
              hnd2.1 (h ▸ List.mem_map_of_mem Prod.fst hx)
            have : (acc.1.dirtyUniforms.erase e.1).contains x.1 =
                acc.1.dirtyUniforms.contains x.1 := by
              rw [Bool.eq_iff_iff]
              simp [List.mem_erase_of_ne hne]
            rw [this]
          show List.map Prod.fst (acc.2 ++ [(e.1, e.2.call acc.1 location)]) ++
            List.map Prod.fst (t.filter (fun entry => entry.2.dynamic ||
                (acc.1.dirtyUniforms.erase e.1).contains entry.1)) = _
          rw [hf]
          have hm : e.1 ∈ acc.1.dirtyUniforms := by simpa using hc
          simp [List.filter_cons, hd2, hm]
        · rw [h2]
          show (acc.1.dirtyUniforms.erase e.1).filter _ = _
          rw [hacc.erase_eq_filter, List.filter_filter]
          apply List.filter_congr
          intro k _
          simp only [List.filter_cons, hd2, Bool.not_false, if_true, List.map_cons,
            List.contains_cons, Bool.not_or]
          cases (List.map Prod.fst (t.filter (fun entry => !entry.2.dynamic))).contains k <;>
            cases h : (k == e.1) <;> simp [bne, h]
      · have hc2 : acc.1.dirtyUniforms.contains e.1 = false := by simpa using hc
        rw [if_neg hc]
        obtain ⟨h1, h2, d, h3⟩ := ih hnd2.2 hres2 acc hacc
        refine ⟨?_, ?_, ⟨d, h3⟩⟩
        · rw [h1]
          have hm : e.1 ∉ acc.1.dirtyUniforms := by simpa using hc2
          simp [List.filter_cons, hd2, hm]
        · rw [h2]
          apply List.filter_congr
          intro k hk
          have hne : k ≠ e.1 := by
            intro h
            rw [h] at hk
            simp at hc2
            exact hc2 hk
          simp [List.filter_cons, hd2, hne]

theorem bindingKeys_nodup : ((createUniformBindings α).map Prod.fst).Nodup := by
  rw [(bindingKeys : (createUniformBindings α).map Prod.fst = _)]
  decide

theorem updateUniforms_eq (core : VIB34DHypercubeCore α) (gl : RenderingContext)
    (loc : List (String × Option Nat)) (hgl : core.gl = some gl)
    (hloc : core.uniformLocations = some loc) :
    core.updateUniforms =
      ({ core with
          state := ((createUniformBindings α).foldl (updateUniformsStep loc)
            (core.state, [])).1 },
        ((createUniformBindings α).foldl (updateUniformsStep loc) (core.state, [])).2) := by
  unfold VIB34DHypercubeCore.updateUniforms
  rw [hgl, hloc]

theorem updateUniforms_spec (core : VIB34DHypercubeCore α) (gl : RenderingContext)
    (loc : List (String × Option Nat)) (hgl : core.gl = some gl)
    (hloc : core.uniformLocations = some loc)
    (hres : ∀ name ∈ programUniforms, ((loc.lookup name).join).isSome)
    (hnd : core.state.dirtyUniforms.Nodup) :
    core.updateUniforms.2.map Prod.fst =
        ((createUniformBindings α).filter
          (fun entry => entry.2.dynamic || core.state.dirtyUniforms.contains entry.1)).map
          Prod.fst ∧
      core.updateUniforms.1 =
        { core with
          state :=
            { core.state with
              dirtyUniforms :=
                core.state.dirtyUniforms.filter
                  (fun key =>
                    !(((createUniformBindings α).filter
                      (fun entry => !entry.2.dynamic)).map Prod.fst).contains key) } } := by
  have hres2 : ∀ entry ∈ createUniformBindings α,
      ((loc.lookup entry.2.uniform).join).isSome := by
    intro entry he
    apply hres
    rw [← (bindingUniforms : (createUniformBindings α).map _ = _)]
    exact List.mem_map_of_mem (fun entry => entry.2.uniform) he
  obtain ⟨h1, h2, d, h3⟩ :=
    foldl_updateUniformsStep loc (createUniformBindings α) bindingKeys_nodup hres2
      (core.state, []) hnd
  have e1 := congrArg Prod.fst (updateUniforms_eq core gl loc hgl hloc)
  have e2 := congrArg Prod.snd (updateUniforms_eq core gl loc hgl hloc)
  constructor
  · rw [e2]
    simp only [List.map_nil, List.nil_append] at h1 ⊢
    exact h1
  · rw [e1]
    simp only
    rw [h3] at h2 ⊢
    have hd : d = core.state.dirtyUniforms.filter
        (fun key =>
          !(((createUniformBindings α).filter
            (fun entry => !entry.2.dynamic)).map Prod.fst).contains key) := h2
    rw [hd]

theorem resetUniformCache_dirty (core : VIB34DHypercubeCore α) :
    core.resetUniformCache.state.dirtyUniforms = (createUniformBindings α).map Prod.fst := by
  unfold VIB34DHypercubeCore.resetUniformCache
  simp only
  rw [(bindingKeys : (createUniformBindings α).map Prod.fst = _)]
  decide

theorem markUniformDirty_eq (core : VIB34DHypercubeCore α) (name : String) :
    ∃ dirty, core.markUniformDirty name =
      { core with state := { core.state with dirtyUniforms := dirty } } := by
  unfold VIB34DHypercubeCore.markUniformDirty
  split_ifs
  · exact ⟨_, rfl⟩
  · exact ⟨core.state.dirtyUniforms, rfl⟩

theorem get_dirty (state : CoreState α) (dirty : List String) (key : String) :
    ({ state with dirtyUniforms := dirty } : CoreState α).get key = state.get key := rfl

theorem buildProgram_spec (canvas : Canvas α) (gl : RenderingContext)
    (initialState : List (String × ParameterValue α)) (hgl : canvas.context = some gl)
    (hok : gl.shaderError = none) :
    ∃ built : VIB34DHypercubeCore α,
      (VIB34DHypercubeCore.handleResize
        { canvas := canvas, gl := canvas.context, state := createVIB34DState initialState,
          uniformLocations := none, program := false }).buildProgram = .ok built ∧
      built.gl = some gl ∧
      built.uniformLocations =
        some (programUniforms.map (fun name => (name, gl.uniformLocation.lookup name))) ∧
      built.program = true ∧
      built.state.dirtyUniforms = (createUniformBindings α).map Prod.fst ∧
      built.state.get "isRendering" = (createVIB34DState initialState).get "isRendering" ∧
      built.state.get "needsShaderUpdate" = .bool false ∧
      built.state.audioLevels = (createVIB34DState initialState).audioLevels ∧
      built.state.colorScheme = (createVIB34DState initialState).colorScheme ∧
      built.state.values =
        setValue (createVIB34DState initialState).values "needsShaderUpdate" (.bool false) := by
  rw [hgl]
  unfold VIB34DHypercubeCore.handleResize
  simp only
  obtain ⟨d, hd⟩ := markUniformDirty_eq
    ({ canvas := canvas, gl := some gl,
       state := { createVIB34DState initialState with
         resolution := [canvas.rectWidth, canvas.rectHeight] },
       uniformLocations := none, program := false } : VIB34DHypercubeCore α) "resolution"
  rw [hd]
  unfold VIB34DHypercubeCore.buildProgram
  simp only [hok]
  refine ⟨_, rfl, rfl, rfl, rfl, resetUniformCache_dirty _, ?_, ?_, rfl, rfl, rfl⟩
  · unfold VIB34DHypercubeCore.resetUniformCache
    simp only [get_dirty, get_set]
    rw [if_neg (by decide)]
    rfl
  · unfold VIB34DHypercubeCore.resetUniformCache
    simp only [get_dirty, get_set]
    rfl

theorem bindingFlags :
    (createUniformBindings α).map (fun entry => (entry.1, entry.2.dynamic)) =
      [ ("resolution", true), ("time", true), ("dimensions", false), ("morphFactor", false),
        ("rotationSpeed", false), ("universeModifier", false), ("patternIntensity", false),
        ("gridDensity", false), ("lineThickness", false), ("shellWidth", false),
        ("tetraThickness", false), ("glitchIntensity", false), ("colorShift", false),
        ("interactionIntensity", false), ("portalPulse", false), ("rot4dXY", false),
        ("rot4dXZ", false), ("rot4dYZ", false), ("rot4dXW", false), ("rot4dYW", false),
        ("rot4dZW", false), ("audioBass", false), ("audioMid", false), ("audioHigh", false),
        ("colorPrimary", false), ("colorSecondary", false), ("colorBackground", false),
        ("geometryType", false) ] := rfl

theorem filter_bindings (p : String × Bool → Bool) :
    ((createUniformBindings α).filter (fun entry => p (entry.1, entry.2.dynamic))).map
        Prod.fst =
      ((([ ("resolution", true), ("time", true), ("dimensions", false), ("morphFactor", false),
        ("rotationSpeed", false), ("universeModifier", false), ("patternIntensity", false),
        ("gridDensity", false), ("lineThickness", false), ("shellWidth", false),
        ("tetraThickness", false), ("glitchIntensity", false), ("colorShift", false),
        ("interactionIntensity", false), ("portalPulse", false), ("rot4dXY", false),
        ("rot4dXZ", false), ("rot4dYZ", false), ("rot4dXW", false), ("rot4dYW", false),
        ("rot4dZW", false), ("audioBass", false), ("audioMid", false), ("audioHigh", false),
        ("colorPrimary", false), ("colorSecondary", false), ("colorBackground", false),
        ("geometryType", false) ] : List (String × Bool))).filter p).map Prod.fst := by
  rw [← (bindingFlags : (createUniformBindings α).map _ = _), List.filter_map, List.map_map]
  rfl

theorem updateUniforms_all_dirty (core : VIB34DHypercubeCore α) (gl : RenderingContext)
    (loc : List (String × Option Nat)) (hgl : core.gl = some gl)
    (hloc : core.uniformLocations = some loc)
    (hres : ∀ name ∈ programUniforms, ((loc.lookup name).join).isSome)
    (hd : core.state.dirtyUniforms = (createUniformBindings α).map Prod.fst) :
    core.updateUniforms.2.map Prod.fst = (createUniformBindings α).map Prod.fst ∧
      core.updateUniforms.1 =
        { core with state := { core.state with dirtyUniforms := ["resolution", "time"] } } := by
  have hnd : core.state.dirtyUniforms.Nodup := by rw [hd]; exact bindingKeys_nodup
  obtain ⟨h1, h2⟩ := updateUniforms_spec core gl loc hgl hloc hres hnd
  rw [h1, h2, hd]
  have e1 := @filter_bindings α _ _
    (fun flag => flag.2 || ((createUniformBindings α).map Prod.fst).contains flag.1)
  have e2 := @filter_bindings α _ _ (fun flag => !flag.2)
  simp only at e1 e2
  rw [e1, e2, (bindingKeys : (createUniformBindings α).map Prod.fst = _)]
  constructor
  · decide
  · have e3 : ∀ l1 l2 : List String, l1 = l2 →
        ({ core with state := { core.state with dirtyUniforms := l1 } } :
          VIB34DHypercubeCore α) =
        { core with state := { core.state with dirtyUniforms := l2 } } := by
      intro l1 l2 h; rw [h]
    apply e3
    decide

theorem updateUniforms_dynamic_only (core : VIB34DHypercubeCore α) (gl : RenderingContext)
    (loc : List (String × Option Nat)) (hgl : core.gl = some gl)
    (hloc : core.uniformLocations = some loc)
    (hres : ∀ name ∈ programUniforms, ((loc.lookup name).join).isSome)
    (hd : core.state.dirtyUniforms = ["resolution", "time"]) :
    core.updateUniforms.2.map Prod.fst = ["resolution", "time"] ∧
      core.updateUniforms.1.state.dirtyUniforms = ["resolution", "time"] := by
  have hnd : core.state.dirtyUniforms.Nodup := by rw [hd]; decide
  obtain ⟨h1, h2⟩ := updateUniforms_spec core gl loc hgl hloc hres hnd
  rw [h1, h2, hd]
  have e1 := @filter_bindings α _ _
    (fun flag => flag.2 || (["resolution", "time"] : List String).contains flag.1)
  have e2 := @filter_bindings α _ _ (fun flag => !flag.2)
  simp only at e1 e2
  rw [e1]
  simp only
  rw [e2]
  constructor
  · decide
  · decide

theorem programLocations_resolved (gl : RenderingContext)
    (hloc : ∀ name ∈ programUniforms, (gl.uniformLocation.lookup name).isSome) :
    ∀ name ∈ programUniforms,
      (((programUniforms.map
        (fun name => (name, gl.uniformLocation.lookup name))).lookup name).join).isSome := by
  intro name hn
  rw [lookup_map_self (fun name => gl.uniformLocation.lookup name) name programUniforms hn]
  exact hloc name hn

theorem renderLoop_spec (core : VIB34DHypercubeCore α) (gl : RenderingContext)
    (now frameId : α) (hgl : core.gl = some gl) (hprog : core.program = true)
    (hr : (core.state.get "isRendering").truthy = true)
    (hn : (core.state.get "needsShaderUpdate").truthy = false) :
    ∃ ticked : VIB34DHypercubeCore α,
      ticked.gl = core.gl ∧ ticked.uniformLocations = core.uniformLocations ∧
      ticked.state.dirtyUniforms = core.state.dirtyUniforms ∧
      ticked.state.audioLevels = core.state.audioLevels ∧
      ticked.state.colorScheme = core.state.colorScheme ∧
      ticked.state.values = core.state.values ∧
      core.renderLoop now frameId =
        .ok ({ ticked.updateUniforms.1 with
                state := ticked.updateUniforms.1.state.set "animationFrameId" (.num frameId) },
          ticked.updateUniforms.2) := by
  refine ⟨{ core with
      state :=
        { core.state with
          deltaTime := now - core.state.lastUpdateTime
          lastUpdateTime := now
          time := core.state.time + (now - core.state.lastUpdateTime) / 1000 } },
    rfl, rfl, rfl, rfl, rfl, rfl, ?_⟩
  have hn2 : (({ core.state with
          deltaTime := now - core.state.lastUpdateTime
          lastUpdateTime := now
          time := core.state.time + (now - core.state.lastUpdateTime) / 1000 } :
        CoreState α).get "needsShaderUpdate").truthy = false := hn
  have hdraw : (({ core with
      state :=
        { core.state with
          deltaTime := now - core.state.lastUpdateTime
          lastUpdateTime := now
          time := core.state.time + (now - core.state.lastUpdateTime) / 1000 } } :
        VIB34DHypercubeCore α)).drawFrame =
      (({ core with
      state :=
        { core.state with
          deltaTime := now - core.state.lastUpdateTime
          lastUpdateTime := now
          time := core.state.time + (now - core.state.lastUpdateTime) / 1000 } } :
        VIB34DHypercubeCore α)).updateUniforms := by
    unfold VIB34DHypercubeCore.drawFrame
    simp only [hgl, hprog]
    rfl
  have hnone : core.gl.isNone = false := by rw [hgl]; rfl
  unfold VIB34DHypercubeCore.renderLoop
  rw [hr, hnone]
  simp only [Bool.not_true, Bool.or_self, Bool.false_eq_true, if_false]
  rw [hn2]
  simp only [Bool.false_eq_true, if_false]
  rw [hdraw]

theorem start_spec (built : VIB34DHypercubeCore α) (gl : RenderingContext)
    (now frameNow frameId : α) (hgl : built.gl = some gl) (hprog : built.program = true)
    (hneeds : built.state.get "needsShaderUpdate" = .bool false)
    (hidle : (built.state.get "isRendering").truthy = false) :
    ∃ ticked : VIB34DHypercubeCore α,
      ticked.gl = built.gl ∧ ticked.uniformLocations = built.uniformLocations ∧
      ticked.state.dirtyUniforms = built.state.dirtyUniforms ∧
      ticked.state.audioLevels = built.state.audioLevels ∧
      ticked.state.colorScheme = built.state.colorScheme ∧
      ticked.state.values = setValue built.state.values "isRendering" (.bool true) ∧
      built.start now frameNow frameId =
        .ok ({ ticked.updateUniforms.1 with
                state := ticked.updateUniforms.1.state.set "animationFrameId" (.num frameId) },
          ticked.updateUniforms.2) := by
  have h1 : ((built.state.set "isRendering" (.bool true)).get "isRendering").truthy = true := by
    rw [get_set, if_pos rfl]; rfl
  have h2 : ((built.state.set "isRendering" (.bool true)).get "needsShaderUpdate").truthy
      = false := by
    rw [get_set, if_neg (by decide), hneeds]; rfl
  obtain ⟨ticked, t1, t2, t3, t5, t6, t7, t4⟩ := renderLoop_spec
    ({ built with
        state :=
          { built.state.set "isRendering" (.bool true) with
            startTime := now
            lastUpdateTime := now } } : VIB34DHypercubeCore α)
    gl frameNow frameId hgl hprog h1 h2
  refine ⟨ticked, t1, t2, t3, t5, t6, t7, ?_⟩
  have hnone : built.gl.isNone = false := by rw [hgl]; rfl
  unfold VIB34DHypercubeCore.start
  rw [hnone, hidle]
  simp only [Bool.or_self, Bool.false_eq_true, if_false]
  exact t4

theorem nonDynamic_not_dynamicKey (entry : String × UniformBinding α)
    (he : entry ∈ createUniformBindings α) (hd : entry.2.dynamic = false) :
    entry.1 ∉ ["resolution", "time"] := by
  have hm : (entry.1, entry.2.dynamic) ∈
      (createUniformBindings α).map (fun entry => (entry.1, entry.2.dynamic)) :=
    List.mem_map_of_mem (fun entry => (entry.1, entry.2.dynamic)) he
  rw [(bindingFlags : (createUniformBindings α).map _ = _), hd] at hm
  have hall : ∀ key : String, key ∈ ["resolution", "time"] →
      (key, false) ∉ ([ ("resolution", true), ("time", true), ("dimensions", false),
        ("morphFactor", false), ("rotationSpeed", false), ("universeModifier", false),
        ("patternIntensity", false), ("gridDensity", false), ("lineThickness", false),
        ("shellWidth", false), ("tetraThickness", false), ("glitchIntensity", false),
        ("colorShift", false), ("interactionIntensity", false), ("portalPulse", false),
        ("rot4dXY", false), ("rot4dXZ", false), ("rot4dYZ", false), ("rot4dXW", false),
        ("rot4dYW", false), ("rot4dZW", false), ("audioBass", false), ("audioMid", false),
        ("audioHigh", false), ("colorPrimary", false), ("colorSecondary", false),
        ("colorBackground", false), ("geometryType", false) ] : List (String × Bool)) := by
    decide
  exact fun hk => hall entry.1 hk hm

/-- C18: for a canvas whose rendering context compiles the program and resolves a location
for every uniform, the constructor returns an instance. The first `updateUniforms` push (it
is issued by the first frame inside the constructor; when `initialState.isRendering` is
truthy `start()` returns early and it is the first call after construction) applies the 28
registered bindings once each, in particular every non-dynamic binding exactly once; the
next `updateUniforms`, with no `updateParameters` or `markUniformDirty` in between, applies
exactly the two dynamic bindings `resolution` and `time` and no non-dynamic binding. -/
theorem first_push_applies_each_binding_once (canvas : Canvas α) (gl : RenderingContext)
    (initialState : List (String × ParameterValue α)) (now frameNow frameId : α)
    (hgl : canvas.context = some gl) (hok : gl.shaderError = none)
    (hloc : ∀ name ∈ programUniforms, (gl.uniformLocation.lookup name).isSome) :
    ∃ core calls,
      VIB34DHypercubeCore.new canvas initialState now frameNow frameId = .ok (core, calls) ∧
      ∃ first second : List String,
        (if ((createVIB34DState initialState).get "isRendering").truthy then
            calls = [] ∧ first = core.updateUniforms.2.map Prod.fst ∧
              second = core.updateUniforms.1.updateUniforms.2.map Prod.fst
          else
            first = calls.map Prod.fst ∧ second = core.updateUniforms.2.map Prod.fst) ∧
        first = (createUniformBindings α).map Prod.fst ∧ first.Nodup ∧
        (∀ entry ∈ createUniformBindings α, entry.2.dynamic = false →
          first.count entry.1 = 1) ∧
        second = ["resolution", "time"] ∧
        (∀ entry ∈ createUniformBindings α, entry.2.dynamic = false → entry.1 ∉ second) := by
  obtain ⟨built, hb, b1, b2, b3, b4, b5, b6, -, -, -⟩ :=
    buildProgram_spec canvas gl initialState hgl hok
  have hres := programLocations_resolved gl hloc
  have hnew : VIB34DHypercubeCore.new canvas initialState now frameNow frameId =
      built.start now frameNow frameId := by
    unfold VIB34DHypercubeCore.new
    simp only
    rw [hb]
    simp only [hgl]
  have hcount : ∀ entry ∈ createUniformBindings α, entry.2.dynamic = false →
      ((createUniformBindings α).map Prod.fst).count entry.1 = 1 := fun entry he _ =>
    List.count_eq_one_of_mem bindingKeys_nodup (List.mem_map_of_mem Prod.fst he)
  by_cases ht : ((createVIB34DState initialState).get "isRendering").truthy = true
  · have hs : built.start now frameNow frameId = .ok (built, []) := by
      unfold VIB34DHypercubeCore.start
      rw [b5, ht]
      simp
    obtain ⟨p1, p2⟩ := updateUniforms_all_dirty built gl _ b1 b2 hres b4
    obtain ⟨q1, -⟩ := updateUniforms_dynamic_only built.updateUniforms.1 gl _
      (by rw [p2]; exact b1) (by rw [p2]; exact b2) hres (by rw [p2])
    refine ⟨built, [], hnew.trans hs, (createUniformBindings α).map Prod.fst,
      ["resolution", "time"], ?_, rfl, bindingKeys_nodup, hcount, rfl, ?_⟩
    · rw [if_pos ht]
      exact ⟨rfl, p1.symm, q1.symm⟩
    · exact fun entry he hd => nonDynamic_not_dynamicKey entry he hd
  · have hidle : ((createVIB34DState initialState).get "isRendering").truthy = false := by
      simpa using ht
    obtain ⟨ticked, t1, t2, t3, -, -, -, t4⟩ := start_spec built gl now frameNow frameId b1 b3 b6
      (by rw [b5]; exact hidle)
    obtain ⟨p1, p2⟩ := updateUniforms_all_dirty ticked gl _ (t1.trans b1) (t2.trans b2) hres
      (t3.trans b4)
    obtain ⟨q1, -⟩ := updateUniforms_dynamic_only
      ({ ticked.updateUniforms.1 with
          state := ticked.updateUniforms.1.state.set "animationFrameId" (.num frameId) } :
        VIB34DHypercubeCore α) gl _
      (by rw [p2]; exact t1.trans b1) (by rw [p2]; exact t2.trans b2) hres (by rw [p2]; rfl)
    refine ⟨_, _, hnew.trans t4, (createUniformBindings α).map Prod.fst,
      ["resolution", "time"], ?_, rfl, bindingKeys_nodup, hcount, rfl, ?_⟩
    · rw [if_neg ht]
      exact ⟨p1.symm, q1.symm⟩
    · exact fun entry he hd => nonDynamic_not_dynamicKey entry he hd

theorem first_push_applies_each_binding_once_witness :
    (∀ name ∈ programUniforms,
        ((programUniforms.zip (List.range 28)).lookup name).isSome) ∧
      ∃ core calls,
        VIB34DHypercubeCore.new
            ({ id := "hero-canvas"
               context := some { uniformLocation := programUniforms.zip (List.range 28) }
               rectWidth := 640
               rectHeight := 360 } : Canvas ℚ)
            [] 0 16 1 = .ok (core, calls) ∧
        ∃ first second : List String,
          (if ((createVIB34DState ([] : List (String × ParameterValue ℚ))).get
                "isRendering").truthy then
              calls = [] ∧ first = core.updateUniforms.2.map Prod.fst ∧
                second = core.updateUniforms.1.updateUniforms.2.map Prod.fst
            else
              first = calls.map Prod.fst ∧ second = core.updateUniforms.2.map Prod.fst) ∧
          first = (createUniformBindings ℚ).map Prod.fst ∧ first.Nodup ∧
          (∀ entry ∈ createUniformBindings ℚ, entry.2.dynamic = false →
            first.count entry.1 = 1) ∧
          second = ["resolution", "time"] ∧
          (∀ entry ∈ createUniformBindings ℚ, entry.2.dynamic = false → entry.1 ∉ second) :=
  ⟨by decide,
    first_push_applies_each_binding_once _
      { uniformLocation := programUniforms.zip (List.range 28) } [] 0 16 1 rfl rfl
      (by decide)⟩

theorem markUniformDirty_bound (core : VIB34DHypercubeCore α) (name : String)
    (h : ((createUniformBindings α).lookup name).isSome = true) :
    core.markUniformDirty name =
      { core with
        state := { core.state with dirtyUniforms := setAdd core.state.dirtyUniforms name } } := by
  unfold VIB34DHypercubeCore.markUniformDirty
  rw [if_pos h]

theorem updateParameter_audioLevels (core : VIB34DHypercubeCore α) (bass mid high : JSValue α) :
    core.updateParameter ("audioLevels", .audioLevels bass mid high) =
      { core with
        state :=
          { core.state with
            audioLevels :=
              { bass := bass.nullish core.state.audioLevels.bass
                mid := mid.nullish core.state.audioLevels.mid
                high := high.nullish core.state.audioLevels.high }
            dirtyUniforms :=
              setAdd (setAdd (setAdd core.state.dirtyUniforms "audioBass") "audioMid")
                "audioHigh" } } := by
  unfold VIB34DHypercubeCore.updateParameter
  simp only
  rw [if_neg (by decide), if_pos trivial]
  rw [markUniformDirty_bound _ "audioBass" rfl, markUniformDirty_bound _ "audioMid" rfl,
    markUniformDirty_bound _ "audioHigh" rfl]
  rfl

theorem updateParameter_colorScheme (core : VIB34DHypercubeCore α)
    (primary secondary background : Option (List α)) :
    core.updateParameter ("colorScheme", .colorScheme primary secondary background) =
      { core with
        state :=
          { core.state with
            colorScheme :=
              { primary := primary.getD core.state.colorScheme.primary
                secondary := secondary.getD core.state.colorScheme.secondary
                background := background.getD core.state.colorScheme.background }
            dirtyUniforms :=
              setAdd (setAdd (setAdd core.state.dirtyUniforms "colorPrimary") "colorSecondary")
                "colorBackground" } } := by
  unfold VIB34DHypercubeCore.updateParameter
  simp only
  rw [if_pos trivial, if_pos trivial]
  rw [markUniformDirty_bound _ "colorPrimary" rfl, markUniformDirty_bound _ "colorSecondary" rfl,
    markUniformDirty_bound _ "colorBackground" rfl]
  rfl

theorem updateParameter_same_value (core : VIB34DHypercubeCore α) (key : String)
    (value : JSValue α) (h1 : key ≠ "colorScheme") (h2 : key ≠ "audioLevels")
    (hv : core.state.get key = value) :
    core.updateParameter (key, .value value) = core := by
  unfold VIB34DHypercubeCore.updateParameter
  simp only
  rw [if_neg h1, if_neg h2, if_neg (not_not.mpr hv)]

theorem new_state_spec (canvas : Canvas α) (gl : RenderingContext)
    (initialState : List (String × ParameterValue α)) (now frameNow frameId : α)
    (hgl : canvas.context = some gl) (hok : gl.shaderError = none)
    (hloc : ∀ name ∈ programUniforms, (gl.uniformLocation.lookup name).isSome)
    (hidle : ((createVIB34DState initialState).get "isRendering").truthy = false) :
    ∃ core calls,
      VIB34DHypercubeCore.new canvas initialState now frameNow frameId = .ok (core, calls) ∧
      core.gl = some gl ∧
      core.uniformLocations =
        some (programUniforms.map (fun name => (name, gl.uniformLocation.lookup name))) ∧
      core.state.dirtyUniforms = ["resolution", "time"] ∧
      core.state.audioLevels = (createVIB34DState initialState).audioLevels ∧
      core.state.colorScheme = (createVIB34DState initialState).colorScheme ∧
      core.state.values =
        setValue
          (setValue
            (setValue (createVIB34DState initialState).values "needsShaderUpdate"
              (.bool false))
            "isRendering" (.bool true))
          "animationFrameId" (.num frameId) := by
  obtain ⟨built, hb, b1, b2, b3, b4, b5, b6, b7, b8, b9⟩ :=
    buildProgram_spec canvas gl initialState hgl hok
  have hres := programLocations_resolved gl hloc
  have hnew : VIB34DHypercubeCore.new canvas initialState now frameNow frameId =
      built.start now frameNow frameId := by
    unfold VIB34DHypercubeCore.new
    simp only
    rw [hb]
    simp only [hgl]
  obtain ⟨ticked, t1, t2, t3, t5, t6, t7, t4⟩ :=
    start_spec built gl now frameNow frameId b1 b3 b6 (by rw [b5]; exact hidle)
  obtain ⟨-, p2⟩ := updateUniforms_all_dirty ticked gl _ (t1.trans b1) (t2.trans b2) hres
    (t3.trans b4)
  refine ⟨_, _, hnew.trans t4, ?_, ?_, ?_, ?_, ?_, ?_⟩
  · rw [p2]; exact t1.trans b1
  · rw [p2]; exact t2.trans b2
  · rw [p2]; rfl
  · rw [p2]; exact t5.trans b7
  · rw [p2]; exact t6.trans b8
  · rw [p2]
    show setValue ticked.state.values "animationFrameId" (.num frameId) = _
    rw [t7, b9]

theorem updateParameters_audio_scheme (core : VIB34DHypercubeCore α)
    (value bass mid high : JSValue α) (primary secondary background : Option (List α))
    (hv : core.state.get "dimensions" = value) :
    core.updateParameters
        [ ("dimensions", .value value), ("audioLevels", .audioLevels bass mid high),
          ("colorScheme", .colorScheme primary secondary background) ] =
      { core with
        state :=
          { core.state with
            audioLevels :=
              { bass := bass.nullish core.state.audioLevels.bass
                mid := mid.nullish core.state.audioLevels.mid
                high := high.nullish core.state.audioLevels.high }
            colorScheme :=
              { primary := primary.getD core.state.colorScheme.primary
                secondary := secondary.getD core.state.colorScheme.secondary
                background := background.getD core.state.colorScheme.background }
            dirtyUniforms :=
              setAdd (setAdd (setAdd (setAdd (setAdd (setAdd core.state.dirtyUniforms
                "audioBass") "audioMid") "audioHigh") "colorPrimary") "colorSecondary")
                "colorBackground" } } := by
  have hl : List.lookup "projectionMethod"
      [ ("dimensions", ParameterValue.value value),
        ("audioLevels", ParameterValue.audioLevels bass mid high),
        ("colorScheme", ParameterValue.colorScheme primary secondary background) ] = none :=
    rfl
  unfold VIB34DHypercubeCore.updateParameters
  rw [hl]
  simp only [List.foldl_cons, List.foldl_nil]
  rw [updateParameter_same_value core "dimensions" value (by decide) (by decide) hv,
    updateParameter_audioLevels, updateParameter_colorScheme]

theorem updateUniforms_keys (core : VIB34DHypercubeCore α) (gl : RenderingContext)
    (loc : List (String × Option Nat)) (dirty : List String) (hgl : core.gl = some gl)
    (hloc : core.uniformLocations = some loc)
    (hres : ∀ name ∈ programUniforms, ((loc.lookup name).join).isSome)
    (hd : core.state.dirtyUniforms = dirty) (hnd : dirty.Nodup) :
    core.updateUniforms.2.map Prod.fst =
      (([ ("resolution", true), ("time", true), ("dimensions", false), ("morphFactor", false),
        ("rotationSpeed", false), ("universeModifier", false), ("patternIntensity", false),
        ("gridDensity", false), ("lineThickness", false), ("shellWidth", false),
        ("tetraThickness", false), ("glitchIntensity", false), ("colorShift", false),
        ("interactionIntensity", false), ("portalPulse", false), ("rot4dXY", false),
        ("rot4dXZ", false), ("rot4dYZ", false), ("rot4dXW", false), ("rot4dYW", false),
        ("rot4dZW", false), ("audioBass", false), ("audioMid", false), ("audioHigh", false),
        ("colorPrimary", false), ("colorSecondary", false), ("colorBackground", false),
        ("geometryType", false) ] : List (String × Bool)).filter
        (fun flag => flag.2 || dirty.contains flag.1)).map Prod.fst := by
  obtain ⟨h1, -⟩ := updateUniforms_spec core gl loc hgl hloc hres (by rw [hd]; exact hnd)
  rw [h1, hd]
  exact @filter_bindings α _ _ (fun flag => flag.2 || dirty.contains flag.1)

/-- C19: a redundant push does happen for the audio levels and the colour scheme. On the
instance built by the constructor (rendering context with every uniform location, default
state) only the two dynamic names are dirty. `updateParameters` with the stored values
`dimensions: 4`, `audioLevels: (0, 0, 0)` and the stored `colorScheme` leaves every value of
the state as it was; the scalar `dimensions` is compared and not marked, but `audioBass`,
`audioMid`, `audioHigh`, `colorPrimary`, `colorSecondary`, `colorBackground` are marked dirty
without comparison, and the next `updateUniforms` applies these six non-dynamic bindings.
The same happens from the emptied dirty set. -/
theorem updateParameters_marks_unchanged_dirty :
    ∃ core calls,
      VIB34DHypercubeCore.new
          ({ id := "hero-canvas"
             context := some { uniformLocation := programUniforms.zip (List.range 28) }
             rectWidth := 640
             rectHeight := 360 } : Canvas ℚ)
          [] 0 16 1 = .ok (core, calls) ∧
      core.state.dirtyUniforms = ["resolution", "time"] ∧
      core.updateParameters [("dimensions", .value (.num 4))] = core ∧
      (core.updateParameters
          [ ("dimensions", .value (.num 4)),
            ("audioLevels", .audioLevels (.num 0) (.num 0) (.num 0)),
            ("colorScheme", .colorScheme (some [0.7, 0.1, 0.9]) (some [0.1, 0.9, 0.9])
              (some [0.03, 0, 0.1])) ]).state =
        { core.state with
          dirtyUniforms :=
            [ "resolution", "time", "audioBass", "audioMid", "audioHigh", "colorPrimary",
              "colorSecondary", "colorBackground" ] } ∧
      ((core.updateParameters
          [ ("dimensions", .value (.num 4)),
            ("audioLevels", .audioLevels (.num 0) (.num 0) (.num 0)),
            ("colorScheme", .colorScheme (some [0.7, 0.1, 0.9]) (some [0.1, 0.9, 0.9])
              (some [0.03, 0, 0.1])) ]).updateUniforms.2).map Prod.fst =
        [ "resolution", "time", "audioBass", "audioMid", "audioHigh", "colorPrimary",
          "colorSecondary", "colorBackground" ] ∧
      ((({ core with state := { core.state with dirtyUniforms := [] } } :
          VIB34DHypercubeCore ℚ).updateParameters
          [ ("dimensions", .value (.num 4)),
            ("audioLevels", .audioLevels (.num 0) (.num 0) (.num 0)),
            ("colorScheme", .colorScheme (some [0.7, 0.1, 0.9]) (some [0.1, 0.9, 0.9])
              (some [0.03, 0, 0.1])) ]).updateUniforms.2).map Prod.fst =
        [ "resolution", "time", "audioBass", "audioMid", "audioHigh", "colorPrimary",
          "colorSecondary", "colorBackground" ] := by
  obtain ⟨core, calls, hnew, c1, c2, c3, c4, c5, c6⟩ :=
    new_state_spec
      ({ id := "hero-canvas"
         context := some { uniformLocation := programUniforms.zip (List.range 28) }
         rectWidth := 640
         rectHeight := 360 } : Canvas ℚ)
      { uniformLocation := programUniforms.zip (List.range 28) } [] 0 16 1 rfl rfl
      (by decide) rfl
  have hdim : core.state.get "dimensions" = .num 4 := by
    unfold CoreState.get
    rw [c6, lookup_setValue, if_neg (by decide), lookup_setValue, if_neg (by decide),
      lookup_setValue, if_neg (by decide)]
    show (JSValue.num (4.0 : ℚ)) = JSValue.num 4
    norm_num
  have hres := programLocations_resolved
    ({ uniformLocation := programUniforms.zip (List.range 28) } : RenderingContext)
    (by decide)
  have hone : core.updateParameters [("dimensions", .value (.num 4))] = core := by
    have hl : List.lookup "projectionMethod"
        [("dimensions", ParameterValue.value (JSValue.num (4 : ℚ)))] = none := rfl
    unfold VIB34DHypercubeCore.updateParameters
    rw [hl]
    simp only [List.foldl_cons, List.foldl_nil]
    exact updateParameter_same_value core "dimensions" _ (by decide) (by decide) hdim
  have haudio : core.state.audioLevels =
      ({ bass := JSValue.num 0, mid := JSValue.num 0, high := JSValue.num 0 } :
        AudioLevels ℚ) := c4
  have hscheme : core.state.colorScheme =
      ({ primary := [0.7, 0.1, 0.9], secondary := [0.1, 0.9, 0.9],
         background := [0.03, 0, 0.1] } : ColorScheme ℚ) := by
    rw [c5]
    show ({ primary := [0.7, 0.1, 0.9], secondary := [0.1, 0.9, 0.9],
            background := [0.03, 0.0, 0.1] } : ColorScheme ℚ) = _
    norm_num
  have hupd := updateParameters_audio_scheme core (.num 4) (.num 0) (.num 0) (.num 0)
    (some [0.7, 0.1, 0.9]) (some [0.1, 0.9, 0.9]) (some [0.03, 0, 0.1]) hdim
  have hquiet := updateParameters_audio_scheme
    ({ core with state := { core.state with dirtyUniforms := [] } } : VIB34DHypercubeCore ℚ)
    (.num 4) (.num 0) (.num 0) (.num 0)
    (some [0.7, 0.1, 0.9]) (some [0.1, 0.9, 0.9]) (some [0.03, 0, 0.1]) hdim
  refine ⟨core, calls, hnew, c3, hone, ?_, ?_, ?_⟩
  · rw [hupd]
    simp only [Option.getD_some]
    rw [c3, haudio, hscheme]
    rfl
  · rw [hupd, c3]
    exact (updateUniforms_keys _ _ _
      [ "resolution", "time", "audioBass", "audioMid", "audioHigh", "colorPrimary",
        "colorSecondary", "colorBackground" ]
      (by exact c1) (by exact c2) hres rfl (by decide)).trans (by decide)
  · rw [hquiet]
    exact (updateUniforms_keys _ _ _
      [ "audioBass", "audioMid", "audioHigh", "colorPrimary", "colorSecondary",
        "colorBackground" ]
      (by exact c1) (by exact c2) hres rfl (by decide)).trans (by decide)

end CoreTheorems

section PoolTheorems

variable {α : Type} [LinearOrderedField α] [FloorRing α]

theorem createInstance_registered (pool : VIB34DVisualizerPool α) (canvas : Canvas α)
    (initialState : List (String × ParameterValue α)) (now frameNow frameId : α)
    (key : String)
    (hkey : (truthyString canvas.visualizerId).orElse
      (fun _ => truthyString (some canvas.id)) = some key)
    (pool1 : VIB34DVisualizerPool α) (first : VIB34DHypercubeCore α)
    (h1 : pool.createInstance canvas initialState now frameNow frameId = .ok (pool1, first)) :
    pool1.instances.lookup key = some first ∧
      (pool.instances.lookup key = none →
        pool1.instances = pool.instances ++ [(key, first)]) ∧
      (pool.instances.lookup key ≠ none → pool1 = pool) := by
  unfold VIB34DVisualizerPool.createInstance at h1
  rw [hkey] at h1
  simp only [Option.getD_some] at h1
  cases hl : pool.instances.lookup key with
  | some existing =>
    rw [hl] at h1
    simp only [Except.ok.injEq, Prod.mk.injEq] at h1
    obtain ⟨e1, e2⟩ := h1
    subst e1 e2
    exact ⟨hl, fun h => absurd h (by simp), fun _ => rfl⟩
  | none =>
    rw [hl] at h1
    simp only at h1
    cases hn : VIB34DHypercubeCore.new canvas initialState now frameNow frameId with
    | error message => rw [hn] at h1; simp at h1
    | ok created =>
      rw [hn] at h1
      simp only [Except.ok.injEq, Prod.mk.injEq] at h1
      obtain ⟨e1, e2⟩ := h1
      subst e1 e2
      refine ⟨?_, fun _ => rfl, fun h => absurd rfl h⟩
      show List.lookup key (pool.instances ++ [(key, created.1)]) = _
      rw [lookup_append_single, hl, if_pos rfl]
      rfl

/-- C20 (counterexample): on an empty pool, two `createInstance` calls for the same canvas
that has neither `data-visualizer-id` nor `id` (and no WebGL context, so that the
constructor returns at once) register two instances, under the keys `viz-0` and `viz-1`: the
second call does not find the first registration. -/
theorem createInstance_anonymous_counterexample :
    ∃ pool1 first pool2 second,
      ({ instances := [] } : VIB34DVisualizerPool ℚ).createInstance
          { rectWidth := 640, rectHeight := 360 } [] 0 16 1 = .ok (pool1, first) ∧
        pool1.createInstance { rectWidth := 640, rectHeight := 360 } [] 0 16 1 =
          .ok (pool2, second) ∧
        pool1.instances.length = 1 ∧
        pool2.instances.length = 2 ∧
        pool2.instances.map Prod.fst = ["viz-0", "viz-1"] :=
  ⟨_, _, _, _, rfl, rfl, rfl, rfl, rfl⟩

/-- C20 (amended): for every pool and every canvas that has a non-empty
`data-visualizer-id` or a non-empty `id`, when a first `createInstance` call has returned an
instance, a second call for the same canvas (whatever its `config`) returns that instance,
does not throw, constructs and registers nothing: the pool, hence the number of registered
instances, is unchanged, and the instance is the one registered under the key of the
canvas. -/
theorem createInstance_idempotent_with_key (pool : VIB34DVisualizerPool α)
    (canvas : Canvas α) (initialState again : List (String × ParameterValue α))
    (now frameNow frameId now2 frameNow2 frameId2 : α)
    (hkey : (truthyString canvas.visualizerId).isSome ∨ canvas.id ≠ "")
    (pool1 : VIB34DVisualizerPool α) (first : VIB34DHypercubeCore α)
    (h1 : pool.createInstance canvas initialState now frameNow frameId = .ok (pool1, first)) :
    pool1.createInstance canvas again now2 frameNow2 frameId2 = .ok (pool1, first) ∧
      pool1.instances.lookup
        ((truthyString canvas.visualizerId).getD canvas.id) = some first := by
  have hk : (truthyString canvas.visualizerId).orElse
      (fun _ => truthyString (some canvas.id)) =
      some ((truthyString canvas.visualizerId).getD canvas.id) := by
    cases hv : truthyString canvas.visualizerId with
    | some v => rfl
    | none =>
      rw [hv] at hkey
      have hid : canvas.id ≠ "" := hkey.resolve_left (by simp)
      show truthyString (some canvas.id) = some canvas.id
      simp [truthyString, Option.filter, hid]
  obtain ⟨hreg, -, -⟩ := createInstance_registered pool canvas initialState now frameNow
    frameId _ hk pool1 first h1
  refine ⟨?_, hreg⟩
  unfold VIB34DVisualizerPool.createInstance
  rw [hk]
  simp only [Option.getD_some]
  rw [hreg]

theorem createInstance_idempotent_with_key_witness :
    ∃ pool1 first,
      ((truthyString (none : Option String)).isSome ∨ "hero-canvas" ≠ "") ∧
        ({ instances := [] } : VIB34DVisualizerPool ℚ).createInstance
            { id := "hero-canvas", rectWidth := 640, rectHeight := 360 } [] 0 16 1 =
          .ok (pool1, first) ∧
        pool1.instances.length = 1 ∧
        pool1.createInstance { id := "hero-canvas", rectWidth := 640, rectHeight := 360 }
            [("dimensions", .value (.num 3))] 40 56 2 = .ok (pool1, first) ∧
        pool1.instances.lookup ((truthyString (none : Option String)).getD "hero-canvas") =
          some first :=
  ⟨_, _, Or.inr (by decide), rfl, rfl,
    createInstance_idempotent_with_key ({ instances := [] } : VIB34DVisualizerPool ℚ)
      { id := "hero-canvas", rectWidth := 640, rectHeight := 360 } []
      [("dimensions", .value (.num 3))] 0 16 1 40 56 2 (Or.inr (by decide)) _ _ rfl⟩

end PoolTheorems

section IsometryTheorems

theorem planeRotation_sq (a b c s : ℝ) (h : c ^ 2 + s ^ 2 = 1) :
    (a * c - b * s) ^ 2 + (a * s + b * c) ^ 2 = a ^ 2 + b ^ 2 := by
  linear_combination (a ^ 2 + b ^ 2) * h

theorem applyPlaneRotation_normSq (M : JSMath ℝ) (hM : IsRealMath M) (v : Vec4 ℝ)
    (i j : Fin 4) (hij : i ≠ j) (planeAngle : ℝ) :
    (applyPlaneRotation M v i j planeAngle).x ^ 2 + (applyPlaneRotation M v i j planeAngle).y ^ 2
        + (applyPlaneRotation M v i j planeAngle).z ^ 2
        + (applyPlaneRotation M v i j planeAngle).w ^ 2 =
      v.x ^ 2 + v.y ^ 2 + v.z ^ 2 + v.w ^ 2 := by
  obtain ⟨-, hsin, hcos, -, -⟩ := hM
  unfold applyPlaneRotation
  simp only
  split_ifs with h0
  · rfl
  · rw [hsin, hcos]
    have hcs := Real.cos_sq_add_sin_sq (planeAngle * (M.pi * 0.5))
    generalize Real.cos (planeAngle * (M.pi * 0.5)) = c at hcs ⊢
    generalize Real.sin (planeAngle * (M.pi * 0.5)) = s at hcs ⊢
    fin_cases i <;> fin_cases j <;> first
      | exact absurd rfl hij
      | (simp only [Vec4.set, Vec4.get]
         linarith [planeRotation_sq v.x v.y c s hcs, planeRotation_sq v.x v.z c s hcs,
           planeRotation_sq v.x v.w c s hcs, planeRotation_sq v.y v.x c s hcs,
           planeRotation_sq v.y v.z c s hcs, planeRotation_sq v.y v.w c s hcs,
           planeRotation_sq v.z v.x c s hcs, planeRotation_sq v.z v.y c s hcs,
           planeRotation_sq v.z v.w c s hcs, planeRotation_sq v.w v.x c s hcs,
           planeRotation_sq v.w v.y c s hcs, planeRotation_sq v.w v.z c s hcs])

/-- C28 (amended): `vib34dRotate4DVector` is an isometry in exact real arithmetic. With
the real sine and cosine and no rounding, for every vector `(x, y, z, w)` and every six
plane angles the rotated vector has the same sum of squares `x² + y² + z² + w²`. -/
theorem vib34dRotate4DVector_isometry (M : JSMath ℝ) (hM : IsRealMath M) (vector : Vec4 ℝ)
    (rotation : Rotation4D ℝ) :
    (vib34dRotate4DVector M vector rotation).x ^ 2
        + (vib34dRotate4DVector M vector rotation).y ^ 2
        + (vib34dRotate4DVector M vector rotation).z ^ 2
        + (vib34dRotate4DVector M vector rotation).w ^ 2 =
      vector.x ^ 2 + vector.y ^ 2 + vector.z ^ 2 + vector.w ^ 2 := by
  unfold vib34dRotate4DVector
  simp only
  rw [applyPlaneRotation_normSq M hM _ 2 3 (by decide), applyPlaneRotation_normSq M hM _ 1 3 (by decide),
    applyPlaneRotation_normSq M hM _ 0 3 (by decide), applyPlaneRotation_normSq M hM _ 1 2 (by decide),
    applyPlaneRotation_normSq M hM _ 0 2 (by decide), applyPlaneRotation_normSq M hM _ 0 1 (by decide)]

theorem vib34dRotate4DVector_isometry_witness :
    IsRealMath (mkMath Real.exp Real.sin Real.cos Real.sqrt (fun y x => Complex.arg ⟨x, y⟩)
        Real.rpow Real.pi) ∧
      (vib34dRotate4DVector
          (mkMath Real.exp Real.sin Real.cos Real.sqrt (fun y x => Complex.arg ⟨x, y⟩)
            Real.rpow Real.pi)
          ⟨1, 2, 3, 4⟩ ⟨0.5, -1, 2, 0.25, 1.5, -0.75⟩).x ^ 2
        + (vib34dRotate4DVector
          (mkMath Real.exp Real.sin Real.cos Real.sqrt (fun y x => Complex.arg ⟨x, y⟩)
            Real.rpow Real.pi)
          ⟨1, 2, 3, 4⟩ ⟨0.5, -1, 2, 0.25, 1.5, -0.75⟩).y ^ 2
        + (vib34dRotate4DVector
          (mkMath Real.exp Real.sin Real.cos Real.sqrt (fun y x => Complex.arg ⟨x, y⟩)
            Real.rpow Real.pi)
          ⟨1, 2, 3, 4⟩ ⟨0.5, -1, 2, 0.25, 1.5, -0.75⟩).z ^ 2
        + (vib34dRotate4DVector
          (mkMath Real.exp Real.sin Real.cos Real.sqrt (fun y x => Complex.arg ⟨x, y⟩)
            Real.rpow Real.pi)
          ⟨1, 2, 3, 4⟩ ⟨0.5, -1, 2, 0.25, 1.5, -0.75⟩).w ^ 2 =
        (1 : ℝ) ^ 2 + 2 ^ 2 + 3 ^ 2 + 4 ^ 2 :=
  ⟨isRealMath_mkMath _ _,
    vib34dRotate4DVector_isometry _ (isRealMath_mkMath _ _) ⟨1, 2, 3, 4⟩
      ⟨0.5, -1, 2, 0.25, 1.5, -0.75⟩⟩

end IsometryTheorems

section TiltTheorems

variable {α : Type} [LinearOrderedField α] [FloorRing α]

theorem clamp_two_inRange (x : α) : -2 ≤ max (-2.0) (min 2.0 x) ∧ max (-2.0) (min 2.0 x) ≤ (2 : α) := by
  constructor
  · exact le_trans (by norm_num) (le_max_left _ _)
  · exact max_le (by norm_num) (le_trans (min_le_left _ _) (by norm_num))

theorem calculateVIB34DRotation_inRange (system : VIB34DGeometricTiltSystem α) :
    system.calculateVIB34DRotation.rotation4D.InRange :=
  ⟨clamp_two_inRange _, clamp_two_inRange _, clamp_two_inRange _, clamp_two_inRange _,
    clamp_two_inRange _, clamp_two_inRange _⟩

theorem updateRotation4D_rotation4D (v : VIB34DTiltVisualizer α) (rotation : Rotation4D α)
    (context : RotationContext α) :
    (v.updateRotation4D rotation context).rotation4D = rotation := by
  unfold VIB34DTiltVisualizer.updateRotation4D
  cases context.portalProjection <;> rfl

/-- C25: for every tilt sample and every sensitivity setting, after
`calculateVIB34DRotation` each of the six plane angles of the tilt system lies in
`[-2, 2]` (the tilt sample itself is left as it was), and the angles stored by a visualizer
instance after `updateRotation4D` with that rotation (the call made by `updateVisualizers`,
with any context) lie in `[-2, 2]` too: `updateRotation4D` stores the six angles it is
given as they are. -/
theorem rotation_angles_clamped (system : VIB34DGeometricTiltSystem α)
    (v : VIB34DTiltVisualizer α) (rotation : Rotation4D α) (context : RotationContext α) :
    system.calculateVIB34DRotation.rotation4D.InRange ∧
      (v.updateRotation4D system.calculateVIB34DRotation.rotation4D context).rotation4D.InRange ∧
      system.calculateVIB34DRotation.tiltData = system.tiltData ∧
      (v.updateRotation4D rotation context).rotation4D = rotation := by
  refine ⟨calculateVIB34DRotation_inRange system, ?_, rfl, updateRotation4D_rotation4D _ _ _⟩
  rw [updateRotation4D_rotation4D]
  exact calculateVIB34DRotation_inRange system

end TiltTheorems

section TiltSampleTheorems

variable {α : Type} [LinearOrderedField α] [FloorRing α]

theorem clampAngle_inRange (x lo hi : α) (h : lo ≤ hi) :
    lo ≤ clampAngle x lo hi ∧ clampAngle x lo hi ≤ hi :=
  ⟨le_max_left _ _, max_le h (min_le_left _ _)⟩

theorem updateTiltData_inRange (system : VIB34DGeometricTiltSystem α)
    (event : OrientationEvent α) : (system.updateTiltData event).tiltData.InRange :=
  ⟨clampAngle_inRange _ _ _ (by norm_num), clampAngle_inRange _ _ _ (by norm_num),
    clampAngle_inRange _ _ _ (by norm_num)⟩

theorem run_mousemove_alpha (event : PointerMove α) (n : Nat) :
    ∀ system : VIB34DGeometricTiltSystem α,
      (system.run (List.replicate n (.mousemove event))).tiltData.alpha =
        system.tiltData.alpha + 0.5 * n := by
  induction n with
  | zero => intro system; simp [VIB34DGeometricTiltSystem.run]
  | succ n ih =>
    intro system
    show ((system.update (.mousemove event)).run
      (List.replicate n (.mousemove event))).tiltData.alpha = _
    rw [ih]
    show system.tiltData.alpha + 0.5 + 0.5 * (n : α) = _
    push_cast
    ring

/-- C24 (counterexample): the pointer fallback neither smooths nor clamps. From the zero
sample, 361 `simulateTiltFromMouse` updates with the pointer at the centre of a 1280 x 720 window leave
`alpha = 180.5`, outside `[-180, 180]`; one `mousemove` with the pointer at the right edge
sets `gamma = 45` at once, where the `deviceorientation` update with the raw value 45 moves
it to `0 + (45 - 0) * 0.15 = 6.75`. -/
theorem pointer_fallback_counterexample :
    ((VIB34DGeometricTiltSystem.new : VIB34DGeometricTiltSystem ℚ).run
        (List.replicate 361
          (.mousemove
            { clientX := 640, clientY := 360, innerWidth := 1280,
              innerHeight := 720 }))).tiltData.alpha = 180.5 ∧
      ¬ ((VIB34DGeometricTiltSystem.new : VIB34DGeometricTiltSystem ℚ).run
        (List.replicate 361
          (.mousemove
            { clientX := 640, clientY := 360, innerWidth := 1280,
              innerHeight := 720 }))).tiltData.InRange ∧
      ((VIB34DGeometricTiltSystem.new : VIB34DGeometricTiltSystem ℚ).update
        (.mousemove
          { clientX := 1280, clientY := 360, innerWidth := 1280,
            innerHeight := 720 })).tiltData.gamma = 45 ∧
      ((VIB34DGeometricTiltSystem.new : VIB34DGeometricTiltSystem ℚ).update
        (.deviceorientation
          { alpha := some 0, beta := some 0, gamma := some 45 })).tiltData.gamma = 6.75 := by
  have h := run_mousemove_alpha
    ({ clientX := 640, clientY := 360, innerWidth := 1280, innerHeight := 720 } :
      PointerMove ℚ) 361 VIB34DGeometricTiltSystem.new
  have h0 : (VIB34DGeometricTiltSystem.new : VIB34DGeometricTiltSystem ℚ).tiltData.alpha = 0 :=
    rfl
  rw [h0] at h
  refine ⟨?_, ?_, ?_, ?_⟩
  · rw [h]; norm_num
  · unfold TiltData.InRange
    rw [h]
    norm_num
  · show ((1280 : ℚ) - 1280 / 2) / (1280 / 2) * 45 = 45
    norm_num
  · show clampAngle ((0 : ℚ) + ((some (45 : ℚ)).getD 0 - 0) * 0.15) (-90) 90 = 6.75
    unfold clampAngle
    norm_num

theorem run_deviceorientation_inRange (events : List (OrientationEvent α)) :
    ∀ system : VIB34DGeometricTiltSystem α, system.tiltData.InRange →
      (system.run (events.map .deviceorientation)).tiltData.InRange := by
  induction events with
  | nil => intro system h; exact h
  | cons e es ih =>
    intro system _
    exact ih _ (updateTiltData_inRange system e)

/-- C24 (amended): the device-orientation path smooths and then clamps: `updateTiltData`
sets each axis to `clamp(s + (raw - s) * smoothing)` (smoothing is `0.15` in the
constructor), so after every device-orientation update, and in every state reached from
the zero sample by device-orientation updates alone, `alpha` lies in `[-180, 180]` and
`beta` and `gamma` lie in `[-90, 90]`. The pointer fallback `simulateTiltFromMouse` does not
go through that step: it assigns `gamma = deltaX * 45` and `beta = deltaY * 45` directly and
adds `0.5` to `alpha`, with no smoothing and no clamp. -/
theorem tilt_update_paths (system : VIB34DGeometricTiltSystem α)
    (event : OrientationEvent α) (events : List (OrientationEvent α))
    (pointer : PointerMove α) :
    (system.updateTiltData event).tiltData.alpha =
        clampAngle
          (system.tiltData.alpha + (event.alpha.getD 0 - system.tiltData.alpha) *
            system.smoothing) (-180) 180 ∧
      (system.updateTiltData event).tiltData.beta =
        clampAngle
          (system.tiltData.beta + (event.beta.getD 0 - system.tiltData.beta) *
            system.smoothing) (-90) 90 ∧
      (system.updateTiltData event).tiltData.gamma =
        clampAngle
          (system.tiltData.gamma + (event.gamma.getD 0 - system.tiltData.gamma) *
            system.smoothing) (-90) 90 ∧
      (VIB34DGeometricTiltSystem.new : VIB34DGeometricTiltSystem α).smoothing = 0.15 ∧
      (system.update (.deviceorientation event)).tiltData.InRange ∧
      ((VIB34DGeometricTiltSystem.new : VIB34DGeometricTiltSystem α).run
        (events.map .deviceorientation)).tiltData.InRange ∧
      (system.simulateTiltFromMouse pointer).tiltData.alpha = system.tiltData.alpha + 0.5 ∧
      (system.simulateTiltFromMouse pointer).tiltData.beta =
        (pointer.clientY - pointer.innerHeight / 2) / (pointer.innerHeight / 2) * 45 ∧
      (system.simulateTiltFromMouse pointer).tiltData.gamma =
        (pointer.clientX - pointer.innerWidth / 2) / (pointer.innerWidth / 2) * 45 := by
  refine ⟨rfl, rfl, rfl, rfl, updateTiltData_inRange system event,
    run_deviceorientation_inRange events _ ?_, rfl, rfl, rfl⟩
  unfold TiltData.InRange
  show ((-180 : α) ≤ 0 ∧ (0 : α) ≤ 180) ∧ ((-90 : α) ≤ 0 ∧ (0 : α) ≤ 90) ∧
    ((-90 : α) ≤ 0 ∧ (0 : α) ≤ 90)
  norm_num

end TiltSampleTheorems

section ImmediateTraitTheorems

variable {α : Type} [LinearOrderedField α] [FloorRing α]

theorem applyInheritedTrait_immediate (v : VIB34DTiltVisualizer α) (trait : Trait α) :
    (v.applyInheritedTrait (some trait) true).state =
      { (v.applyInheritedTrait (some trait) true).targetState with
        geometryVariant := v.state.geometryVariant } :=
  rfl

theorem setCardState_with_trait (v : VIB34DTiltVisualizer α) (state : String)
    (trait : Trait α) :
    ∃ w : VIB34DTiltVisualizer α, w.state = v.state ∧
      v.setCardState state (some trait) = w.applyInheritedTrait (some trait) true := by
  unfold VIB34DTiltVisualizer.setCardState
  simp only
  refine ⟨_, ?_, rfl⟩
  split_ifs <;> (try split) <;> rfl

/-- C23: for every card state name and every (non-null) inherited trait, after
`setCardState(state, { inheritedTrait })` each numeric field of the current state (`speed`,
`glitch`, `density`, `moire`, `hue`, `accentHue`, `energy`, `wDepth`, `wShear`, `wPulse`)
equals the same field of the target state, with no relaxation step; the geometry variant of
the current state, a string, is the one it had before the call. -/
theorem setCardState_trait_applied_immediately (v : VIB34DTiltVisualizer α) (state : String)
    (trait : Trait α) :
    (v.setCardState state (some trait)).state.speed =
        (v.setCardState state (some trait)).targetState.speed ∧
      (v.setCardState state (some trait)).state.glitch =
        (v.setCardState state (some trait)).targetState.glitch ∧
      (v.setCardState state (some trait)).state.density =
        (v.setCardState state (some trait)).targetState.density ∧
      (v.setCardState state (some trait)).state.moire =
        (v.setCardState state (some trait)).targetState.moire ∧
      (v.setCardState state (some trait)).state.hue =
        (v.setCardState state (some trait)).targetState.hue ∧
      (v.setCardState state (some trait)).state.accentHue =
        (v.setCardState state (some trait)).targetState.accentHue ∧
      (v.setCardState state (some trait)).state.energy =
        (v.setCardState state (some trait)).targetState.energy ∧
      (v.setCardState state (some trait)).state.wDepth =
        (v.setCardState state (some trait)).targetState.wDepth ∧
      (v.setCardState state (some trait)).state.wShear =
        (v.setCardState state (some trait)).targetState.wShear ∧
      (v.setCardState state (some trait)).state.wPulse =
        (v.setCardState state (some trait)).targetState.wPulse ∧
      (v.setCardState state (some trait)).state.geometryVariant = v.state.geometryVariant := by
  obtain ⟨w, hw, h⟩ := setCardState_with_trait v state trait
  rw [h, applyInheritedTrait_immediate, hw]
  exact ⟨rfl, rfl, rfl, rfl, rfl, rfl, rfl, rfl, rfl, rfl, rfl⟩

end ImmediateTraitTheorems

section ParameterTheorems

variable {α : Type} [LinearOrderedField α] [FloorRing α]

theorem updateParameter_shape (core : VIB34DHypercubeCore α)
    (entry : String × ParameterValue α) :
    ∃ s : CoreState α, core.updateParameter entry = { core with state := s } ∧
      (s.values = core.state.values ∨
        ∃ v, entry.2 = .value v ∧ entry.1 ≠ "colorScheme" ∧ entry.1 ≠ "audioLevels" ∧
          s.values = setValue core.state.values entry.1 v) := by
  unfold VIB34DHypercubeCore.updateParameter
  simp only
  split_ifs with h1 h2 h3
  · rw [markUniformDirty_bound _ "colorPrimary" rfl, markUniformDirty_bound _ "colorSecondary" rfl,
      markUniformDirty_bound _ "colorBackground" rfl]
    exact ⟨_, rfl, Or.inl rfl⟩
  · exact ⟨_, rfl, Or.inl rfl⟩
  · rw [markUniformDirty_bound _ "audioBass" rfl, markUniformDirty_bound _ "audioMid" rfl,
      markUniformDirty_bound _ "audioHigh" rfl]
    exact ⟨_, rfl, Or.inl rfl⟩
  · cases hv : entry.2 with
    | value v =>
      simp only
      split_ifs with h4
      · unfold VIB34DHypercubeCore.markUniformDirty
        split_ifs
        · exact ⟨_, rfl, Or.inr ⟨v, rfl, h1, h3, rfl⟩⟩
        · exact ⟨_, rfl, Or.inr ⟨v, rfl, h1, h3, rfl⟩⟩
      · exact ⟨_, rfl, Or.inl rfl⟩
    | colorScheme p s b => exact ⟨_, rfl, Or.inl rfl⟩
    | audioLevels b m h => exact ⟨_, rfl, Or.inl rfl⟩

theorem updateParameter_get_other (core : VIB34DHypercubeCore α)
    (entry : String × ParameterValue α) (key : String) (hk : key ≠ entry.1) :
    (core.updateParameter entry).state.get key = core.state.get key := by
  obtain ⟨s, hs, hv⟩ := updateParameter_shape core entry
  rw [hs]
  show (s.values.lookup key).getD _ = (core.state.values.lookup key).getD _
  rcases hv with h | ⟨v, -, -, -, h⟩
  · rw [h]
  · rw [h, lookup_setValue, if_neg hk]

theorem updateParameter_get_self (core : VIB34DHypercubeCore α) (key : String)
    (value : JSValue α) (h1 : key ≠ "colorScheme") (h2 : key ≠ "audioLevels") :
    (core.updateParameter (key, .value value)).state.get key = value := by
  unfold VIB34DHypercubeCore.updateParameter
  simp only
  rw [if_neg h1, if_neg h2]
  split_ifs with h4
  · unfold VIB34DHypercubeCore.markUniformDirty
    split_ifs
    · show (core.state.set key value).get key = value
      rw [get_set, if_pos rfl]
    · show (core.state.set key value).get key = value
      rw [get_set, if_pos rfl]
  · exact not_not.mp h4

theorem foldl_updateParameter_get_other (key : String) :
    ∀ (parameters : List (String × ParameterValue α)) (core : VIB34DHypercubeCore α),
      key ∉ parameters.map Prod.fst →
      (parameters.foldl VIB34DHypercubeCore.updateParameter core).state.get key =
        core.state.get key := by
  intro parameters
  induction parameters with
  | nil => intro core _; rfl
  | cons e t ih =>
    intro core hk
    rw [List.map_cons, List.mem_cons, not_or] at hk
    rw [List.foldl_cons, ih _ hk.2, updateParameter_get_other core e key hk.1]

theorem foldl_updateParameter_get_at (key : String) (value : JSValue α)
    (h1 : key ≠ "colorScheme") (h2 : key ≠ "audioLevels") :
    ∀ (parameters : List (String × ParameterValue α)) (core : VIB34DHypercubeCore α),
      (parameters.map Prod.fst).Nodup → parameters.lookup key = some (.value value) →
      (parameters.foldl VIB34DHypercubeCore.updateParameter core).state.get key = value := by
  intro parameters
  induction parameters with
  | nil => intro core _ hl; simp [List.lookup] at hl
  | cons e t ih =>
    intro core hnd hl
    obtain ⟨k, pv⟩ := e
    rw [List.map_cons, List.nodup_cons] at hnd
    rw [lookup_cons_eq] at hl
    rw [List.foldl_cons]
    by_cases hk : key = k
    · subst hk
      rw [if_pos rfl] at hl
      have hpv : pv = .value value := Option.some.inj hl
      subst hpv
      rw [foldl_updateParameter_get_other key t _ hnd.1]
      exact updateParameter_get_self core key value h1 h2
    · rw [if_neg hk] at hl
      exact ih _ hnd.2 hl

theorem updateParameters_eq_foldl (core : VIB34DHypercubeCore α)
    (parameters : List (String × ParameterValue α))
    (hnd : (parameters.map Prod.fst).Nodup) :
    core.updateParameters parameters =
      parameters.foldl VIB34DHypercubeCore.updateParameter core := by
  unfold VIB34DHypercubeCore.updateParameters
  simp only
  cases hl : parameters.lookup "projectionMethod" with
  | none => rfl
  | some pv =>
    cases pv with
    | value method =>
      simp only
      have hget := foldl_updateParameter_get_at "projectionMethod" method (by decide)
        (by decide) parameters core hnd hl
      rw [hget]
      simp
    | colorScheme p s b => rfl
    | audioLevels b m h => rfl

/-- C29: for every core instance and every parameters object (its keys are distinct) that
has no `needsShaderUpdate` key, `updateParameters` leaves `state.needsShaderUpdate` as it
was; when the object has a `projectionMethod`, that value is stored in
`state.projectionMethod` by the loop over the keys, so the later test
`parameters.projectionMethod !== this.state.projectionMethod` fails and
`needsShaderUpdate` is not set to `true`: the call schedules no shader rebuild. -/
theorem updateParameters_keeps_needsShaderUpdate (core : VIB34DHypercubeCore α)
    (parameters : List (String × ParameterValue α))
    (hnd : (parameters.map Prod.fst).Nodup)
    (hkey : "needsShaderUpdate" ∉ parameters.map Prod.fst) :
    (core.updateParameters parameters).state.get "needsShaderUpdate" =
        core.state.get "needsShaderUpdate" ∧
      ∀ method, parameters.lookup "projectionMethod" = some (.value method) →
        (core.updateParameters parameters).state.get "projectionMethod" = method := by
  rw [updateParameters_eq_foldl core parameters hnd]
  exact ⟨foldl_updateParameter_get_other "needsShaderUpdate" parameters core hkey,
    fun method hl => foldl_updateParameter_get_at "projectionMethod" method (by decide)
      (by decide) parameters core hnd hl⟩

theorem updateParameters_keeps_needsShaderUpdate_witness :
    ([("projectionMethod", ParameterValue.value (JSValue.str "orthographic")),
        ("dimensions", ParameterValue.value (JSValue.num (3 : ℚ)))].map Prod.fst).Nodup ∧
      "needsShaderUpdate" ∉
        [("projectionMethod", ParameterValue.value (JSValue.str "orthographic")),
          ("dimensions", ParameterValue.value (JSValue.num (3 : ℚ)))].map Prod.fst ∧
      (({ canvas := { rectWidth := 640, rectHeight := 360 }
          gl := none
          state := createVIB34DState []
          uniformLocations := none
          program := false } : VIB34DHypercubeCore ℚ).updateParameters
          [("projectionMethod", .value (.str "orthographic")),
            ("dimensions", .value (.num 3))]).state.get "needsShaderUpdate" =
        ({ canvas := { rectWidth := 640, rectHeight := 360 }
           gl := none
           state := createVIB34DState []
           uniformLocations := none
           program := false } : VIB34DHypercubeCore ℚ).state.get "needsShaderUpdate" ∧
      ∀ method,
        List.lookup "projectionMethod"
            [("projectionMethod", ParameterValue.value (JSValue.str "orthographic")),
              ("dimensions", ParameterValue.value (JSValue.num (3 : ℚ)))] =
          some (.value method) →
        (({ canvas := { rectWidth := 640, rectHeight := 360 }
            gl := none
            state := createVIB34DState []
            uniformLocations := none
            program := false } : VIB34DHypercubeCore ℚ).updateParameters
            [("projectionMethod", .value (.str "orthographic")),
              ("dimensions", .value (.num 3))]).state.get "projectionMethod" = method :=
  ⟨by decide, by decide,
    updateParameters_keeps_needsShaderUpdate _ _ (by decide) (by decide)⟩

theorem updateParameters_frame (core : VIB34DHypercubeCore α)
    (parameters : List (String × ParameterValue α)) :
    (core.updateParameters parameters).gl = core.gl ∧
      (core.updateParameters parameters).program = core.program ∧
      (core.updateParameters parameters).uniformLocations = core.uniformLocations := by
  have hfold : ∀ (ps : List (String × ParameterValue α)) (c : VIB34DHypercubeCore α),
      (ps.foldl VIB34DHypercubeCore.updateParameter c).gl = c.gl ∧
      (ps.foldl VIB34DHypercubeCore.updateParameter c).program = c.program ∧
      (ps.foldl VIB34DHypercubeCore.updateParameter c).uniformLocations =
        c.uniformLocations := by
    intro ps
    induction ps with
    | nil => intro c; exact ⟨rfl, rfl, rfl⟩
    | cons e t ih =>
      intro c
      obtain ⟨s, hs, -⟩ := updateParameter_shape c e
      obtain ⟨a1, a2, a3⟩ := ih (c.updateParameter e)
      rw [List.foldl_cons]
      rw [hs] at a1 a2 a3 ⊢
      exact ⟨a1, a2, a3⟩
  obtain ⟨a1, a2, a3⟩ := hfold parameters core
  unfold VIB34DHypercubeCore.updateParameters
  simp only
  split
  · split_ifs
    · exact ⟨a1, a2, a3⟩
    · exact ⟨a1, a2, a3⟩
  · exact ⟨a1, a2, a3⟩

theorem updateUniforms_disabled (core : VIB34DHypercubeCore α) (h : core.gl = none) :
    core.updateUniforms = (core, []) := by
  unfold VIB34DHypercubeCore.updateUniforms
  rw [h]

/-- C27 (counterexample): the instance built for a canvas without WebGL context has
`gl = null`; `updateParameters({ dimensions: 3 })` on it stores `dimensions = 3` in place of
`4` and marks `dimensions` dirty: the call is not a no-op. -/
theorem updateParameters_disabled_counterexample :
    ∃ core,
      VIB34DHypercubeCore.new ({ rectWidth := 640, rectHeight := 360 } : Canvas ℚ) [] 0 16 1 =
        .ok (core, []) ∧
      core.gl = none ∧
      core.state.get "dimensions" = .num 4 ∧
      core.state.dirtyUniforms = [] ∧
      (core.updateParameters [("dimensions", .value (.num 3))]).state.get "dimensions" =
        .num 3 ∧
      (core.updateParameters [("dimensions", .value (.num 3))]).state.dirtyUniforms =
        ["dimensions"] := by
  refine ⟨_, rfl, rfl, ?_, rfl, ?_, ?_⟩
  · show (JSValue.num (4.0 : ℚ)) = JSValue.num 4
    norm_num
  · rw [updateParameters_eq_foldl _ _ (by decide)]
    simp only [List.foldl_cons, List.foldl_nil]
    rw [updateParameter_get_self _ _ _ (by decide) (by decide)]
  · rw [updateParameters_eq_foldl _ _ (by decide)]
    simp only [List.foldl_cons, List.foldl_nil]
    unfold VIB34DHypercubeCore.updateParameter
    simp only
    rw [if_neg (by decide), if_neg (by decide), if_pos, markUniformDirty_bound _ "dimensions" rfl]
    · rfl
    · show (JSValue.num (4.0 : ℚ)) ≠ JSValue.num 3
      norm_num

/-- C27 (amended): when context creation has failed (`gl` is `null`), `updateUniforms`,
`drawFrame`, `handleResize`, `start`, `renderLoop` and `buildProgram` return at once: they
leave the instance as it was, issue no uniform call and raise no error. `updateParameters`
has no such guard: it raises no error and touches neither `gl`, the program nor the uniform
locations, and the following `updateUniforms` still issues no call, but it does store the
changed parameter values and mark their names dirty. -/
theorem disabled_core_calls (core : VIB34DHypercubeCore α) (now frameNow frameId : α)
    (parameters : List (String × ParameterValue α)) (h : core.gl = none) :
    core.updateUniforms = (core, []) ∧
      core.drawFrame = (core, []) ∧
      core.handleResize = core ∧
      core.start now frameNow frameId = .ok (core, []) ∧
      core.renderLoop now frameId = .ok (core, []) ∧
      core.buildProgram = .ok core ∧
      (core.updateParameters parameters).gl = none ∧
      (core.updateParameters parameters).program = core.program ∧
      (core.updateParameters parameters).uniformLocations = core.uniformLocations ∧
      (core.updateParameters parameters).updateUniforms =
        (core.updateParameters parameters, []) := by
  obtain ⟨a1, a2, a3⟩ := updateParameters_frame core parameters
  refine ⟨updateUniforms_disabled core h, ?_, ?_, ?_, ?_, ?_, a1.trans h, a2, a3,
    updateUniforms_disabled _ (a1.trans h)⟩
  · unfold VIB34DHypercubeCore.drawFrame
    rw [h]
    rfl
  · unfold VIB34DHypercubeCore.handleResize
    rw [h]
  · unfold VIB34DHypercubeCore.start
    rw [h]
    rfl
  · unfold VIB34DHypercubeCore.renderLoop
    rw [h]
    simp
  · unfold VIB34DHypercubeCore.buildProgram
    rw [h]

end ParameterTheorems

section PolarityTheorems

variable {α : Type} [LinearOrderedField α] [FloorRing α]

theorem sample_polarity_absent (lib : VIB34DReactivePresetLibrary α) (name : String)
    (context : PresetContext α) :
    lib.sample name { context with polarity := none } =
      lib.sample name { context with polarity := some (-1) } := by
  unfold VIB34DReactivePresetLibrary.sample
  have h : ¬ ((-1 : α) ≥ 0) := by norm_num
  simp only [if_neg h]

theorem internal_moire (v : VIB34DTiltVisualizer α) (options : InteractionOptions α)
    (now : α) :
    (v.applyInteractionResponseInternal { options with polarity := none } now).targetState.moire =
        options.moireBoost.elim
          (v.targetState.moire - clamp (options.intensity.getD 0.45) 0 2.4 * 0.28)
          (fun b => v.targetState.moire - clamp (options.intensity.getD 0.45) 0 2.4 * 0.28 +
            b * clamp (options.intensity.getD 0.45) 0 2.4) ∧
      (v.applyInteractionResponseInternal { options with polarity := some 1 }
          now).targetState.moire =
        options.moireBoost.elim
          (v.targetState.moire + clamp (options.intensity.getD 0.45) 0 2.4 * 0.28)
          (fun b => v.targetState.moire + clamp (options.intensity.getD 0.45) 0 2.4 * 0.28 +
            b * clamp (options.intensity.getD 0.45) 0 2.4) := by
  unfold VIB34DTiltVisualizer.applyInteractionResponseInternal
  have h : ((1 : α) ≥ 0) := by norm_num
  simp only [Option.map_none', Option.map_some', Option.getD_none, Option.getD_some, if_pos h]
  cases options.moireBoost with
  | none =>
    simp only [Option.elim]
    constructor <;> ring
  | some b =>
    simp only [Option.elim]
    constructor <;> ring

theorem decorate_plain (systemType : Option String) (hasAccentCore : Bool) (t0 : α)
    (intensity polarity : Option α) :
    (VIB34DTiltVisualizer.new systemType hasAccentCore t0).decorateInteractionOptions
        { intensity := intensity, polarity := polarity } =
      (VIB34DTiltVisualizer.new systemType hasAccentCore t0,
        { intensity := intensity, polarity := polarity }) := by
  rfl

/-- C30: polarity is reduced to a sign by the test `polarity >= 0`, so an absent polarity
counts as `-1`: for every library, preset name and context, `sample` without polarity returns
what `sample` with polarity `-1` returns; `applyInteractionResponseInternal` without polarity
moves `targetState.moire` by `-intensity * 0.28` and with polarity `+1` by `+intensity * 0.28`
(before the optional `moireBoost` term), where `intensity` is the variable of the method, the
option clamped to `[0, 2.4]` with default `0.45`; and on an instance built by the constructor
`applyInteractionResponse({ intensity })` lowers `targetState.moire` by that amount where
`applyInteractionResponse({ intensity, polarity: 1 })` raises it by the same amount. -/
theorem absent_polarity_counts_as_negative (lib : VIB34DReactivePresetLibrary α)
    (name : String) (context : PresetContext α) (v : VIB34DTiltVisualizer α)
    (options : InteractionOptions α) (systemType : Option String) (hasAccentCore : Bool)
    (t0 now intensity : α) :
    lib.sample name { context with polarity := none } =
        lib.sample name { context with polarity := some (-1) } ∧
      (v.applyInteractionResponseInternal { options with polarity := none }
          now).targetState.moire =
        options.moireBoost.elim
          (v.targetState.moire - clamp (options.intensity.getD 0.45) 0 2.4 * 0.28)
          (fun b => v.targetState.moire - clamp (options.intensity.getD 0.45) 0 2.4 * 0.28 +
            b * clamp (options.intensity.getD 0.45) 0 2.4) ∧
      (v.applyInteractionResponseInternal { options with polarity := some 1 }
          now).targetState.moire =
        options.moireBoost.elim
          (v.targetState.moire + clamp (options.intensity.getD 0.45) 0 2.4 * 0.28)
          (fun b => v.targetState.moire + clamp (options.intensity.getD 0.45) 0 2.4 * 0.28 +
            b * clamp (options.intensity.getD 0.45) 0 2.4) ∧
      ((VIB34DTiltVisualizer.new systemType hasAccentCore t0).applyInteractionResponse
          { intensity := some intensity } now).targetState.moire =
        (VIB34DTiltVisualizer.new systemType hasAccentCore t0).targetState.moire -
          clamp intensity 0 2.4 * 0.28 ∧
      ((VIB34DTiltVisualizer.new systemType hasAccentCore t0).applyInteractionResponse
          { intensity := some intensity, polarity := some 1 } now).targetState.moire =
        (VIB34DTiltVisualizer.new systemType hasAccentCore t0).targetState.moire +
          clamp intensity 0 2.4 * 0.28 := by
  refine ⟨sample_polarity_absent lib name context, (internal_moire v options now).1,
    (internal_moire v options now).2, ?_, ?_⟩
  · unfold VIB34DTiltVisualizer.applyInteractionResponse
    simp only
    rw [decorate_plain]
    exact (internal_moire _ { intensity := some intensity } now).1
  · unfold VIB34DTiltVisualizer.applyInteractionResponse
    simp only
    rw [decorate_plain]
    exact (internal_moire _ { intensity := some intensity } now).2

end PolarityTheorems

section DisabledCoreWitness

theorem disabled_core_calls_witness :
    ({ canvas := { rectWidth := 640, rectHeight := 360 }, gl := none,
              state := createVIB34DState [], uniformLocations := none,
              program := false } : VIB34DHypercubeCore ℚ).gl = none ∧
    ({ canvas := { rectWidth := 640, rectHeight := 360 }, gl := none,
              state := createVIB34DState [], uniformLocations := none,
              program := false } : VIB34DHypercubeCore ℚ).updateUniforms =
      (({ canvas := { rectWidth := 640, rectHeight := 360 }, gl := none,
              state := createVIB34DState [], uniformLocations := none,
              program := false } : VIB34DHypercubeCore ℚ), []) ∧
    ({ canvas := { rectWidth := 640, rectHeight := 360 }, gl := none,
              state := createVIB34DState [], uniformLocations := none,
              program := false } : VIB34DHypercubeCore ℚ).drawFrame =
      (({ canvas := { rectWidth := 640, rectHeight := 360 }, gl := none,
              state := createVIB34DState [], uniformLocations := none,
              program := false } : VIB34DHypercubeCore ℚ), []) ∧
    ({ canvas := { rectWidth := 640, rectHeight := 360 }, gl := none,
              state := createVIB34DState [], uniformLocations := none,
              program := false } : VIB34DHypercubeCore ℚ).handleResize =
      ({ canvas := { rectWidth := 640, rectHeight := 360 }, gl := none,
              state := createVIB34DState [], uniformLocations := none,
              program := false } : VIB34DHypercubeCore ℚ) ∧
    ({ canvas := { rectWidth := 640, rectHeight := 360 }, gl := none,
              state := createVIB34DState [], uniformLocations := none,
              program := false } : VIB34DHypercubeCore ℚ).start 0 16 1 =
      .ok (({ canvas := { rectWidth := 640, rectHeight := 360 }, gl := none,
              state := createVIB34DState [], uniformLocations := none,
              program := false } : VIB34DHypercubeCore ℚ), []) ∧
    ({ canvas := { rectWidth := 640, rectHeight := 360 }, gl := none,
              state := createVIB34DState [], uniformLocations := none,
              program := false } : VIB34DHypercubeCore ℚ).renderLoop 0 1 =
      .ok (({ canvas := { rectWidth := 640, rectHeight := 360 }, gl := none,
              state := createVIB34DState [], uniformLocations := none,
              program := false } : VIB34DHypercubeCore ℚ), []) ∧
    ({ canvas := { rectWidth := 640, rectHeight := 360 }, gl := none,
              state := createVIB34DState [], uniformLocations := none,
              program := false } : VIB34DHypercubeCore ℚ).buildProgram =
      .ok ({ canvas := { rectWidth := 640, rectHeight := 360 }, gl := none,
              state := createVIB34DState [], uniformLocations := none,
              program := false } : VIB34DHypercubeCore ℚ) ∧
    (({ canvas := { rectWidth := 640, rectHeight := 360 }, gl := none,
              state := createVIB34DState [], uniformLocations := none,
              program := false } : VIB34DHypercubeCore ℚ).updateParameters
        [("dimensions", ParameterValue.value (JSValue.num (3 : ℚ)))]).gl = none ∧
    (({ canvas := { rectWidth := 640, rectHeight := 360 }, gl := none,
              state := createVIB34DState [], uniformLocations := none,
              program := false } : VIB34DHypercubeCore ℚ).updateParameters
        [("dimensions", ParameterValue.value (JSValue.num (3 : ℚ)))]).program =
      ({ canvas := { rectWidth := 640, rectHeight := 360 }, gl := none,
              state := createVIB34DState [], uniformLocations := none,
              program := false } : VIB34DHypercubeCore ℚ).program ∧
    (({ canvas := { rectWidth := 640, rectHeight := 360 }, gl := none,
              state := createVIB34DState [], uniformLocations := none,
              program := false } : VIB34DHypercubeCore ℚ).updateParameters
        [("dimensions", ParameterValue.value (JSValue.num (3 : ℚ)))]).uniformLocations =
      ({ canvas := { rectWidth := 640, rectHeight := 360 }, gl := none,
              state := createVIB34DState [], uniformLocations := none,
              program := false } : VIB34DHypercubeCore ℚ).uniformLocations ∧
    (({ canvas := { rectWidth := 640, rectHeight := 360 }, gl := none,
              state := createVIB34DState [], uniformLocations := none,
              program := false } : VIB34DHypercubeCore ℚ).updateParameters
        [("dimensions", ParameterValue.value (JSValue.num (3 : ℚ)))]).updateUniforms =
      ((({ canvas := { rectWidth := 640, rectHeight := 360 }, gl := none,
              state := createVIB34DState [], uniformLocations := none,
              program := false } : VIB34DHypercubeCore ℚ).updateParameters
        [("dimensions", ParameterValue.value (JSValue.num (3 : ℚ)))]), []) :=
  ⟨rfl, disabled_core_calls _ 0 16 1 _ rfl⟩

end DisabledCoreWitness

section ImpulseTheorems

variable {α : Type} [LinearOrderedField α] [FloorRing α]

theorem applyInteractionResponse_interaction (v : VIB34DTiltVisualizer α)
    (options : InteractionOptions α) (now : α) :
    (v.applyInteractionResponse options now).interaction.active = true ∧
      (v.applyInteractionResponse options now).interaction.start = now ∧
      (v.applyInteractionResponse options now).interaction.magnitude =
        v.interaction.magnitude := by
  refine ⟨rfl, rfl, ?_⟩
  show (v.decorateInteractionOptions options).1.interaction.magnitude = _
  rcases decorateInteractionOptions_fst v options with h | ⟨b, h⟩
  · rw [h]
  · rw [h]
    rfl

theorem updateState_envelope (M : JSMath α) (v : VIB34DTiltVisualizer α) (now : α)
    (ha : v.interaction.active = true)
    (hp : ¬ ((now - v.interaction.start) / v.interaction.duration ≥ 1)) :
    (v.updateState M now).interaction.magnitude =
      M.sin ((now - v.interaction.start) / v.interaction.duration * M.pi) *
        v.interaction.peak := by
  unfold VIB34DTiltVisualizer.updateState
  simp only [ha, if_true, if_neg hp]

/-- C26: a new impulse request does not keep the magnitude across the next relaxation
step. With the real sine, for every instance, every options object and every time `t0`:
right after `applyInteractionResponse` at `t0` the magnitude is the one before the request,
but `updateState` at the same time `t0` (`e = 0`) replaces it by
`sin(0 * π) * peak = 0`, whatever the magnitude was. -/
theorem impulse_request_resets_magnitude (M : JSMath ℝ) (hM : IsRealMath M)
    (v : VIB34DTiltVisualizer ℝ) (options : InteractionOptions ℝ) (t0 : ℝ) :
    (v.applyInteractionResponse options t0).interaction.magnitude = v.interaction.magnitude ∧
      ((v.applyInteractionResponse options t0).updateState M t0).interaction.magnitude = 0 := by
  obtain ⟨ha, hs, hm⟩ := applyInteractionResponse_interaction v options t0
  refine ⟨hm, ?_⟩
  rw [updateState_envelope M _ t0 ha (by rw [hs, sub_self, zero_div]; norm_num), hs, sub_self,
    zero_div, zero_mul, hM.2.1, Real.sin_zero, zero_mul]

theorem impulse_request_resets_magnitude_witness :
    IsRealMath (mkMath Real.exp Real.sin Real.cos Real.sqrt (fun y x => Complex.arg ⟨x, y⟩)
        Real.rpow Real.pi) ∧
      (((VIB34DTiltVisualizer.new (some "quantum") false (0 : ℝ)).applyInteractionResponse
          { intensity := some 1, polarity := some 1 } 0).updateState
        (mkMath Real.exp Real.sin Real.cos Real.sqrt (fun y x => Complex.arg ⟨x, y⟩)
          Real.rpow Real.pi) 360).interaction.magnitude = 1.2 ∧
      ((((VIB34DTiltVisualizer.new (some "quantum") false (0 : ℝ)).applyInteractionResponse
          { intensity := some 1, polarity := some 1 } 0).updateState
        (mkMath Real.exp Real.sin Real.cos Real.sqrt (fun y x => Complex.arg ⟨x, y⟩)
          Real.rpow Real.pi) 360).applyInteractionResponse
          { intensity := some 1, polarity := some 1 } 360).interaction.magnitude =
        (((VIB34DTiltVisualizer.new (some "quantum") false (0 : ℝ)).applyInteractionResponse
          { intensity := some 1, polarity := some 1 } 0).updateState
        (mkMath Real.exp Real.sin Real.cos Real.sqrt (fun y x => Complex.arg ⟨x, y⟩)
          Real.rpow Real.pi) 360).interaction.magnitude ∧
      (((((VIB34DTiltVisualizer.new (some "quantum") false (0 : ℝ)).applyInteractionResponse
          { intensity := some 1, polarity := some 1 } 0).updateState
        (mkMath Real.exp Real.sin Real.cos Real.sqrt (fun y x => Complex.arg ⟨x, y⟩)
          Real.rpow Real.pi) 360).applyInteractionResponse
          { intensity := some 1, polarity := some 1 } 360).updateState
        (mkMath Real.exp Real.sin Real.cos Real.sqrt (fun y x => Complex.arg ⟨x, y⟩)
          Real.rpow Real.pi) 360).interaction.magnitude = 0 := by
  refine ⟨isRealMath_mkMath _ _, ?_,
    impulse_request_resets_magnitude _ (isRealMath_mkMath _ _) _ _ _⟩
  have ha := applyInteractionResponse_interaction
    (VIB34DTiltVisualizer.new (some "quantum") false (0 : ℝ))
    { intensity := some 1, polarity := some 1 } 0
  have hd : ((VIB34DTiltVisualizer.new (some "quantum") false (0 : ℝ)).applyInteractionResponse
      { intensity := some 1, polarity := some 1 } 0).interaction.duration = 720 := by
    show numOr ((none : Option ℝ).getD 0) 720 = 720
    simp [numOr]
  have hk : ((VIB34DTiltVisualizer.new (some "quantum") false (0 : ℝ)).applyInteractionResponse
      { intensity := some 1, polarity := some 1 } 0).interaction.peak = 1.2 := by
    show min (1.8 : ℝ) (clamp ((some (1 : ℝ)).getD 0.45) 0 2.4 * 0.9 +
      |((some (1 : ℝ)).map (fun p => if p ≥ 0 then (1 : ℝ) else -1)).getD (-1)| * 0.3) = 1.2
    simp only [Option.getD_some, Option.map_some', clamp]
    norm_num
  rw [updateState_envelope _ _ _ ha.1 (by rw [ha.2.1, hd]; norm_num), ha.2.1, hd, hk]
  show Real.sin ((360 - 0) / 720 * Real.pi) * 1.2 = 1.2
  have e : ((360 : ℝ) - 0) / 720 * Real.pi = Real.pi / 2 := by ring
  rw [e, Real.sin_pi_div_two, one_mul]

end ImpulseTheorems

section GeometryTheorems

variable {α : Type} [LinearOrderedField α] [FloorRing α]

theorem knownGeometry_some_iff (name : String) :
    knownGeometry (some name) = hasProperty VIB34D_GEOMETRY_INDEX name := rfl

theorem cycle_get_known (cycle : List String)
    (hc : ∀ name ∈ cycle, knownGeometry (some name) = true) (i : Nat) (hi : i < cycle.length) :
    knownGeometry cycle[i]? = true := by
  rw [List.getElem?_eq_getElem hi]
  exact hc _ (List.getElem_mem _)

theorem ensureGeometryVariant_knownGeometry (v : VIB34DTiltVisualizer α)
    (hc : ∀ name ∈ v.presets.geometryCycle, knownGeometry (some name) = true)
    (variant : Option String) :
    knownGeometry (some (v.ensureGeometryVariant variant)) = true := by
  unfold VIB34DTiltVisualizer.ensureGeometryVariant
  split
  · rename_i g hg
    obtain ⟨-, hk⟩ := Option.filter_eq_some.mp hg
    exact hk
  · cases h0 : v.presets.geometryCycle[0]? with
    | none => rfl
    | some name =>
      have hm : name ∈ v.presets.geometryCycle := by
        obtain ⟨hlt, he⟩ := List.getElem?_eq_some.mp h0
        rw [← he]
        exact List.getElem_mem _
      unfold truthyString
      by_cases hn : name = ""
      · subst hn
        rfl
      · have : Option.filter (fun t => decide (t ≠ "")) (some name) = some name := by
          simp [Option.filter, hn]
        rw [this]
        exact hc name hm

theorem elim_known (o : Option String) (d : Option String) (hd : knownGeometry d = true)
    (ho : ∀ g, o = some g → knownGeometry (some g) = true) :
    knownGeometry (o.elim d (fun g => some g)) = true := by
  cases o with
  | none => exact hd
  | some g => exact ho g rfl

theorem cycleIndexOf_lt (cycle : List String) (variant : String) (i : Nat) (hi : i < cycle.length) :
    (cycleIndexOf cycle variant).getD i < cycle.length := by
  unfold cycleIndexOf
  split_ifs with h
  · exact h
  · exact hi

theorem elim_index_lt (cycle : List String) (o : Option String) (i : Nat)
    (hi : i < cycle.length) :
    o.elim i (fun g => (cycleIndexOf cycle g).getD i) < cycle.length := by
  cases o with
  | none => exact hi
  | some g => exact cycleIndexOf_lt cycle g i hi

theorem map_ensure_known (v : VIB34DTiltVisualizer α)
    (hc : ∀ name ∈ v.presets.geometryCycle, knownGeometry (some name) = true)
    (o : Option String) (g : String)
    (hg : o.map (fun variant => v.ensureGeometryVariant (some variant)) = some g) :
    knownGeometry (some g) = true := by
  obtain ⟨x, -, hx⟩ := Option.map_eq_some'.mp hg
  rw [← hx]
  exact ensureGeometryVariant_knownGeometry v hc _

theorem truthy_map_ensure_known (v : VIB34DTiltVisualizer α)
    (hc : ∀ name ∈ v.presets.geometryCycle, knownGeometry (some name) = true)
    (o : Option String) (g : String)
    (hg : truthyString (o.map (fun variant => v.ensureGeometryVariant (some variant))) =
      some g) :
    knownGeometry (some g) = true := by
  unfold truthyString at hg
  obtain ⟨hx, -⟩ := Option.filter_eq_some.mp hg
  exact map_ensure_known v hc o g hx

theorem ite_truthy_map_ensure_known (v : VIB34DTiltVisualizer α)
    (hc : ∀ name ∈ v.presets.geometryCycle, knownGeometry (some name) = true)
    (c : Prop) [Decidable c] (o : Option String) (g : String)
    (hg : (if c then
        truthyString (o.map (fun variant => v.ensureGeometryVariant (some variant)))
      else none) = some g) :
    knownGeometry (some g) = true := by
  split_ifs at hg
  exact truthy_map_ensure_known v hc o g hg

theorem updateState_geometry (M : JSMath α) (v : VIB34DTiltVisualizer α) (now : α)
    (h : v.GeometryKnown) : (v.updateState M now).GeometryKnown :=
  ⟨ensureGeometryVariant_knownGeometry v h.2.2.2 _, h.2.1, h.2.2.1, h.2.2.2⟩

theorem applyInheritedTrait_geometry (v : VIB34DTiltVisualizer α) (trait : Option (Trait α))
    (immediate : Bool) (h : v.GeometryKnown) :
    (v.applyInheritedTrait trait immediate).GeometryKnown := by
  obtain ⟨h1, h2, h3, h4⟩ := h
  cases trait with
  | none => exact ⟨h1, h2, h3, h4⟩
  | some trait =>
    refine ⟨?_, ?_, ?_, h4⟩
    · cases immediate
      · exact h1
      · exact h1
    · exact elim_known _ _ (elim_known _ _ h2 (map_ensure_known v h4 _))
        (ite_truthy_map_ensure_known v h4 _ _)
    · exact elim_index_lt _ _ _ h3

theorem applyBlueprintDeltas_geometry (v : VIB34DTiltVisualizer α) (b : Blueprint α)
    (h : v.GeometryKnown) : (v.applyBlueprintDeltas b).GeometryKnown := by
  obtain ⟨h1, h2, h3, h4⟩ := h
  exact ⟨h1, elim_known _ _ h2 (map_ensure_known v h4 _), elim_index_lt _ _ _ h3, h4⟩

theorem applyDestructionFlourish_geometry (v : VIB34DTiltVisualizer α)
    (flourish : Option (Flourish α)) (trait : Trait α) (h : v.GeometryKnown) :
    (v.applyDestructionFlourish flourish trait).1.GeometryKnown := by
  obtain ⟨h1, h2, h3, h4⟩ := h
  cases flourish with
  | none => exact ⟨h1, h2, h3, h4⟩
  | some flourish =>
    exact ⟨h1,
      elim_known _ _ (elim_known _ _ h2 (map_ensure_known v h4 _))
        (ite_truthy_map_ensure_known v h4 _ _),
      elim_index_lt _ _ _ (elim_index_lt _ _ _ h3), h4⟩

theorem applyAudioEnergy_geometry (M : JSMath α) (v : VIB34DTiltVisualizer α)
    (level : Option α) (audioMeta : AudioMeta α) (now : α) (h : v.GeometryKnown) :
    (v.applyAudioEnergy M level audioMeta now).GeometryKnown := by
  obtain ⟨h1, h2, h3, h4⟩ := h
  cases level with
  | none => exact ⟨h1, h2, h3, h4⟩
  | some level => exact ⟨h1, h2, h3, h4⟩

theorem advance_index_lt (cycle : List String) (advance : Option α) (i : Nat)
    (hi : i < cycle.length) :
    advance.elim i
        (fun geometryAdvance =>
          if geometryAdvance > 0 then (i + 1 + cycle.length) % cycle.length
          else (i + cycle.length - 1) % cycle.length) < cycle.length := by
  cases advance with
  | none => exact hi
  | some a =>
    show (if a > 0 then _ else _) < _
    split_ifs <;> exact Nat.mod_lt _ (by omega)

theorem advance_known (cycle : List String)
    (hc : ∀ name ∈ cycle, knownGeometry (some name) = true) (advance : Option α) (i : Nat)
    (hi : i < cycle.length) (d : Option String) (hd : knownGeometry d = true) :
    knownGeometry (advance.elim d (fun _ => cycle[i]?)) = true := by
  cases advance with
  | none => exact hd
  | some a => exact cycle_get_known cycle hc i hi

theorem applyInteractionResponseInternal_geometry (v : VIB34DTiltVisualizer α)
    (options : InteractionOptions α) (now : α) (h : v.GeometryKnown) :
    (v.applyInteractionResponseInternal options now).GeometryKnown := by
  obtain ⟨h1, h2, h3, h4⟩ := h
  exact ⟨h1,
    elim_known _ _ (advance_known _ h4 _ _ (advance_index_lt _ _ _ h3) _ h2)
      (truthy_map_ensure_known v h4 _),
    elim_index_lt _ _ _ (advance_index_lt _ _ _ h3), h4⟩

theorem applyInteractionResponse_geometry (v : VIB34DTiltVisualizer α)
    (options : InteractionOptions α) (now : α) (h : v.GeometryKnown) :
    (v.applyInteractionResponse options now).GeometryKnown := by
  unfold VIB34DTiltVisualizer.applyInteractionResponse
  apply applyInteractionResponseInternal_geometry
  rcases decorateInteractionOptions_fst v options with h' | ⟨b, h'⟩
  · rw [h']; exact h
  · rw [h']; exact applyBlueprintDeltas_geometry v b h

theorem ite_index_lt (c d : Prop) [Decidable c] [Decidable d] (len i : Nat) (hi : i < len) :
    (if c then (if d then (i + 1 + len) % len else (i + len - 1) % len) else i) < len := by
  split_ifs
  · exact Nat.mod_lt _ (by omega)
  · exact Nat.mod_lt _ (by omega)
  · exact hi

theorem ite_cycle_known (cycle : List String)
    (hc : ∀ name ∈ cycle, knownGeometry (some name) = true) (c : Prop) [Decidable c] (i : Nat)
    (hi : i < cycle.length) (d : Option String) (hd : knownGeometry d = true) :
    knownGeometry (if c then cycle[i]? else d) = true := by
  split_ifs
  · exact cycle_get_known cycle hc i hi
  · exact hd

theorem applyTiltVector_geometry (M : JSMath α) (v : VIB34DTiltVisualizer α)
    (tilt : TiltInput α) (now : α) (h : v.GeometryKnown) :
    (v.applyTiltVector M tilt now).GeometryKnown := by
  obtain ⟨h1, h2, h3, h4⟩ := h
  exact ⟨h1, ite_cycle_known _ h4 _ _ (ite_index_lt _ _ _ _ h3) _ h2,
    ite_index_lt _ _ _ _ h3, h4⟩

theorem setCardState_geometry (v : VIB34DTiltVisualizer α) (state : String)
    (inheritedTrait : Option (Trait α)) (h : v.GeometryKnown) :
    (v.setCardState state inheritedTrait).GeometryKnown := by
  obtain ⟨h1, h2, h3, h4⟩ := h
  unfold VIB34DTiltVisualizer.setCardState
  have key : ∀ w : VIB34DTiltVisualizer α, w.GeometryKnown →
      (match inheritedTrait with
        | some trait => w.applyInheritedTrait (some trait) true
        | none => w).GeometryKnown := by
    intro w hw
    cases inheritedTrait with
    | none => exact hw
    | some trait => exact applyInheritedTrait_geometry w _ _ hw
  apply key
  simp only []
  have hlt : (v.variantIndex + 1) % v.presets.geometryCycle.length <
      v.presets.geometryCycle.length := Nat.mod_lt _ (by omega)
  split_ifs <;> (try split) <;>
    first
    | exact ⟨h1, ensureGeometryVariant_knownGeometry v h4 _, h3, h4⟩
    | exact ⟨h1, cycle_get_known _ h4 _ h3, h3, h4⟩
    | exact ⟨h1, cycle_get_known _ h4 _ hlt, hlt, h4⟩

theorem filtered_cycle_known (base : List String) :
    (∀ name ∈
        (if (base.filter (fun name => hasProperty VIB34D_GEOMETRY_INDEX name)).length ≠ 0
          then base.filter (fun name => hasProperty VIB34D_GEOMETRY_INDEX name)
          else ["hypercube"]),
        knownGeometry (some name) = true) ∧
      0 < (if (base.filter (fun name => hasProperty VIB34D_GEOMETRY_INDEX name)).length ≠ 0
          then base.filter (fun name => hasProperty VIB34D_GEOMETRY_INDEX name)
          else ["hypercube"]).length := by
  split_ifs with hlen
  · refine ⟨?_, Nat.pos_of_ne_zero hlen⟩
    intro name hname
    exact (List.mem_filter.mp hname).2
  · refine ⟨?_, by decide⟩
    intro name hname
    rw [List.mem_singleton] at hname
    subst hname
    rfl

theorem getSystemPreset_cycle (systemType : String) :
    (∀ name ∈ (getSystemPreset systemType : SystemPreset α).geometryCycle,
        knownGeometry (some name) = true) ∧
      0 < (getSystemPreset systemType : SystemPreset α).geometryCycle.length := by
  unfold getSystemPreset
  exact filtered_cycle_known _

theorem new_geometry (systemType : Option String) (hasAccentCore : Bool) (now : α) :
    (VIB34DTiltVisualizer.new systemType hasAccentCore now).GeometryKnown := by
  obtain ⟨hc, hl⟩ := @getSystemPreset_cycle α _ _ ((truthyString systemType).getD "quantum")
  have hk := ensureGeometryVariant_knownGeometry
    (VIB34DTiltVisualizer.new systemType hasAccentCore now) hc none
  exact ⟨hk, hk, hl, hc⟩

theorem call_geometry (M : JSMath α) (v : VIB34DTiltVisualizer α) (c : VisualizerCall α)
    (h : v.GeometryKnown) : (v.call M c).GeometryKnown := by
  cases c with
  | updateState now => exact updateState_geometry M v now h
  | setCardState state inheritedTrait => exact setCardState_geometry v state inheritedTrait h
  | applyInteractionResponse options now =>
    exact applyInteractionResponse_geometry v options now h
  | applyInheritedTrait trait immediate => exact applyInheritedTrait_geometry v trait immediate h
  | applyTiltVector tilt now => exact applyTiltVector_geometry M v tilt now h
  | applyAudioEnergy level audioMeta now =>
    exact applyAudioEnergy_geometry M v level audioMeta now h
  | applyDestructionFlourish flourish trait =>
    exact applyDestructionFlourish_geometry v flourish trait h

theorem run_geometry (M : JSMath α) (calls : List (VisualizerCall α)) :
    ∀ v : VIB34DTiltVisualizer α, v.GeometryKnown → (v.run M calls).GeometryKnown := by
  induction calls with
  | nil => intro v h; exact h
  | cons c cs ih => intro v h; exact ih _ (call_geometry M v c h)

/-- C22 (counterexample): `ensureGeometryVariant` checks a name against the table
`VIB34D_GEOMETRY_INDEX`, not against the cycle of the instance. On a fresh quantum
instance (cycle `hypercube, wave, crystal, lattice`), `applyInheritedTrait` with the trait
`{ geometryVariant: 'torus' }` sets `targetState.geometryVariant` to `torus`, and the next
`updateState` copies it to `state.geometryVariant`; `torus` is not in the cycle. -/
theorem geometryVariant_outside_cycle_counterexample :
    (VIB34DTiltVisualizer.new (some "quantum") false (0 : ℝ)).presets.geometryCycle =
        ["hypercube", "wave", "crystal", "lattice"] ∧
      ((VIB34DTiltVisualizer.new (some "quantum") false (0 : ℝ)).applyInheritedTrait
          (some { geometryVariant := some "torus" }) false).targetState.geometryVariant =
        some "torus" ∧
      (((VIB34DTiltVisualizer.new (some "quantum") false (0 : ℝ)).applyInheritedTrait
          (some { geometryVariant := some "torus" }) false).updateState
        (mkMath Real.exp Real.sin Real.cos Real.sqrt (fun y x => Complex.arg ⟨x, y⟩)
          Real.rpow Real.pi) 16).state.geometryVariant = some "torus" ∧
      inGeometryCycle
          (((VIB34DTiltVisualizer.new (some "quantum") false (0 : ℝ)).applyInheritedTrait
              (some { geometryVariant := some "torus" }) false).updateState
            (mkMath Real.exp Real.sin Real.cos Real.sqrt (fun y x => Complex.arg ⟨x, y⟩)
              Real.rpow Real.pi) 16).presets.geometryCycle
          (some "torus") = false := by
  refine ⟨rfl, rfl, rfl, rfl⟩

theorem call_presets (M : JSMath α) (v : VIB34DTiltVisualizer α) (c : VisualizerCall α) :
    (v.call M c).presets = v.presets := by
  cases c with
  | updateState now => rfl
  | setCardState state inheritedTrait =>
    unfold VIB34DTiltVisualizer.call VIB34DTiltVisualizer.setCardState
    cases inheritedTrait with
    | none => simp only []; split_ifs <;> (try split) <;> rfl
    | some tr => simp only []; split_ifs <;> (try split) <;> rfl
  | applyInteractionResponse options now =>
    show (v.applyInteractionResponse options now).presets = _
    unfold VIB34DTiltVisualizer.applyInteractionResponse
    rcases decorateInteractionOptions_fst v options with h | ⟨b, h⟩
    · show (v.decorateInteractionOptions options).1.presets = _
      rw [h]
    · show (v.decorateInteractionOptions options).1.presets = _
      rw [h]
      rfl
  | applyInheritedTrait trait immediate =>
    cases trait with
    | none => rfl
    | some tr => rfl
  | applyTiltVector tilt now => rfl
  | applyAudioEnergy level audioMeta now =>
    cases level with
    | none => rfl
    | some l => rfl
  | applyDestructionFlourish flourish trait =>
    cases flourish with
    | none => rfl
    | some f => rfl

theorem run_presets (M : JSMath α) (calls : List (VisualizerCall α)) :
    ∀ v : VIB34DTiltVisualizer α, (v.run M calls).presets = v.presets := by
  induction calls with
  | nil => intro v; rfl
  | cons c cs ih =>
    intro v
    exact (ih (v.call M c)).trans (call_presets M v c)

/-- C22 (amended): in every reachable state of an instance of a family on which
`presets[systemType] || presets.quantum` is a preset (`hfam`: every family name that is
not inherited from `Object.prototype`; the constructor followed by any finite sequence of
`updateState`, `setCardState`, `applyInteractionResponse`, `applyInheritedTrait`,
`applyTiltVector`, `applyAudioEnergy` and `applyDestructionFlourish` calls),
`state.geometryVariant` and `targetState.geometryVariant` are strings that pass the test
`VIB34D_GEOMETRY_INDEX[value] !== undefined` of `ensureGeometryVariant`, which are the
names of the table and the names inherited from `Object.prototype` (they need not be
members of the geometry cycle of the instance), the cycle holds such strings only,
`variantIndex` is a position of the cycle, and the cycle is the one the constructor
computed from the base preset of the family, whatever the calls. -/
theorem geometry_known_after_calls (M : JSMath α) (systemType : Option String)
    (hasAccentCore : Bool) (now : α) (calls : List (VisualizerCall α))
    (hfam : (basePresetOf ((truthyString systemType).getD "quantum") :
      Option (SystemPreset α)).isSome = true) :
    ((VIB34DTiltVisualizer.new systemType hasAccentCore now).run M calls).GeometryKnown ∧
      ∃ basePreset : SystemPreset α,
        basePresetOf ((truthyString systemType).getD "quantum") = some basePreset ∧
        ((VIB34DTiltVisualizer.new systemType hasAccentCore now).run M calls).presets.geometryCycle =
          if (basePreset.geometryCycle.filter
              (fun name => hasProperty VIB34D_GEOMETRY_INDEX name)).length ≠ 0
            then basePreset.geometryCycle.filter
              (fun name => hasProperty VIB34D_GEOMETRY_INDEX name)
            else ["hypercube"] := by
  obtain ⟨basePreset, hb, hp⟩ := new_presets_of_base systemType hasAccentCore now hfam
  refine ⟨run_geometry M calls _ (new_geometry systemType hasAccentCore now),
    basePreset, hb, ?_⟩
  rw [run_presets M calls _, hp]

/-- Witness of C22: a `faceted` instance that inherits the geometry `torus` and relaxes
once. -/
theorem geometry_known_after_calls_witness :
    (basePresetOf ((truthyString (some "faceted")).getD "quantum") :
        Option (SystemPreset ℝ)).isSome = true ∧
      ((VIB34DTiltVisualizer.new (some "faceted") false (0 : ℝ)).run
        (mkMath Real.exp Real.sin Real.cos Real.sqrt (fun y x => Complex.arg ⟨x, y⟩)
          Real.rpow Real.pi)
        [VisualizerCall.applyInheritedTrait (some { geometryVariant := some "torus" }) false,
          VisualizerCall.updateState 16]).GeometryKnown ∧
      ∃ basePreset : SystemPreset ℝ,
        basePresetOf ((truthyString (some "faceted")).getD "quantum") = some basePreset ∧
        ((VIB34DTiltVisualizer.new (some "faceted") false (0 : ℝ)).run
          (mkMath Real.exp Real.sin Real.cos Real.sqrt (fun y x => Complex.arg ⟨x, y⟩)
            Real.rpow Real.pi)
          [VisualizerCall.applyInheritedTrait (some { geometryVariant := some "torus" }) false,
            VisualizerCall.updateState 16]).presets.geometryCycle =
          if (basePreset.geometryCycle.filter
              (fun name => hasProperty VIB34D_GEOMETRY_INDEX name)).length ≠ 0
            then basePreset.geometryCycle.filter
              (fun name => hasProperty VIB34D_GEOMETRY_INDEX name)
            else ["hypercube"] :=
  ⟨rfl, geometry_known_after_calls _ (some "faceted") false 0 _ rfl⟩

end GeometryTheorems

section FocusTheorems

variable {α : Type} [LinearOrderedField α] [FloorRing α]

theorem inGeometryCycle_some (cycle : List String) (name : String) :
    inGeometryCycle cycle (some name) = true ↔ name ∈ cycle := by
  show cycle.contains name = true ↔ _
  simp

theorem cycle_get_inCycle (cycle : List String) (i : Nat) (hi : i < cycle.length) :
    inGeometryCycle cycle cycle[i]? = true := by
  rw [List.getElem?_eq_getElem hi]
  exact (inGeometryCycle_some _ _).mpr (List.getElem_mem _)

theorem ensure_inCycle (v : VIB34DTiltVisualizer α)
    (hc : ∀ name ∈ v.presets.geometryCycle, knownGeometry (some name) = true)
    (variant : Option String)
    (hv : inGeometryCycle v.presets.geometryCycle variant = true) :
    inGeometryCycle v.presets.geometryCycle (some (v.ensureGeometryVariant variant)) = true := by
  cases variant with
  | none => exact absurd hv (Bool.false_ne_true)
  | some g =>
    have hm := (inGeometryCycle_some _ _).mp hv
    rw [ensureGeometryVariant_hasProperty v g (hc g hm)]
    exact hv

theorem updateState_inCycle (M : JSMath α) (v : VIB34DTiltVisualizer α) (now : α)
    (h : v.GeometryInCycle) : (v.updateState M now).GeometryInCycle :=
  ⟨ensure_inCycle v h.2.2.2 _ h.2.1, h.2.1, h.2.2.1, h.2.2.2⟩

theorem relax_inCycle (M : JSMath α) (stepMs : α) (n : Nat) :
    ∀ v : VIB34DTiltVisualizer α, v.GeometryInCycle →
      (VIB34DTiltVisualizer.relax M stepMs n v).GeometryInCycle ∧
        (VIB34DTiltVisualizer.relax M stepMs n v).presets = v.presets := by
  induction n with
  | zero => intro v h; exact ⟨h, rfl⟩
  | succ n ih =>
    intro v h
    exact ih _ (updateState_inCycle M v _ h)

theorem setCardState_inCycle (v : VIB34DTiltVisualizer α) (state : String)
    (h : v.GeometryInCycle) : (v.setCardState state none).GeometryInCycle := by
  obtain ⟨h1, h2, h3, h4⟩ := h
  unfold VIB34DTiltVisualizer.setCardState
  simp only []
  have hlt : (v.variantIndex + 1) % v.presets.geometryCycle.length <
      v.presets.geometryCycle.length := Nat.mod_lt _ (by omega)
  split_ifs <;> (try split) <;>
    first
    | exact ⟨h1, ensure_inCycle v h4 _ h2, h3, h4⟩
    | exact ⟨h1, cycle_get_inCycle _ _ h3, h3, h4⟩
    | exact ⟨h1, cycle_get_inCycle _ _ hlt, hlt, h4⟩
    | (rename_i heq; exact absurd heq (by simp [truthyString]))

theorem new_inCycle (systemType : Option String) (hasAccentCore : Bool) (now : α) :
    (VIB34DTiltVisualizer.new systemType hasAccentCore now).GeometryInCycle := by
  obtain ⟨hc, hl⟩ := @getSystemPreset_cycle α _ _ ((truthyString systemType).getD "quantum")
  have hk : inGeometryCycle
      (getSystemPreset ((truthyString systemType).getD "quantum") : SystemPreset α).geometryCycle
      (some ((truthyString
        (getSystemPreset ((truthyString systemType).getD "quantum") :
          SystemPreset α).geometryCycle[0]?).getD "hypercube")) = true := by
    rw [List.getElem?_eq_getElem hl]
    have hm := List.getElem_mem hl
    have hne := geometryProperty_ne_empty _ (hc _ hm)
    rw [truthyString_of_ne _ hne]
    exact (inGeometryCycle_some _ _).mpr hm
  exact ⟨hk, hk, hl, hc⟩

theorem getSystemPreset_base_pos (systemType : String) :
    0 < (getSystemPreset systemType : SystemPreset α).baseSpeed ∧
      0 < (getSystemPreset systemType : SystemPreset α).baseGlitch := by
  rcases @getSystemPreset_cases α _ _ systemType with h | h | h <;> rw [h] <;> constructor
  · show (0:α) < 1.12
    norm_num
  · show (0:α) < 0.35
    norm_num
  · show (0:α) < 1.28
    norm_num
  · show (0:α) < 0.42
    norm_num
  · show (0:α) < 0.98
    norm_num
  · show (0:α) < 0.3
    norm_num

theorem relax_tendsto (M : JSMath ℝ) (hM : IsRealMath M) (stepMs : ℝ)
    (hstep : 0.00016 ≤ stepMs / 1000) (v : VIB34DTiltVisualizer ℝ) (i : Fin 8) :
    Filter.Tendsto (fun n => (VIB34DTiltVisualizer.relax M stepMs n v).state.interp i)
      Filter.atTop (nhds (v.targetState.interp i)) := by
  have e : (fun n => (VIB34DTiltVisualizer.relax M stepMs n v).state.interp i) =
      fun n => v.targetState.interp i +
        (v.state.interp i - v.targetState.interp i) * Real.exp (-(stepMs / 1000) * 4.2) ^ n := by
    funext n
    have h := (relax_residual M stepMs hstep n v i).2
    rw [hM.1] at h
    linarith
  rw [e]
  have hr : Real.exp (-(stepMs / 1000) * 4.2) < 1 := by
    have hpos : (0 : ℝ) < stepMs / 1000 := lt_of_lt_of_le (by norm_num) hstep
    have hneg : -(stepMs / 1000) * 4.2 < 0 := by nlinarith
    have hlt := Real.exp_lt_exp.mpr hneg
    rwa [Real.exp_zero] at hlt
  have hp := tendsto_pow_atTop_nhds_zero_of_lt_one (Real.exp_pos _).le hr
  have h2 := (hp.const_mul (v.state.interp i - v.targetState.interp i)).const_add
    (v.targetState.interp i)
  simpa using h2

theorem setCardState_none_presets (v : VIB34DTiltVisualizer α) (state : String) :
    (v.setCardState state none).presets = v.presets := by
  unfold VIB34DTiltVisualizer.setCardState
  simp only []
  split_ifs <;> (try split) <;> rfl

/-- C21: for every family (every constructor argument; an unknown family name falls back
to quantum), with the real exponential and a fixed step of at least `0.16` ms: a fresh
instance put in state `far-depth` relaxes to `speed = baseSpeed * 0.6`,
`glitch = baseGlitch * 0.45`, `energy = 0.2`; after `setCardState('focused')` with no
options (issued after any number `n` of far-depth steps) it relaxes to
`speed = baseSpeed * 1.6`, `glitch = baseGlitch * 1.35 + 0.15`, `energy = 1.1`; each
focused limit is strictly greater than the far-depth limit, so from some step on the three
fields exceed their converged far-depth values; and after every number of steps
`state.geometryVariant` is a member of the geometry cycle of the family. -/
theorem focused_exceeds_far_depth (M : JSMath ℝ) (hM : IsRealMath M)
    (systemType : Option String) (hasAccentCore : Bool) (t0 stepMs : ℝ)
    (hstep : 0.00016 ≤ stepMs / 1000) (n : Nat) :
    Filter.Tendsto
        (fun k => (VIB34DTiltVisualizer.relax M stepMs k
          ((VIB34DTiltVisualizer.new systemType hasAccentCore t0).setCardState "far-depth" none)).state.speed)
        Filter.atTop (nhds ((getSystemPreset ((truthyString systemType).getD "quantum") : SystemPreset ℝ).baseSpeed * 0.6)) ∧
      Filter.Tendsto
        (fun k => (VIB34DTiltVisualizer.relax M stepMs k
          ((VIB34DTiltVisualizer.new systemType hasAccentCore t0).setCardState "far-depth" none)).state.glitch)
        Filter.atTop (nhds ((getSystemPreset ((truthyString systemType).getD "quantum") : SystemPreset ℝ).baseGlitch * 0.45)) ∧
      Filter.Tendsto
        (fun k => (VIB34DTiltVisualizer.relax M stepMs k
          ((VIB34DTiltVisualizer.new systemType hasAccentCore t0).setCardState "far-depth" none)).state.energy)
        Filter.atTop (nhds (0.2)) ∧
      Filter.Tendsto
        (fun k => (VIB34DTiltVisualizer.relax M stepMs k
          ((VIB34DTiltVisualizer.relax M stepMs n
          ((VIB34DTiltVisualizer.new systemType hasAccentCore t0).setCardState "far-depth" none)).setCardState "focused" none)).state.speed)
        Filter.atTop (nhds ((getSystemPreset ((truthyString systemType).getD "quantum") : SystemPreset ℝ).baseSpeed * 1.6)) ∧
      Filter.Tendsto
        (fun k => (VIB34DTiltVisualizer.relax M stepMs k
          ((VIB34DTiltVisualizer.relax M stepMs n
          ((VIB34DTiltVisualizer.new systemType hasAccentCore t0).setCardState "far-depth" none)).setCardState "focused" none)).state.glitch)
        Filter.atTop (nhds ((getSystemPreset ((truthyString systemType).getD "quantum") : SystemPreset ℝ).baseGlitch * 1.35 + 0.15)) ∧
      Filter.Tendsto
        (fun k => (VIB34DTiltVisualizer.relax M stepMs k
          ((VIB34DTiltVisualizer.relax M stepMs n
          ((VIB34DTiltVisualizer.new systemType hasAccentCore t0).setCardState "far-depth" none)).setCardState "focused" none)).state.energy)
        Filter.atTop (nhds (1.1)) ∧
      (getSystemPreset ((truthyString systemType).getD "quantum") : SystemPreset ℝ).baseSpeed * 0.6 <
        (getSystemPreset ((truthyString systemType).getD "quantum") : SystemPreset ℝ).baseSpeed * 1.6 ∧
      (getSystemPreset ((truthyString systemType).getD "quantum") : SystemPreset ℝ).baseGlitch * 0.45 <
        (getSystemPreset ((truthyString systemType).getD "quantum") : SystemPreset ℝ).baseGlitch * 1.35 + 0.15 ∧
      (0.2 : ℝ) < 1.1 ∧
      (∃ K, ∀ k, K ≤ k →
        (getSystemPreset ((truthyString systemType).getD "quantum") : SystemPreset ℝ).baseSpeed * 0.6 <
          (VIB34DTiltVisualizer.relax M stepMs k
          ((VIB34DTiltVisualizer.relax M stepMs n
          ((VIB34DTiltVisualizer.new systemType hasAccentCore t0).setCardState "far-depth" none)).setCardState "focused" none)).state.speed ∧
        (getSystemPreset ((truthyString systemType).getD "quantum") : SystemPreset ℝ).baseGlitch * 0.45 <
          (VIB34DTiltVisualizer.relax M stepMs k
          ((VIB34DTiltVisualizer.relax M stepMs n
          ((VIB34DTiltVisualizer.new systemType hasAccentCore t0).setCardState "far-depth" none)).setCardState "focused" none)).state.glitch ∧
        (0.2 : ℝ) <
          (VIB34DTiltVisualizer.relax M stepMs k
          ((VIB34DTiltVisualizer.relax M stepMs n
          ((VIB34DTiltVisualizer.new systemType hasAccentCore t0).setCardState "far-depth" none)).setCardState "focused" none)).state.energy) ∧
      ∀ k, inGeometryCycle (getSystemPreset ((truthyString systemType).getD "quantum") : SystemPreset ℝ).geometryCycle
        (VIB34DTiltVisualizer.relax M stepMs k
          ((VIB34DTiltVisualizer.relax M stepMs n
          ((VIB34DTiltVisualizer.new systemType hasAccentCore t0).setCardState "far-depth" none)).setCardState "focused" none)).state.geometryVariant = true := by
  obtain ⟨hbs, hbg⟩ := @getSystemPreset_base_pos ℝ _ _ ((truthyString systemType).getD "quantum")
  have hfarC := setCardState_inCycle _ "far-depth" (new_inCycle systemType hasAccentCore t0)
  have hrel := relax_inCycle M stepMs n _ hfarC
  have hfocC := setCardState_inCycle _ "focused" hrel.1
  have hp1 : (VIB34DTiltVisualizer.relax M stepMs n
      ((VIB34DTiltVisualizer.new systemType hasAccentCore t0).setCardState "far-depth" none)).presets =
      (getSystemPreset ((truthyString systemType).getD "quantum") : SystemPreset ℝ) := hrel.2
  have hp2 : ((VIB34DTiltVisualizer.relax M stepMs n
          ((VIB34DTiltVisualizer.new systemType hasAccentCore t0).setCardState "far-depth" none)).setCardState "focused" none).presets =
      (getSystemPreset ((truthyString systemType).getD "quantum") : SystemPreset ℝ) :=
    (setCardState_none_presets _ _).trans hp1
  have hfar := relax_tendsto M hM stepMs hstep
    ((VIB34DTiltVisualizer.new systemType hasAccentCore t0).setCardState "far-depth" none)
  have hfoc := relax_tendsto M hM stepMs hstep
    ((VIB34DTiltVisualizer.relax M stepMs n
          ((VIB34DTiltVisualizer.new systemType hasAccentCore t0).setCardState "far-depth" none)).setCardState "focused" none)
  have t1 : ((VIB34DTiltVisualizer.relax M stepMs n
          ((VIB34DTiltVisualizer.new systemType hasAccentCore t0).setCardState "far-depth" none)).setCardState "focused" none).targetState.speed =
      (getSystemPreset ((truthyString systemType).getD "quantum") : SystemPreset ℝ).baseSpeed * 1.6 := by
    show (VIB34DTiltVisualizer.relax M stepMs n _).presets.baseSpeed * 1.6 = _
    rw [hp1]
  have t2 : ((VIB34DTiltVisualizer.relax M stepMs n
          ((VIB34DTiltVisualizer.new systemType hasAccentCore t0).setCardState "far-depth" none)).setCardState "focused" none).targetState.glitch =
      (getSystemPreset ((truthyString systemType).getD "quantum") : SystemPreset ℝ).baseGlitch * 1.35 + 0.15 := by
    show (VIB34DTiltVisualizer.relax M stepMs n _).presets.baseGlitch * 1.35 + 0.15 = _
    rw [hp1]
  have f1 := hfoc 0
  have f2 := hfoc 1
  have f3 := hfoc 4
  simp only [RenderState.interp] at f1 f2 f3
  rw [t1] at f1
  rw [t2] at f2
  have i1 : (getSystemPreset ((truthyString systemType).getD "quantum") : SystemPreset ℝ).baseSpeed * 0.6 <
      (getSystemPreset ((truthyString systemType).getD "quantum") : SystemPreset ℝ).baseSpeed * 1.6 := by
    nlinarith
  have i2 : (getSystemPreset ((truthyString systemType).getD "quantum") : SystemPreset ℝ).baseGlitch * 0.45 <
      (getSystemPreset ((truthyString systemType).getD "quantum") : SystemPreset ℝ).baseGlitch * 1.35 + 0.15 := by
    nlinarith
  have i3 : (0.2 : ℝ) < 1.1 := by norm_num
  refine ⟨hfar 0, hfar 1, hfar 4, f1, f2, f3, i1, i2, i3, ?_, ?_⟩
  · have ev := ((f1.eventually_const_lt i1).and
      ((f2.eventually_const_lt i2).and (f3.eventually_const_lt i3)))
    exact Filter.eventually_atTop.mp ev
  · intro k
    have hk := relax_inCycle M stepMs k _ hfocC
    have h := hk.1.1
    rw [hk.2, hp2] at h
    exact h

theorem focused_exceeds_far_depth_witness :
    IsRealMath (mkMath Real.exp Real.sin Real.cos Real.sqrt (fun y x => Complex.arg ⟨x, y⟩)
        Real.rpow Real.pi) ∧
      (0.00016 : ℝ) ≤ (1000 / 60) / 1000 ∧
      Filter.Tendsto
        (fun k => (VIB34DTiltVisualizer.relax (mkMath Real.exp Real.sin Real.cos Real.sqrt (fun y x => Complex.arg ⟨x, y⟩)
            Real.rpow Real.pi) (1000 / 60) k
          ((VIB34DTiltVisualizer.new (some "holographic") false 0).setCardState "far-depth" none)).state.speed)
        Filter.atTop (nhds ((getSystemPreset ((truthyString (some "holographic")).getD "quantum") : SystemPreset ℝ).baseSpeed * 0.6)) ∧
      Filter.Tendsto
        (fun k => (VIB34DTiltVisualizer.relax (mkMath Real.exp Real.sin Real.cos Real.sqrt (fun y x => Complex.arg ⟨x, y⟩)
            Real.rpow Real.pi) (1000 / 60) k
          ((VIB34DTiltVisualizer.new (some "holographic") false 0).setCardState "far-depth" none)).state.glitch)
        Filter.atTop (nhds ((getSystemPreset ((truthyString (some "holographic")).getD "quantum") : SystemPreset ℝ).baseGlitch * 0.45)) ∧
      Filter.Tendsto
        (fun k => (VIB34DTiltVisualizer.relax (mkMath Real.exp Real.sin Real.cos Real.sqrt (fun y x => Complex.arg ⟨x, y⟩)
            Real.rpow Real.pi) (1000 / 60) k
          ((VIB34DTiltVisualizer.new (some "holographic") false 0).setCardState "far-depth" none)).state.energy)
        Filter.atTop (nhds (0.2)) ∧
      Filter.Tendsto
        (fun k => (VIB34DTiltVisualizer.relax (mkMath Real.exp Real.sin Real.cos Real.sqrt (fun y x => Complex.arg ⟨x, y⟩)
            Real.rpow Real.pi) (1000 / 60) k
          ((VIB34DTiltVisualizer.relax (mkMath Real.exp Real.sin Real.cos Real.sqrt (fun y x => Complex.arg ⟨x, y⟩)
            Real.rpow Real.pi) (1000 / 60) 60
          ((VIB34DTiltVisualizer.new (some "holographic") false 0).setCardState "far-depth" none)).setCardState "focused" none)).state.speed)
        Filter.atTop (nhds ((getSystemPreset ((truthyString (some "holographic")).getD "quantum") : SystemPreset ℝ).baseSpeed * 1.6)) ∧
      Filter.Tendsto
        (fun k => (VIB34DTiltVisualizer.relax (mkMath Real.exp Real.sin Real.cos Real.sqrt (fun y x => Complex.arg ⟨x, y⟩)
            Real.rpow Real.pi) (1000 / 60) k
          ((VIB34DTiltVisualizer.relax (mkMath Real.exp Real.sin Real.cos Real.sqrt (fun y x => Complex.arg ⟨x, y⟩)
            Real.rpow Real.pi) (1000 / 60) 60
          ((VIB34DTiltVisualizer.new (some "holographic") false 0).setCardState "far-depth" none)).setCardState "focused" none)).state.glitch)
        Filter.atTop (nhds ((getSystemPreset ((truthyString (some "holographic")).getD "quantum") : SystemPreset ℝ).baseGlitch * 1.35 + 0.15)) ∧
      Filter.Tendsto
        (fun k => (VIB34DTiltVisualizer.relax (mkMath Real.exp Real.sin Real.cos Real.sqrt (fun y x => Complex.arg ⟨x, y⟩)
            Real.rpow Real.pi) (1000 / 60) k
          ((VIB34DTiltVisualizer.relax (mkMath Real.exp Real.sin Real.cos Real.sqrt (fun y x => Complex.arg ⟨x, y⟩)
            Real.rpow Real.pi) (1000 / 60) 60
          ((VIB34DTiltVisualizer.new (some "holographic") false 0).setCardState "far-depth" none)).setCardState "focused" none)).state.energy)
        Filter.atTop (nhds (1.1)) ∧
      (getSystemPreset ((truthyString (some "holographic")).getD "quantum") : SystemPreset ℝ).baseSpeed * 0.6 <
        (getSystemPreset ((truthyString (some "holographic")).getD "quantum") : SystemPreset ℝ).baseSpeed * 1.6 ∧
      (getSystemPreset ((truthyString (some "holographic")).getD "quantum") : SystemPreset ℝ).baseGlitch * 0.45 <
        (getSystemPreset ((truthyString (some "holographic")).getD "quantum") : SystemPreset ℝ).baseGlitch * 1.35 + 0.15 ∧
      (0.2 : ℝ) < 1.1 ∧
      (∃ K, ∀ k, K ≤ k →
        (getSystemPreset ((truthyString (some "holographic")).getD "quantum") : SystemPreset ℝ).baseSpeed * 0.6 <
          (VIB34DTiltVisualizer.relax (mkMath Real.exp Real.sin Real.cos Real.sqrt (fun y x => Complex.arg ⟨x, y⟩)
            Real.rpow Real.pi) (1000 / 60) k
          ((VIB34DTiltVisualizer.relax (mkMath Real.exp Real.sin Real.cos Real.sqrt (fun y x => Complex.arg ⟨x, y⟩)
            Real.rpow Real.pi) (1000 / 60) 60
          ((VIB34DTiltVisualizer.new (some "holographic") false 0).setCardState "far-depth" none)).setCardState "focused" none)).state.speed ∧
        (getSystemPreset ((truthyString (some "holographic")).getD "quantum") : SystemPreset ℝ).baseGlitch * 0.45 <
          (VIB34DTiltVisualizer.relax (mkMath Real.exp Real.sin Real.cos Real.sqrt (fun y x => Complex.arg ⟨x, y⟩)
            Real.rpow Real.pi) (1000 / 60) k
          ((VIB34DTiltVisualizer.relax (mkMath Real.exp Real.sin Real.cos Real.sqrt (fun y x => Complex.arg ⟨x, y⟩)
            Real.rpow Real.pi) (1000 / 60) 60
          ((VIB34DTiltVisualizer.new (some "holographic") false 0).setCardState "far-depth" none)).setCardState "focused" none)).state.glitch ∧
        (0.2 : ℝ) <
          (VIB34DTiltVisualizer.relax (mkMath Real.exp Real.sin Real.cos Real.sqrt (fun y x => Complex.arg ⟨x, y⟩)
            Real.rpow Real.pi) (1000 / 60) k
          ((VIB34DTiltVisualizer.relax (mkMath Real.exp Real.sin Real.cos Real.sqrt (fun y x => Complex.arg ⟨x, y⟩)
            Real.rpow Real.pi) (1000 / 60) 60
          ((VIB34DTiltVisualizer.new (some "holographic") false 0).setCardState "far-depth" none)).setCardState "focused" none)).state.energy) ∧
      ∀ k, inGeometryCycle (getSystemPreset ((truthyString (some "holographic")).getD "quantum") : SystemPreset ℝ).geometryCycle
        (VIB34DTiltVisualizer.relax (mkMath Real.exp Real.sin Real.cos Real.sqrt (fun y x => Complex.arg ⟨x, y⟩)
            Real.rpow Real.pi) (1000 / 60) k
          ((VIB34DTiltVisualizer.relax (mkMath Real.exp Real.sin Real.cos Real.sqrt (fun y x => Complex.arg ⟨x, y⟩)
            Real.rpow Real.pi) (1000 / 60) 60
          ((VIB34DTiltVisualizer.new (some "holographic") false 0).setCardState "far-depth" none)).setCardState "focused" none)).state.geometryVariant = true :=
  ⟨isRealMath_mkMath _ _, by norm_num,
    focused_exceeds_far_depth _ (isRealMath_mkMath _ _) (some "holographic") false 0 (1000 / 60)
      (by norm_num) 60⟩

end FocusTheorems

section Binary64Theorems

theorem roundDouble_zero : roundDouble 0 = 0 := rfl

theorem roundDouble_neg (q : ℚ) : roundDouble (-q) = -roundDouble q := by
  unfold roundDouble
  by_cases h0 : q = 0
  · subst h0; simp
  · have h0n : -q ≠ 0 := neg_ne_zero.mpr h0
    rw [if_neg h0, if_neg h0n]
    simp only [abs_neg]
    rcases lt_or_gt_of_ne h0 with h | h
    · have h2 : ¬ (-q < 0) := by linarith
      rw [if_pos h, if_neg h2]; ring
    · have h1 : ¬ (q < 0) := by linarith
      have h2 : -q < 0 := by linarith
      rw [if_neg h1, if_pos h2]; ring

theorem roundDouble_pos (q : ℚ) (lower e : ℤ) (he : -1074 ≤ e)
    (h1 : (2:ℚ) ^ (52:ℕ) ≤ lower) (h2 : (lower : ℚ) < 2 ^ (53:ℕ))
    (hlo : (lower : ℚ) * 2 ^ e ≤ q) (hhi : q < (lower + 1) * 2 ^ e) :
    roundDouble q =
      (if q / 2 ^ e - lower < 1 / 2 then (lower : ℚ)
        else if 1 / 2 < q / 2 ^ e - lower then (lower : ℚ) + 1
        else if lower % 2 = 0 then (lower : ℚ) else (lower : ℚ) + 1) * 2 ^ e := by
  have hpe : (0:ℚ) < 2 ^ e := zpow_pos (by norm_num) e
  have hqpos : 0 < q := by
    have : (0:ℚ) < lower := lt_of_lt_of_le (by positivity) h1
    have := mul_pos this hpe
    linarith
  have habs : |q| = q := abs_of_pos hqpos
  have hlog : Int.log 2 q = e + 52 := by
    apply le_antisymm
    · have : q < (2:ℚ) ^ (e + 52 + 1) := by
        have h3 : (lower : ℚ) + 1 ≤ 2 ^ (53:ℕ) := by
          have : lower + 1 ≤ 2 ^ 53 := by
            have : lower < 2 ^ 53 := by exact_mod_cast h2
            omega
          exact_mod_cast this
        calc q < (lower + 1) * 2 ^ e := hhi
          _ ≤ 2 ^ (53:ℕ) * 2 ^ e := by gcongr
          _ = 2 ^ (e + 52 + 1) := by
            rw [← zpow_natCast, ← zpow_add₀ (by norm_num : (2:ℚ) ≠ 0)]
            congr 1; push_cast; ring
      have := (Int.lt_zpow_iff_log_lt (by norm_num : 1 < 2) hqpos).mp (by exact_mod_cast this)
      omega
    · apply (Int.zpow_le_iff_le_log (by norm_num : 1 < 2) hqpos).mp
      calc ((2:ℕ):ℚ) ^ (e + 52) = 2 ^ (52:ℕ) * 2 ^ e := by
            rw [← zpow_natCast, ← zpow_add₀ (by norm_num : (2:ℚ) ≠ 0)]
            push_cast; congr 1; ring
        _ ≤ lower * 2 ^ e := by gcongr
        _ ≤ q := hlo
  have hfloor : ⌊q / 2 ^ e⌋ = lower := by
    rw [Int.floor_eq_iff]
    constructor
    · rw [le_div_iff₀ hpe]; exact hlo
    · rw [div_lt_iff₀ hpe]; exact hhi
  unfold roundDouble
  rw [if_neg (ne_of_gt hqpos), habs, hlog]
  have hmax : max (e + 52 - 52) (-1074) = e := by
    rw [max_eq_left]; ring; omega
  simp only [hmax, hfloor]
  rw [if_neg (not_lt.mpr hqpos.le), one_mul]
  split_ifs <;> push_cast <;> ring

/-- A positive rational that rounds to `value`. -/
theorem roundDouble_eq (q value : ℚ) (lower e : ℤ) (he : -1074 ≤ e)
    (h1 : (2:ℚ) ^ (52:ℕ) ≤ lower) (h2 : (lower : ℚ) < 2 ^ (53:ℕ))
    (hlo : (lower : ℚ) * 2 ^ e ≤ q) (hhi : q < (lower + 1) * 2 ^ e)
    (hv : (if q / 2 ^ e - lower < 1 / 2 then (lower : ℚ)
        else if 1 / 2 < q / 2 ^ e - lower then (lower : ℚ) + 1
        else if lower % 2 = 0 then (lower : ℚ) else (lower : ℚ) + 1) * 2 ^ e = value) :
    roundDouble q = value := by
  rw [roundDouble_pos q lower e he h1 h2 hlo hhi, hv]

theorem roundDouble_eq_neg (q value : ℚ) (lower e : ℤ) (he : -1074 ≤ e)
    (h1 : (2:ℚ) ^ (52:ℕ) ≤ lower) (h2 : (lower : ℚ) < 2 ^ (53:ℕ))
    (hlo : (lower : ℚ) * 2 ^ e ≤ -q) (hhi : -q < (lower + 1) * 2 ^ e)
    (hv : (if -q / 2 ^ e - lower < 1 / 2 then (lower : ℚ)
        else if 1 / 2 < -q / 2 ^ e - lower then (lower : ℚ) + 1
        else if lower % 2 = 0 then (lower : ℚ) else (lower : ℚ) + 1) * 2 ^ e = -value) :
    roundDouble q = value := by
  have h := roundDouble_eq (-q) (-value) lower e he h1 h2 hlo hhi hv
  rw [roundDouble_neg] at h
  exact neg_injective h

theorem quarterTurn1 : roundDouble (binary64Math.pi * 0.5) = 884279719003555 / 2 ^ 49 := by
  apply roundDouble_eq _ _ 7074237752028440 (-52) (by norm_num) (by norm_num) (by norm_num)
  · norm_num [binary64Math]
  · norm_num [binary64Math]
  · norm_num [binary64Math]

theorem quarterTurn2 : roundDouble (1 * (884279719003555 / 2 ^ 49)) = 884279719003555 / 2 ^ 49 := by
  apply roundDouble_eq _ _ 7074237752028440 (-52) (by norm_num) (by norm_num) (by norm_num)
  · norm_num
  · norm_num
  · norm_num

theorem cos_half_pi : binary64Math.cos (884279719003555 / 2 ^ 49) = 4967757600021511 / 2 ^ 106 := by
  show roundDouble (cosPolynomial (884279719003555 / 2 ^ 49)) = _
  apply roundDouble_eq _ _ 4967757600021510 (-106) (by norm_num) (by norm_num) (by norm_num)
  · norm_num [cosPolynomial, Finset.sum_range_succ, Nat.factorial]
  · norm_num [cosPolynomial, Finset.sum_range_succ, Nat.factorial]
  · norm_num [cosPolynomial, Finset.sum_range_succ, Nat.factorial]

theorem sin_half_pi : binary64Math.sin (884279719003555 / 2 ^ 49) = 1 := by
  show roundDouble (sinPolynomial (884279719003555 / 2 ^ 49)) = _
  apply roundDouble_eq _ _ 9007199254740991 (-53) (by norm_num) (by norm_num) (by norm_num)
  · norm_num [sinPolynomial, Finset.sum_range_succ, Nat.factorial]
  · norm_num [sinPolynomial, Finset.sum_range_succ, Nat.factorial]
  · norm_num [sinPolynomial, Finset.sum_range_succ, Nat.factorial]

theorem quarterTurn3 : roundDouble (1 * (4967757600021511 / 2 ^ 106)) = 4967757600021511 / 2 ^ 106 := by
  apply roundDouble_eq _ _ 4967757600021511 (-106) (by norm_num) (by norm_num) (by norm_num)
  · norm_num
  · norm_num
  · norm_num

theorem quarterTurn4 : roundDouble (1 * 1) = 1 := by
  apply roundDouble_eq _ _ 4503599627370496 (-52) (by norm_num) (by norm_num) (by norm_num)
  · norm_num
  · norm_num
  · norm_num

theorem quarterTurn5 : roundDouble (4967757600021511 / 2 ^ 106 - 1) = -(9007199254740991 / 2 ^ 53) := by
  apply roundDouble_eq_neg _ _ 9007199254740991 (-53) (by norm_num) (by norm_num) (by norm_num)
  · norm_num
  · norm_num
  · norm_num

theorem quarterTurn6 : roundDouble (1 + 4967757600021511 / 2 ^ 106) = 1 := by
  apply roundDouble_eq _ _ 4503599627370496 (-52) (by norm_num) (by norm_num) (by norm_num)
  · norm_num
  · norm_num
  · norm_num

theorem quarterTurn7 : roundDouble ((-(9007199254740991 / 2 ^ 53)) * (-(9007199254740991 / 2 ^ 53))) = 4503599627370495 / 2 ^ 52 := by
  apply roundDouble_eq _ _ 9007199254740990 (-53) (by norm_num) (by norm_num) (by norm_num)
  · norm_num
  · norm_num
  · norm_num

theorem quarterTurn8 : roundDouble (4503599627370495 / 2 ^ 52 + 1) = 9007199254740991 / 2 ^ 52 := by
  apply roundDouble_eq _ _ 9007199254740991 (-52) (by norm_num) (by norm_num) (by norm_num)
  · norm_num
  · norm_num
  · norm_num

theorem quarterTurn9 : roundDouble (1 + 1) = 2 := by
  apply roundDouble_eq _ _ 4503599627370496 (-51) (by norm_num) (by norm_num) (by norm_num)
  · norm_num
  · norm_num
  · norm_num

theorem quarterTurn10 : roundDouble (9007199254740991 / 2 ^ 52 + 4503599627370495 / 2 ^ 52) = 6755399441055743 / 2 ^ 51 := by
  apply roundDouble_eq _ _ 6755399441055743 (-51) (by norm_num) (by norm_num) (by norm_num)
  · norm_num
  · norm_num
  · norm_num

theorem quarterTurn11 : roundDouble (6755399441055743 / 2 ^ 51 + 1) = 9007199254740991 / 2 ^ 51 := by
  apply roundDouble_eq _ _ 9007199254740991 (-51) (by norm_num) (by norm_num) (by norm_num)
  · norm_num
  · norm_num
  · norm_num

theorem quarterTurn12 : roundDouble (2 + 1) = 3 := by
  apply roundDouble_eq _ _ 6755399441055744 (-51) (by norm_num) (by norm_num) (by norm_num)
  · norm_num
  · norm_num
  · norm_num

theorem quarterTurn13 : roundDouble (3 + 1) = 4 := by
  apply roundDouble_eq _ _ 4503599627370496 (-50) (by norm_num) (by norm_num) (by norm_num)
  · norm_num
  · norm_num
  · norm_num


theorem relaxStep1 : roundDouble (0.00016) = 5902958103587057 / 2 ^ 65 := by
  apply roundDouble_eq _ _ 5902958103587056 (-65) (by norm_num) (by norm_num) (by norm_num)
  · norm_num
  · norm_num
  · norm_num

theorem relaxStep2 : roundDouble (4.2) = 4728779608739021 / 2 ^ 50 := by
  apply roundDouble_eq _ _ 4728779608739020 (-50) (by norm_num) (by norm_num) (by norm_num)
  · norm_num
  · norm_num
  · norm_num

theorem relaxStep3 : roundDouble (12 - 0) = 12 := by
  apply roundDouble_eq _ _ 6755399441055744 (-49) (by norm_num) (by norm_num) (by norm_num)
  · norm_num
  · norm_num
  · norm_num

theorem relaxStep4 : roundDouble (12 / 1000) = 3458764513820541 / 2 ^ 58 := by
  apply roundDouble_eq _ _ 6917529027641081 (-59) (by norm_num) (by norm_num) (by norm_num)
  · norm_num
  · norm_num
  · norm_num

theorem relaxStep5 : roundDouble (-(3458764513820541 / 2 ^ 58) * (4728779608739021 / 2 ^ 50)) = -(226981421219473 / 2 ^ 52) := by
  apply roundDouble_eq_neg _ _ 7263405479023136 (-57) (by norm_num) (by norm_num) (by norm_num)
  · norm_num
  · norm_num
  · norm_num

theorem exp_first : binary64Math.exp (-(226981421219473 / 2 ^ 52)) = 8564486483606809 / 2 ^ 53 := by
  show roundDouble (expPolynomial (-(226981421219473 / 2 ^ 52))) = _
  apply roundDouble_eq _ _ 8564486483606808 (-53) (by norm_num) (by norm_num) (by norm_num)
  · norm_num [expPolynomial, Finset.sum_range_succ, Nat.factorial]
  · norm_num [expPolynomial, Finset.sum_range_succ, Nat.factorial]
  · norm_num [expPolynomial, Finset.sum_range_succ, Nat.factorial]

theorem relaxStep6 : roundDouble (1 - 8564486483606809 / 2 ^ 53) = 442712771134183 / 2 ^ 53 := by
  apply roundDouble_eq _ _ 7083404338146928 (-57) (by norm_num) (by norm_num) (by norm_num)
  · norm_num
  · norm_num
  · norm_num

theorem relaxStep7 : roundDouble (24 - 12) = 12 := by
  apply roundDouble_eq _ _ 6755399441055744 (-49) (by norm_num) (by norm_num) (by norm_num)
  · norm_num
  · norm_num
  · norm_num

theorem relaxStep11 : roundDouble (24 - 0) = 24 := by
  apply roundDouble_eq _ _ 6755399441055744 (-48) (by norm_num) (by norm_num) (by norm_num)
  · norm_num
  · norm_num
  · norm_num

theorem relaxStep12 : roundDouble (24 / 1000) = 3458764513820541 / 2 ^ 57 := by
  apply roundDouble_eq _ _ 6917529027641081 (-58) (by norm_num) (by norm_num) (by norm_num)
  · norm_num
  · norm_num
  · norm_num

theorem relaxStep13 : roundDouble (-(3458764513820541 / 2 ^ 57) * (4728779608739021 / 2 ^ 50)) = -(226981421219473 / 2 ^ 51) := by
  apply roundDouble_eq_neg _ _ 7263405479023136 (-56) (by norm_num) (by norm_num) (by norm_num)
  · norm_num
  · norm_num
  · norm_num

theorem exp_whole : binary64Math.exp (-(226981421219473 / 2 ^ 51)) = 254485421374447 / 2 ^ 48 := by
  show roundDouble (expPolynomial (-(226981421219473 / 2 ^ 51))) = _
  apply roundDouble_eq _ _ 8143533483982303 (-53) (by norm_num) (by norm_num) (by norm_num)
  · norm_num [expPolynomial, Finset.sum_range_succ, Nat.factorial]
  · norm_num [expPolynomial, Finset.sum_range_succ, Nat.factorial]
  · norm_num [expPolynomial, Finset.sum_range_succ, Nat.factorial]

theorem relaxStep14 : roundDouble (1 - 254485421374447 / 2 ^ 48) = 26989555336209 / 2 ^ 48 := by
  apply roundDouble_eq _ _ 6909326166069504 (-56) (by norm_num) (by norm_num) (by norm_num)
  · norm_num
  · norm_num
  · norm_num

theorem relaxStep15 : roundDouble (1 - 0) = 1 := by
  apply roundDouble_eq _ _ 4503599627370496 (-52) (by norm_num) (by norm_num) (by norm_num)
  · norm_num
  · norm_num
  · norm_num

theorem relaxStep16 : roundDouble (1 * (442712771134183 / 2 ^ 53)) = 442712771134183 / 2 ^ 53 := by
  apply roundDouble_eq _ _ 7083404338146928 (-57) (by norm_num) (by norm_num) (by norm_num)
  · norm_num
  · norm_num
  · norm_num

theorem relaxStep17 : roundDouble (0 + 442712771134183 / 2 ^ 53) = 442712771134183 / 2 ^ 53 := by
  apply roundDouble_eq _ _ 7083404338146928 (-57) (by norm_num) (by norm_num) (by norm_num)
  · norm_num
  · norm_num
  · norm_num

theorem relaxStep18 : roundDouble (1 - (442712771134183 / 2 ^ 53)) = 8564486483606809 / 2 ^ 53 := by
  apply roundDouble_eq _ _ 8564486483606809 (-53) (by norm_num) (by norm_num) (by norm_num)
  · norm_num
  · norm_num
  · norm_num

theorem relaxStep19 : roundDouble ((8564486483606809 / 2 ^ 53) * (442712771134183 / 2 ^ 53)) = 6735247993992077 / 2 ^ 57 := by
  apply roundDouble_eq _ _ 6735247993992077 (-57) (by norm_num) (by norm_num) (by norm_num)
  · norm_num
  · norm_num
  · norm_num

theorem relaxStep20 : roundDouble (442712771134183 / 2 ^ 53 + 6735247993992077 / 2 ^ 57) = 3454663083034751 / 2 ^ 55 := by
  apply roundDouble_eq _ _ 6909326166069502 (-56) (by norm_num) (by norm_num) (by norm_num)
  · norm_num
  · norm_num
  · norm_num

theorem relaxStep22 : roundDouble (1 * (26989555336209 / 2 ^ 48)) = 26989555336209 / 2 ^ 48 := by
  apply roundDouble_eq _ _ 6909326166069504 (-56) (by norm_num) (by norm_num) (by norm_num)
  · norm_num
  · norm_num
  · norm_num

theorem relaxStep23 : roundDouble (0 + 26989555336209 / 2 ^ 48) = 26989555336209 / 2 ^ 48 := by
  apply roundDouble_eq _ _ 6909326166069504 (-56) (by norm_num) (by norm_num) (by norm_num)
  · norm_num
  · norm_num
  · norm_num

theorem applyPlaneRotationDouble_zero (M : DoubleMath) (result : Vec4 ℚ)
    (indexA indexB : Fin 4) : applyPlaneRotationDouble M result indexA indexB 0 = result := by
  unfold applyPlaneRotationDouble
  simp only [zero_mul, roundDouble_zero, if_true]

theorem quarterTurn_xy (z w : ℚ) :
    applyPlaneRotationDouble binary64Math ⟨1, 1, z, w⟩ 0 1 1 =
      ⟨-(9007199254740991 / 2 ^ 53), 1, z, w⟩ := by
  unfold applyPlaneRotationDouble
  simp only [quarterTurn1, quarterTurn2, cos_half_pi, sin_half_pi, Vec4.get, Vec4.set]
  rw [if_neg (by norm_num)]
  simp only [quarterTurn3, quarterTurn4, quarterTurn5, quarterTurn6]

theorem quarterTurn_zw (x y : ℚ) :
    applyPlaneRotationDouble binary64Math ⟨x, y, 1, 1⟩ 2 3 1 =
      ⟨x, y, -(9007199254740991 / 2 ^ 53), 1⟩ := by
  unfold applyPlaneRotationDouble
  simp only [quarterTurn1, quarterTurn2, cos_half_pi, sin_half_pi, Vec4.get, Vec4.set]
  rw [if_neg (by norm_num)]
  simp only [quarterTurn3, quarterTurn4, quarterTurn5, quarterTurn6]

theorem rotateDouble_xy_only (M : DoubleMath) (v : Vec4 ℚ) (planeAngle : ℚ) :
    (vib34dRotate4DVectorDouble M v
        { rot4dXW := 0, rot4dYW := 0, rot4dZW := 0, rot4dXY := planeAngle, rot4dXZ := 0,
          rot4dYZ := 0 }).z = v.z ∧
      (vib34dRotate4DVectorDouble M v
        { rot4dXW := 0, rot4dYW := 0, rot4dZW := 0, rot4dXY := planeAngle, rot4dXZ := 0,
          rot4dYZ := 0 }).w = v.w := by
  unfold vib34dRotate4DVectorDouble
  simp only [applyPlaneRotationDouble_zero]
  unfold applyPlaneRotationDouble
  simp only []
  split_ifs <;> exact ⟨rfl, rfl⟩

/-- C7 (counterexample): in binary64 arithmetic the quarter turn `rot4dXY = 1` of the
vector `(1, 1, 0, 0)` does not preserve `x² + y²`.  The angle is `1 * (Math.PI * 0.5)`, whose
cosine is `6.123233995736766e-17` and whose sine is `1`; `x' = 1 * cos - 1 * sin` rounds to
`-0.9999999999999999` and `y' = 1 * sin + 1 * cos` rounds to `1`.  The sum of the squares of
the result is not `2`, neither as an exact number nor evaluated in binary64 arithmetic,
where `x' * x' + y' * y'` is `1.9999999999999998` and `x * x + y * y` is `2`. -/
theorem vib34dRotate4DVector_xy_counterexample :
    roundDouble (1 * roundDouble (binary64Math.pi * 0.5)) = 884279719003555 / 2 ^ 49 ∧
    binary64Math.cos (884279719003555 / 2 ^ 49) = 4967757600021511 / 2 ^ 106 ∧
    binary64Math.sin (884279719003555 / 2 ^ 49) = 1 ∧
    vib34dRotate4DVectorDouble binary64Math ⟨1, 1, 0, 0⟩
        { rot4dXW := 0, rot4dYW := 0, rot4dZW := 0, rot4dXY := 1, rot4dXZ := 0, rot4dYZ := 0 } =
      ⟨-(9007199254740991 / 2 ^ 53), 1, 0, 0⟩ ∧
    (-(9007199254740991 / 2 ^ 53) : ℚ) ^ 2 + 1 ^ 2 ≠ 1 ^ 2 + 1 ^ 2 ∧
    roundDouble (roundDouble (-(9007199254740991 / 2 ^ 53) * -(9007199254740991 / 2 ^ 53)) +
      roundDouble (1 * 1)) = 9007199254740991 / 2 ^ 52 ∧
    roundDouble (roundDouble (1 * 1) + roundDouble (1 * 1)) = 2 ∧
    (9007199254740991 / 2 ^ 52 : ℚ) ≠ 2 := by
  refine ⟨?_, cos_half_pi, sin_half_pi, ?_, by norm_num, ?_, ?_, by norm_num⟩
  · rw [quarterTurn1, quarterTurn2]
  · unfold vib34dRotate4DVectorDouble
    simp only [applyPlaneRotationDouble_zero, quarterTurn_xy]
  · rw [quarterTurn7, quarterTurn4, quarterTurn8]
  · rw [quarterTurn4, quarterTurn9]

/-- C28 (counterexample): in binary64 arithmetic the rotation with `rot4dXY = 1` and
`rot4dZW = 1` takes the vector `(1, 1, 1, 1)` to
`(-0.9999999999999999, 1, -0.9999999999999999, 1)`, whose sum of squares is not `4`, neither
as an exact number nor evaluated in binary64 arithmetic, where it is `3.9999999999999996`
and that of the input is `4`. -/
theorem vib34dRotate4DVector_isometry_counterexample :
    vib34dRotate4DVectorDouble binary64Math ⟨1, 1, 1, 1⟩
        { rot4dXW := 0, rot4dYW := 0, rot4dZW := 1, rot4dXY := 1, rot4dXZ := 0, rot4dYZ := 0 } =
      ⟨-(9007199254740991 / 2 ^ 53), 1, -(9007199254740991 / 2 ^ 53), 1⟩ ∧
    (-(9007199254740991 / 2 ^ 53) : ℚ) ^ 2 + 1 ^ 2 + (-(9007199254740991 / 2 ^ 53)) ^ 2 + 1 ^ 2 ≠
      1 ^ 2 + 1 ^ 2 + 1 ^ 2 + 1 ^ 2 ∧
    squaredNormDouble ⟨-(9007199254740991 / 2 ^ 53), 1, -(9007199254740991 / 2 ^ 53), 1⟩ =
      9007199254740991 / 2 ^ 51 ∧
    squaredNormDouble ⟨1, 1, 1, 1⟩ = 4 ∧
    (9007199254740991 / 2 ^ 51 : ℚ) ≠ 4 := by
  refine ⟨?_, by norm_num, ?_, ?_, by norm_num⟩
  · unfold vib34dRotate4DVectorDouble
    simp only [applyPlaneRotationDouble_zero, quarterTurn_xy, quarterTurn_zw]
  · unfold squaredNormDouble
    simp only [quarterTurn7, quarterTurn4, quarterTurn8, quarterTurn10, quarterTurn11]
  · unfold squaredNormDouble
    simp only [quarterTurn4, quarterTurn9, quarterTurn12, quarterTurn13]

theorem updateStateDouble_wShear (M : DoubleMath) (v : VIB34DTiltVisualizer ℚ) (now : ℚ) :
    (v.updateStateDouble M now).state.wShear =
        roundDouble (v.state.wShear + roundDouble (roundDouble
          (v.targetState.wShear - v.state.wShear) *
          roundDouble (1 - M.exp (roundDouble
            (-(max (roundDouble 0.00016)
              (roundDouble (roundDouble (now - v.lastUpdate) / 1000))) * roundDouble 4.2))))) ∧
      (v.updateStateDouble M now).targetState = v.targetState ∧
      (v.updateStateDouble M now).lastUpdate = now :=
  ⟨rfl, rfl, rfl⟩

theorem relaxFactor_first :
    roundDouble (1 - binary64Math.exp (roundDouble
      (-(max (roundDouble 0.00016) (roundDouble (roundDouble (12 - 0) / 1000))) *
        roundDouble 4.2))) = 442712771134183 / 2 ^ 53 := by
  have hmax : max (5902958103587057 / 2 ^ 65 : ℚ) (3458764513820541 / 2 ^ 58) =
      3458764513820541 / 2 ^ 58 := max_eq_right (by norm_num)
  simp only [relaxStep1, relaxStep2, relaxStep3, relaxStep4, hmax, relaxStep5, exp_first,
    relaxStep6]

theorem relaxFactor_second :
    roundDouble (1 - binary64Math.exp (roundDouble
      (-(max (roundDouble 0.00016) (roundDouble (roundDouble (24 - 12) / 1000))) *
        roundDouble 4.2))) = 442712771134183 / 2 ^ 53 := by
  have hmax : max (5902958103587057 / 2 ^ 65 : ℚ) (3458764513820541 / 2 ^ 58) =
      3458764513820541 / 2 ^ 58 := max_eq_right (by norm_num)
  simp only [relaxStep1, relaxStep2, relaxStep7, relaxStep4, hmax, relaxStep5, exp_first,
    relaxStep6]

theorem relaxFactor_whole :
    roundDouble (1 - binary64Math.exp (roundDouble
      (-(max (roundDouble 0.00016) (roundDouble (roundDouble (24 - 0) / 1000))) *
        roundDouble 4.2))) = 26989555336209 / 2 ^ 48 := by
  have hmax : max (5902958103587057 / 2 ^ 65 : ℚ) (3458764513820541 / 2 ^ 57) =
      3458764513820541 / 2 ^ 57 := max_eq_right (by norm_num)
  simp only [relaxStep1, relaxStep2, relaxStep11, relaxStep12, hmax, relaxStep13, exp_whole,
    relaxStep14]

/-- C5 (counterexample): in binary64 arithmetic two relaxation steps of 12 ms differ from
one step of 24 ms.  On an instance with `state.wShear = 0`, `targetState.wShear = 1` and
`lastUpdate = 0`, `updateState(12)` followed by `updateState(24)` leaves `state.wShear` at
`0.09588616242769274`, and a single `updateState(24)` leaves it at
`0.09588616242769277`; `Math.exp` is `0.9508490088191223` at `-0.0504` (the argument of
the steps of 12 ms) and `0.9041138375723072` at `-0.1008`. -/
theorem updateState_frame_rate_counterexample :
    (({ VIB34DTiltVisualizer.new (some "quantum") false (0 : ℚ) with
          targetState :=
            { (VIB34DTiltVisualizer.new (some "quantum") false (0 : ℚ)).targetState with
              wShear := 1 } }
        : VIB34DTiltVisualizer ℚ).updateStateDouble binary64Math 12).state.wShear =
      442712771134183 / 2 ^ 53 ∧
    ((({ VIB34DTiltVisualizer.new (some "quantum") false (0 : ℚ) with
          targetState :=
            { (VIB34DTiltVisualizer.new (some "quantum") false (0 : ℚ)).targetState with
              wShear := 1 } }
        : VIB34DTiltVisualizer ℚ).updateStateDouble binary64Math 12).updateStateDouble
          binary64Math 24).state.wShear = 3454663083034751 / 2 ^ 55 ∧
    (({ VIB34DTiltVisualizer.new (some "quantum") false (0 : ℚ) with
          targetState :=
            { (VIB34DTiltVisualizer.new (some "quantum") false (0 : ℚ)).targetState with
              wShear := 1 } }
        : VIB34DTiltVisualizer ℚ).updateStateDouble binary64Math 24).state.wShear =
      26989555336209 / 2 ^ 48 ∧
    (3454663083034751 / 2 ^ 55 : ℚ) ≠ 26989555336209 / 2 ^ 48 ∧
    binary64Math.exp (-(226981421219473 / 2 ^ 52)) = 8564486483606809 / 2 ^ 53 ∧
    binary64Math.exp (-(226981421219473 / 2 ^ 51)) = 254485421374447 / 2 ^ 48 := by
  have h1 : (({ VIB34DTiltVisualizer.new (some "quantum") false (0 : ℚ) with
          targetState :=
            { (VIB34DTiltVisualizer.new (some "quantum") false (0 : ℚ)).targetState with
              wShear := 1 } }
        : VIB34DTiltVisualizer ℚ).updateStateDouble binary64Math 12).state.wShear =
      442712771134183 / 2 ^ 53 := by
    rw [(updateStateDouble_wShear _ _ _).1]
    show roundDouble (0 + roundDouble (roundDouble (1 - 0) * roundDouble (1 - binary64Math.exp
      (roundDouble (-(max (roundDouble 0.00016) (roundDouble (roundDouble (12 - 0) / 1000))) *
        roundDouble 4.2))))) = _
    rw [relaxFactor_first, relaxStep15, relaxStep16, relaxStep17]
  refine ⟨h1, ?_, ?_, by norm_num, exp_first, exp_whole⟩
  · rw [(updateStateDouble_wShear _ _ _).1, h1]
    show roundDouble (442712771134183 / 2 ^ 53 + roundDouble (roundDouble
      (1 - 442712771134183 / 2 ^ 53) * roundDouble (1 - binary64Math.exp
      (roundDouble (-(max (roundDouble 0.00016) (roundDouble (roundDouble (24 - 12) / 1000))) *
        roundDouble 4.2))))) = _
    rw [relaxFactor_second, relaxStep18, relaxStep19, relaxStep20]
  · rw [(updateStateDouble_wShear _ _ _).1]
    show roundDouble (0 + roundDouble (roundDouble (1 - 0) * roundDouble (1 - binary64Math.exp
      (roundDouble (-(max (roundDouble 0.00016) (roundDouble (roundDouble (24 - 0) / 1000))) *
        roundDouble 4.2))))) = _
    rw [relaxFactor_whole, relaxStep15, relaxStep22, relaxStep23]

/-- C7 (amended): when only `rot4dXY` may be non-zero, `vib34dRotate4DVector` leaves `z`
and `w` unchanged, in exact real arithmetic and in binary64 arithmetic alike (whatever
`Math.cos` and `Math.sin` return), and in exact real arithmetic, with the real sine and
cosine and no rounding, it preserves `x² + y²`. -/
theorem vib34dRotate4DVector_xy_only (M : JSMath ℝ) (hM : IsRealMath M) (v : Vec4 ℝ)
    (r : Rotation4D ℝ) (hXZ : r.rot4dXZ = 0) (hYZ : r.rot4dYZ = 0) (hXW : r.rot4dXW = 0)
    (hYW : r.rot4dYW = 0) (hZW : r.rot4dZW = 0) (D : DoubleMath) (u : Vec4 ℚ)
    (planeAngle : ℚ) :
    ((vib34dRotate4DVector M v r).x ^ 2 + (vib34dRotate4DVector M v r).y ^ 2
        = v.x ^ 2 + v.y ^ 2 ∧
      (vib34dRotate4DVector M v r).z = v.z ∧ (vib34dRotate4DVector M v r).w = v.w) ∧
    (vib34dRotate4DVectorDouble D u
        { rot4dXW := 0, rot4dYW := 0, rot4dZW := 0, rot4dXY := planeAngle, rot4dXZ := 0,
          rot4dYZ := 0 }).z = u.z ∧
    (vib34dRotate4DVectorDouble D u
        { rot4dXW := 0, rot4dYW := 0, rot4dZW := 0, rot4dXY := planeAngle, rot4dXZ := 0,
          rot4dYZ := 0 }).w = u.w :=
  ⟨xy_only_exact M hM v r hXZ hYZ hXW hYW hZW, rotateDouble_xy_only D u planeAngle⟩

/-- Witness of C7: a quarter turn in the `XY` plane of the vector `(1, 2, 3, 4)`. -/
theorem vib34dRotate4DVector_xy_only_witness :
    ((vib34dRotate4DVector
          (mkMath Real.exp Real.sin Real.cos Real.sqrt (fun y x => Complex.arg ⟨x, y⟩)
            Real.rpow Real.pi)
          ⟨1, 2, 3, 4⟩ ⟨0, 0, 0, 1, 0, 0⟩).x ^ 2 +
        (vib34dRotate4DVector
          (mkMath Real.exp Real.sin Real.cos Real.sqrt (fun y x => Complex.arg ⟨x, y⟩)
            Real.rpow Real.pi)
          ⟨1, 2, 3, 4⟩ ⟨0, 0, 0, 1, 0, 0⟩).y ^ 2 = (1 : ℝ) ^ 2 + 2 ^ 2 ∧
      (vib34dRotate4DVector
          (mkMath Real.exp Real.sin Real.cos Real.sqrt (fun y x => Complex.arg ⟨x, y⟩)
            Real.rpow Real.pi)
          ⟨1, 2, 3, 4⟩ ⟨0, 0, 0, 1, 0, 0⟩).z = 3 ∧
      (vib34dRotate4DVector
          (mkMath Real.exp Real.sin Real.cos Real.sqrt (fun y x => Complex.arg ⟨x, y⟩)
            Real.rpow Real.pi)
          ⟨1, 2, 3, 4⟩ ⟨0, 0, 0, 1, 0, 0⟩).w = 4) ∧
    (vib34dRotate4DVectorDouble binary64Math ⟨1, 2, 3, 4⟩
        { rot4dXW := 0, rot4dYW := 0, rot4dZW := 0, rot4dXY := 1, rot4dXZ := 0,
          rot4dYZ := 0 }).z = 3 ∧
    (vib34dRotate4DVectorDouble binary64Math ⟨1, 2, 3, 4⟩
        { rot4dXW := 0, rot4dYW := 0, rot4dZW := 0, rot4dXY := 1, rot4dXZ := 0,
          rot4dYZ := 0 }).w = 4 :=
  vib34dRotate4DVector_xy_only _ (isRealMath_mkMath _ _) ⟨1, 2, 3, 4⟩ ⟨0, 0, 0, 1, 0, 0⟩
    rfl rfl rfl rfl rfl binary64Math ⟨1, 2, 3, 4⟩ 1

end Binary64Theorems

end VIB34D
